import Mathlib

/-!
# AT-command gateway (`example/athost/athost.c`)

A shallow embedding of the command layer of `athost.c` and machine-checked
statements about it.

Conventions of the embedding

* A byte (`char`, `uint8_t`) is a natural number below 256; character
  constants are written by their ASCII code.
* A `char` array is the list of its bytes.  A store outside the array is
  undefined behaviour in C; the modelled function then yields
  `Fault.undefined` instead of a value.
* The serial transport is the list of bytes that have not been read yet.
  `at.parse(buf, n)` removes the first `n` bytes.  When fewer bytes are
  pending the call does not return; the modelled function then yields
  `Fault.blocked`.
* Results of calls into the operating system (sockets, tasks, semaphores,
  the allocator) are arguments of the modelled function, one field per call
  site, so every theorem quantifies over all of their outcomes.
* `uint32_t` counters are natural numbers reduced modulo `2^32`, `uint16_t`
  parameters are reduced modulo `2^16` where the C call converts.
-/

namespace Athost

/-! ## Bytes and strings -/

/-- Bytes of a string literal of the C source. -/
def cstr (s : String) : List Nat := s.toList.map Char.toNat

/-- The field separator `','`. -/
def CH_COMMA : Nat := 44

/-- The line terminator `'\r'`. -/
def CH_CR : Nat := 13

/-- The character `'='`. -/
def CH_EQ : Nat := 61

/-- `strlen` on the memory that starts at a pointer: the number of bytes
before the first NUL. -/
def c_strlen (m : List Nat) : Nat := (m.takeWhile (fun b => b ≠ 0)).length

/-- The C string held by an array: the bytes before the first NUL. -/
def c_string (m : List Nat) : List Nat := m.takeWhile (fun b => b ≠ 0)

/-- Ways in which a modelled call does not return a value. -/
inductive Fault where
  /-- `at.parse` waits for bytes that the transport does not hold. -/
  | blocked
  /-- The C program stores outside an array: undefined behaviour. -/
  | undefined
  deriving DecidableEq, Repr

/-- The value of a 32-bit pattern read as `int`. -/
def to_int32 (n : Nat) : Int :=
  if n % 2 ^ 32 < 2 ^ 31 then ((n % 2 ^ 32 : Nat) : Int)
  else ((n % 2 ^ 32 : Nat) : Int) - 2 ^ 32

/-- Digit accumulation of `atoi`: stops at the first byte that is no digit. -/
def atoi_loop : Nat → List Nat → Nat
  | acc, [] => acc
  | acc, c :: s => if 48 ≤ c ∧ c ≤ 57 then atoi_loop (acc * 10 + (c - 48)) s else acc

/-- C library `atoi` on the text of a field.  Every call site has validated
the field with `socket_data_len_check`, so the text holds digits only (no
sign, no blanks).  A value that does not fit `int` is reduced modulo `2^32`,
as an implementation that accumulates in `int` does. -/
def atoi (s : List Nat) : Int := to_int32 (atoi_loop 0 s)

/-! ## Per-character validators (`athost.c` 611-635)

`char` may be signed or unsigned on the target.  A byte above 127 is rejected
by all three validators in both cases (through `data < '0'` when signed,
through `data > '9'` when unsigned), so the comparison on the unsigned value
is exact. -/

/-- `socket_data_len_check`: digits only. -/
def socket_data_len_check (data : Nat) : Int :=
  if data > 57 ∨ data < 48 then -1 else 0

/-- `socket_ip_info_check`: digits and `'.'`. -/
def socket_ip_info_check (data : Nat) : Int :=
  if (data > 57 ∨ data < 48) ∧ data ≠ 46 then -1 else 0

/-- `socket_conntype_check`: lower-case letters and `'_'`. -/
def socket_conntype_check (data : Nat) : Int :=
  if (data > 122 ∨ data < 97) ∧ data ≠ 95 then -1 else 0

/-! ## `itoa_decimal` (`athost.c` 637-665) -/

/-- The `do { s[i++] = n % 10 + '0'; } while ((n /= 10) > 0);` loop of
`itoa_decimal`: the digits in the order they are stored (least significant
first).  `/` and `%` truncate toward zero as in C; the stored value is a
`char`, hence reduced modulo 256.  An `int` has at most ten decimal digits,
so ten iterations always suffice. -/
def itoa_digits : Nat → Int → List Nat
  | 0, _ => []
  | fuel + 1, n =>
    let d := ((Int.tmod n 10 + 48) % 256).toNat
    if Int.tdiv n 10 > 0 then d :: itoa_digits fuel (Int.tdiv n 10) else [d]

/-- The text `itoa_decimal(n, s)` leaves in `s`: the sign test, the digit
loop on `-n` for a negative `n` (the negation wraps for `INT_MIN`), the
`'-'` appended for a negative `n`, then `reverse`. -/
def itoa_text (n : Int) : List Nat :=
  let m : Int := if n < 0 then to_int32 ((-n).toNat) else n
  let digits := itoa_digits 10 m
  (if n < 0 then digits ++ [45] else digits).reverse

/-- Call `itoa_decimal(n, s)` on a local array `char s[cap]`: the text and its
NUL need `cap` bytes at most, otherwise the function stores past the array. -/
def itoa_decimal (cap : Nat) (n : Int) : Except Fault (List Nat) :=
  if (itoa_text n).length + 1 ≤ cap then .ok (itoa_text n) else .error .undefined

/-! ## The argument tokenizer (`athost.c` 667-701) -/

/-- Result of `socket_data_info_get`. -/
structure data_info where
  /-- Return value: -1 error, 0 more fields, 1 no more field. -/
  ret : Int
  /-- The array behind `buf` after the call (`none` for a NULL pointer). -/
  buf : Option (List Nat)
  /-- Bytes left in the transport. -/
  transport : List Nat
  deriving DecidableEq, Repr

/-- The `do { ... } while (1)` loop of `socket_data_info_get`, entered with
loop counter `i`.  Each iteration reads one byte into `buf[i]`, tests it for
`','` and `'\r'`, only then compares `i` with `buflen`, and finally applies
the validator.  `buf` is the array the pointer refers to; a store at an index
outside of it is undefined behaviour. -/
def socket_data_info_get_loop (buflen : Nat) (valuecheck : Option (Nat → Int)) :
    Nat → List Nat → List Nat → Except Fault data_info
  | _, _, [] => .error .blocked
  | i, buf, c :: t =>
    if buf.length ≤ i then .error .undefined
    else
      let buf1 := buf.set i c
      if c = CH_COMMA then
        .ok ⟨0, some (buf1.set i 0), t⟩
      else if c = CH_CR then
        .ok ⟨1, some (buf1.set i 0), t⟩
      else if i ≥ buflen then
        .ok ⟨-1, some buf1, t⟩
      else
        match valuecheck with
        | some check =>
          if check c ≠ 0 then .ok ⟨-1, some buf1, t⟩
          else socket_data_info_get_loop buflen valuecheck (i + 1) buf1 t
        | none => socket_data_info_get_loop buflen valuecheck (i + 1) buf1 t

/-- `socket_data_info_get(buf, buflen, valuecheck)` on a transport holding the
bytes `t`. -/
def socket_data_info_get (buf : Option (List Nat)) (buflen : Nat)
    (valuecheck : Option (Nat → Int)) (t : List Nat) : Except Fault data_info :=
  match buf with
  | none => .ok ⟨-1, none, t⟩
  | some m =>
    if buflen = 0 then .ok ⟨-1, some m, t⟩
    else socket_data_info_get_loop buflen valuecheck 0 m t

/-- A byte passes the validator `v` (every byte passes the absent validator). -/
def passes (v : Option (Nat → Int)) (c : Nat) : Prop :=
  ∀ check, v = some check → check c = 0

/-- A byte is neither `','` nor `'\r'`. -/
def plain (c : Nat) : Prop := c ≠ CH_COMMA ∧ c ≠ CH_CR

/-- The call `socket_data_info_get(arr, sizeof(arr), check)` of the handlers on
a zeroed local array `arr` of `cap` bytes: the return value, the C string left
in `arr`, and the remaining transport. -/
def get_field (cap : Nat) (check : Option (Nat → Int)) (t : List Nat) :
    Except Fault (Int × List Nat × List Nat) :=
  match socket_data_info_get (some (List.replicate cap 0)) cap check t with
  | .error f => .error f
  | .ok r => .ok (r.ret, c_string (r.buf.getD []), r.transport)

/-! ## Constants declared outside `athost.c` -/

/-- Constants of `athost.h` and `atparser.h`.  The headers are not part of the
sources, so the values are parameters of the model.  A string constant is the
text of a C string literal and therefore holds no NUL byte. -/
structure Consts where
  AT_RECV_PREFIX : List Nat
  AT_RECV_SUCCESS_POSTFIX : List Nat
  AT_RECV_FAIL_POSTFIX : List Nat
  ATCMD_FAIL : Int
  ATCMD_SUCCESS : Int
  CIP_STATUS_CONNECTED : Int
  CIP_STATUS_CLOSED : Int
  AP : Int
  STA : Int
  WEVENT_STATUS_UP : Int
  WEVENT_STATUS_DOWN : Int
  IPADDR_NONE : Nat
  recv_text : ∀ b ∈ AT_RECV_PREFIX, b ≠ 0
  success_text : ∀ b ∈ AT_RECV_SUCCESS_POSTFIX, b ≠ 0
  fail_text : ∀ b ∈ AT_RECV_FAIL_POSTFIX, b ≠ 0

/-- Modelled from the spec: the enumerators of `CONN_TYPE` (declared in
`athost.h`, which is missing).  The spec lists the connection types as
tcp server, tcp client, ssl client, udp broadcast, udp unicast, the order in
which `conntype_str` of `athost.c` spells them; `get_conntype_index` returns
the index into `conntype_str` and the handlers compare it with these
enumerators. -/
def TCP_SERVER : Int := 0

/-- Modelled from the spec: second enumerator of `CONN_TYPE`. -/
def TCP_CLIENT : Int := 1

/-- Modelled from the spec: third enumerator of `CONN_TYPE`. -/
def SSL_CLIENT : Int := 2

/-- Modelled from the spec: fourth enumerator of `CONN_TYPE`. -/
def UDP_BROADCAST : Int := 3

/-- Modelled from the spec: fifth enumerator of `CONN_TYPE`. -/
def UDP_UNICAST : Int := 4

/-- Number of entries of `conntype_str`. -/
def CONN_TYPE_NUM : Nat := 5

/-- `conntype_str` (`athost.c` 38-43). -/
def conntype_str : List (List Nat) :=
  [cstr "tcp_server", cstr "tcp_client", cstr "ssl_client", cstr "udp_broadcast",
   cstr "udp_unicast"]

/-- `prefix_cipevent`. -/
def prefix_cipevent : List Nat := cstr "+CIPEVENT:"

/-- `prefix_wevent`. -/
def prefix_wevent : List Nat := cstr "+WEVENT:"

/-- `#define LINK_ID_MAX 5`. -/
def LINK_ID_MAX : Nat := 5

/-- `#define DEFAULT_UART_SEND_BUF_SIZE 50`. -/
def DEFAULT_UART_SEND_BUF_SIZE : Nat := 50

/-- `#define DEFAULT_SOCK_SEND_BUF_SIZE 50`. -/
def DEFAULT_SOCK_SEND_BUF_SIZE : Nat := 50

/-- `#define MAX_ATCMD_DATA_RECV_PREFIX_LEN 60`. -/
def MAX_ATCMD_DATA_RECV_PREFIX_LEN : Nat := 60

/-- `#define MAX_ATCMD_RESPONSE_LEN 20`. -/
def MAX_ATCMD_RESPONSE_LEN : Nat := 20

/-- `#define MAX_ATCMD_CON_STATUS_LEN 80`. -/
def MAX_ATCMD_CON_STATUS_LEN : Nat := 80

/-- `#define MAX_ATCMD_AP_STA_STATUS_LEN 30`. -/
def MAX_ATCMD_AP_STA_STATUS_LEN : Nat := 30

/-! ## Link registry (`athost.c` 720-857)

`link_t` is declared in `athost.h`; the fields used by `athost.c` are `fd`,
`linkid`, `type` and the two semaphores.  The semaphores are only created and
freed, never waited on, and are left out of the slot. -/

/-- One slot of `g_link`. -/
structure link_t where
  fd : Int
  linkid : Int
  type : Int
  deriving DecidableEq, Repr

/-- The `for` loop of `find_linkid_by_sockfd`: it has no `break`, the last
matching slot wins. -/
def find_linkid_loop (fd : Int) : Int → List link_t → Int
  | linkid, [] => linkid
  | linkid, l :: g => find_linkid_loop fd (if l.fd = fd then l.linkid else linkid) g

/-- `find_linkid_by_sockfd`. -/
def find_linkid_by_sockfd (g : List link_t) (fd : Int) : Int :=
  if fd < 0 then -1 else find_linkid_loop fd (-1) g

/-- The `for` loop of `find_conntype_by_sockfd`, started with the current
value of the local `type`. -/
def find_conntype_loop (fd : Int) : Int → List link_t → Int
  | type, [] => type
  | type, l :: g => find_conntype_loop fd (if l.fd = fd then l.type else type) g

/-- `find_conntype_by_sockfd`.  The local `int type;` has no initialiser:
`uninit` is the indeterminate value it holds when the loop starts. -/
def find_conntype_by_sockfd (g : List link_t) (fd : Int) (uninit : Int) : Int :=
  if fd < 0 then -1 else find_conntype_loop fd uninit g

/-- The `for` loop of `find_sockfd_by_linkid`: stops at the first occupied
slot with the link id. -/
def find_sockfd_loop (linkid : Int) : List link_t → Int
  | [] => -1
  | l :: g => if l.fd ≥ 0 ∧ l.linkid = linkid then l.fd else find_sockfd_loop linkid g

/-- `find_sockfd_by_linkid`. -/
def find_sockfd_by_linkid (g : List link_t) (linkid : Int) : Int :=
  if linkid < 0 then -1 else find_sockfd_loop linkid g

/-- Results of the system calls of `add_link_info`. -/
structure add_link_env where
  /-- Return value of `aos_mutex_lock`. -/
  mutex_lock : Int
  /-- Return value of `aos_sem_new(&g_link[i].sem_start, 0)`. -/
  sem_start : Int
  /-- Return value of `aos_sem_new(&g_link[i].sem_close, 0)`. -/
  sem_close : Int
  deriving DecidableEq, Repr

/-- The `for` loop of `add_link_info`: occupied slots are skipped, the first
slot with `fd < 0` is written and ends the loop.  When a semaphore cannot be
created the slot gets `fd = -1`, `linkid = -1` back (its `type` stays). -/
def add_link_loop (fd linkid type : Int) (e : add_link_env) : List link_t → Int × List link_t
  | [] => (-1, [])
  | l :: g =>
    if l.fd ≥ 0 then
      ((add_link_loop fd linkid type e g).1, l :: (add_link_loop fd linkid type e g).2)
    else if e.sem_start ≠ 0 then (-1, ⟨-1, -1, type⟩ :: g)
    else if e.sem_close ≠ 0 then (-1, ⟨-1, -1, type⟩ :: g)
    else (0, ⟨fd, linkid, type⟩ :: g)

/-- `add_link_info`. -/
def add_link_info (e : add_link_env) (g : List link_t) (fd linkid type : Int) :
    Int × List link_t :=
  if e.mutex_lock ≠ 0 then (-1, g) else add_link_loop fd linkid type e g

/-- The `for` loop of `delete_link_info_by_sockfd`: every slot holding the
descriptor is emptied (no `break`). -/
def delete_link_loop (sockfd : Int) : List link_t → Int × List link_t
  | [] => (-1, [])
  | l :: g =>
    if l.fd = sockfd then (0, ⟨-1, -1, l.type⟩ :: (delete_link_loop sockfd g).2)
    else ((delete_link_loop sockfd g).1, l :: (delete_link_loop sockfd g).2)

/-- `delete_link_info_by_sockfd`; `mutex_lock` is the return value of
`aos_mutex_lock`. -/
def delete_link_info_by_sockfd (mutex_lock : Int) (g : List link_t) (sockfd : Int) :
    Int × List link_t :=
  if sockfd < 0 then (-1, g)
  else if mutex_lock ≠ 0 then (-1, g)
  else delete_link_loop sockfd g

/-- Slot `l` is occupied. -/
def occupied (l : link_t) : Prop := l.fd ≥ 0

instance (l : link_t) : Decidable (occupied l) := by unfold occupied; infer_instance

/-- Link uniqueness: no two occupied slots hold the same socket handle and
no two occupied slots hold the same link id. -/
def link_unique (g : List link_t) : Prop :=
  ∀ i j : Fin g.length, i ≠ j → occupied (g.get i) → occupied (g.get j) →
    (g.get i).fd ≠ (g.get j).fd ∧ (g.get i).linkid ≠ (g.get j).linkid

/-- All slots of the registry are occupied. -/
def registry_full (g : List link_t) : Prop := ∀ l ∈ g, occupied l

instance (g : List link_t) : Decidable (registry_full g) := by
  unfold registry_full; infer_instance

/-! ## Send queues and the state of the program -/

/-- `uart_send_info_t`: a pointer is `none` (NULL) or the block it refers to. -/
structure uart_send_info_t where
  cmdptr : Option (List Nat)
  dataptr : Option (List Nat)
  cmdlen : Nat
  datalen : Nat
  deriving DecidableEq, Repr

/-- `uart_send_stat_t`. -/
structure uart_send_stat_t where
  total_byte : Nat
  fetch_error : Nat
  put_error : Nat
  send_error : Nat
  deriving DecidableEq, Repr

/-- `sock_send_info_t`. -/
structure sock_send_info_t where
  sockfd : Int
  dataptr : Option (List Nat)
  datalen : Nat
  deriving DecidableEq, Repr

/-- `sock_send_stat_t`. -/
structure sock_send_stat_t where
  total_byte : Nat
  fetch_error : Nat
  put_error : Nat
  send_error : Nat
  deriving DecidableEq, Repr

/-- An `aos_queue_t`: whether it has been created, and the queued items,
oldest first. -/
structure aos_queue_t (α : Type) where
  valid : Bool
  items : List α
  deriving DecidableEq, Repr

/-- Modelled from the spec: `aos_queue_send` of the kernel, which is not part
of the sources.  The queue is a bounded FIFO; the call never blocks and fails
at once when the queue already holds `cap` items. -/
def aos_queue_send {α : Type} (cap : Nat) (q : aos_queue_t α) (x : α) :
    Option (aos_queue_t α) :=
  if q.items.length < cap then some { q with items := q.items ++ [x] } else none

/-- Calls recorded in order of execution. -/
inductive Ev where
  /-- Call `socket(...)` with its return value. -/
  | socket (ret : Int)
  /-- Call `close(fd)`. -/
  | close (fd : Int)
  /-- Call `add_link_info(fd, linkid, type)`. -/
  | add_link_info (fd linkid type : Int)
  /-- Call `delete_link_info_by_sockfd(fd)`. -/
  | delete_link_info (fd : Int)
  /-- Call `aos_task_new` for a receive task. -/
  | task_new
  deriving DecidableEq, Repr

/-- The global state of `athost.c` together with the serial transport, the
descriptors the operating system holds open, and the record of calls. -/
structure World where
  inited : Bool
  uart_echo_on : Bool
  ip_ready : Bool
  g_link : List link_t
  uart_send_queue : aos_queue_t uart_send_info_t
  uart_send_statistic : uart_send_stat_t
  sock_send_queue : aos_queue_t sock_send_info_t
  sock_send_statistic : sock_send_stat_t
  /-- Bytes of the serial input that have not been read. -/
  transport : List Nat
  /-- Descriptors that are open in the operating system. -/
  open_fds : List Int
  /-- Descriptors whose receive task has been created and has not exited. -/
  recv_tasks : List Int
  /-- Calls made so far, oldest first. -/
  trace : List Ev
  deriving DecidableEq, Repr

/-- Read one byte with `at.parse(&single, 1)`. -/
def at_parse1 (w : World) : Except Fault (Nat × World) :=
  match w.transport with
  | [] => .error .blocked
  | c :: t => .ok (c, { w with transport := t })

/-- Modelled from the spec: `at.parse(buf, n)` of the AT parser, which is not
part of the sources: a blocking read of exactly `n` bytes that returns the
number of bytes read. -/
def at_parse (n : Nat) (w : World) : Except Fault (Nat × List Nat × World) :=
  if n ≤ w.transport.length then
    .ok (n, w.transport.take n, { w with transport := w.transport.drop n })
  else .error .blocked

/-- Outcome of the allocations of one `insert_uart_send_msg` call. -/
structure insert_env where
  /-- `aos_malloc(cmdlen + 1)` returned a block. -/
  malloc_cmd : Bool
  /-- `aos_malloc(datalen)` returned a block. -/
  malloc_data : Bool
  deriving DecidableEq, Repr

/-- The item `insert_uart_send_msg` builds in `uart_send_buf`: the command is
copied and NUL terminated; the data is copied, and `datalen` recorded, only
under `if (dataptr && datalen)`.  `none` when an allocation fails. -/
def uart_send_buf (e : insert_env) (cmd : List Nat) (dataptr : Option (List Nat))
    (cmdlen datalen : Nat) : Option uart_send_info_t :=
  if e.malloc_cmd = false then none
  else
    match dataptr with
    | some d =>
      if datalen ≠ 0 then
        if e.malloc_data = false then none
        else some ⟨some (cmd.take cmdlen ++ [0]), some (d.take datalen), cmdlen, datalen⟩
      else some ⟨some (cmd.take cmdlen ++ [0]), none, cmdlen, 0⟩
    | none => some ⟨some (cmd.take cmdlen ++ [0]), none, cmdlen, 0⟩

/-- `insert_uart_send_msg(cmdptr, dataptr, cmdlen, datalen)` (`athost.c`
137-196).  `cmdlen` and `datalen` are `uint16_t`. -/
def insert_uart_send_msg (e : insert_env) (w : World) (cmdptr dataptr : Option (List Nat))
    (cmdlen datalen : Nat) : Int × World :=
  match cmdptr with
  | none => (-1, w)
  | some cmd =>
    if cmdlen = 0 then (-1, w)
    else if c_strlen cmd ≠ cmdlen then (-1, w)
    else if dataptr.isSome ∧ datalen = 0 then (-1, w)
    else if w.uart_send_queue.valid = false then (-1, w)
    else
      match uart_send_buf e cmd dataptr cmdlen datalen with
      | none => (-1, w)
      | some item =>
        match aos_queue_send DEFAULT_UART_SEND_BUF_SIZE w.uart_send_queue item with
        | none =>
          (-1, { w with uart_send_statistic :=
                  { w.uart_send_statistic with
                    put_error := (w.uart_send_statistic.put_error + 1) % 2 ^ 32 } })
        | some q =>
          (0, { w with
                uart_send_queue := q
                uart_send_statistic :=
                  { w.uart_send_statistic with
                    total_byte :=
                      (w.uart_send_statistic.total_byte + (cmdlen + datalen)) % 2 ^ 32 } })

/-- `insert_sock_send_msg(sockfd, dataptr, datalen)` (`athost.c` 353-389).
`sock_send_buf` is zeroed by `memset`; the function then sets `dataptr` and
`datalen` and nothing else, so the queued item keeps `sockfd = 0`.
`malloc` tells whether `aos_malloc(datalen)` returned a block. -/
def insert_sock_send_msg (malloc : Bool) (w : World) (sockfd : Int)
    (dataptr : Option (List Nat)) (datalen : Nat) : Int × World :=
  match dataptr with
  | none => (-1, w)
  | some d =>
    if sockfd < 0 ∨ datalen = 0 then (-1, w)
    else if w.sock_send_queue.valid = false then (-1, w)
    else if malloc = false then (-1, w)
    else
      match aos_queue_send DEFAULT_SOCK_SEND_BUF_SIZE w.sock_send_queue
          (⟨0, some (d.take datalen), datalen⟩ : sock_send_info_t) with
      | none =>
        (-1, { w with sock_send_statistic :=
                { w.sock_send_statistic with
                  put_error := (w.sock_send_statistic.put_error + 1) % 2 ^ 32 } })
      | some q =>
        (0, { w with
              sock_send_queue := q
              sock_send_statistic :=
                { w.sock_send_statistic with
                  total_byte := (w.sock_send_statistic.total_byte + datalen) % 2 ^ 32 } })

/-! ## Drain loops of the send pipelines (`athost.c` 198-299, 391-496) -/

/-- Results of the system calls of one iteration of a drain loop. -/
structure drain_env where
  /-- Return value of `aos_queue_recv`. -/
  recv_ret : Int
  /-- Return value of the first transmit call (`at.send_raw_no_rsp`,
  `at.send_data_3stage_no_rsp`, or the first `send`). -/
  send_ret : Int
  /-- Return value of the second transmit call of `send_over_sock`. -/
  send_again_ret : Int
  deriving DecidableEq, Repr

/-- `send_over_uart(msgptr)`: the return value (`-1` or the number of bytes
handed to the transport).  `strlen` of a NULL `cmdptr` next to a non-NULL
`dataptr` is undefined. -/
def send_over_uart (e : drain_env) (msg : uart_send_info_t) : Except Fault Int :=
  match msg.cmdptr, msg.dataptr with
  | none, none => .ok (-1)
  | none, some _ => .error .undefined
  | some cmd, none =>
    if c_strlen cmd ≠ msg.cmdlen then .ok (-1)
    else if e.send_ret ≠ 0 then .ok (-1)
    else .ok (msg.cmdlen : Int)
  | some cmd, some _ =>
    if c_strlen cmd ≠ msg.cmdlen then .ok (-1)
    else if e.send_ret ≠ 0 then .ok (-1)
    else .ok ((msg.cmdlen + msg.datalen : Nat) : Int)

/-- The code after the label `done` of `uart_send_task`: the byte counter is
reduced by `msg.datalen + msg.cmdlen`, or set to zero when it is smaller. -/
def uart_send_done (w : World) (msg : uart_send_info_t) : World :=
  { w with uart_send_statistic :=
      { w.uart_send_statistic with
        total_byte :=
          if w.uart_send_statistic.total_byte ≥ msg.datalen + msg.cmdlen then
            w.uart_send_statistic.total_byte - (msg.datalen + msg.cmdlen)
          else 0 } }

/-- One iteration of the `while (true)` loop of `uart_send_task`; `none` when
the task leaves the loop.  `aos_queue_recv` waits forever on an empty queue.
`sent_size` is a `uint32_t`, so the test `sent_size < 0` is false for every
return value of `send_over_uart` and `send_error` is never incremented. -/
def uart_send_task (e : drain_env) (w : World) : Except Fault (Option World) :=
  if w.inited = false then .ok none
  else if w.uart_send_queue.valid = false then .ok none
  else if e.recv_ret ≠ 0 then
    .ok (some (uart_send_done
      { w with uart_send_statistic :=
          { w.uart_send_statistic with
            fetch_error := (w.uart_send_statistic.fetch_error + 1) % 2 ^ 32 } }
      ⟨none, none, 0, 0⟩))
  else
    match w.uart_send_queue.items with
    | [] => .error .blocked
    | msg :: rest =>
      match send_over_uart e msg with
      | .error f => .error f
      | .ok _ =>
        .ok (some (uart_send_done
          { w with uart_send_queue := { w.uart_send_queue with items := rest } } msg))

/-- `send_over_sock(msgptr)`: the return value.  The function transmits the
data with `send`, then a second time (`send` or `sendto`) and returns
`datalen` when both calls report a positive count. -/
def send_over_sock (e : drain_env) (msg : sock_send_info_t) : Int :=
  if msg.sockfd < 0 ∨ msg.dataptr.isNone ∨ msg.datalen = 0 then -1
  else if e.send_ret ≤ 0 then -1
  else if e.send_again_ret ≤ 0 then -1
  else (msg.datalen : Int)

/-- The code after the label `done` of `socket_send_task`. -/
def sock_send_done (w : World) (msg : sock_send_info_t) : World :=
  { w with sock_send_statistic :=
      { w.sock_send_statistic with
        total_byte :=
          if w.sock_send_statistic.total_byte ≥ msg.datalen then
            w.sock_send_statistic.total_byte - msg.datalen
          else 0 } }

/-- One iteration of the `while (true)` loop of `socket_send_task`; `none`
when the task leaves the loop.  `sent_size` is a `uint32_t`: the test
`sent_size <= 0` holds only for the return value 0. -/
def socket_send_task (e : drain_env) (w : World) : Except Fault (Option World) :=
  if w.inited = false then .ok none
  else if w.sock_send_queue.valid = false then .ok none
  else if e.recv_ret ≠ 0 then
    .ok (some (sock_send_done
      { w with sock_send_statistic :=
          { w.sock_send_statistic with
            fetch_error := (w.sock_send_statistic.fetch_error + 1) % 2 ^ 32 } }
      ⟨0, none, 0⟩))
  else
    match w.sock_send_queue.items with
    | [] => .error .blocked
    | msg :: rest =>
      let w1 : World := { w with sock_send_queue := { w.sock_send_queue with items := rest } }
      if send_over_sock e msg = 0 then
        .ok (some (sock_send_done
          { w1 with sock_send_statistic :=
              { w1.sock_send_statistic with
                send_error := (w1.sock_send_statistic.send_error + 1) % 2 ^ 32 } } msg))
      else .ok (some (sock_send_done w1 msg))

/-! ## Formatting into a bounded array -/

/-- The array after the bytes `bytes` have been stored from index `off` on. -/
def store_at (buf : List Nat) (off : Nat) (bytes : List Nat) : List Nat :=
  buf.take off ++ bytes ++ buf.drop (off + bytes.length)

/-- `snprintf(buf + off, size, fmt, ...)` where the complete formatted text
is `text`: at most `size - 1` bytes of it and a NUL are stored; the return
value is the length of the complete text. -/
def snprintf (buf : List Nat) (off size : Nat) (text : List Nat) : List Nat × Nat :=
  if size = 0 then (buf, text.length)
  else (store_at buf off (text.take (size - 1) ++ [0]), text.length)

/-- One guarded append of the encoders,
`if (offset + need < cap) offset += snprintf(buf + offset, cap - offset, fmt, ...); else goto err;`
where `need` is the left operand the source adds to `offset` and `text` the
text the format produces.  `none` stands for `goto err`. -/
def append_field (cap : Nat) (st : List Nat × Nat) (need : Nat) (text : List Nat) :
    Option (List Nat × Nat) :=
  if st.2 + need < cap then
    some ((snprintf st.1 st.2 (cap - st.2) text).1, st.2 + (snprintf st.1 st.2 (cap - st.2) text).2)
  else none

/-! ## Event encoders (`athost.c` 998-1108, 1238-1437, 1985-2037) -/

/-- Result of `getpeername` on a socket, with the text `inet_ntoa` makes of
the peer address. -/
structure peer_t where
  /-- Return value of `getpeername`. -/
  ret : Int
  /-- Text returned by `inet_ntoa(peer.sin_addr)`. -/
  addr : List Nat
  /-- Value of `peer.sin_port`. -/
  port : Nat
  deriving DecidableEq, Repr

/-- Results of the system calls of one encoder call. -/
structure notify_env where
  /-- Indeterminate initial value of `type` in `find_conntype_by_sockfd`. -/
  uninit_type : Int
  peer : peer_t
  ins : insert_env
  deriving DecidableEq, Repr

/-- The empty encoder state: a zeroed array of `cap` bytes and `offset = 0`. -/
def encoder_start (cap : Nat) : List Nat × Nat := (List.replicate cap 0, 0)

/-- The text and acknowledgement steps of `notify_atcmd_recv_status`: the
content of `response`, or `none` for `goto err`. -/
def atcmd_recv_status_cmd (C : Consts) (status : Int) : Option (List Nat × Nat) :=
  match append_field MAX_ATCMD_RESPONSE_LEN (encoder_start MAX_ATCMD_RESPONSE_LEN)
      C.AT_RECV_PREFIX.length C.AT_RECV_PREFIX with
  | none => none
  | some st1 =>
    if status = C.ATCMD_FAIL then
      append_field MAX_ATCMD_RESPONSE_LEN st1 C.AT_RECV_FAIL_POSTFIX.length
        C.AT_RECV_FAIL_POSTFIX
    else if status = C.ATCMD_SUCCESS then
      append_field MAX_ATCMD_RESPONSE_LEN st1 C.AT_RECV_SUCCESS_POSTFIX.length
        C.AT_RECV_SUCCESS_POSTFIX
    else none

/-- `notify_atcmd_recv_status(status)`. -/
def notify_atcmd_recv_status (C : Consts) (e : insert_env) (w : World) (status : Int) :
    Int × World :=
  match atcmd_recv_status_cmd C status with
  | none => (-1, w)
  | some st =>
    if (insert_uart_send_msg e w (some st.1) none (c_strlen st.1 % 2 ^ 16) 0).1 ≠ 0 then
      (-1, (insert_uart_send_msg e w (some st.1) none (c_strlen st.1 % 2 ^ 16) 0).2)
    else (0, (insert_uart_send_msg e w (some st.1) none (c_strlen st.1 % 2 ^ 16) 0).2)

/-- The `type_str` chosen by `notify_cip_connect_status_events`; `none` for
the `Invalid connect type` branch. -/
def conn_status_type_str (type : Int) : Option (List Nat) :=
  if type = TCP_CLIENT ∨ type = SSL_CLIENT then some (cstr "SERVER")
  else if type = TCP_SERVER then some (cstr "CLIENT")
  else if type = UDP_BROADCAST ∨ type = UDP_UNICAST then some (cstr "UDP")
  else none

/-- One guarded append of an encoder, as the source states it: the amount the
test adds to `offset`, and the text the format of the `snprintf` produces.
The step is `.error` when preparing its text (an `itoa_decimal` into a small
array) stores outside that array. -/
abbrev append_step := Except Fault (Nat × List Nat)

/-- Run the guarded appends of an encoder in order.  `none` is the state
after a `goto err`: the steps behind it are not executed. -/
def run_appends (cap : Nat) : List append_step → Option (List Nat × Nat) →
    Except Fault (Option (List Nat × Nat))
  | [], st => .ok st
  | _ :: _, none => .ok none
  | .error f :: _, some _ => .error f
  | .ok step :: rest, some st => run_appends cap rest (append_field cap st step.1 step.2)

/-- The text of a number for a `"%s,"` append, from `itoa_decimal` into an
array of `cap` bytes. -/
def number_comma (cap : Nat) (n : Int) : append_step :=
  match itoa_decimal cap n with
  | .error f => .error f
  | .ok s => .ok (s.length + 1, s ++ [CH_COMMA])

/-- The port for the `",%s\r"` append of the connection status, from
`itoa_decimal` into `char port_str[6]`. -/
def comma_port_cr (port : Int) : append_step :=
  match itoa_decimal 6 port with
  | .error f => .error f
  | .ok p => .ok (p.length + 1 + 1, CH_COMMA :: p ++ [CH_CR])

/-- The guarded appends of `notify_cip_connect_status_events` into
`char cmd[80]`, in source order: the receive prefix when `recvstatus > 0`,
`prefix_cipevent`, the link id unless the type is `TCP_SERVER`
(`linkid_str[5]`), the type, the status, the peer address and port for
`TCP_SERVER` (`port_str[6]`), the success postfix when `recvstatus > 0`. -/
def conn_status_steps (C : Consts) (recvstatus type linkid : Int)
    (type_str status_str addr_str : List Nat) (port : Int) : List append_step :=
  (if recvstatus > 0 then [.ok (C.AT_RECV_PREFIX.length, C.AT_RECV_PREFIX)] else [])
  ++ [.ok (prefix_cipevent.length, prefix_cipevent)]
  ++ (if type = TCP_SERVER then [] else [number_comma 5 linkid])
  ++ [.ok (type_str.length + 1, type_str ++ [CH_COMMA]),
      .ok (status_str.length, status_str)]
  ++ (if type = TCP_SERVER then
        [.ok (addr_str.length + 1, CH_COMMA :: addr_str), comma_port_cr port]
      else [])
  ++ (if recvstatus > 0 then
        [.ok (C.AT_RECV_SUCCESS_POSTFIX.length, C.AT_RECV_SUCCESS_POSTFIX)]
      else [])

/-- The content of `cmd` that `notify_cip_connect_status_events` builds:
`.ok none` stands for `goto err`. -/
def conn_status_cmd (C : Consts) (recvstatus type linkid : Int)
    (type_str status_str addr_str : List Nat) (port : Int) :
    Except Fault (Option (List Nat × Nat)) :=
  run_appends MAX_ATCMD_CON_STATUS_LEN
    (conn_status_steps C recvstatus type linkid type_str status_str addr_str port)
    (some (encoder_start MAX_ATCMD_CON_STATUS_LEN))

/-- The peer address copied into `char addr_str[16] = {0}` with
`memcpy(addr_str, remoteip, strlen(remoteip))`: a text of 16 bytes or more
leaves the array without its NUL or overruns it. -/
def peer_addr_str (p : peer_t) : Except Fault (List Nat) :=
  if (c_string p.addr).length < 16 then .ok (c_string p.addr) else .error .undefined

/-- `notify_cip_connect_status_events(sockid, status, recvstatus)`. -/
def notify_cip_connect_status_events (C : Consts) (e : notify_env) (w : World)
    (sockid status recvstatus : Int) : Except Fault (Int × World) :=
  if sockid < 0 then .ok (-1, w)
  else
    match (if status = C.CIP_STATUS_CONNECTED then some (cstr "CONNECTED")
      else if status = C.CIP_STATUS_CLOSED then some (cstr "CLOSED") else none) with
    | none => .ok (-1, w)
    | some status_str =>
      match conn_status_type_str (find_conntype_by_sockfd w.g_link sockid e.uninit_type) with
      | none => .ok (-1, w)
      | some type_str =>
        if find_conntype_by_sockfd w.g_link sockid e.uninit_type = TCP_SERVER
            ∧ e.peer.ret ≠ 0 then .ok (-1, w)
        else
          match (if find_conntype_by_sockfd w.g_link sockid e.uninit_type = TCP_SERVER then
              peer_addr_str e.peer else .ok []) with
          | .error f => .error f
          | .ok addr_str =>
            if find_linkid_by_sockfd w.g_link sockid < 0 then .ok (-1, w)
            else
              match conn_status_cmd C recvstatus
                  (find_conntype_by_sockfd w.g_link sockid e.uninit_type)
                  (find_linkid_by_sockfd w.g_link sockid) type_str status_str addr_str
                  ((e.peer.port % 2 ^ 16 : Nat) : Int) with
              | .error f => .error f
              | .ok none => .ok (-1, w)
              | .ok (some st) =>
                if (insert_uart_send_msg e.ins w (some st.1) none
                    (c_strlen st.1 % 2 ^ 16) 0).1 ≠ 0 then
                  .ok (-1, (insert_uart_send_msg e.ins w (some st.1) none
                    (c_strlen st.1 % 2 ^ 16) 0).2)
                else
                  .ok (0, (insert_uart_send_msg e.ins w (some st.1) none
                    (c_strlen st.1 % 2 ^ 16) 0).2)

/-- The guarded appends of `notify_cip_data_recv_event` into
`char sendbuf[60]`, in source order: `prefix_cipevent`, the type, the peer
address and port for `UDP_BROADCAST`, the link id, the data length (the
numbers go through arrays of ten bytes). -/
def data_recv_steps (type linkid datalen : Int) (type_str addr_str : List Nat) (port : Int) :
    List append_step :=
  [.ok (prefix_cipevent.length, prefix_cipevent),
   .ok (type_str.length + 1, type_str ++ [CH_COMMA])]
  ++ (if type = UDP_BROADCAST then
        [.ok (addr_str.length + 1, addr_str ++ [CH_COMMA]), number_comma 10 port]
      else [])
  ++ [number_comma 10 linkid, number_comma 10 datalen]

/-- The content of `sendbuf` that `notify_cip_data_recv_event` builds:
`.ok none` stands for `goto err`. -/
def data_recv_cmd (type linkid datalen : Int) (type_str addr_str : List Nat) (port : Int) :
    Except Fault (Option (List Nat × Nat)) :=
  run_appends MAX_ATCMD_DATA_RECV_PREFIX_LEN
    (data_recv_steps type linkid datalen type_str addr_str port)
    (some (encoder_start MAX_ATCMD_DATA_RECV_PREFIX_LEN))

/-- `notify_cip_data_recv_event(sockid, databuf, datalen)`; `datalen` is an
`int`, converted to `uint16_t` in the call of `insert_uart_send_msg`. -/
def notify_cip_data_recv_event (e : notify_env) (w : World) (sockid : Int)
    (databuf : Option (List Nat)) (datalen : Int) : Except Fault (Int × World) :=
  if sockid < 0 then .ok (-1, w)
  else if find_conntype_by_sockfd w.g_link sockid e.uninit_type = UDP_BROADCAST
      ∧ e.peer.ret ≠ 0 then .ok (-1, w)
  else
    match (if find_conntype_by_sockfd w.g_link sockid e.uninit_type = UDP_BROADCAST then
        peer_addr_str e.peer else .ok []) with
    | .error f => .error f
    | .ok addr_str =>
      if find_linkid_by_sockfd w.g_link sockid < 0 then .ok (-1, w)
      else
        match data_recv_cmd (find_conntype_by_sockfd w.g_link sockid e.uninit_type)
            (find_linkid_by_sockfd w.g_link sockid) datalen
            (if find_conntype_by_sockfd w.g_link sockid e.uninit_type = UDP_BROADCAST then
              cstr "UDP_BROADCAST" else cstr "SOCKET")
            addr_str ((e.peer.port % 2 ^ 16 : Nat) : Int) with
        | .error f => .error f
        | .ok none => .ok (-1, w)
        | .ok (some st) =>
          if (insert_uart_send_msg e.ins w (some st.1) databuf (c_strlen st.1 % 2 ^ 16)
              (datalen % 2 ^ 16).toNat).1 ≠ 0 then
            .ok (-1, (insert_uart_send_msg e.ins w (some st.1) databuf
              (c_strlen st.1 % 2 ^ 16) (datalen % 2 ^ 16).toNat).2)
          else
            .ok (0, (insert_uart_send_msg e.ins w (some st.1) databuf
              (c_strlen st.1 % 2 ^ 16) (datalen % 2 ^ 16).toNat).2)

/-- The guarded appends of `notify_AP_STA_status_events` into `char cmd[30]`.
The first test adds `strlen(prefix_wevent)` although the format is
`"\r\n%s"`, the second adds `strlen(type_str) + strlen(status_str)` although
the format is `"%s%s\r\n"`. -/
def ap_sta_status_cmd (type_str status_str : List Nat) : Option (List Nat × Nat) :=
  match append_field MAX_ATCMD_AP_STA_STATUS_LEN (encoder_start MAX_ATCMD_AP_STA_STATUS_LEN)
      prefix_wevent.length (cstr "\r\n" ++ prefix_wevent) with
  | none => none
  | some st1 =>
    append_field MAX_ATCMD_AP_STA_STATUS_LEN st1 (type_str.length + status_str.length)
      (type_str ++ status_str ++ cstr "\r\n")

/-- `notify_AP_STA_status_events(type, status)`. -/
def notify_AP_STA_status_events (C : Consts) (e : insert_env) (w : World)
    (type status : Int) : Int × World :=
  match (if type = C.AP then some (cstr "AP_")
    else if type = C.STA then some (cstr "STATION_") else none) with
  | none => (-1, w)
  | some type_str =>
    match (if status = C.WEVENT_STATUS_UP then some (cstr "UP")
      else if status = C.WEVENT_STATUS_DOWN then some (cstr "DOWN") else none) with
    | none => (-1, w)
    | some status_str =>
      match ap_sta_status_cmd type_str status_str with
      | none => (-1, w)
      | some st =>
        if (insert_uart_send_msg e w (some st.1) none (c_strlen st.1 % 2 ^ 16) 0).1 ≠ 0 then
          (-1, (insert_uart_send_msg e w (some st.1) none (c_strlen st.1 % 2 ^ 16) 0).2)
        else (0, (insert_uart_send_msg e w (some st.1) none (c_strlen st.1 % 2 ^ 16) 0).2)

/-! ## Command handlers (`athost.c` 703-718, 1439-1856) -/

/-- The `for` loop of `get_conntype_index`.  `memcmp(str, conntype_str[i],
strlen(str)) == 0` holds exactly when `str` is an initial part of the name:
for a longer `str` the comparison meets the NUL that ends the name. -/
def get_conntype_loop (str : List Nat) : Nat → List (List Nat) → Int
  | _, [] => -1
  | i, name :: rest =>
    if str.isPrefixOf name = true then (i : Int) else get_conntype_loop str (i + 1) rest

/-- `get_conntype_index(str)`. -/
def get_conntype_index (str : Option (List Nat)) : Int :=
  match str with
  | none => -1
  | some s => get_conntype_loop s 0 conntype_str

/-- Results of the system calls of one handler run, one field per call
site. -/
structure handler_env where
  /-- Return value of `inet_addr(remoteip)`. -/
  inet_addr : Nat
  /-- Return value of `socket(AF_INET, socktype, 0)`. -/
  socket : Int
  /-- Return value of `setsockopt`. -/
  setsockopt : Int
  /-- Return value of `bind`. -/
  bind : Int
  /-- Return value of `connect`. -/
  connect : Int
  add : add_link_env
  /-- Return value of `aos_task_new` for the receive task. -/
  task_new : Int
  /-- Return value of `aos_mutex_lock` in `delete_link_info_by_sockfd`. -/
  delete_lock : Int
  /-- System calls of the connection-status notification. -/
  notify : notify_env
  /-- Allocations of the acknowledgement sent by the handler itself. -/
  ack : insert_env
  /-- `aos_malloc(datalen + 1)` of `at_cip_send` returned a block. -/
  malloc_recvdata : Bool
  /-- `aos_malloc(datalen)` of `insert_sock_send_msg` returned a block. -/
  malloc_sock : Bool
  deriving DecidableEq, Repr

/-- The handlers' call `socket_data_info_get(arr, sizeof(arr), check)` on the
transport of the state. -/
def get_field_w (cap : Nat) (check : Option (Nat → Int)) (w : World) :
    Except Fault (Int × List Nat × World) :=
  match get_field cap check w.transport with
  | .error f => .error f
  | .ok r => .ok (r.1, r.2.1, { w with transport := r.2.2 })

/-- Call `close(fd)`. -/
def os_close (w : World) (fd : Int) : World :=
  { w with open_fds := w.open_fds.filter (fun d => d ≠ fd), trace := w.trace ++ [Ev.close fd] }

/-- Call `delete_link_info_by_sockfd(fd)` on the registry of the state. -/
def delete_link_w (lock : Int) (w : World) (fd : Int) : World :=
  { w with g_link := (delete_link_info_by_sockfd lock w.g_link fd).2,
           trace := w.trace ++ [Ev.delete_link_info fd] }

/-- The label `err` of `atcmd_cip_start`: the failure acknowledgement, then
`close(fd)` when a descriptor was obtained. -/
def cip_start_err (C : Consts) (e : handler_env) (w : World) (fd : Int) : Int × World :=
  if fd ≥ 0 then (-1, os_close (notify_atcmd_recv_status C e.ack w C.ATCMD_FAIL).2 fd)
  else (-1, (notify_atcmd_recv_status C e.ack w C.ATCMD_FAIL).2)

/-- The state after `fd = socket(AF_INET, socktype, 0)` returned `e.socket`. -/
def after_socket (e : handler_env) (w : World) : World :=
  { w with trace := w.trace ++ [Ev.socket e.socket],
           open_fds := if e.socket ≥ 0 then e.socket :: w.open_fds else w.open_fds }

/-- The state after `add_link_info(fd, linkid, type)`. -/
def after_add (e : handler_env) (w : World) (linkid type : Int) : World :=
  { after_socket e w with
    g_link := (add_link_info e.add (after_socket e w).g_link e.socket linkid type).2,
    trace := (after_socket e w).trace ++ [Ev.add_link_info e.socket linkid type] }

/-- The state after `aos_task_new(tskname, recvtsk, tskarg, stacksize)`. -/
def after_task (e : handler_env) (w : World) (linkid type : Int) : World :=
  { after_add e w linkid type with
    trace := (after_add e w linkid type).trace ++ [Ev.task_new],
    recv_tasks := if e.task_new = 0 then e.socket :: (after_add e w linkid type).recv_tasks
                  else (after_add e w linkid type).recv_tasks }

/-- The two receive-task entry points a `recv_task_t` can point to. -/
inductive recv_task_t
  | tcp_client_recv_task
  | tcp_udp_client_recv_task
  deriving DecidableEq, Repr

/-- The locals `recv_task_t recvtsk`, `char tskname[16] = {0}` and
`int stacksize` of `atcmd_cip_start`.  `none` is a local that no statement
has assigned; `tskname` holds the text in front of the first NUL. -/
structure task_setup where
  recvtsk : Option recv_task_t
  tskname : List Nat
  stacksize : Option Int
  deriving DecidableEq, Repr

/-- C library conversion `%d` of an `int`. -/
def printf_d (n : Int) : List Nat :=
  if n < 0 then 45 :: (Nat.toDigits 10 (-n).toNat).map Char.toNat
  else (Nat.toDigits 10 n.toNat).map Char.toNat

/-- `sprintf(tskname, "%s_%d", prefix, linkid)` on `char tskname[16]`: the
text and its NUL are stored from `tskname[0]` on. -/
def sprintf_tskname (pre : List Nat) (linkid : Int) : Except Fault (List Nat) :=
  if (pre ++ 95 :: printf_d linkid).length + 1 ≤ 16 then .ok (pre ++ 95 :: printf_d linkid)
  else .error .undefined

/-- The assignments to `recvtsk`, `tskname` and `stacksize` that end the
branch of `type` in `atcmd_cip_start` (`athost.c` 1555-1557, 1580-1582,
1614-1616).  The branch of `TCP_SERVER` leaves through `goto err`; for any
other value of `type` there is no branch. -/
def cip_start_task (type linkid : Int) : Except Fault task_setup :=
  if type = TCP_CLIENT then
    match sprintf_tskname (cstr "tcp_client") linkid with
    | .error f => .error f
    | .ok name => .ok ⟨some .tcp_udp_client_recv_task, name, some 2048⟩
  else if type = UDP_UNICAST then
    match sprintf_tskname (cstr "udp_unicast") linkid with
    | .error f => .error f
    | .ok name => .ok ⟨some .tcp_udp_client_recv_task, name, some 1024⟩
  else if type = UDP_BROADCAST then
    match sprintf_tskname (cstr "udp_broadcast") linkid with
    | .error f => .error f
    | .ok name => .ok ⟨some .tcp_client_recv_task, name, some 2048⟩
  else .ok ⟨none, [], none⟩

/-- Second half of `atcmd_cip_start` (`athost.c` 1535-1652): from the call of
`socket` on, for the parsed `linkid` and `type`.  `update_remoteaddr_by_sockfd`
is declared nowhere in the sources and is taken to leave the modelled state
alone.  `aos_task_new(tskname, recvtsk, tskarg, stacksize)` reads `recvtsk`
and `stacksize`: when no branch has assigned them the call has no defined
meaning. -/
def cip_start_open (C : Consts) (e : handler_env) (w : World) (linkid type : Int) :
    Except Fault (Int × World) :=
  if e.socket < 0 then .ok (cip_start_err C e (after_socket e w) e.socket)
  else if type = TCP_CLIENT ∧ e.connect ≠ 0 then
    .ok (cip_start_err C e (after_socket e w) e.socket)
  else if type ≠ TCP_CLIENT ∧ type = UDP_UNICAST ∧ (e.bind ≠ 0 ∨ e.connect ≠ 0) then
    .ok (cip_start_err C e (after_socket e w) e.socket)
  else if type ≠ TCP_CLIENT ∧ type ≠ UDP_UNICAST ∧ type = UDP_BROADCAST
      ∧ (e.setsockopt ≠ 0 ∨ e.bind ≠ 0) then
    .ok (cip_start_err C e (after_socket e w) e.socket)
  else if type ≠ TCP_CLIENT ∧ type ≠ UDP_UNICAST ∧ type ≠ UDP_BROADCAST ∧ type = TCP_SERVER then
    .ok (cip_start_err C e (after_socket e w) e.socket)
  else
  match cip_start_task type linkid with
  | .error f => .error f
  | .ok ts =>
  if (add_link_info e.add (after_socket e w).g_link e.socket linkid type).1 ≠ 0 then
    .ok (cip_start_err C e (after_add e w linkid type) e.socket)
  else if ts.recvtsk = none ∨ ts.stacksize = none then .error .undefined
  else if e.task_new ≠ 0 then
    .ok (cip_start_err C e (delete_link_w e.delete_lock (after_task e w linkid type) e.socket)
      e.socket)
  else
    match notify_cip_connect_status_events C e.notify (after_task e w linkid type) e.socket
        C.CIP_STATUS_CONNECTED C.ATCMD_SUCCESS with
    | .error f => .error f
    | .ok r =>
      if r.1 ≠ 0 then
        .ok (cip_start_err C e (delete_link_w e.delete_lock r.2 e.socket) e.socket)
      else .ok (0, r.2)

/-- Middle part of `atcmd_cip_start` (`athost.c` 1483-1533), for the parsed
`linkid`: the connection type, the address and the port are read into
`char body[16]`, `char remoteip[16]` and `char body[16]`; `remoteport` is a
`uint16_t` and `htons(remoteport)` is zero exactly when `remoteport` is. -/
def cip_start_args (C : Consts) (e : handler_env) (w : World) (linkid : Int) :
    Except Fault (Int × World) :=
  match get_field_w 16 (some socket_conntype_check) w with
  | .error f => .error f
  | .ok r2 =>
  if r2.1 < 0 ∨ get_conntype_index (some r2.2.1) < 0 then .ok (cip_start_err C e r2.2.2 (-1))
  else
  match get_field_w 16 (some socket_ip_info_check) r2.2.2 with
  | .error f => .error f
  | .ok r3 =>
  if r3.1 < 0 then .ok (cip_start_err C e r3.2.2 (-1))
  else
  match get_field_w 16 (some socket_data_len_check) r3.2.2 with
  | .error f => .error f
  | .ok r4 =>
  if r4.1 < 0 then .ok (cip_start_err C e r4.2.2 (-1))
  else if atoi r4.2.1 % 2 ^ 16 = 0 then .ok (cip_start_err C e r4.2.2 (-1))
  else if e.inet_addr = C.IPADDR_NONE then .ok (cip_start_err C e r4.2.2 (-1))
  else if ¬ (get_conntype_index (some r2.2.1) = TCP_CLIENT
      ∨ get_conntype_index (some r2.2.1) = SSL_CLIENT
      ∨ get_conntype_index (some r2.2.1) = TCP_SERVER
      ∨ get_conntype_index (some r2.2.1) = UDP_BROADCAST
      ∨ get_conntype_index (some r2.2.1) = UDP_UNICAST) then
    .ok (cip_start_err C e r4.2.2 (-1))
  else cip_start_open C e r4.2.2 linkid (get_conntype_index (some r2.2.1))

/-- `atcmd_cip_start` (`athost.c` 1439-1652): `AT+CIPSTART=linkid,conntype,
address,remoteport`.  First part (1457-1481): the `'='`, the link id read
into `char body[16]`, and the test that the link id is not registered yet. -/
def atcmd_cip_start (C : Consts) (e : handler_env) (w : World) : Except Fault (Int × World) :=
  if w.inited = false then .ok (cip_start_err C e w (-1))
  else
  match at_parse1 w with
  | .error f => .error f
  | .ok r0 =>
  if r0.1 ≠ CH_EQ then .ok (cip_start_err C e r0.2 (-1))
  else
  match get_field_w 16 (some socket_data_len_check) r0.2 with
  | .error f => .error f
  | .ok r1 =>
  if r1.1 < 0 ∨ atoi r1.2.1 < 0 then .ok (cip_start_err C e r1.2.2 (-1))
  else if find_sockfd_by_linkid r1.2.2.g_link (atoi r1.2.1) ≥ 0 then
    .ok (cip_start_err C e r1.2.2 (-1))
  else cip_start_args C e r1.2.2 (atoi r1.2.1)

/-- The label `err` of `at_cip_send`, `atcmd_cip_stop` and
`atcmd_cip_auto_connect`: the failure acknowledgement and `return -1`. -/
def handler_err (C : Consts) (e : handler_env) (w : World) : Int × World :=
  (-1, (notify_atcmd_recv_status C e.ack w C.ATCMD_FAIL).2)

/-- Last part of `at_cip_send` (`athost.c` 1714-1754), for the socket and the
data length parsed before.  `insert_sock_send_msg` takes the length as
`uint16_t`.  The lines 1735-1744 of the source end in `}*/` and are read as a
comment. -/
def cip_send_data (C : Consts) (e : handler_env) (w : World) (sockid datalen : Int) :
    Except Fault (Int × World) :=
  if e.malloc_recvdata = false then .ok (handler_err C e w)
  else
    match at_parse datalen.toNat w with
    | .error f => .error f
    | .ok r =>
      if (r.1 : Int) ≤ 0 then .ok (handler_err C e r.2.2)
      else if (insert_sock_send_msg e.malloc_sock r.2.2 sockid (some r.2.1)
          (datalen % 2 ^ 16).toNat).1 ≠ 0 then
        .ok (handler_err C e (insert_sock_send_msg e.malloc_sock r.2.2 sockid (some r.2.1)
          (datalen % 2 ^ 16).toNat).2)
      else
        .ok (0, (notify_atcmd_recv_status C e.ack
          (insert_sock_send_msg e.malloc_sock r.2.2 sockid (some r.2.1)
            (datalen % 2 ^ 16).toNat).2 C.ATCMD_SUCCESS).2)

/-- `at_cip_send` (`athost.c` 1654-1754): `AT+CIPSEND=linkid,<remote_port>,
datalen`.  When the second field ends neither with `','` nor with `'\r'` the
local `datalen` is read without having been set. -/
def at_cip_send (C : Consts) (e : handler_env) (w : World) : Except Fault (Int × World) :=
  if w.inited = false then .ok (handler_err C e w)
  else
  match at_parse1 w with
  | .error f => .error f
  | .ok r0 =>
  if r0.1 ≠ CH_EQ then .ok (handler_err C e r0.2)
  else
  match get_field_w 16 (some socket_data_len_check) r0.2 with
  | .error f => .error f
  | .ok r1 =>
  if r1.1 < 0 ∨ atoi r1.2.1 < 0 then .ok (handler_err C e r1.2.2)
  else if find_sockfd_by_linkid r1.2.2.g_link (atoi r1.2.1) < 0 then
    .ok (handler_err C e r1.2.2)
  else
  match get_field_w 16 (some socket_data_len_check) r1.2.2 with
  | .error f => .error f
  | .ok r2 =>
  if r2.1 < 0 ∨ atoi r2.2.1 < 0 then .ok (handler_err C e r2.2.2)
  else if r2.1 = 0 then
    match get_field_w 16 (some socket_data_len_check) r2.2.2 with
    | .error f => .error f
    | .ok r3 =>
      if r3.1 < 0 ∨ atoi r3.2.1 < 0 then .ok (handler_err C e r3.2.2)
      else cip_send_data C e r3.2.2 (find_sockfd_by_linkid r1.2.2.g_link (atoi r1.2.1))
        (atoi r3.2.1)
  else if r2.1 = 1 then
    cip_send_data C e r2.2.2 (find_sockfd_by_linkid r1.2.2.g_link (atoi r1.2.1)) (atoi r2.2.1)
  else .error .undefined

/-- The close of a link in `atcmd_cip_stop` and `atcmd_cip_auto_connect`:
`notify_cip_connect_status_events(sockfd, CIP_STATUS_CLOSED, ATCMD_SUCCESS)`,
whose return value is ignored, then `delete_link_info_by_sockfd(sockfd)`. -/
def close_link (C : Consts) (e : handler_env) (w : World) (sockfd : Int) :
    Except Fault World :=
  match notify_cip_connect_status_events C e.notify w sockfd C.CIP_STATUS_CLOSED
      C.ATCMD_SUCCESS with
  | .error f => .error f
  | .ok r => .ok (delete_link_w e.delete_lock r.2 sockfd)

/-- `atcmd_cip_stop` (`athost.c` 1756-1797): `AT+CIPSTOP=linkid`, with
`char body[5]`. -/
def atcmd_cip_stop (C : Consts) (e : handler_env) (w : World) : Except Fault (Int × World) :=
  if w.inited = false then .ok (handler_err C e w)
  else
  match at_parse1 w with
  | .error f => .error f
  | .ok r0 =>
  if r0.1 ≠ CH_EQ then .ok (handler_err C e r0.2)
  else
  match get_field_w 5 (some socket_data_len_check) r0.2 with
  | .error f => .error f
  | .ok r1 =>
  if r1.1 < 0 ∨ atoi r1.2.1 < 0 then .ok (handler_err C e r1.2.2)
  else if find_sockfd_by_linkid r1.2.2.g_link (atoi r1.2.1) < 0 then
    .ok (handler_err C e r1.2.2)
  else
    match close_link C e r1.2.2 (find_sockfd_by_linkid r1.2.2.g_link (atoi r1.2.1)) with
    | .error f => .error f
    | .ok w2 => .ok (0, w2)

/-- `atcmd_cip_auto_connect` (`athost.c` 1799-1856): `AT+CIPAUTOCONN=linkid,
0/1`, with `char body[5]`. -/
def atcmd_cip_auto_connect (C : Consts) (e : handler_env) (w : World) :
    Except Fault (Int × World) :=
  if w.inited = false then .ok (handler_err C e w)
  else
  match at_parse1 w with
  | .error f => .error f
  | .ok r0 =>
  if r0.1 ≠ CH_EQ then .ok (handler_err C e r0.2)
  else
  match get_field_w 5 (some socket_data_len_check) r0.2 with
  | .error f => .error f
  | .ok r1 =>
  if r1.1 < 0 ∨ atoi r1.2.1 < 0 then .ok (handler_err C e r1.2.2)
  else
  match at_parse1 r1.2.2 with
  | .error f => .error f
  | .ok r2 =>
  if r2.1 ≠ 48 ∧ r2.1 ≠ 49 then .ok (handler_err C e r2.2)
  else if find_sockfd_by_linkid r2.2.g_link (atoi r1.2.1) < 0 then .ok (handler_err C e r2.2)
  else if r2.1 = 48 then
    match close_link C e r2.2 (find_sockfd_by_linkid r2.2.g_link (atoi r1.2.1)) with
    | .error f => .error f
    | .ok w2 => .ok (0, w2)
  else .ok (0, r2.2)

/-! ## Receive tasks and start-up (`athost.c` 1111-1236, 2492-2551) -/

/-- The code after the label `exit` of `tcp_udp_client_recv_task` and
`tcp_client_recv_task` for the task whose local `fd` (read through its
argument when it started) is `fd`: the CLOSED event when the descriptor is
still registered, then `close(fd)`.  The call of `delete_link_info_by_sockfd`
is commented out in both tasks. -/
def recv_task_exit (C : Consts) (e : notify_env) (w : World) (fd : Int) : Except Fault World :=
  match (if find_linkid_by_sockfd w.g_link fd ≥ 0 then
      notify_cip_connect_status_events C e w fd C.CIP_STATUS_CLOSED 0
    else .ok (0, w)) with
  | .error f => .error f
  | .ok r => .ok (os_close { r.2 with recv_tasks := r.2.recv_tasks.filter (fun d => d ≠ fd) } fd)

/-- The state when the program starts: static storage is zeroed and no queue
has been created; `input` is what the serial line will deliver. -/
def boot (input : List Nat) : World :=
  { inited := false, uart_echo_on := false, ip_ready := false,
    g_link := List.replicate LINK_ID_MAX ⟨0, 0, 0⟩,
    uart_send_queue := ⟨false, []⟩, uart_send_statistic := ⟨0, 0, 0, 0⟩,
    sock_send_queue := ⟨false, []⟩, sock_send_statistic := ⟨0, 0, 0, 0⟩,
    transport := input, open_fds := [], recv_tasks := [], trace := [] }

/-- Results of the system calls of `athost_init`. -/
structure init_env where
  /-- Return value of `aos_mutex_new`. -/
  mutex_new : Int
  /-- `uart_send_queue_init()` returned 0. -/
  uart_queue : Bool
  /-- Return value of `aos_task_new` for `uart_send_task`. -/
  task_new : Int
  /-- `sock_send_queue_init()` returned 0. -/
  sock_queue : Bool
  deriving DecidableEq, Repr

/-- The label `err` of `athost_init`: both queues are released. -/
def athost_init_err (w : World) : Int × World :=
  (-1, { w with uart_send_queue := ⟨false, []⟩, sock_send_queue := ⟨false, []⟩,
                inited := false })

/-- `athost_init`.  Every slot of `g_link` gets `fd = -1`, `linkid = -1`
after the `memset`; the queue initialisers zero the statistics. -/
def athost_init (e : init_env) (w : World) : Int × World :=
  if w.inited = true then (0, w)
  else if e.mutex_new ≠ 0 then athost_init_err w
  else if e.uart_queue = false then
    athost_init_err { w with g_link := List.replicate LINK_ID_MAX ⟨-1, -1, 0⟩,
                             uart_send_statistic := ⟨0, 0, 0, 0⟩ }
  else if e.task_new ≠ 0 then
    athost_init_err { w with g_link := List.replicate LINK_ID_MAX ⟨-1, -1, 0⟩,
                             uart_send_statistic := ⟨0, 0, 0, 0⟩ }
  else if e.sock_queue = false then
    athost_init_err { w with g_link := List.replicate LINK_ID_MAX ⟨-1, -1, 0⟩,
                             uart_send_statistic := ⟨0, 0, 0, 0⟩,
                             sock_send_statistic := ⟨0, 0, 0, 0⟩ }
  else
    (0, { w with g_link := List.replicate LINK_ID_MAX ⟨-1, -1, 0⟩,
                 uart_send_queue := ⟨true, []⟩, uart_send_statistic := ⟨0, 0, 0, 0⟩,
                 sock_send_queue := ⟨true, []⟩, sock_send_statistic := ⟨0, 0, 0, 0⟩,
                 inited := true })

/-- States of the program that can be reached after a successful
`athost_init` by CIPSTART, CIPSTOP and CIPAUTOCONN commands (each on any
serial input) and by receive tasks leaving their loop.  `socket()` may hand
out any descriptor that is closed at the time of the call, or fail.  A
receive task holds the descriptor of the link it was created for
(`atcmd_cip_start` hands the task `tskarg`, which it leaves NULL, so the
source does not show how the descriptor gets there). -/
inductive Reachable (C : Consts) : World → Prop
  | init (e : init_env) (input : List Nat) (w : World) :
      athost_init e (boot input) = (0, w) → Reachable C w
  | cip_start (e : handler_env) (input : List Nat) (w : World) (r : Int × World) :
      Reachable C w → (e.socket < 0 ∨ e.socket ∉ w.open_fds) →
      atcmd_cip_start C e { w with transport := input } = .ok r → Reachable C r.2
  | cip_stop (e : handler_env) (input : List Nat) (w : World) (r : Int × World) :
      Reachable C w →
      atcmd_cip_stop C e { w with transport := input } = .ok r → Reachable C r.2
  | cip_auto_connect (e : handler_env) (input : List Nat) (w : World) (r : Int × World) :
      Reachable C w →
      atcmd_cip_auto_connect C e { w with transport := input } = .ok r → Reachable C r.2
  | recv_exit (e : notify_env) (fd : Int) (w w1 : World) :
      Reachable C w → fd ∈ w.recv_tasks →
      recv_task_exit C e w fd = .ok w1 → Reachable C w1

/-! ## Concrete values for evaluation -/

/-- A choice of the header constants for evaluating the model on concrete
inputs.  The three strings are the ones the YWSS handlers of `athost.c` spell
out literally in their replies (`"\r\nOK\r\n"`, `"\r\nERROR\r\n"`); the
numbers are the enumerators in declaration order. -/
def aos_consts : Consts where
  AT_RECV_PREFIX := cstr "\r\n"
  AT_RECV_SUCCESS_POSTFIX := cstr "OK\r\n"
  AT_RECV_FAIL_POSTFIX := cstr "ERROR\r\n"
  ATCMD_FAIL := 0
  ATCMD_SUCCESS := 1
  CIP_STATUS_CONNECTED := 0
  CIP_STATUS_CLOSED := 1
  AP := 0
  STA := 1
  WEVENT_STATUS_UP := 0
  WEVENT_STATUS_DOWN := 1
  IPADDR_NONE := 4294967295
  recv_text := by decide
  success_text := by decide
  fail_text := by decide

/-- System-call results of a handler run in which every call succeeds and
`socket()` returns `fd`. -/
def env_ok (fd : Int) : handler_env :=
  { inet_addr := 16777343, socket := fd, setsockopt := 0, bind := 0, connect := 0,
    add := ⟨0, 0, 0⟩, task_new := 0, delete_lock := 0,
    notify := ⟨0, ⟨0, [], 0⟩, ⟨true, true⟩⟩, ack := ⟨true, true⟩,
    malloc_recvdata := true, malloc_sock := true }

/-- The state after a successful `athost_init`, with `input` pending on the
serial line. -/
def started (input : List Nat) : World :=
  (athost_init ⟨0, true, 0, true⟩ (boot input)).2

/-! ## Frames: what the specification says the encoders produce -/

/-- The encoder state that holds the NUL-terminated text `text` in a zeroed
array of `cap` bytes, with `offset = |text|`. -/
def enc_state (cap : Nat) (text : List Nat) : List Nat × Nat :=
  (text ++ List.replicate (cap - text.length) 0, text.length)

/-- The serial item that carries the text `text` and no payload. -/
def text_item (text : List Nat) : uart_send_info_t :=
  ⟨some (text ++ [0]), none, text.length, 0⟩

/-- The state after the serial item of `text` has been queued and counted. -/
def push_frame (w : World) (text : List Nat) : World :=
  { w with
    uart_send_queue :=
      { w.uart_send_queue with items := w.uart_send_queue.items ++ [text_item text] }
    uart_send_statistic :=
      { w.uart_send_statistic with
        total_byte := (w.uart_send_statistic.total_byte + (text.length + 0)) % 2 ^ 32 } }

/-- The failure acknowledgement: receive prefix, then failure postfix. -/
def ack_fail_frame (C : Consts) : List Nat := C.AT_RECV_PREFIX ++ C.AT_RECV_FAIL_POSTFIX

/-- The success acknowledgement: receive prefix, then success postfix. -/
def ack_success_frame (C : Consts) : List Nat :=
  C.AT_RECV_PREFIX ++ C.AT_RECV_SUCCESS_POSTFIX

/-- The concatenation of the texts of the steps of an encoder. -/
def steps_text : List append_step → List Nat
  | [] => []
  | .ok p :: rest => p.2 ++ steps_text rest
  | .error _ :: rest => steps_text rest

/-- The connection-status frame as the wire grammar states it:
`[prefix]+CIPEVENT:[link_id,]TYPE,STATUS[,ip,port\r][postfix]`. -/
def conn_status_text (C : Consts) (recvstatus type linkid : Int)
    (type_str status_str addr_str : List Nat) (port : Int) : List Nat :=
  (if recvstatus > 0 then C.AT_RECV_PREFIX else [])
  ++ prefix_cipevent
  ++ (if type = TCP_SERVER then [] else itoa_text linkid ++ [CH_COMMA])
  ++ type_str ++ [CH_COMMA]
  ++ status_str
  ++ (if type = TCP_SERVER then
        CH_COMMA :: addr_str ++ CH_COMMA :: itoa_text port ++ [CH_CR]
      else [])
  ++ (if recvstatus > 0 then C.AT_RECV_SUCCESS_POSTFIX else [])

/-- The header of the data-arrival frame as the wire grammar states it:
`+CIPEVENT:TYPE,[ip,port,]link_id,length,`. -/
def data_recv_text (type linkid datalen : Int) (type_str addr_str : List Nat) (port : Int) :
    List Nat :=
  prefix_cipevent ++ type_str ++ [CH_COMMA]
  ++ (if type = UDP_BROADCAST then addr_str ++ [CH_COMMA] ++ itoa_text port ++ [CH_COMMA]
      else [])
  ++ itoa_text linkid ++ [CH_COMMA]
  ++ itoa_text datalen ++ [CH_COMMA]

/-- The Wi-Fi status frame as the wire grammar states it:
`\r\n+WEVENT:TYPE STATUS\r\n` (type and status adjoined). -/
def ap_sta_text (type_str status_str : List Nat) : List Nat :=
  cstr "\r\n" ++ prefix_wevent ++ type_str ++ status_str ++ cstr "\r\n"

/-- The two ways `notify_cip_connect_status_events` may return `r` from the
state `w`: with 0 after it queued exactly one item, which carries the whole
frame made of the fields the function selected (type text, status text,
peer address) and is shorter than `cmd[80]`; or with -1 and the queue as it
was. -/
def conn_status_outcome (C : Consts) (e : notify_env) (w : World)
    (sockid status recvstatus : Int) (r : Int × World) : Prop :=
  (r.1 = 0 ∧ ∃ type_str status_str addr_str : List Nat,
      conn_status_type_str (find_conntype_by_sockfd w.g_link sockid e.uninit_type)
        = some type_str
      ∧ (if status = C.CIP_STATUS_CONNECTED then some (cstr "CONNECTED")
          else if status = C.CIP_STATUS_CLOSED then some (cstr "CLOSED") else none)
        = some status_str
      ∧ (if find_conntype_by_sockfd w.g_link sockid e.uninit_type = TCP_SERVER then
          peer_addr_str e.peer else .ok []) = .ok addr_str
      ∧ (conn_status_text C recvstatus (find_conntype_by_sockfd w.g_link sockid e.uninit_type)
          (find_linkid_by_sockfd w.g_link sockid) type_str status_str addr_str
          ((e.peer.port % 2 ^ 16 : Nat) : Int)).length < MAX_ATCMD_CON_STATUS_LEN
      ∧ r.2.uart_send_queue.items = w.uart_send_queue.items ++
          [text_item (conn_status_text C recvstatus
            (find_conntype_by_sockfd w.g_link sockid e.uninit_type)
            (find_linkid_by_sockfd w.g_link sockid) type_str status_str addr_str
            ((e.peer.port % 2 ^ 16 : Nat) : Int))])
  ∨ (r.1 = -1 ∧ r.2.uart_send_queue = w.uart_send_queue)

/-- The two ways `notify_cip_data_recv_event` may return `r` from the state
`w`: with 0 after it queued exactly one item, whose command part is the whole
header made of the fields the function selected and is shorter than
`sendbuf[60]`; or with -1 and the queue as it was. -/
def data_recv_outcome (e : notify_env) (w : World) (sockid datalen : Int)
    (r : Int × World) : Prop :=
  (r.1 = 0 ∧ ∃ (addr_str : List Nat) (item : uart_send_info_t),
      (if find_conntype_by_sockfd w.g_link sockid e.uninit_type = UDP_BROADCAST then
          peer_addr_str e.peer else .ok []) = .ok addr_str
      ∧ (data_recv_text (find_conntype_by_sockfd w.g_link sockid e.uninit_type)
          (find_linkid_by_sockfd w.g_link sockid) datalen
          (if find_conntype_by_sockfd w.g_link sockid e.uninit_type = UDP_BROADCAST then
            cstr "UDP_BROADCAST" else cstr "SOCKET")
          addr_str ((e.peer.port % 2 ^ 16 : Nat) : Int)).length
            < MAX_ATCMD_DATA_RECV_PREFIX_LEN
      ∧ item.cmdptr = some (data_recv_text
          (find_conntype_by_sockfd w.g_link sockid e.uninit_type)
          (find_linkid_by_sockfd w.g_link sockid) datalen
          (if find_conntype_by_sockfd w.g_link sockid e.uninit_type = UDP_BROADCAST then
            cstr "UDP_BROADCAST" else cstr "SOCKET")
          addr_str ((e.peer.port % 2 ^ 16 : Nat) : Int) ++ [0])
      ∧ item.cmdlen = (data_recv_text (find_conntype_by_sockfd w.g_link sockid e.uninit_type)
          (find_linkid_by_sockfd w.g_link sockid) datalen
          (if find_conntype_by_sockfd w.g_link sockid e.uninit_type = UDP_BROADCAST then
            cstr "UDP_BROADCAST" else cstr "SOCKET")
          addr_str ((e.peer.port % 2 ^ 16 : Nat) : Int)).length
      ∧ r.2.uart_send_queue.items = w.uart_send_queue.items ++ [item])
  ∨ (r.1 = -1 ∧ r.2.uart_send_queue = w.uart_send_queue)

/-- The two ways `notify_AP_STA_status_events` may return `r` from the state
`w`: with 0 after it queued exactly one item, which carries the whole Wi-Fi
status frame of the type and status texts the function selected and is
shorter than `cmd[30]`; or with -1 and the queue as it was. -/
def ap_sta_outcome (C : Consts) (w : World) (type status : Int) (r : Int × World) : Prop :=
  (r.1 = 0 ∧ ∃ type_str status_str : List Nat,
      (if type = C.AP then some (cstr "AP_")
        else if type = C.STA then some (cstr "STATION_") else none) = some type_str
      ∧ (if status = C.WEVENT_STATUS_UP then some (cstr "UP")
        else if status = C.WEVENT_STATUS_DOWN then some (cstr "DOWN") else none)
          = some status_str
      ∧ (ap_sta_text type_str status_str).length < MAX_ATCMD_AP_STA_STATUS_LEN
      ∧ r.2.uart_send_queue.items
          = w.uart_send_queue.items ++ [text_item (ap_sta_text type_str status_str)])
  ∨ (r.1 = -1 ∧ r.2.uart_send_queue = w.uart_send_queue)

/-- The frame `atcmd_cip_start` queues for a new client link `L` when
`ATCMD_SUCCESS` is positive: the receive prefix, the event
`+CIPEVENT:L,SERVER,CONNECTED`, and the success postfix, in one item. -/
def connected_frame (C : Consts) (L : Int) : List Nat :=
  C.AT_RECV_PREFIX ++ prefix_cipevent ++ itoa_text L ++ cstr ",SERVER,CONNECTED"
    ++ C.AT_RECV_SUCCESS_POSTFIX

/-- The bytes of the command parts of a list of serial items, in queue
order. -/
def frames_text : List uart_send_info_t → List Nat
  | [] => []
  | item :: rest => c_string (item.cmdptr.getD []) ++ frames_text rest

/-- What the specification says about the serial queue after a successful
CIPSTART: the items added to it make up an acknowledgement-success frame
followed by the event `+CIPEVENT:L,SERVER,CONNECTED`. -/
def ack_then_connected (C : Consts) (L : Int) (before after : List uart_send_info_t) : Prop :=
  ∃ added, after = before ++ added
    ∧ frames_text added
        = ack_success_frame C ++ (prefix_cipevent ++ itoa_text L ++ cstr ",SERVER,CONNECTED")

/-- The size of a serial item: the bytes of its command and of its payload,
as the item records them. -/
def uart_item_size (item : uart_send_info_t) : Nat := item.cmdlen + item.datalen

/-- The bytes held by the serial queue: the sizes of the items that were
queued and have not been drained. -/
def uart_queued_bytes (w : World) : Nat :=
  (w.uart_send_queue.items.map uart_item_size).sum

/-- No two occupied slots hold the same link id (the second half of link
uniqueness). -/
def linkid_unique (g : List link_t) : Prop :=
  ∀ i j : Fin g.length, i ≠ j → occupied (g.get i) → occupied (g.get j) →
    (g.get i).linkid ≠ (g.get j).linkid

/-- Two slots do not share a link id when both are occupied. -/
def linkid_apart (a b : link_t) : Prop := occupied a → occupied b → a.linkid ≠ b.linkid

/-- The state a handler run ends in (the state `w` when the run does not
return). -/
def state_after (w : World) (r : Except Fault (Int × World)) : World :=
  match r with
  | .ok x => x.2
  | .error _ => w

/-- The serial input `=0,tcp_client,127.0.0.1,9000\r` that follows
`AT+CIPSTART`. -/
def start_link0 : List Nat := cstr "=0,tcp_client,127.0.0.1,9000\r"

/-- The serial input `=1,tcp_client,127.0.0.1,9000\r` that follows
`AT+CIPSTART`. -/
def start_link1 : List Nat := cstr "=1,tcp_client,127.0.0.1,9000\r"

/-- The state after `AT+CIPSTART=0,tcp_client,127.0.0.1,9000\r` on a freshly
started gateway, `socket()` returning descriptor 3. -/
def one_link : World :=
  state_after (started [])
    (atcmd_cip_start aos_consts (env_ok 3) { started [] with transport := start_link0 })

/-- The state `one_link` after the receive task of descriptor 3 has seen the
peer close and has left its loop. -/
def one_link_peer_closed : World :=
  match recv_task_exit aos_consts (env_ok 3).notify one_link 3 with
  | .ok w => w
  | .error _ => one_link

/-- The state after a following `AT+CIPSTART=1,tcp_client,127.0.0.1,9000\r`
for which `socket()` returns descriptor 3 again. -/
def stale_and_new_link : World :=
  state_after one_link_peer_closed
    (atcmd_cip_start aos_consts (env_ok 3)
      { one_link_peer_closed with transport := start_link1 })

/-- The return of the CLOSED notification (`recvstatus = 0`) for descriptor 3
in the state `one_link`. -/
def one_link_closed_event : Int × World :=
  match notify_cip_connect_status_events aos_consts (env_ok 3).notify one_link 3 1 0 with
  | .ok r => r
  | .error _ => (-1, one_link)

/-- A state whose only link is a UDP broadcast socket on descriptor 3 with the
nine-digit link id 123456789. -/
def broadcast_link : World :=
  { one_link with
    g_link := [⟨3, 123456789, UDP_BROADCAST⟩, ⟨-1, -1, 0⟩, ⟨-1, -1, 0⟩, ⟨-1, -1, 0⟩,
               ⟨-1, -1, 0⟩] }

/-- System-call results of a notification whose peer is
`255.255.255.255:65535`. -/
def env_broadcast_peer : notify_env :=
  ⟨0, ⟨0, cstr "255.255.255.255", 65535⟩, ⟨true, true⟩⟩

/-- A state with five open links: link ids 0 to 4 on descriptors 3 to 7. -/
def five_links : World :=
  { one_link with
    g_link := [⟨3, 0, 1⟩, ⟨4, 1, 1⟩, ⟨5, 2, 1⟩, ⟨6, 3, 1⟩, ⟨7, 4, 1⟩],
    open_fds := [7, 6, 5, 4, 3],
    recv_tasks := [7, 6, 5, 4, 3] }

/-- The serial input `=5,tcp_client,127.0.0.1,9000\r` that follows
`AT+CIPSTART`. -/
def start_link5 : List Nat := cstr "=5,tcp_client,127.0.0.1,9000\r"

/-- The return of a sixth `AT+CIPSTART=5,...` while five links are open. -/
def sixth_start : Int × World :=
  match atcmd_cip_start aos_consts (env_ok 8) { five_links with transport := start_link5 } with
  | .ok r => r
  | .error _ => (0, five_links)

/-- The state `one_link` with a serial queue that holds 50 items (the drain
task has not run), and `AT+CIPSTART=0,...` pending on the serial line. -/
def one_link_queue_full : World :=
  { one_link with
    uart_send_queue := ⟨true, List.replicate 50 (text_item (cstr "+CIPEVENT:0,SERVER,CONNECTED"))⟩,
    transport := start_link0 }

/-- The return of `AT+CIPSTART=0,...` in the state `one_link_queue_full`. -/
def duplicate_start_queue_full : Int × World :=
  match atcmd_cip_start aos_consts (env_ok 4) one_link_queue_full with
  | .ok r => r
  | .error _ => (0, one_link_queue_full)

/-- The return of a second `AT+CIPSTART=0,...` in the state `one_link`. -/
def duplicate_start : Int × World :=
  match atcmd_cip_start aos_consts (env_ok 4) { one_link with transport := start_link0 } with
  | .ok r => r
  | .error _ => (0, one_link)

/-- The serial input `=0,4\r` followed by the four raw bytes `abcd`, as it
follows `AT+CIPSEND`. -/
def send_four_bytes : List Nat := cstr "=0,4\rabcd"

/-- The return of `AT+CIPSEND=0,4\r` with payload `abcd` in the state
`one_link` (link 0 open on descriptor 3). -/
def cip_send_four : Int × World :=
  match at_cip_send aos_consts (env_ok 3) { one_link with transport := send_four_bytes } with
  | .ok r => r
  | .error _ => (-1, one_link)

/-- The return of `insert_uart_send_msg("A", NULL, 1, 5)` on a freshly
started gateway. -/
def insert_without_data : Int × World :=
  insert_uart_send_msg ⟨true, true⟩ (started []) (some (cstr "A" ++ [0])) none 1 5

/-- The state after the drain loop has then sent that item. -/
def insert_without_data_drained : World :=
  match uart_send_task ⟨0, 0, 0⟩ insert_without_data.2 with
  | .ok (some w) => w
  | _ => insert_without_data.2

/-- System-call results of a handler run in which `socket()` returns 3, the
receive task cannot be created, and `aos_mutex_lock` fails inside
`delete_link_info_by_sockfd`. -/
def env_task_and_lock_fail : handler_env :=
  { env_ok 3 with task_new := -1, delete_lock := -1 }

/-- The state after `AT+CIPSTART=0,tcp_client,127.0.0.1,9000\r` has failed at
`aos_task_new` on a freshly started gateway: the handler has closed
descriptor 3, and the slot it wrote is still in the registry because the
delete could not take the lock. -/
def failed_start : World :=
  state_after (started [])
    (atcmd_cip_start aos_consts env_task_and_lock_fail
      { started [] with transport := start_link0 })

/-- The state after a following `AT+CIPSTART=1,tcp_client,127.0.0.1,9000\r`
for which `socket()` returns descriptor 3 again. -/
def failed_start_and_new_link : World :=
  state_after failed_start
    (atcmd_cip_start aos_consts (env_ok 3) { failed_start with transport := start_link1 })

/-! ## Registry operations: relations and concrete states -/

/-- Two slots are apart: when both are occupied they differ in the socket
handle and in the link id. -/
def link_apart (a b : link_t) : Prop :=
  occupied a → occupied b → a.fd ≠ b.fd ∧ a.linkid ≠ b.linkid

/-- The registry after `athost_init`: five empty slots. -/
def empty_registry : List link_t := List.replicate LINK_ID_MAX ⟨-1, -1, 0⟩

/-- System-call results of an `add_link_info` call in which both semaphores
can be created but `aos_mutex_lock` fails. -/
def env_lock_fails : add_link_env := ⟨-1, 0, 0⟩

/-- A registry with link 0 on descriptor 3 and link 1 on descriptor 4. -/
def two_link_registry : List link_t :=
  [⟨3, 0, 1⟩, ⟨4, 1, 4⟩, ⟨-1, -1, 0⟩, ⟨-1, -1, 0⟩, ⟨-1, -1, 0⟩]

/-! ## Frames of the wire grammar -/

/-- The decimal text of a natural number as the wire grammar writes it: the
digits of `toString n` as ASCII codes. -/
def decimal (n : Nat) : List Nat := (Nat.toDigits 10 n).map Char.toNat

/-- The Wi-Fi status frame of the wire grammar, `\r\n+WEVENT:` followed by
the kind (`AP_` or `STATION_`), the status (`UP` or `DOWN`) and `\r\n`. -/
def wevent_frame (kind status : List Nat) : List Nat :=
  cstr "\r\n+WEVENT:" ++ kind ++ status ++ cstr "\r\n"

/-- The connection-status frame of the wire grammar for a link that is no
TCP server: `+CIPEVENT:`, the decimal link id, the kind (`SERVER` or `UDP`)
and the status (`CONNECTED` or `CLOSED`), separated by commas. -/
def cipevent_status_frame (L : Nat) (kind status : List Nat) : List Nat :=
  cstr "+CIPEVENT:" ++ decimal L ++ cstr "," ++ kind ++ cstr "," ++ status

/-- The header of the data-arrival frame of the wire grammar for a socket
that is no broadcast socket: `+CIPEVENT:SOCKET,`, the decimal link id, the
decimal payload length, each followed by a comma. -/
def cipevent_data_header (L n : Nat) : List Nat :=
  cstr "+CIPEVENT:SOCKET," ++ decimal L ++ cstr "," ++ decimal n ++ cstr ","

/-- The serial item that carries the header `header` and the payload `p`. -/
def data_item (header p : List Nat) : uart_send_info_t :=
  ⟨some (header ++ [0]), some p, header.length, p.length⟩

/-- The return of the connection-status notification (CLOSED, no
acknowledgement) for descriptor 3 while the serial queue holds 50 items. -/
def closed_event_queue_full : Int × World :=
  match notify_cip_connect_status_events aos_consts (env_ok 3).notify one_link_queue_full 3 1 0 with
  | .ok r => r
  | .error _ => (0, one_link_queue_full)

/-- The return of the data-arrival notification of the four bytes `abcd` on
descriptor 3 while the serial queue holds 50 items. -/
def data_event_queue_full : Int × World :=
  match notify_cip_data_recv_event (env_ok 3).notify one_link_queue_full 3
      (some (cstr "abcd")) 4 with
  | .ok r => r
  | .error _ => (0, one_link_queue_full)

/-- The return of `notify_AP_STA_status_events(STA, WEVENT_STATUS_UP)` while
the serial queue holds 50 items. -/
def wevent_queue_full : Int × World :=
  notify_AP_STA_status_events aos_consts ⟨true, true⟩ one_link_queue_full 1 0

/-! ## Command dispatch (`athost.c` 2453-2490, 2553-2886) -/

/-- `#define MAX_ATCMD_PREFIX 32`. -/
def MAX_ATCMD_PREFIX : Nat := 32

/-- `prefix_athost`, the out-of-band prefix registered with `at.oob`: the AT
parser calls `atcmd_handler` when it has read these bytes. -/
def prefix_athost : List Nat := cstr "AT+"

/-- The functions the `.function` column of `at_cmds_table` points to. -/
inductive at_function where
  | atcmd_ap_connect
  | atcmd_get_ip
  | atcmd_get_mac
  | atcmd_uart_echo
  | atcmd_cip_domain_dns
  | atcmd_cip_auto_connect
  | atcmd_cip_start
  | atcmd_cip_stop
  | at_cip_send
  | at_ywss_start_monitor
  | at_ywss_stop_monitor
  | at_ywss_set_channel
  | at_ywss_suspend_sta
  deriving DecidableEq, Repr

/-- An entry of `at_cmds_table`: `struct at_cli_command` without its help
text. -/
structure at_cli_command where
  name : List Nat
  function : at_function
  deriving DecidableEq, Repr

/-- `ATCMD_WJAP_CONN`. -/
def ATCMD_WJAP_CONN : Int := 0

/-- `ATCMD_WJAP_IP`. -/
def ATCMD_WJAP_IP : Int := 1

/-- `ATCMD_WJAP_MAC`. -/
def ATCMD_WJAP_MAC : Int := 2

/-- `ATCMD_UART_ECHO`. -/
def ATCMD_UART_ECHO : Int := 3

/-- `ATCMD_CIP_DOMAIN`. -/
def ATCMD_CIP_DOMAIN : Int := 4

/-- `ATCMD_CIP_AUTOCONN`. -/
def ATCMD_CIP_AUTOCONN : Int := 5

/-- `ATCMD_CIP_START`. -/
def ATCMD_CIP_START : Int := 6

/-- `ATCMD_CIP_STOP`. -/
def ATCMD_CIP_STOP : Int := 7

/-- `ATCMD_CIP_SEND`. -/
def ATCMD_CIP_SEND : Int := 8

/-- `ATCMD_YWSS_START_MONITOR`. -/
def ATCMD_YWSS_START_MONITOR : Int := 9

/-- `ATCMD_YWSS_STOP_MONITOR`. -/
def ATCMD_YWSS_STOP_MONITOR : Int := 10

/-- `ATCMD_YWSS_SET_CHANNEL`. -/
def ATCMD_YWSS_SET_CHANNEL : Int := 11

/-- `ATCMD_YWSS_SUSPEND_STA`. -/
def ATCMD_YWSS_SUSPEND_STA : Int := 12

/-- `at_cmds_table`. -/
def at_cmds_table : List at_cli_command :=
  [⟨cstr "AT+WJAP=", .atcmd_ap_connect⟩,
   ⟨cstr "AT+WJAPIP?", .atcmd_get_ip⟩,
   ⟨cstr "AT+WMAC?", .atcmd_get_mac⟩,
   ⟨cstr "AT+UARTE", .atcmd_uart_echo⟩,
   ⟨cstr "AT+CIPDOMAIN", .atcmd_cip_domain_dns⟩,
   ⟨cstr "AT+CIPAUTOCONN", .atcmd_cip_auto_connect⟩,
   ⟨cstr "AT+CIPSTART", .atcmd_cip_start⟩,
   ⟨cstr "AT+CIPSTOP", .atcmd_cip_stop⟩,
   ⟨cstr "AT+CIPSEND", .at_cip_send⟩,
   ⟨cstr "AT+YWSSSTARTMONITOR", .at_ywss_start_monitor⟩,
   ⟨cstr "AT+YWSSSTOPMONITOR", .at_ywss_stop_monitor⟩,
   ⟨cstr "AT+YWSSSETCHANNEL", .at_ywss_set_channel⟩,
   ⟨cstr "AT+YWSSSUSPENDSTATION", .at_ywss_suspend_sta⟩]

/-- The return statement of the sub-dispatchers, `index >= 0 ?
&at_cmds_table[index] : NULL`: the entry the returned pointer points to.
(`get_atcmd_cip_handler` also tests `index < sizeof(at_cmds_table)`, the size
of the table in bytes, which every index of the enumeration is below.) -/
def table_entry (index : Int) : Option at_cli_command :=
  if index ≥ 0 then at_cmds_table[index.toNat]? else none

/-- The `do` loop of `uart_echo` with echo on, `buf` being the bytes stored
so far (`i = buf.length`): the line before the first `'\r'` and the unread
bytes behind it, or `none` with the unread bytes when `sizeof(buf)` bytes
have been read without one. -/
def uart_echo_loop (buf : List Nat) : List Nat → Except Fault (Option (List Nat) × List Nat)
  | [] => if buf.length ≥ 1024 then .ok (none, []) else .error .blocked
  | c :: t =>
    if buf.length ≥ 1024 then .ok (none, c :: t)
    else if c = CH_CR then .ok (some buf, t)
    else uart_echo_loop (buf ++ [c]) t

/-- The string `uart_echo` hands to `at.send_raw_no_rsp` for the line of `i`
bytes it has read: `AT+`, the line and `'\r'`, or `AT+MSG too long` when that
does not fit `buf`; the string ends at the first NUL. -/
def uart_echo_reply (line : List Nat) : List Nat :=
  if line.length + prefix_athost.length + 1 < 1024 then
    c_string (prefix_athost ++ line ++ [CH_CR, 0])
  else prefix_athost ++ cstr "MSG too long"

/-- `uart_echo()` (`athost.c` 2553-2607): the return value, the string given
to `at.send_raw_no_rsp` if any, and the state.  `uart_echo_on` is tested in
every iteration and is not changed inside the loop; `at.parse` waits for its
byte, so the branch for a result `<= 0` is not taken.  `memcmp(buf,
"UARTE=OFF", strlen(buf)) == 0` holds exactly when the string in `buf` is an
initial part of `UARTE=OFF`. -/
def uart_echo (C : Consts) (e : insert_env) (w : World) :
    Except Fault (Int × Option (List Nat) × World) :=
  if w.uart_echo_on = false then .ok (0, none, w)
  else
    match uart_echo_loop [] w.transport with
    | .error f => .error f
    | .ok (none, t) => .ok (1, none, { w with transport := t })
    | .ok (some line, t) =>
      if (c_string line).isPrefixOf (cstr "UARTE=OFF") = true then
        .ok (1, none,
          { (notify_atcmd_recv_status C e { w with transport := t } C.ATCMD_SUCCESS).2 with
            uart_echo_on := false })
      else
        .ok (1, some (uart_echo_reply line),
          (notify_atcmd_recv_status C e { w with transport := t } C.ATCMD_SUCCESS).2)

/-- `get_atcmd_cip_handler()` (`athost.c` 2609-2664): the entry returned
(`none` for `NULL`) and the state.  The byte after `TAR`, the five bytes
after `D` and the seven bytes after `A` are read and not compared. -/
def get_atcmd_cip_handler (w : World) : Except Fault (Option at_cli_command × World) :=
  match at_parse 2 w with
  | .error f => .error f
  | .ok r0 =>
  if r0.2.1 ≠ cstr "IP" then .ok (none, r0.2.2)
  else
  match at_parse1 r0.2.2 with
  | .error f => .error f
  | .ok r1 =>
  if r1.1 = 83 then
    match at_parse 3 r1.2 with
    | .error f => .error f
    | .ok r2 =>
      if r2.2.1 = cstr "TAR" then
        match at_parse1 r2.2.2 with
        | .error f => .error f
        | .ok r3 => .ok (table_entry ATCMD_CIP_START, r3.2)
      else if r2.2.1 = cstr "TOP" then .ok (table_entry ATCMD_CIP_STOP, r2.2.2)
      else if r2.2.1 = cstr "END" then .ok (table_entry ATCMD_CIP_SEND, r2.2.2)
      else .ok (table_entry (-1), r2.2.2)
  else if r1.1 = 68 then
    match at_parse 5 r1.2 with
    | .error f => .error f
    | .ok r2 => .ok (table_entry ATCMD_CIP_DOMAIN, r2.2.2)
  else if r1.1 = 65 then
    match at_parse 7 r1.2 with
    | .error f => .error f
    | .ok r2 => .ok (table_entry ATCMD_CIP_AUTOCONN, r2.2.2)
  else .ok (table_entry (-1), r1.2)

/-- `get_atcmd_uart_handler()` (`athost.c` 2666-2697).  When the three bytes
are not `ART` the function leaves through `return;` without a value, and
`atcmd_handler` uses the value of the call: undefined behaviour. -/
def get_atcmd_uart_handler (w : World) : Except Fault (Option at_cli_command × World) :=
  match at_parse 3 w with
  | .error f => .error f
  | .ok r0 =>
  if r0.2.1 ≠ cstr "ART" then .error .undefined
  else
  match at_parse1 r0.2.2 with
  | .error f => .error f
  | .ok r1 =>
  if r1.1 = 69 then .ok (table_entry ATCMD_UART_ECHO, r1.2)
  else .ok (table_entry (-1), r1.2)

/-- `get_atcmd_wifi_handler()` (`athost.c` 2699-2752). -/
def get_atcmd_wifi_handler (w : World) : Except Fault (Option at_cli_command × World) :=
  match at_parse1 w with
  | .error f => .error f
  | .ok r0 =>
  if r0.1 = 74 then
    match at_parse 2 r0.2 with
    | .error f => .error f
    | .ok r1 =>
    if r1.2.1 ≠ cstr "AP" then .ok (table_entry (-1), r1.2.2)
    else
    match at_parse1 r1.2.2 with
    | .error f => .error f
    | .ok r2 =>
    if r2.1 = CH_EQ then .ok (table_entry ATCMD_WJAP_CONN, r2.2)
    else if r2.1 = 73 then
      match at_parse 2 r2.2 with
      | .error f => .error f
      | .ok r3 =>
        if r3.2.1 = cstr "P?" then .ok (table_entry ATCMD_WJAP_IP, r3.2.2)
        else .ok (table_entry (-1), r3.2.2)
    else .ok (table_entry (-1), r2.2)
  else if r0.1 = 77 then
    match at_parse 3 r0.2 with
    | .error f => .error f
    | .ok r1 =>
      if r1.2.1 = cstr "AC?" then .ok (table_entry ATCMD_WJAP_MAC, r1.2.2)
      else .ok (table_entry (-1), r1.2.2)
  else .ok (table_entry (-1), r0.2)

/-- The tail of a branch of `get_atcmd_ywss_handler`, `index` being 8:
`at.parse(prefix + index, len)` with `len = strlen(lit)`, then
`strcmp(prefix + index, lit)`, and `cmdidx` is set when the strings are equal.
The array `prefix` has `MAX_ATCMD_PREFIX` bytes, all zero behind the bytes
stored so far, so the strings are equal exactly when the bytes read are those
of `lit`; bytes stored behind the array, and a comparison that runs to the end
of the array without meeting a NUL, are undefined behaviour. -/
def ywss_tail (lit : List Nat) (cmdidx : Int) (w : World) :
    Except Fault (Option at_cli_command × World) :=
  if MAX_ATCMD_PREFIX < 8 + c_strlen lit then .error .undefined
  else
    match at_parse (c_strlen lit) w with
    | .error f => .error f
    | .ok r =>
      if r.2.1 ≠ c_string lit then .ok (table_entry (-1), r.2.2)
      else if 8 + c_strlen lit = MAX_ATCMD_PREFIX then .error .undefined
      else .ok (table_entry cmdidx, r.2.2)

/-- `get_atcmd_ywss_handler()` (`athost.c` 2753-2842); `delim` is the string
literal `AT_SEND_DELIMITER`, whose definition is not part of the sources.  The
bytes read are stored in the zeroed array `prefix` one behind the other, so
each `strcmp` with a literal holds exactly when the bytes just read are those
of the literal. -/
def get_atcmd_ywss_handler (delim : List Nat) (w : World) :
    Except Fault (Option at_cli_command × World) :=
  match at_parse 3 w with
  | .error f => .error f
  | .ok r0 =>
  if r0.2.1 ≠ cstr "WSS" then .ok (none, r0.2.2)
  else
  match at_parse1 r0.2.2 with
  | .error f => .error f
  | .ok r1 =>
  if r1.1 = 83 then
    match at_parse 3 r1.2 with
    | .error f => .error f
    | .ok r2 =>
      if r2.2.1 = cstr "TOP" then
        ywss_tail (cstr "MONITOR" ++ delim) ATCMD_YWSS_STOP_MONITOR r2.2.2
      else if r2.2.1 = cstr "TAR" then
        ywss_tail (cstr "TMONITOR" ++ delim) ATCMD_YWSS_START_MONITOR r2.2.2
      else if r2.2.1 = cstr "ETC" then
        ywss_tail (cstr "HANNEL,") ATCMD_YWSS_SET_CHANNEL r2.2.2
      else if r2.2.1 = cstr "USP" then
        ywss_tail (cstr "ENDSTATION" ++ delim) ATCMD_YWSS_SUSPEND_STA r2.2.2
      else .ok (table_entry (-1), r2.2.2)
  else .ok (table_entry (-1), r1.2)

/-- What a run of `atcmd_handler` comes to. -/
structure dispatch_t where
  /-- The entry of `at_cmds_table` whose function is called by
  `handler->function()`, the last statement of `atcmd_handler`; `none` when no
  function is called. -/
  handler : Option at_cli_command
  /-- The string `uart_echo` gave to `at.send_raw_no_rsp`, if any. -/
  echoed : Option (List Nat)
  /-- The state in which the function is called, or in which `atcmd_handler`
  returns when it calls none. -/
  world : World
  deriving DecidableEq, Repr

/-- The end of `atcmd_handler` behind the `switch`: `if (handler != NULL)
handler->function();`. -/
def call_handler (r : Except Fault (Option at_cli_command × World)) : Except Fault dispatch_t :=
  match r with
  | .error f => .error f
  | .ok p => .ok ⟨p.1, none, p.2⟩

/-- `atcmd_handler()` (`athost.c` 2844-2886), which the AT parser calls when
it has read `prefix_athost`, up to the call `handler->function()`.  The
functions of the table are the handlers (`atcmd_cip_start` and the others),
each of which starts in the state given here. -/
def atcmd_handler (C : Consts) (e : insert_env) (delim : List Nat) (w : World) :
    Except Fault dispatch_t :=
  match uart_echo C e w with
  | .error f => .error f
  | .ok r =>
  if r.1 ≠ 0 then .ok ⟨none, r.2.1, r.2.2⟩
  else
  match at_parse1 r.2.2 with
  | .error f => .error f
  | .ok r1 =>
  if r1.1 = 67 then call_handler (get_atcmd_cip_handler r1.2)
  else if r1.1 = 85 then call_handler (get_atcmd_uart_handler r1.2)
  else if r1.1 = 87 then call_handler (get_atcmd_wifi_handler r1.2)
  else if r1.1 = 89 then call_handler (get_atcmd_ywss_handler delim r1.2)
  else .ok ⟨none, none, r1.2⟩

/-! ## Dispatch: the names of the grammar and concrete runs -/

/-- The command names of the wire grammar that follow `AT+`, as the
specification lists them. -/
def grammar_names : List (List Nat) :=
  [cstr "CIPSTART", cstr "CIPSTOP", cstr "CIPSEND", cstr "CIPDOMAIN", cstr "CIPAUTOCONN",
   cstr "UARTE", cstr "WJAP=", cstr "WJAPIP?", cstr "WMAC?"]

/-- The serial input `=0,1\r` behind `AT+CIPAUTOCONN`. -/
def autoconn_on_line : List Nat := cstr "=0,1\r"

/-- The state `one_link` with `=0,1\r` pending on the serial line. -/
def one_link_autoconn_on : World := { one_link with transport := autoconn_on_line }

/-- The serial input `CIPSTARx=0,tcp_client,127.0.0.1,9000\r` behind `AT+`. -/
def cipstarx_line : List Nat := cstr "CIPSTARx=0,tcp_client,127.0.0.1,9000\r"

/-- The state in which the function selected for `cipstarx_line` on a freshly
started gateway is called. -/
def cipstarx_call : World :=
  match atcmd_handler aos_consts (env_ok 3).ack (cstr "\r") (started cipstarx_line) with
  | .ok d => d.world
  | .error _ => started cipstarx_line

/-- The state `w1` is the state `w` with some of the pending serial input
read: nothing but the transport differs, and the transport of `w1` is what
is left of the transport of `w` behind the bytes read. -/
def reads_input (w w1 : World) : Prop :=
  w1 = { w with transport := w1.transport } ∧ ∃ consumed, w.transport = consumed ++ w1.transport

/-- The serial input `X\r` behind `AT+`. -/
def unknown_line : List Nat := cstr "X\r"

/-- The serial input `CIPDxxxxx=a.b\r` behind `AT+`. -/
def cipdx_line : List Nat := cstr "CIPDxxxxx=a.b\r"

/-- The serial input `CIPAxxxxxxx=0,0\r` behind `AT+`. -/
def cipax_line : List Nat := cstr "CIPAxxxxxxx=0,0\r"

/-- The state `one_link` with the link id of its link replaced by 10000. -/
def link_id_10000 : World :=
  { one_link with
    g_link := [⟨3, 10000, 1⟩, ⟨-1, -1, 0⟩, ⟨-1, -1, 0⟩, ⟨-1, -1, 0⟩, ⟨-1, -1, 0⟩] }

/-- The state `one_link` with the link id of its link replaced by
1000000000. -/
def link_id_1000000000 : World :=
  { one_link with
    g_link := [⟨3, 1000000000, 1⟩, ⟨-1, -1, 0⟩, ⟨-1, -1, 0⟩, ⟨-1, -1, 0⟩, ⟨-1, -1, 0⟩] }

/-! ## Registry states and slots -/

/-- The registry states that can be reached from the registry `athost_init`
leaves by calls of `add_link_info` with a descriptor and a link id that are
not negative (whatever the lock and the semaphores do) and by calls of
`delete_link_info_by_sockfd`. -/
inductive RegistryReachable : List link_t → Prop
  | init : RegistryReachable (List.replicate LINK_ID_MAX ⟨-1, -1, 0⟩)
  | add (e : add_link_env) (g : List link_t) (fd linkid type : Int) :
      RegistryReachable g → 0 ≤ fd → 0 ≤ linkid →
      RegistryReachable (add_link_info e g fd linkid type).2
  | delete (lock : Int) (g : List link_t) (fd : Int) :
      RegistryReachable g → RegistryReachable (delete_link_info_by_sockfd lock g fd).2

/-- What the specification says: a connection type is present in a slot when
the field holds one of the five enumerators of `CONN_TYPE`. -/
def is_conn_type (t : Int) : Prop := 0 ≤ t ∧ t < CONN_TYPE_NUM

instance (t : Int) : Decidable (is_conn_type t) := by unfold is_conn_type; infer_instance

/-- What the specification says: a slot is fully populated when handle, link
id and connection type are all present. -/
def fully_populated (l : link_t) : Prop := 0 ≤ l.fd ∧ 0 ≤ l.linkid ∧ is_conn_type l.type

instance (l : link_t) : Decidable (fully_populated l) := by
  unfold fully_populated; infer_instance

/-- What the specification says: a slot is fully empty when handle, link id
and connection type are all absent. -/
def fully_empty (l : link_t) : Prop := l.fd < 0 ∧ l.linkid < 0 ∧ ¬ is_conn_type l.type

instance (l : link_t) : Decidable (fully_empty l) := by unfold fully_empty; infer_instance

/-- The registry after `add_link_info(3, 0, TCP_CLIENT)` and
`delete_link_info_by_sockfd(3)` on the registry `athost_init` leaves, every
system call succeeding. -/
def registry_after_add_delete : List link_t :=
  (delete_link_info_by_sockfd 0 (add_link_info ⟨0, 0, 0⟩ empty_registry 3 0 TCP_CLIENT).2 3).2

/-- The registry after `add_link_info(3, 0, SSL_CLIENT)` on the registry
`athost_init` leaves when the second semaphore cannot be created. -/
def registry_after_failed_add : List link_t :=
  (add_link_info ⟨0, 0, -1⟩ empty_registry 3 0 SSL_CLIENT).2

/-! ## `atcmd_uart_echo` (`athost.c` 2305-2349) -/

/-- `atcmd_uart_echo`: `AT+UARTE=ON` or `AT+UARTE=OFF`, with `char body[10] =
{0}` read by `socket_data_info_get(body, sizeof(body), NULL)`.
`memcmp(body, "ON", strlen(body)) == 0` holds exactly when the string in
`body` is an initial part of `ON`, and the same for `OFF`. -/
def atcmd_uart_echo (C : Consts) (e : handler_env) (w : World) : Except Fault (Int × World) :=
  if w.inited = false then .ok (handler_err C e w)
  else
  match at_parse1 w with
  | .error f => .error f
  | .ok r0 =>
  if r0.1 ≠ CH_EQ then .ok (handler_err C e r0.2)
  else
  match get_field_w 10 none r0.2 with
  | .error f => .error f
  | .ok r1 =>
  if r1.1 < 0 then .ok (handler_err C e r1.2.2)
  else if r1.2.1.isPrefixOf (cstr "ON") = true then
    .ok (0, (notify_atcmd_recv_status C e.ack { r1.2.2 with uart_echo_on := true }
      C.ATCMD_SUCCESS).2)
  else if r1.2.1.isPrefixOf (cstr "OFF") = true then
    .ok (0, (notify_atcmd_recv_status C e.ack { r1.2.2 with uart_echo_on := false }
      C.ATCMD_SUCCESS).2)
  else .ok (handler_err C e r1.2.2)

/-- The return of `atcmd_uart_echo` on a freshly started gateway (echo off)
for the serial input `input` behind `AT+UARTE`. -/
def uart_echo_run (input : List Nat) : Int × World :=
  match atcmd_uart_echo aos_consts (env_ok 3) (started input) with
  | .ok r => r
  | .error _ => (-1, started input)

/-- The return of `atcmd_uart_echo` on a started gateway with echo on for the
serial input `input` behind `AT+UARTE`. -/
def uart_echo_run_on (input : List Nat) : Int × World :=
  match atcmd_uart_echo aos_consts (env_ok 3) { started input with uart_echo_on := true } with
  | .ok r => r
  | .error _ => (-1, started input)

/-! ## Handler runs: relations and concrete inputs -/

/-- The state `w1` differs from the state `w` in the serial input only. -/
def input_only (w w1 : World) : Prop := w1 = { w with transport := w1.transport }

/-- The serial input `=7,tcp_client,127.0.0.1,9000\r` that follows
`AT+CIPSTART`. -/
def start_link7 : List Nat := cstr "=7,tcp_client,127.0.0.1,9000\r"

/-- The serial input `=0,tcp_c,127.0.0.1,9000\r` that follows `AT+CIPSTART`. -/
def start_link0_tcp_c : List Nat := cstr "=0,tcp_c,127.0.0.1,9000\r"

/-- The state `w1` differs from the state `w` in the serial queue and its
statistic only. -/
def queue_only (w w1 : World) : Prop :=
  ∃ q st, w1 = { w with uart_send_queue := q, uart_send_statistic := st }

/-- System-call results of a handler run in which `socket()` returns 3 and
`connect` fails. -/
def env_connect_fails : handler_env := { env_ok 3 with connect := -1 }

/-- The return of `AT+CIPSTART=0,tcp_client,127.0.0.1,9000\r` on a freshly
started gateway when `connect` fails. -/
def connect_failed_run : Int × World :=
  match atcmd_cip_start aos_consts env_connect_fails (started start_link0) with
  | .ok r => r
  | .error _ => (0, started start_link0)

/-- The return of `AT+CIPSTART=1,tcp_client,127.0.0.1,9000\r` in the state
`one_link_peer_closed` (descriptor 3 closed by its receive task, its slot
still in the registry) when `socket()` returns 3 again and `connect` fails. -/
def stale_connect_failed_run : Int × World :=
  match atcmd_cip_start aos_consts env_connect_fails
      { one_link_peer_closed with transport := start_link1 } with
  | .ok r => r
  | .error _ => (0, one_link_peer_closed)

/-- The state after `AT+CIPSTART=7,tcp_client,127.0.0.1,9000\r` on a freshly
started gateway, `socket()` returning descriptor 3. -/
def link_seven : World :=
  state_after (started [])
    (atcmd_cip_start aos_consts (env_ok 3) { started [] with transport := start_link7 })

/-- System-call results of a handler run in which `aos_mutex_lock` fails
inside `delete_link_info_by_sockfd`. -/
def env_delete_lock_fails : handler_env := { env_ok 3 with delete_lock := -1 }

/-- System-call results of a handler run in which the `aos_malloc` of the
payload buffer of `at_cip_send` fails. -/
def env_no_payload_buffer : handler_env := { env_ok 3 with malloc_recvdata := false }

/-- The return of a handler run on `input` in the state `w` (the state `w`
with -2 when the run does not return). -/
def run_of (h : World → Except Fault (Int × World)) (w : World) (input : List Nat) :
    Int × World :=
  match h { w with transport := input } with
  | .ok r => r
  | .error _ => (-2, w)

/-! ## Drain loops, registry locking and number conversion: records and concrete inputs -/

/-- A call of the AT transport made by `send_over_uart`. -/
inductive at_send where
  /-- Call `at.send_raw_no_rsp(cmdptr)`. -/
  | send_raw_no_rsp (cmd : List Nat)
  /-- Call `at.send_data_3stage_no_rsp(cmdptr, dataptr, datalen, NULL)`. -/
  | send_data_3stage_no_rsp (cmd data : List Nat) (datalen : Nat)
  deriving DecidableEq, Repr

/-- The transmit calls of `send_over_uart(msgptr)` (`athost.c` 199-241) in the
order they are made: none when one of the guards returns first, otherwise the
one call of the branch.  The guards are those of `send_over_uart`. -/
def send_over_uart_calls (msg : uart_send_info_t) : Except Fault (List at_send) :=
  match msg.cmdptr, msg.dataptr with
  | none, none => .ok []
  | none, some _ => .error .undefined
  | some cmd, none =>
    if c_strlen cmd ≠ msg.cmdlen then .ok []
    else .ok [.send_raw_no_rsp (c_string cmd)]
  | some cmd, some d =>
    if c_strlen cmd ≠ msg.cmdlen then .ok []
    else .ok [.send_data_3stage_no_rsp (c_string cmd) d msg.datalen]

/-- System-call results of a drain iteration in which the queue hands out an
item and the transmit call reports a failure. -/
def env_send_fails : drain_env := ⟨0, -1, 0⟩

/-- A started gateway whose serial queue holds one item, the failure
acknowledgement. -/
def serial_item_pending : World :=
  (notify_atcmd_recv_status aos_consts ⟨true, true⟩ (started []) 0).2

/-- The state after one iteration of `uart_send_task` on `serial_item_pending`
in which the transmission fails. -/
def serial_item_failed : World :=
  match uart_send_task env_send_fails serial_item_pending with
  | .ok (some w) => w
  | _ => serial_item_pending

/-- The state after one iteration of `socket_send_task`, in which the
transmission fails, on the state that `AT+CIPSEND=0,4\r` with payload `abcd`
leaves. -/
def socket_item_failed : World :=
  match socket_send_task env_send_fails cip_send_four.2 with
  | .ok (some w) => w
  | _ => cip_send_four.2

/-- A started gateway whose serial byte counter stands at 10. -/
def counted_ten : World := { started [] with uart_send_statistic := ⟨10, 0, 0, 0⟩ }

/-- The return of `insert_uart_send_msg("OK\r\n", NULL, 4, 7)` in the state
`counted_ten`. -/
def insert_null_data : Int × World :=
  insert_uart_send_msg ⟨true, true⟩ counted_ten (some (cstr "OK\r\n" ++ [0])) none 4 7

/-- The state after the drain loop has then sent that item. -/
def insert_null_data_drained : World :=
  match uart_send_task ⟨0, 0, 0⟩ insert_null_data.2 with
  | .ok (some w) => w
  | _ => insert_null_data.2

/-- The return of `insert_uart_send_msg("OK\r\n", "payload", 4, 7)` in the
state `counted_ten`. -/
def insert_with_data : Int × World :=
  insert_uart_send_msg ⟨true, true⟩ counted_ten (some (cstr "OK\r\n" ++ [0]))
    (some (cstr "payload")) 4 7

/-- The state after the drain loop has then sent that item. -/
def insert_with_data_drained : World :=
  match uart_send_task ⟨0, 0, 0⟩ insert_with_data.2 with
  | .ok (some w) => w
  | _ => insert_with_data.2

/-- The return of `AT+CIPSTART=0,tcp_client,127.0.0.1,9000\r` in the state
`one_link_peer_closed`: the receive task of link 0 has left its loop and has
closed descriptor 3; `socket()` returns 4. -/
def reuse_after_peer_closed : Int × World :=
  match atcmd_cip_start aos_consts (env_ok 4)
      { one_link_peer_closed with transport := start_link0 } with
  | .ok r => r
  | .error _ => (0, one_link_peer_closed)

/-! ### Accesses to the registry and its mutex (`athost.c` 720-857)

The five registry functions once more, this time as the record of what they
do to `g_link_mutex` and to the fields `fd`, `linkid` and `type` of the
slots.  The semaphore calls of `add_link_info` and
`delete_link_info_by_sockfd` lie between the same lock and unlock and are left
out, like the semaphores themselves. -/

/-- A step of a registry function on the mutex or on a slot. -/
inductive Access where
  /-- Call `aos_mutex_lock(&g_link_mutex, AOS_WAIT_FOREVER)` with its return
  value. -/
  | lock (ret : Int)
  /-- A field of `g_link[i]` is read. -/
  | read (i : Nat)
  /-- A field of `g_link[i]` is written. -/
  | write (i : Nat)
  /-- Call `aos_mutex_unlock(&g_link_mutex)`. -/
  | unlock
  deriving DecidableEq, Repr

/-- The loop of `find_linkid_by_sockfd` from slot `i` on: the test
`g_link[i].fd == fd`, and the read of `g_link[i].linkid` when it holds. -/
def find_linkid_reads (fd : Int) : Nat → List link_t → List Access
  | _, [] => []
  | i, l :: g =>
    (if l.fd = fd then [Access.read i, Access.read i] else [Access.read i])
      ++ find_linkid_reads fd (i + 1) g

/-- `find_linkid_by_sockfd(fd)`: the return value of `aos_mutex_lock` is not
looked at. -/
def find_linkid_by_sockfd_steps (lock : Int) (g : List link_t) (fd : Int) : List Access :=
  if fd < 0 then [] else Access.lock lock :: (find_linkid_reads fd 0 g ++ [Access.unlock])

/-- The loop of `find_conntype_by_sockfd` from slot `i` on. -/
def find_conntype_reads (fd : Int) : Nat → List link_t → List Access
  | _, [] => []
  | i, l :: g =>
    (if l.fd = fd then [Access.read i, Access.read i] else [Access.read i])
      ++ find_conntype_reads fd (i + 1) g

/-- `find_conntype_by_sockfd(fd)`: the return value of `aos_mutex_lock` is not
looked at. -/
def find_conntype_by_sockfd_steps (lock : Int) (g : List link_t) (fd : Int) : List Access :=
  if fd < 0 then [] else Access.lock lock :: (find_conntype_reads fd 0 g ++ [Access.unlock])

/-- The loop of `find_sockfd_by_linkid` from slot `i` on: the test
`g_link[i].fd >= 0`, then `g_link[i].linkid == linkid`, then the read of
`g_link[i].fd` and `break`. -/
def find_sockfd_reads (linkid : Int) : Nat → List link_t → List Access
  | _, [] => []
  | i, l :: g =>
    if l.fd ≥ 0 then
      if l.linkid = linkid then [Access.read i, Access.read i, Access.read i]
      else Access.read i :: Access.read i :: find_sockfd_reads linkid (i + 1) g
    else Access.read i :: find_sockfd_reads linkid (i + 1) g

/-- `find_sockfd_by_linkid(linkid)`: the return value of `aos_mutex_lock` is
not looked at. -/
def find_sockfd_by_linkid_steps (lock : Int) (g : List link_t) (linkid : Int) : List Access :=
  if linkid < 0 then []
  else Access.lock lock :: (find_sockfd_reads linkid 0 g ++ [Access.unlock])

/-- The loop of `add_link_info` from slot `i` on: the test `g_link[i].fd >= 0`;
in the first free slot the three stores, and two more stores when a semaphore
cannot be created. -/
def add_link_accesses (e : add_link_env) : Nat → List link_t → List Access
  | _, [] => []
  | i, l :: g =>
    if l.fd ≥ 0 then Access.read i :: add_link_accesses e (i + 1) g
    else if e.sem_start ≠ 0 then
      [Access.read i, Access.write i, Access.write i, Access.write i, Access.write i,
        Access.write i]
    else if e.sem_close ≠ 0 then
      [Access.read i, Access.write i, Access.write i, Access.write i, Access.write i,
        Access.write i]
    else [Access.read i, Access.write i, Access.write i, Access.write i]

/-- `add_link_info(fd, linkid, type)`: the function returns at once when
`aos_mutex_lock` fails. -/
def add_link_info_steps (e : add_link_env) (g : List link_t) : List Access :=
  if e.mutex_lock ≠ 0 then [Access.lock e.mutex_lock]
  else Access.lock e.mutex_lock :: (add_link_accesses e 0 g ++ [Access.unlock])

/-- The loop of `delete_link_info_by_sockfd` from slot `i` on: the test
`g_link[i].fd == sockfd` and, when it holds, the two stores. -/
def delete_link_accesses (sockfd : Int) : Nat → List link_t → List Access
  | _, [] => []
  | i, l :: g =>
    (if l.fd = sockfd then [Access.read i, Access.write i, Access.write i]
      else [Access.read i]) ++ delete_link_accesses sockfd (i + 1) g

/-- `delete_link_info_by_sockfd(sockfd)`: the function returns at once when
`aos_mutex_lock` fails. -/
def delete_link_info_by_sockfd_steps (mutex_lock : Int) (g : List link_t) (sockfd : Int) :
    List Access :=
  if sockfd < 0 then []
  else if mutex_lock ≠ 0 then [Access.lock mutex_lock]
  else Access.lock mutex_lock :: (delete_link_accesses sockfd 0 g ++ [Access.unlock])

/-- Spec side: every read and every write of the record happens while the
task holds the mutex.  The task holds it from a call of `aos_mutex_lock` that
returned 0 to the next `aos_mutex_unlock`; `held` tells whether it holds it
when the record starts. -/
def under_lock : Bool → List Access → Bool
  | _, [] => true
  | _, Access.lock ret :: t => under_lock (decide (ret = 0)) t
  | held, Access.read _ :: t => held && under_lock held t
  | held, Access.write _ :: t => held && under_lock held t
  | _, Access.unlock :: t => under_lock false t

/-- The registry between the store `g_link[i].fd = fd` of `add_link_info`
(line 796) and the two stores that follow it (`type`, line 797, and `linkid`,
line 798): the first free slot holds the new descriptor next to the type and
the link id it had before. -/
def add_link_half_written (fd : Int) : List link_t → List link_t
  | [] => []
  | l :: g => if l.fd ≥ 0 then l :: add_link_half_written fd g else ⟨fd, l.linkid, l.type⟩ :: g

/-! ### Concrete command lines -/

/-- The serial input `=12345\r` that follows `AT+CIPSTOP`. -/
def stop_link12345 : List Nat := cstr "=12345\r"

/-- The serial input `=0,ssl_client,127.0.0.1,9000\r` that follows
`AT+CIPSTART`. -/
def start_link0_ssl : List Nat := cstr "=0,ssl_client,127.0.0.1,9000\r"

/-- System-call results of a handler run in which `socket()` returns 3 and
`aos_mutex_lock` fails inside `add_link_info`. -/
def env_add_lock_fails : handler_env := { env_ok 3 with add := ⟨-1, 0, 0⟩ }

/-- The return of `AT+CIPSTART=0,ssl_client,127.0.0.1,9000\r` on a freshly
started gateway when `add_link_info` cannot take the lock. -/
def ssl_start_lock_fails : Int × World :=
  match atcmd_cip_start aos_consts env_add_lock_fails (started start_link0_ssl) with
  | .ok r => r
  | .error _ => (0, started start_link0_ssl)

/-- The serial input `=10000,tcp_client,127.0.0.1,9000\r` that follows
`AT+CIPSTART`. -/
def start_link10000 : List Nat := cstr "=10000,tcp_client,127.0.0.1,9000\r"

/-- The serial input `=10000,ssl_client,127.0.0.1,9000\r` that follows
`AT+CIPSTART`. -/
def start_link10000_ssl : List Nat := cstr "=10000,ssl_client,127.0.0.1,9000\r"

/-- The return of `AT+CIPSTART=10000,tcp_client,127.0.0.1,9000\r` on a freshly
started gateway when `connect` fails. -/
def connect_failed_10000 : Int × World :=
  match atcmd_cip_start aos_consts env_connect_fails (started start_link10000) with
  | .ok r => r
  | .error _ => (0, started start_link10000)

/-- The return of `AT+CIPSTART=10000,ssl_client,127.0.0.1,9000\r` on a freshly
started gateway when `add_link_info` cannot take the lock. -/
def ssl_10000_lock_fails : Int × World :=
  match atcmd_cip_start aos_consts env_add_lock_fails (started start_link10000_ssl) with
  | .ok r => r
  | .error _ => (0, started start_link10000_ssl)

/-! ### The failure acknowledgement and the serial queue -/

/-- The serial queue accepts the failure acknowledgement of a handler in the
state `w`: the frame fits `response[20]` and is not empty, the queue is valid
and holds fewer than 50 items, and `aos_malloc` returns a block. -/
def ack_fail_accepted (C : Consts) (e : insert_env) (w : World) : Prop :=
  (ack_fail_frame C).length < MAX_ATCMD_RESPONSE_LEN ∧ ack_fail_frame C ≠ []
    ∧ w.uart_send_queue.valid = true
    ∧ w.uart_send_queue.items.length < DEFAULT_UART_SEND_BUF_SIZE
    ∧ e.malloc_cmd = true

instance (C : Consts) (e : insert_env) (w : World) : Decidable (ack_fail_accepted C e w) := by
  unfold ack_fail_accepted; infer_instance

/-! # Lemmas and theorems -/

/-! ## The tokenizer -/

theorem set_append_cons (pre : List Nat) (x c : Nat) (tl : List Nat) :
    (pre ++ x :: tl).set pre.length c = pre ++ c :: tl := by
  induction pre with
  | nil => rfl
  | cons a pre ih => simp [ih]

/-- The loop on a field `w` of plain, valid bytes followed by a terminator,
entered at index `|pre|` of the array `pre ++ tail`: the field may end at the
capacity `buflen` itself, provided the array has room for the byte stored at
index `|pre| + |w|`. -/
theorem loop_field (buflen : Nat) (v : Option (Nat → Int)) (rest : List Nat) (t : Nat)
    (ht : t = CH_COMMA ∨ t = CH_CR) :
    ∀ (w pre tail : List Nat), pre.length + w.length ≤ buflen → w.length < tail.length →
      (∀ c ∈ w, plain c) → (∀ c ∈ w, passes v c) →
      socket_data_info_get_loop buflen v pre.length (pre ++ tail) (w ++ t :: rest) =
        .ok ⟨if t = CH_COMMA then 0 else 1, some (pre ++ w ++ 0 :: tail.drop (w.length + 1)),
             rest⟩ := by
  intro w
  induction w with
  | nil =>
    intro pre tail _ htail _ _
    cases tail with
    | nil => simp at htail
    | cons x tl =>
      rcases ht with h | h
      · subst h
        simp [socket_data_info_get_loop, set_append_cons, List.set_set]
      · subst h
        simp [socket_data_info_get_loop, set_append_cons, List.set_set, CH_CR, CH_COMMA]
  | cons c w ih =>
    intro pre tail hlen htail hplain hpass
    cases tail with
    | nil => simp at htail
    | cons x tl =>
      have hc := hplain c (List.mem_cons_self _ _)
      have hv := hpass c (List.mem_cons_self _ _)
      simp only [List.length_cons] at hlen htail
      have hi : ¬ pre.length ≥ buflen := by omega
      have hb : ¬ (pre ++ x :: tl).length ≤ pre.length := by simp
      have ih2 := ih (pre ++ [c]) tl (by simp; omega) (by omega)
        (fun y hy => hplain y (List.mem_cons_of_mem _ hy))
        (fun y hy => hpass y (List.mem_cons_of_mem _ hy))
      simp only [List.length_append, List.length_singleton, List.append_assoc,
        List.singleton_append] at ih2
      simp only [List.cons_append, socket_data_info_get_loop, hb, hc.1, hc.2, hi, if_false,
        set_append_cons]
      cases v with
      | none =>
        simp only [List.length_cons, List.drop_succ_cons, List.append_assoc, List.cons_append]
        exact ih2
      | some check =>
        have h0 : check c = 0 := hv check rfl
        simp only [h0, ne_eq, not_true_eq_false, if_false, List.length_cons,
          List.drop_succ_cons, List.append_assoc, List.cons_append]
        exact ih2

/-- The loop on plain, valid bytes `w` followed by a plain byte `c` that the
validator rejects, all below the capacity: the call fails right after `c`. -/
theorem loop_reject (buflen : Nat) (check : Nat → Int) (rest : List Nat) (c : Nat)
    (hc : plain c) (hbad : check c ≠ 0) :
    ∀ (w pre tail : List Nat), pre.length + w.length < buflen → w.length < tail.length →
      (∀ b ∈ w, plain b) → (∀ b ∈ w, check b = 0) →
      socket_data_info_get_loop buflen (some check) pre.length (pre ++ tail) (w ++ c :: rest) =
        .ok ⟨-1, some (pre ++ w ++ c :: tail.drop (w.length + 1)), rest⟩ := by
  intro w
  induction w with
  | nil =>
    intro pre tail hlen htail _ _
    cases tail with
    | nil => simp at htail
    | cons x tl =>
      simp only [List.length_nil, Nat.add_zero] at hlen
      have hi : ¬ pre.length ≥ buflen := by omega
      simp [socket_data_info_get_loop, set_append_cons, hc.1, hc.2, hi, hbad]
  | cons b w ih =>
    intro pre tail hlen htail hplain hpass
    cases tail with
    | nil => simp at htail
    | cons x tl =>
      have hb1 := hplain b (List.mem_cons_self _ _)
      have hb2 := hpass b (List.mem_cons_self _ _)
      simp only [List.length_cons] at hlen htail
      have hi : ¬ pre.length ≥ buflen := by omega
      have hb : ¬ (pre ++ x :: tl).length ≤ pre.length := by simp
      have ih2 := ih (pre ++ [b]) tl (by simp; omega) (by omega)
        (fun y hy => hplain y (List.mem_cons_of_mem _ hy))
        (fun y hy => hpass y (List.mem_cons_of_mem _ hy))
      simp only [List.length_append, List.length_singleton, List.append_assoc,
        List.singleton_append] at ih2
      simp only [List.cons_append, socket_data_info_get_loop, hb, hb1.1, hb1.2, hi, if_false,
        set_append_cons, hb2, ne_eq, not_true_eq_false, List.length_cons,
        List.drop_succ_cons, List.append_assoc]
      exact ih2

/-- C1. `socket_data_info_get` on a field that fits: for every validator,
every capacity `n ≥ 1` (an array `buf` of at least `n` bytes) and every
transport that starts with a field `w` of fewer than `n` bytes, none of them
`','` or `'\r'` and all of them accepted by the validator, followed by a
terminator `t`, the call returns 0 when `t` is `','` and 1 when `t` is `'\r'`,
leaves `w` followed by NUL in the array, and has consumed exactly `|w| + 1`
bytes (the transport holds what followed the terminator). -/
theorem C1_field_returned (v : Option (Nat → Int)) (n : Nat) (buf w rest : List Nat) (t : Nat)
    (hn : 1 ≤ n) (hbuf : n ≤ buf.length) (hlen : w.length < n)
    (hplain : ∀ c ∈ w, c ≠ CH_COMMA ∧ c ≠ CH_CR) (hpass : ∀ c ∈ w, passes v c)
    (ht : t = CH_COMMA ∨ t = CH_CR) :
    socket_data_info_get (some buf) n v (w ++ t :: rest) =
        .ok ⟨if t = CH_COMMA then 0 else 1, some (w ++ 0 :: buf.drop (w.length + 1)), rest⟩
      ∧ rest = (w ++ t :: rest).drop (w.length + 1) := by
  have hn0 : ¬ n = 0 := by omega
  have h := loop_field n v rest t ht w [] buf (by simp; omega) (by omega) hplain hpass
  simp only [List.length_nil, List.nil_append] at h
  refine ⟨?_, ?_⟩
  · simp only [socket_data_info_get, hn0, if_false]
    exact h
  · simp

/-- Witness of C1 on the inputs `"5,"` and `"5\r"` with the digit validator and
a two-byte array: the field `"5"` is returned with 0 and with 1. -/
theorem C1_field_returned_witness :
    socket_data_info_get (some [0, 0]) 2 (some socket_data_len_check) (cstr "5,") =
        .ok ⟨0, some [53, 0], []⟩
      ∧ socket_data_info_get (some [0, 0]) 2 (some socket_data_len_check) (cstr "5\r") =
        .ok ⟨1, some [53, 0], []⟩ := by
  have hp : ∀ c ∈ [53], c ≠ CH_COMMA ∧ c ≠ CH_CR := by decide
  have hv : ∀ c ∈ [53], passes (some socket_data_len_check) c := by
    intro c hc check hcheck
    cases hcheck
    simp only [List.mem_singleton] at hc
    subst hc
    decide
  exact ⟨(C1_field_returned (some socket_data_len_check) 2 [0, 0] [53] [] CH_COMMA
      (by decide) (by decide) (by decide) hp hv (Or.inl rfl)).1,
    (C1_field_returned (some socket_data_len_check) 2 [0, 0] [53] [] CH_CR
      (by decide) (by decide) (by decide) hp hv (Or.inr rfl)).1⟩

/-- C2. `socket_data_info_get`, validator rejection: for every validator
`check`, capacity `n` and transport whose first `k < n` bytes `w` are plain
and accepted and whose byte at position `k` is a plain byte `c` that `check`
rejects, the call returns -1, has consumed exactly `k + 1` bytes, and leaves
everything after `c` (the rest of the line and its terminator) unread. -/
theorem C2_validator_rejects (check : Nat → Int) (n : Nat) (buf w rest : List Nat) (c : Nat)
    (hbuf : n ≤ buf.length) (hk : w.length < n)
    (hplain : ∀ b ∈ w, b ≠ CH_COMMA ∧ b ≠ CH_CR) (hpass : ∀ b ∈ w, check b = 0)
    (hc : c ≠ CH_COMMA ∧ c ≠ CH_CR) (hbad : check c ≠ 0) :
    socket_data_info_get (some buf) n (some check) (w ++ c :: rest) =
        .ok ⟨-1, some (w ++ c :: buf.drop (w.length + 1)), rest⟩
      ∧ rest = (w ++ c :: rest).drop (w.length + 1) := by
  have hn0 : ¬ n = 0 := by omega
  have h := loop_reject n check rest c hc hbad w [] buf (by simp; omega) (by omega) hplain hpass
  simp only [List.length_nil, List.nil_append] at h
  refine ⟨?_, ?_⟩
  · simp only [socket_data_info_get, hn0, if_false]
    exact h
  · simp

/-- Witness of C2 on the input `"5a,"` with the digit validator: the call fails
after `"5a"` and leaves `","` in the transport. -/
theorem C2_validator_rejects_witness :
    socket_data_info_get (some [0, 0, 0]) 3 (some socket_data_len_check) (cstr "5a,") =
      .ok ⟨-1, some [53, 97, 0], [44]⟩ :=
  (C2_validator_rejects socket_data_len_check 3 [0, 0, 0] [53] [44] 97
    (by decide) (by decide) (by decide) (by decide) (by decide) (by decide)).1

/-- C3 (the code departs from the claim). A field of exactly `buflen` bytes
followed by `','` is not rejected: with capacity 1 and the input `"5,"` the
terminator is stored at index 1.  When the array has just the announced
capacity that store is outside of it; when the memory behind it is writable
the call returns 0 with the one-byte field.  The same happens in
`atcmd_cip_start`, whose `body[16]` receives a 16-digit link id.  Only a
field of more than `buflen` bytes returns -1. -/
theorem C3_field_of_capacity_bytes_not_rejected :
    socket_data_info_get (some [0]) 1 none (cstr "5,") = .error .undefined
      ∧ socket_data_info_get (some [0, 0]) 1 none (cstr "5,") = .ok ⟨0, some [53, 0], []⟩
      ∧ get_field 16 (some socket_data_len_check) (cstr "1234567890123456,") =
          .error .undefined
      ∧ socket_data_info_get (some [0, 0]) 1 none (cstr "56,") =
          .ok ⟨-1, some [53, 54], [44]⟩ := by
  refine ⟨rfl, rfl, rfl, rfl⟩

/-! ## Link registry -/

/-- C4 (the code departs from the claim). Link uniqueness does not hold in
every reachable state: after `AT+CIPSTART=0,...` on descriptor 3, the exit of
the receive task of descriptor 3 (which closes the descriptor but leaves its
registry slot in place), and `AT+CIPSTART=1,...` for which `socket()` hands
out descriptor 3 again, slots 0 and 1 are both occupied and both hold socket
handle 3.  The same state of the registry is reached without a receive task
when the first CIPSTART fails at `aos_task_new` and the delete that follows
cannot take the lock: the handler closes descriptor 3 and the slot stays.
(The link-id half of link uniqueness does hold in every reachable state:
`reachable_linkid_unique`.) -/
theorem C4_reachable_state_with_shared_handle :
    Reachable aos_consts stale_and_new_link
      ∧ stale_and_new_link.g_link =
          [⟨3, 0, 1⟩, ⟨3, 1, 1⟩, ⟨-1, -1, 0⟩, ⟨-1, -1, 0⟩, ⟨-1, -1, 0⟩]
      ∧ ¬ link_unique stale_and_new_link.g_link
      ∧ Reachable aos_consts failed_start_and_new_link
      ∧ failed_start_and_new_link.g_link = stale_and_new_link.g_link := by
  have h0 : Reachable aos_consts (started []) :=
    Reachable.init ⟨0, true, 0, true⟩ [] (started []) rfl
  have h1 : Reachable aos_consts one_link :=
    Reachable.cip_start (env_ok 3) start_link0 (started []) (0, one_link) h0
      (Or.inr (by decide)) rfl
  have h2 : Reachable aos_consts one_link_peer_closed :=
    Reachable.recv_exit (env_ok 3).notify 3 one_link one_link_peer_closed h1 (by decide) rfl
  have h3 : Reachable aos_consts stale_and_new_link :=
    Reachable.cip_start (env_ok 3) start_link1 one_link_peer_closed (0, stale_and_new_link) h2
      (Or.inr (by decide)) rfl
  have h4 : Reachable aos_consts failed_start :=
    Reachable.cip_start env_task_and_lock_fail start_link0 (started []) (-1, failed_start) h0
      (Or.inr (by decide)) rfl
  have h5 : Reachable aos_consts failed_start_and_new_link :=
    Reachable.cip_start (env_ok 3) start_link1 failed_start (0, failed_start_and_new_link) h4
      (Or.inr (by decide)) rfl
  have hg : stale_and_new_link.g_link =
      [⟨3, 0, 1⟩, ⟨3, 1, 1⟩, ⟨-1, -1, 0⟩, ⟨-1, -1, 0⟩, ⟨-1, -1, 0⟩] := rfl
  refine ⟨h3, hg, ?_, h5, rfl⟩
  rw [hg]
  intro h
  have := h ⟨0, by decide⟩ ⟨1, by decide⟩ (by decide) (by decide) (by decide)
  exact this.1 rfl

/-! ## Frame lemmas: what the steps of a handler leave alone -/

theorem insert_uart_send_msg_g_link (e : insert_env) (w : World)
    (cmdptr dataptr : Option (List Nat)) (cmdlen datalen : Nat) :
    (insert_uart_send_msg e w cmdptr dataptr cmdlen datalen).2.g_link = w.g_link := by
  unfold insert_uart_send_msg
  repeat' split
  all_goals rfl

theorem notify_atcmd_recv_status_g_link (C : Consts) (e : insert_env) (w : World)
    (status : Int) : (notify_atcmd_recv_status C e w status).2.g_link = w.g_link := by
  unfold notify_atcmd_recv_status
  repeat' split
  all_goals first | rfl | exact insert_uart_send_msg_g_link _ _ _ _ _ _

theorem cip_start_err_ret (C : Consts) (e : handler_env) (w : World) (fd : Int) :
    (cip_start_err C e w fd).1 = -1 := by
  unfold cip_start_err
  split <;> rfl

theorem cip_start_err_g_link (C : Consts) (e : handler_env) (w : World) (fd : Int) :
    (cip_start_err C e w fd).2.g_link = w.g_link := by
  unfold cip_start_err
  split
  · exact notify_atcmd_recv_status_g_link _ _ _ _
  · exact notify_atcmd_recv_status_g_link _ _ _ _

theorem at_parse1_g_link (w : World) (r : Nat × World) (h : at_parse1 w = .ok r) :
    r.2.g_link = w.g_link := by
  unfold at_parse1 at h
  split at h
  · cases h
  · cases h; rfl

theorem get_field_w_g_link (cap : Nat) (check : Option (Nat → Int)) (w : World)
    (r : Int × List Nat × World) (h : get_field_w cap check w = .ok r) :
    r.2.2.g_link = w.g_link := by
  unfold get_field_w at h
  split at h
  · cases h
  · cases h; rfl

/-- On a full registry the loop of `add_link_info` finds no slot. -/
theorem add_link_loop_full (fd linkid type : Int) (e : add_link_env) (g : List link_t)
    (h : registry_full g) : add_link_loop fd linkid type e g = (-1, g) := by
  induction g with
  | nil => rfl
  | cons l g ih =>
    have hl : l.fd ≥ 0 := h l (List.mem_cons_self _ _)
    have ih2 := ih (fun x hx => h x (List.mem_cons_of_mem _ hx))
    simp only [add_link_loop, hl, if_true, ih2]

/-- `add_link_info` on a full registry fails and leaves every slot as it is. -/
theorem add_link_info_full (e : add_link_env) (g : List link_t) (fd linkid type : Int)
    (h : registry_full g) : add_link_info e g fd linkid type = (-1, g) := by
  unfold add_link_info
  split
  · rfl
  · exact add_link_loop_full fd linkid type e g h

/-- Length of the digits `Nat.toDigitsCore` puts in front of `ds`. -/
theorem toDigitsCore_length (fuel : Nat) : ∀ (k n : Nat) (ds : List Char), n < 10 ^ (k + 1) →
    (Nat.toDigitsCore 10 fuel n ds).length ≤ ds.length + k + 1 := by
  induction fuel with
  | zero => intro k n ds _; simp only [Nat.toDigitsCore]; omega
  | succ f ih =>
    intro k n ds h
    simp only [Nat.toDigitsCore]
    by_cases c : n / 10 = 0
    · rw [if_pos c]
      simp only [List.length_cons]
      omega
    · rw [if_neg c]
      cases k with
      | zero =>
        have : n < 10 := by simpa using h
        omega
      | succ k =>
        have h2 : n / 10 < 10 ^ (k + 1) := by
          rw [Nat.div_lt_iff_lt_mul (by decide)]
          rw [pow_succ] at h
          exact h
        have := ih k (n / 10) (Nat.digitChar (n % 10) :: ds) h2
        simp only [List.length_cons] at this
        omega

/-- The conversion `%d` of a number below `10 ^ (k + 1)` has `k + 1` characters
at most. -/
theorem printf_d_length (k : Nat) (L : Int) (h0 : 0 ≤ L) (h1 : L < 10 ^ (k + 1)) :
    (printf_d L).length ≤ k + 1 := by
  have hn : ¬ L < 0 := by omega
  have h2 : L.toNat < 10 ^ (k + 1) := by
    have : ((L.toNat : Nat) : Int) < ((10 ^ (k + 1) : Nat) : Int) := by
      rw [Int.toNat_of_nonneg h0]
      push_cast
      exact h1
    exact_mod_cast this
  have := toDigitsCore_length (L.toNat + 1) k L.toNat [] h2
  simp only [printf_d, if_neg hn, Nat.toDigits, List.length_map]
  simpa using this

/-- The branch of a TCP client assigns the three task parameters when the
link id is below 10000: `tcp_client_9999` and its NUL fill `tskname[16]`. -/
theorem cip_start_task_client (L : Int) (h0 : 0 ≤ L) (h1 : L < 10000) :
    cip_start_task TCP_CLIENT L
      = .ok ⟨some .tcp_udp_client_recv_task, cstr "tcp_client" ++ 95 :: printf_d L,
          some 2048⟩ := by
  have hlen := printf_d_length 3 L h0 (by norm_num; exact h1)
  have hc : (cstr "tcp_client").length = 10 := by decide
  have hfit : (cstr "tcp_client" ++ 95 :: printf_d L).length + 1 ≤ 16 := by
    rw [List.length_append, List.length_cons, hc]
    omega
  simp only [cip_start_task, sprintf_tskname, if_pos hfit, if_true]

/-- For a link id below 10 the task name fits `tskname[16]` with every
prefix, so the assignments of the branch are defined for every type. -/
theorem cip_start_task_small (type L : Int) (h0 : 0 ≤ L) (h1 : L < 10) :
    ∃ ts, cip_start_task type L = .ok ts := by
  have hlen := printf_d_length 0 L h0 (by norm_num; exact h1)
  have ha : (cstr "tcp_client").length = 10 := by decide
  have hb : (cstr "udp_unicast").length = 11 := by decide
  have hc : (cstr "udp_broadcast").length = 13 := by decide
  have hfa : (cstr "tcp_client" ++ 95 :: printf_d L).length + 1 ≤ 16 := by
    rw [List.length_append, List.length_cons, ha]
    omega
  have hfb : (cstr "udp_unicast" ++ 95 :: printf_d L).length + 1 ≤ 16 := by
    rw [List.length_append, List.length_cons, hb]
    omega
  have hfc : (cstr "udp_broadcast" ++ 95 :: printf_d L).length + 1 ≤ 16 := by
    rw [List.length_append, List.length_cons, hc]
    omega
  unfold cip_start_task
  by_cases c1 : type = TCP_CLIENT
  · rw [if_pos c1]
    simp only [sprintf_tskname, if_pos hfa]
    exact ⟨_, rfl⟩
  rw [if_neg c1]
  by_cases c2 : type = UDP_UNICAST
  · rw [if_pos c2]
    simp only [sprintf_tskname, if_pos hfb]
    exact ⟨_, rfl⟩
  rw [if_neg c2]
  by_cases c3 : type = UDP_BROADCAST
  · rw [if_pos c3]
    simp only [sprintf_tskname, if_pos hfc]
    exact ⟨_, rfl⟩
  rw [if_neg c3]
  exact ⟨_, rfl⟩

/-- With a full registry every return of the second half of
`atcmd_cip_start` is a failure that leaves the registry as it is. -/
theorem cip_start_open_full (C : Consts) (e : handler_env) (w : World) (linkid type : Int)
    (h : registry_full w.g_link) (r : Int × World)
    (hrun : cip_start_open C e w linkid type = .ok r) :
    r.1 = -1 ∧ r.2.g_link = w.g_link := by
  have hadd : add_link_info e.add (after_socket e w).g_link e.socket linkid type
      = (-1, w.g_link) := add_link_info_full e.add w.g_link e.socket linkid type h
  have hg : (after_add e w linkid type).g_link = w.g_link := by
    simp only [after_add, hadd]
  have hneg : (-1 : Int) ≠ 0 := by decide
  have herr : ∀ (w1 : World) (fd : Int), w1.g_link = w.g_link →
      Except.ok (cip_start_err C e w1 fd) = Except.ok (ε := Fault) r →
      r.1 = -1 ∧ r.2.g_link = w.g_link := by
    intro w1 fd hg1 hr
    cases hr
    exact ⟨cip_start_err_ret _ _ _ _, (cip_start_err_g_link _ _ _ _).trans hg1⟩
  unfold cip_start_open at hrun
  split at hrun
  · exact herr (after_socket e w) _ rfl hrun
  split at hrun
  · exact herr (after_socket e w) _ rfl hrun
  split at hrun
  · exact herr (after_socket e w) _ rfl hrun
  split at hrun
  · exact herr (after_socket e w) _ rfl hrun
  split at hrun
  · exact herr (after_socket e w) _ rfl hrun
  cases hts : cip_start_task type linkid with
  | error f => rw [hts] at hrun; cases hrun
  | ok ts =>
    rw [hts, hadd] at hrun
    dsimp only at hrun
    rw [if_pos hneg] at hrun
    exact herr _ _ hg hrun

/-- With a full registry the second half of `atcmd_cip_start` returns when
the task name of the branch fits `tskname[16]`. -/
theorem cip_start_open_full_returns (C : Consts) (e : handler_env) (w : World)
    (linkid type : Int) (h : registry_full w.g_link) (ts : task_setup)
    (hts : cip_start_task type linkid = .ok ts) :
    ∃ r, cip_start_open C e w linkid type = .ok r := by
  have hadd : add_link_info e.add (after_socket e w).g_link e.socket linkid type
      = (-1, w.g_link) := add_link_info_full e.add w.g_link e.socket linkid type h
  have hneg : (-1 : Int) ≠ 0 := by decide
  unfold cip_start_open
  rw [hts, hadd]
  dsimp only
  rw [if_pos hneg]
  repeat' split
  all_goals exact ⟨_, rfl⟩

/-- With a full registry the middle part of `atcmd_cip_start` never succeeds
and never changes the registry. -/
theorem cip_start_args_full (C : Consts) (e : handler_env) (w : World) (linkid : Int)
    (r : Int × World) (hfull : registry_full w.g_link)
    (h : cip_start_args C e w linkid = .ok r) :
    r.1 = -1 ∧ r.2.g_link = w.g_link := by
  have herr : ∀ (w1 : World) (fd : Int), w1.g_link = w.g_link →
      Except.ok (cip_start_err C e w1 fd) = Except.ok (ε := Fault) r →
      r.1 = -1 ∧ r.2.g_link = w.g_link := by
    intro w1 fd hg hr
    cases hr
    exact ⟨cip_start_err_ret _ _ _ _, (cip_start_err_g_link _ _ _ _).trans hg⟩
  unfold cip_start_args at h
  cases h2 : get_field_w 16 (some socket_conntype_check) w with
  | error f => rw [h2] at h; cases h
  | ok r2 =>
  rw [h2] at h
  dsimp only at h
  have g2 := get_field_w_g_link _ _ _ _ h2
  by_cases c4 : r2.1 < 0 ∨ get_conntype_index (some r2.2.1) < 0
  · rw [if_pos c4] at h
    exact herr _ _ g2 h
  rw [if_neg c4] at h
  cases h3 : get_field_w 16 (some socket_ip_info_check) r2.2.2 with
  | error f => rw [h3] at h; cases h
  | ok r3 =>
  rw [h3] at h
  dsimp only at h
  have g3 := (get_field_w_g_link _ _ _ _ h3).trans g2
  by_cases c5 : r3.1 < 0
  · rw [if_pos c5] at h
    exact herr _ _ g3 h
  rw [if_neg c5] at h
  cases h4 : get_field_w 16 (some socket_data_len_check) r3.2.2 with
  | error f => rw [h4] at h; cases h
  | ok r4 =>
  rw [h4] at h
  dsimp only at h
  have g4 := (get_field_w_g_link _ _ _ _ h4).trans g3
  by_cases c6 : r4.1 < 0
  · rw [if_pos c6] at h
    exact herr _ _ g4 h
  rw [if_neg c6] at h
  by_cases c7 : atoi r4.2.1 % 2 ^ 16 = 0
  · rw [if_pos c7] at h
    exact herr _ _ g4 h
  rw [if_neg c7] at h
  by_cases c8 : e.inet_addr = C.IPADDR_NONE
  · rw [if_pos c8] at h
    exact herr _ _ g4 h
  rw [if_neg c8] at h
  split at h
  · exact herr _ _ g4 h
  obtain ⟨hr, hg⟩ := cip_start_open_full C e r4.2.2 linkid
    (get_conntype_index (some r2.2.1)) (by rw [g4]; exact hfull) r h
  exact ⟨hr, hg.trans g4⟩

/-- With a full registry `atcmd_cip_start` never succeeds and never changes
the registry, whatever the serial input and the system calls do. -/
theorem cip_start_full (C : Consts) (e : handler_env) (w : World) (r : Int × World)
    (hfull : registry_full w.g_link) (h : atcmd_cip_start C e w = .ok r) :
    r.1 = -1 ∧ r.2.g_link = w.g_link := by
  have herr : ∀ (w1 : World) (fd : Int), w1.g_link = w.g_link →
      Except.ok (cip_start_err C e w1 fd) = Except.ok (ε := Fault) r →
      r.1 = -1 ∧ r.2.g_link = w.g_link := by
    intro w1 fd hg hr
    cases hr
    exact ⟨cip_start_err_ret _ _ _ _, (cip_start_err_g_link _ _ _ _).trans hg⟩
  unfold atcmd_cip_start at h
  by_cases c0 : w.inited = false
  · rw [if_pos c0] at h
    exact herr _ _ rfl h
  rw [if_neg c0] at h
  cases h0 : at_parse1 w with
  | error f => rw [h0] at h; cases h
  | ok r0 =>
  rw [h0] at h
  dsimp only at h
  have g0 := at_parse1_g_link _ _ h0
  by_cases c1 : r0.1 ≠ CH_EQ
  · rw [if_pos c1] at h
    exact herr _ _ g0 h
  rw [if_neg c1] at h
  cases h1 : get_field_w 16 (some socket_data_len_check) r0.2 with
  | error f => rw [h1] at h; cases h
  | ok r1 =>
  rw [h1] at h
  dsimp only at h
  have g1 := (get_field_w_g_link _ _ _ _ h1).trans g0
  by_cases c2 : r1.1 < 0 ∨ atoi r1.2.1 < 0
  · rw [if_pos c2] at h
    exact herr _ _ g1 h
  rw [if_neg c2] at h
  by_cases c3 : find_sockfd_by_linkid r1.2.2.g_link (atoi r1.2.1) ≥ 0
  · rw [if_pos c3] at h
    exact herr _ _ g1 h
  rw [if_neg c3] at h
  obtain ⟨hr, hg⟩ := cip_start_args_full C e r1.2.2 (atoi r1.2.1) r
    (by rw [g1]; exact hfull) h
  exact ⟨hr, hg.trans g1⟩

/-! ## Formatting into a bounded array -/

theorem encoder_start_eq (cap : Nat) : encoder_start cap = enc_state cap [] := by
  simp [encoder_start, enc_state]

theorem drop_append_replicate (text : List Nat) (k n : Nat) (h : text.length ≤ n) :
    (text ++ List.replicate k 0).drop n = List.replicate (k - (n - text.length)) 0 := by
  rw [List.drop_append_eq_append_drop]
  rw [List.drop_of_length_le h]
  simp

/-- A guarded append whose test passes stores the whole text when the text
and its NUL fit behind the offset. -/
theorem append_field_room (cap : Nat) (text new : List Nat) (need : Nat)
    (hfit : text.length + need < cap) (hroom : text.length + new.length < cap) :
    append_field cap (enc_state cap text) need new = some (enc_state cap (text ++ new)) := by
  have hsz : ¬ cap - text.length = 0 := by omega
  have htake : List.take (cap - text.length - 1) new = new :=
    List.take_of_length_le (by omega)
  simp only [append_field, enc_state, hfit, if_true, snprintf, hsz, if_false, htake, store_at,
    List.take_left, List.length_append, List.length_singleton]
  rw [drop_append_replicate _ _ _ (by omega)]
  have hrep : [0] ++ List.replicate (cap - text.length - (text.length + (new.length + 1)
      - text.length)) 0 = List.replicate (cap - (text.length + new.length)) 0 := by
    have e1 : cap - (text.length + new.length)
        = (cap - text.length - (text.length + (new.length + 1) - text.length)) + 1 := by omega
    rw [e1, List.replicate_succ]
    rfl
  simp only [List.append_assoc]
  rw [hrep]

/-- A guarded append whose test passes and whose text is no longer than the
test assumes stores the whole text. -/
theorem append_field_fits (cap : Nat) (text new : List Nat) (need : Nat)
    (hfit : text.length + need < cap) (hneed : new.length ≤ need) :
    append_field cap (enc_state cap text) need new = some (enc_state cap (text ++ new)) :=
  append_field_room cap text new need hfit (by omega)

/-- A guarded append whose test fails is `goto err`. -/
theorem append_field_none (cap : Nat) (st : List Nat × Nat) (need : Nat) (text : List Nat)
    (h : ¬ st.2 + need < cap) : append_field cap st need text = none := by
  simp [append_field, h]

theorem append_field_some (cap : Nat) (st st1 : List Nat × Nat) (need : Nat) (text : List Nat)
    (h : append_field cap st need text = some st1) : st.2 + need < cap := by
  by_contra hc
  rw [append_field_none cap st need text hc] at h
  cases h

theorem c_string_enc_state (cap : Nat) (text : List Nat) (h0 : ∀ b ∈ text, b ≠ 0)
    (hlen : text.length < cap) : c_string (enc_state cap text).1 = text := by
  simp only [c_string, enc_state]
  have e1 : cap - text.length = (cap - text.length - 1) + 1 := by omega
  rw [e1, List.replicate_succ, List.takeWhile_append_of_pos]
  · simp
  · intro a ha
    simpa using h0 a ha

theorem c_strlen_enc_state (cap : Nat) (text : List Nat) (h0 : ∀ b ∈ text, b ≠ 0)
    (hlen : text.length < cap) : c_strlen (enc_state cap text).1 = text.length := by
  have := c_string_enc_state cap text h0 hlen
  simp only [c_string] at this
  simp only [c_strlen, this]

theorem take_enc_state (cap : Nat) (text : List Nat) :
    (enc_state cap text).1.take text.length = text := by
  simp [enc_state]

/-- Queueing the text an encoder has built: with a non-empty NUL-free text
shorter than the array, a valid queue with room and a successful allocation,
`insert_uart_send_msg(cmd, NULL, strlen(cmd), 0)` appends exactly the item
that carries the text. -/
theorem insert_encoded (e : insert_env) (w : World) (cap : Nat) (text : List Nat)
    (h0 : ∀ b ∈ text, b ≠ 0) (hne : text ≠ []) (hlen : text.length < cap)
    (hcap : cap ≤ 2 ^ 16) (hvalid : w.uart_send_queue.valid = true)
    (hroom : w.uart_send_queue.items.length < DEFAULT_UART_SEND_BUF_SIZE)
    (hmalloc : e.malloc_cmd = true) :
    insert_uart_send_msg e w (some (enc_state cap text).1) none
        (c_strlen (enc_state cap text).1 % 2 ^ 16) 0 =
      (0, { w with
            uart_send_queue :=
              { w.uart_send_queue with
                items := w.uart_send_queue.items ++ [text_item text] }
            uart_send_statistic :=
              { w.uart_send_statistic with
                total_byte := (w.uart_send_statistic.total_byte + (text.length + 0)) % 2 ^ 32 } }) := by
  have hl : text.length ≠ 0 := by
    intro hz
    exact hne (List.length_eq_zero.mp hz)
  have hmod : text.length % 2 ^ 16 = text.length := Nat.mod_eq_of_lt (by omega)
  rw [c_strlen_enc_state cap text h0 hlen, hmod]
  simp only [insert_uart_send_msg, hl, if_false, c_strlen_enc_state cap text h0 hlen,
    ne_eq, not_true_eq_false, Option.isSome_none, Bool.false_eq_true, false_and, hvalid,
    uart_send_buf, hmalloc, take_enc_state, aos_queue_send, hroom, if_true, text_item]
  simp

/-- Queueing the text an encoder has built never touches the queue when it
fails, and appends exactly the item of the text when it succeeds. -/
theorem insert_encoded_cases (e : insert_env) (w : World) (cap : Nat) (text : List Nat)
    (h0 : ∀ b ∈ text, b ≠ 0) (hlen : text.length < cap) (hcap : cap ≤ 2 ^ 16) :
    ((insert_uart_send_msg e w (some (enc_state cap text).1) none
        (c_strlen (enc_state cap text).1 % 2 ^ 16) 0).1 = 0
      ∧ (insert_uart_send_msg e w (some (enc_state cap text).1) none
        (c_strlen (enc_state cap text).1 % 2 ^ 16) 0).2.uart_send_queue.items
        = w.uart_send_queue.items ++ [text_item text])
    ∨ ((insert_uart_send_msg e w (some (enc_state cap text).1) none
        (c_strlen (enc_state cap text).1 % 2 ^ 16) 0).1 = -1
      ∧ (insert_uart_send_msg e w (some (enc_state cap text).1) none
        (c_strlen (enc_state cap text).1 % 2 ^ 16) 0).2.uart_send_queue
        = w.uart_send_queue) := by
  have hmod : text.length % 2 ^ 16 = text.length := Nat.mod_eq_of_lt (by omega)
  rw [c_strlen_enc_state cap text h0 hlen, hmod]
  unfold insert_uart_send_msg
  simp only [c_strlen_enc_state cap text h0 hlen, ne_eq, not_true_eq_false, if_false,
    Option.isSome_none, Bool.false_eq_true, false_and, uart_send_buf, take_enc_state,
    aos_queue_send, text_item]
  by_cases c1 : text.length = 0
  · simp [c1]
  by_cases c2 : w.uart_send_queue.valid = false
  · simp [c1, c2]
  by_cases c3 : e.malloc_cmd = false
  · simp [c1, c2, c3]
  by_cases c4 : w.uart_send_queue.items.length < DEFAULT_UART_SEND_BUF_SIZE
  · simp [c1, c2, c3, c4]
  · simp [c1, c2, c3, c4]

/-! ## Fields read by the handlers -/

theorem len_check_digit (c : Nat) (h : socket_data_len_check c = 0) : 48 ≤ c ∧ c ≤ 57 := by
  unfold socket_data_len_check at h
  split at h
  · cases h
  · omega

theorem ip_check_char (c : Nat) (h : socket_ip_info_check c = 0) :
    (48 ≤ c ∧ c ≤ 57) ∨ c = 46 := by
  unfold socket_ip_info_check at h
  split at h
  · cases h
  · omega

theorem conntype_check_char (c : Nat) (h : socket_conntype_check c = 0) :
    (97 ≤ c ∧ c ≤ 122) ∨ c = 95 := by
  unfold socket_conntype_check at h
  split at h
  · cases h
  · omega

/-- The tokenizer on a field that fits the array it is given. -/
theorem socket_data_info_get_field (v : Option (Nat → Int)) (n : Nat) (buf w rest : List Nat)
    (t : Nat) (hbuf : n ≤ buf.length) (hlen : w.length < n)
    (hplain : ∀ c ∈ w, plain c) (hpass : ∀ c ∈ w, passes v c)
    (ht : t = CH_COMMA ∨ t = CH_CR) :
    socket_data_info_get (some buf) n v (w ++ t :: rest) =
      .ok ⟨if t = CH_COMMA then 0 else 1, some (w ++ 0 :: buf.drop (w.length + 1)), rest⟩ := by
  have hn0 : ¬ n = 0 := by omega
  have h := loop_field n v rest t ht w [] buf (by simp; omega) (by omega) hplain hpass
  simp only [List.length_nil, List.nil_append] at h
  simp only [socket_data_info_get, hn0, if_false]
  exact h

/-- The handlers' field read on a field of plain, valid, non-NUL bytes that
is shorter than the array. -/
theorem get_field_ok (cap : Nat) (v : Option (Nat → Int)) (w rest : List Nat) (t : Nat)
    (hlen : w.length < cap) (hplain : ∀ c ∈ w, plain c) (hpass : ∀ c ∈ w, passes v c)
    (h0 : ∀ c ∈ w, c ≠ 0) (ht : t = CH_COMMA ∨ t = CH_CR) :
    get_field cap v (w ++ t :: rest) = .ok (if t = CH_COMMA then 0 else 1, w, rest) := by
  have h := socket_data_info_get_field v cap (List.replicate cap 0) w rest t (by simp) hlen
    hplain hpass ht
  have hs : c_string (w ++ 0 :: List.drop (w.length + 1) (List.replicate cap 0)) = w := by
    simp only [c_string]
    rw [List.takeWhile_append_of_pos]
    · simp
    · intro a ha
      simpa using h0 a ha
  simp only [get_field, h, Option.getD_some, hs]

/-- A field accepted by the digit validator, read into `char body[cap]`. -/
theorem get_field_digits (cap : Nat) (d rest : List Nat) (t : Nat) (hlen : d.length < cap)
    (hd : ∀ c ∈ d, socket_data_len_check c = 0) (ht : t = CH_COMMA ∨ t = CH_CR) :
    get_field cap (some socket_data_len_check) (d ++ t :: rest) =
      .ok (if t = CH_COMMA then 0 else 1, d, rest) := by
  apply get_field_ok cap _ d rest t hlen _ _ _ ht
  · intro c hc
    have := len_check_digit c (hd c hc)
    simp only [plain, CH_COMMA, CH_CR]
    omega
  · intro c hc check hcheck
    cases hcheck
    exact hd c hc
  · intro c hc
    have := len_check_digit c (hd c hc)
    omega

/-- A field accepted by the address validator, read into `char remoteip[cap]`. -/
theorem get_field_ip (cap : Nat) (d rest : List Nat) (t : Nat) (hlen : d.length < cap)
    (hd : ∀ c ∈ d, socket_ip_info_check c = 0) (ht : t = CH_COMMA ∨ t = CH_CR) :
    get_field cap (some socket_ip_info_check) (d ++ t :: rest) =
      .ok (if t = CH_COMMA then 0 else 1, d, rest) := by
  apply get_field_ok cap _ d rest t hlen _ _ _ ht
  · intro c hc
    have := ip_check_char c (hd c hc)
    simp only [plain, CH_COMMA, CH_CR]
    omega
  · intro c hc check hcheck
    cases hcheck
    exact hd c hc
  · intro c hc
    have := ip_check_char c (hd c hc)
    omega

theorem get_field_w_eq (cap : Nat) (v : Option (Nat → Int)) (w : World) (ret : Int)
    (body rest : List Nat) (h : get_field cap v w.transport = .ok (ret, body, rest)) :
    get_field_w cap v w = .ok (ret, body, { w with transport := rest }) := by
  simp only [get_field_w, h]

/-! ## `itoa_decimal` -/

theorem tmod_ten_bounds (n : Int) : -9 ≤ Int.tmod n 10 ∧ Int.tmod n 10 ≤ 9 := by
  cases n with
  | ofNat m =>
    have : Int.tmod (Int.ofNat m) 10 = ((m % 10 : Nat) : Int) := rfl
    rw [this]
    omega
  | negSucc m =>
    have : Int.tmod (Int.negSucc m) 10 = -(((m + 1) % 10 : Nat) : Int) := rfl
    rw [this]
    omega

theorem itoa_digits_nonzero (fuel : Nat) : ∀ (n : Int), ∀ b ∈ itoa_digits fuel n, b ≠ 0 := by
  induction fuel with
  | zero => intro n b hb; simp [itoa_digits] at hb
  | succ fuel ih =>
    intro n b hb
    have hd : ((Int.tmod n 10 + 48) % 256).toNat ≠ 0 := by
      have := tmod_ten_bounds n
      omega
    simp only [itoa_digits] at hb
    split at hb
    · rcases List.mem_cons.mp hb with h | h
      · rw [h]; exact hd
      · exact ih _ b h
    · rw [List.mem_singleton.mp hb]; exact hd

/-- The text written by `itoa_decimal` has no NUL byte, for every `int`. -/
theorem itoa_text_nonzero (n : Int) : ∀ b ∈ itoa_text n, b ≠ 0 := by
  intro b hb
  simp only [itoa_text] at hb
  split at hb
  · simp only [List.reverse_append, List.reverse_cons, List.reverse_nil, List.nil_append,
      List.singleton_append, List.mem_cons, List.mem_reverse] at hb
    rcases hb with h | h
    · omega
    · exact itoa_digits_nonzero _ _ b h
  · simp only [List.mem_reverse] at hb
    exact itoa_digits_nonzero _ _ b hb

theorem itoa_digits_length (k : Nat) : ∀ (fuel : Nat) (n : Int), 0 ≤ n → n < 10 ^ (k + 1) →
    (itoa_digits (fuel + 1) n).length ≤ k + 1 := by
  induction k with
  | zero =>
    intro fuel n h0 h1
    have : ¬ Int.tdiv n 10 > 0 := by
      rw [Int.tdiv_eq_ediv h0 (by decide)]
      omega
    simp [itoa_digits, this]
  | succ k ih =>
    intro fuel n h0 h1
    simp only [itoa_digits]
    split
    · cases fuel with
      | zero => simp [itoa_digits]
      | succ fuel =>
        have hq : Int.tdiv n 10 < 10 ^ (k + 1) := by
          rw [Int.tdiv_eq_ediv h0 (by decide)]
          have : (10 : Int) ^ (k + 1 + 1) = 10 * 10 ^ (k + 1) := by ring
          omega
        have := ih fuel (Int.tdiv n 10) (Int.tdiv_nonneg h0 (by decide)) hq
        simp only [List.length_cons]
        omega
    · simp

/-- A link id below 10000 fits `char linkid_str[5]`. -/
theorem itoa_decimal_linkid (n : Int) (h0 : 0 ≤ n) (h1 : n < 10000) :
    itoa_decimal 5 n = .ok (itoa_text n) := by
  have hlen : (itoa_text n).length ≤ 4 := by
    have hn : ¬ n < 0 := by omega
    simp only [itoa_text, hn, if_false, List.length_reverse]
    exact itoa_digits_length 3 9 n h0 (by norm_num; omega)
  simp only [itoa_decimal]
  rw [if_pos (by omega)]

theorem itoa_decimal_ok (cap : Nat) (n : Int) (s : List Nat) (h : itoa_decimal cap n = .ok s) :
    s = itoa_text n ∧ s.length < cap := by
  unfold itoa_decimal at h
  split at h
  · cases h
    exact ⟨rfl, by omega⟩
  · cases h

/-! ## Sequences of guarded appends -/

theorem run_appends_none (cap : Nat) (steps : List append_step) :
    run_appends cap steps none = .ok none := by
  cases steps with
  | nil => rfl
  | cons s rest => cases s <;> simp [run_appends]

/-- When a sequence of guarded appends ends with a text in the array, every
step was carried out, the array holds the concatenation of all the texts,
and that concatenation is shorter than the array. -/
theorem run_appends_spec (cap : Nat) :
    ∀ (steps : List append_step) (text : List Nat) (st : List Nat × Nat),
      text.length < cap →
      (∀ s ∈ steps, ∀ p, s = .ok p → p.2.length ≤ p.1) →
      run_appends cap steps (some (enc_state cap text)) = .ok (some st) →
      st = enc_state cap (text ++ steps_text steps)
        ∧ (text ++ steps_text steps).length < cap
        ∧ (∀ s ∈ steps, ∃ p, s = .ok p) := by
  intro steps
  induction steps with
  | nil =>
    intro text st hlen _ h
    simp only [run_appends] at h
    cases h
    simp [steps_text, hlen]
  | cons s rest ih =>
    intro text st hlen hstep h
    cases s with
    | error f => simp [run_appends] at h
    | ok p =>
      simp only [run_appends] at h
      by_cases hc : text.length + p.1 < cap
      · have hp := hstep (.ok p) (List.mem_cons_self _ _) p rfl
        have happ : append_field cap (enc_state cap text) p.1 p.2
            = some (enc_state cap (text ++ p.2)) := append_field_fits cap text p.2 p.1 hc hp
        rw [happ] at h
        have hl2 : (text ++ p.2).length < cap := by
          simp only [List.length_append]; omega
        obtain ⟨h1, h2, h3⟩ := ih (text ++ p.2) st hl2
          (fun s hs => hstep s (List.mem_cons_of_mem _ hs)) h
        refine ⟨?_, ?_, ?_⟩
        · simpa [steps_text, List.append_assoc] using h1
        · simpa [steps_text, List.append_assoc] using h2
        · intro s hs
          rcases List.mem_cons.mp hs with hs | hs
          · exact ⟨p, hs⟩
          · exact h3 s hs
      · have happ : append_field cap (enc_state cap text) p.1 p.2 = none :=
          append_field_none cap _ _ _ hc
        rw [happ, run_appends_none] at h
        cases h

/-- A sequence of guarded appends whose tests add exactly the length of the
text they append succeeds when the concatenation of all the texts is shorter
than the array. -/
theorem run_appends_fits (cap : Nat) :
    ∀ (steps : List append_step) (text : List Nat),
      (∀ s ∈ steps, ∃ p, s = .ok p ∧ p.2.length = p.1) →
      (text ++ steps_text steps).length < cap →
      run_appends cap steps (some (enc_state cap text)) =
        .ok (some (enc_state cap (text ++ steps_text steps))) := by
  intro steps
  induction steps with
  | nil =>
    intro text _ _
    simp [run_appends, steps_text]
  | cons s rest ih =>
    intro text hstep hlen
    obtain ⟨p, hs, hp⟩ := hstep s (List.mem_cons_self _ _)
    subst hs
    simp only [steps_text, List.length_append] at hlen
    have hc : text.length + p.1 < cap := by omega
    have happ : append_field cap (enc_state cap text) p.1 p.2
        = some (enc_state cap (text ++ p.2)) :=
      append_field_fits cap text p.2 p.1 hc (by omega)
    simp only [run_appends, happ, steps_text]
    rw [ih (text ++ p.2) (fun s hs => hstep s (List.mem_cons_of_mem _ hs))
      (by simp only [List.length_append]; omega)]
    simp [List.append_assoc]

theorem number_comma_ok (cap : Nat) (n : Int) (p : Nat × List Nat)
    (h : number_comma cap n = .ok p) :
    p = ((itoa_text n).length + 1, itoa_text n ++ [CH_COMMA]) := by
  unfold number_comma at h
  cases hi : itoa_decimal cap n with
  | error f => rw [hi] at h; cases h
  | ok s =>
    rw [hi] at h
    cases h
    rw [(itoa_decimal_ok cap n s hi).1]

theorem comma_port_cr_ok (port : Int) (p : Nat × List Nat) (h : comma_port_cr port = .ok p) :
    p = ((itoa_text port).length + 1 + 1, CH_COMMA :: itoa_text port ++ [CH_CR]) := by
  unfold comma_port_cr at h
  cases hi : itoa_decimal 6 port with
  | error f => rw [hi] at h; cases h
  | ok s =>
    rw [hi] at h
    cases h
    rw [(itoa_decimal_ok 6 port s hi).1]

/-! ## What the encoders queue -/

/-- Queueing an encoded header (with or without payload): the call either
returns 0 and appends one item that carries the header text, or returns -1
and leaves the queue as it is. -/
theorem insert_cases (e : insert_env) (w : World) (cap : Nat) (text : List Nat)
    (dataptr : Option (List Nat)) (datalen : Nat)
    (h0 : ∀ b ∈ text, b ≠ 0) (hlen : text.length < cap) (hcap : cap ≤ 2 ^ 16) :
    ((insert_uart_send_msg e w (some (enc_state cap text).1) dataptr
        (c_strlen (enc_state cap text).1 % 2 ^ 16) datalen).1 = 0
      ∧ ∃ item : uart_send_info_t, item.cmdptr = some (text ++ [0]) ∧ item.cmdlen = text.length
        ∧ (dataptr = none → item = text_item text)
        ∧ (insert_uart_send_msg e w (some (enc_state cap text).1) dataptr
          (c_strlen (enc_state cap text).1 % 2 ^ 16) datalen).2.uart_send_queue.items
          = w.uart_send_queue.items ++ [item])
    ∨ ((insert_uart_send_msg e w (some (enc_state cap text).1) dataptr
        (c_strlen (enc_state cap text).1 % 2 ^ 16) datalen).1 = -1
      ∧ (insert_uart_send_msg e w (some (enc_state cap text).1) dataptr
        (c_strlen (enc_state cap text).1 % 2 ^ 16) datalen).2.uart_send_queue
        = w.uart_send_queue) := by
  have hmod : text.length % 2 ^ 16 = text.length := Nat.mod_eq_of_lt (by omega)
  rw [c_strlen_enc_state cap text h0 hlen, hmod]
  unfold insert_uart_send_msg
  simp only [c_strlen_enc_state cap text h0 hlen, ne_eq, not_true_eq_false, if_false,
    take_enc_state, aos_queue_send]
  by_cases c1 : text.length = 0
  · simp [c1]
  by_cases c1b : dataptr.isSome = true ∧ datalen = 0
  · simp [c1, c1b]
  by_cases c2 : w.uart_send_queue.valid = false
  · simp [c1, c1b, c2]
  simp only [c1, c1b, c2, if_false]
  cases hb : uart_send_buf e (enc_state cap text).1 dataptr text.length datalen with
  | none => simp
  | some item =>
    have hitem : item.cmdptr = some (text ++ [0]) ∧ item.cmdlen = text.length
        ∧ (dataptr = none → item = text_item text) := by
      unfold uart_send_buf at hb
      rw [take_enc_state] at hb
      split at hb
      · cases hb
      · split at hb
        · split at hb
          · split at hb
            · cases hb
            · cases hb
              simp
          · cases hb
            simp
        · cases hb
          simp [text_item]
    by_cases c4 : w.uart_send_queue.items.length < DEFAULT_UART_SEND_BUF_SIZE
    · simp only [c4, if_true]
      exact Or.inl ⟨rfl, item, hitem.1, hitem.2.1, hitem.2.2, rfl⟩
    · simp only [c4, if_false]
      exact Or.inr ⟨rfl, rfl⟩

theorem cstr_nonzero_SERVER : ∀ b ∈ cstr "SERVER", b ≠ 0 := by decide
theorem cstr_nonzero_CLIENT : ∀ b ∈ cstr "CLIENT", b ≠ 0 := by decide
theorem cstr_nonzero_UDP : ∀ b ∈ cstr "UDP", b ≠ 0 := by decide
theorem cstr_nonzero_CONNECTED : ∀ b ∈ cstr "CONNECTED", b ≠ 0 := by decide
theorem cstr_nonzero_CLOSED : ∀ b ∈ cstr "CLOSED", b ≠ 0 := by decide
theorem cstr_nonzero_SOCKET : ∀ b ∈ cstr "SOCKET", b ≠ 0 := by decide
theorem cstr_nonzero_UDP_BROADCAST : ∀ b ∈ cstr "UDP_BROADCAST", b ≠ 0 := by decide
theorem prefix_cipevent_nonzero : ∀ b ∈ prefix_cipevent, b ≠ 0 := by decide

theorem c_string_nonzero (m : List Nat) : ∀ b ∈ c_string m, b ≠ 0 := by
  intro b hb
  have := List.mem_takeWhile_imp hb
  simpa using this

theorem conn_status_type_str_nonzero (type : Int) (s : List Nat)
    (h : conn_status_type_str type = some s) : ∀ b ∈ s, b ≠ 0 := by
  unfold conn_status_type_str at h
  split at h
  · cases h; exact cstr_nonzero_SERVER
  · split at h
    · cases h; exact cstr_nonzero_CLIENT
    · split at h
      · cases h; exact cstr_nonzero_UDP
      · cases h

/-- The texts of the connection-status steps, when every step is carried
out, concatenate to the frame of the wire grammar. -/
theorem conn_status_steps_text (C : Consts) (recvstatus type linkid : Int)
    (type_str status_str addr_str : List Nat) (port : Int)
    (hall : ∀ s ∈ conn_status_steps C recvstatus type linkid type_str status_str addr_str port,
      ∃ p, s = .ok p) :
    steps_text (conn_status_steps C recvstatus type linkid type_str status_str addr_str port)
      = conn_status_text C recvstatus type linkid type_str status_str addr_str port := by
  have hnum : type ≠ TCP_SERVER →
      number_comma 5 linkid = .ok ((itoa_text linkid).length + 1, itoa_text linkid ++ [CH_COMMA]) := by
    intro ht
    obtain ⟨p, hp⟩ := hall (number_comma 5 linkid) (by simp [conn_status_steps, ht])
    rw [hp, number_comma_ok 5 linkid p hp]
  have hport : type = TCP_SERVER →
      comma_port_cr port = .ok ((itoa_text port).length + 1 + 1,
        CH_COMMA :: itoa_text port ++ [CH_CR]) := by
    intro ht
    obtain ⟨p, hp⟩ := hall (comma_port_cr port) (by simp [conn_status_steps, ht])
    rw [hp, comma_port_cr_ok port p hp]
  by_cases ht : type = TCP_SERVER
  · by_cases hr : recvstatus > 0
    · simp [conn_status_steps, conn_status_text, ht, hr, steps_text, hport ht]
    · simp [conn_status_steps, conn_status_text, ht, hr, steps_text, hport ht]
  · by_cases hr : recvstatus > 0
    · simp [conn_status_steps, conn_status_text, ht, hr, steps_text, hnum ht]
    · simp [conn_status_steps, conn_status_text, ht, hr, steps_text, hnum ht]

theorem conn_status_steps_need (C : Consts) (recvstatus type linkid : Int)
    (type_str status_str addr_str : List Nat) (port : Int) :
    ∀ s ∈ conn_status_steps C recvstatus type linkid type_str status_str addr_str port,
      ∀ p, s = .ok p → p.2.length ≤ p.1 := by
  intro s hs p hp
  subst hp
  simp only [conn_status_steps, List.mem_append, List.mem_cons, List.mem_singleton,
    List.not_mem_nil, or_false] at hs
  rcases hs with ((((h | h) | h) | h) | h) | h
  · split at h
    · simp at h; cases h; simp
    · simp at h
  · cases h; simp
  · split at h
    · simp at h
    · simp at h
      rw [number_comma_ok 5 linkid p h.symm]
      simp
  · rcases h with h | h
    · cases h; simp
    · cases h; simp
  · split at h
    · simp at h
      rcases h with h | h
      · cases h; simp
      · rw [comma_port_cr_ok port p h.symm]
        simp
    · simp at h
  · split at h
    · simp at h; cases h; simp
    · simp at h

theorem nz_append {a b : List Nat} (ha : ∀ x ∈ a, x ≠ 0) (hb : ∀ x ∈ b, x ≠ 0) :
    ∀ x ∈ a ++ b, x ≠ 0 := by
  intro x hx
  rcases List.mem_append.mp hx with h | h
  · exact ha x h
  · exact hb x h

theorem nz_cons {c : Nat} {a : List Nat} (hc : c ≠ 0) (ha : ∀ x ∈ a, x ≠ 0) :
    ∀ x ∈ c :: a, x ≠ 0 := by
  intro x hx
  rcases List.mem_cons.mp hx with h | h
  · rw [h]; exact hc
  · exact ha x h

theorem nz_nil : ∀ x ∈ ([] : List Nat), x ≠ 0 := by
  intro x hx
  cases hx

theorem nz_ite {p : Prop} [Decidable p] {a b : List Nat} (ha : ∀ x ∈ a, x ≠ 0)
    (hb : ∀ x ∈ b, x ≠ 0) : ∀ x ∈ (if p then a else b), x ≠ 0 := by
  split
  · exact ha
  · exact hb

theorem conn_status_text_nonzero (C : Consts) (recvstatus type linkid : Int)
    (type_str status_str addr_str : List Nat) (port : Int)
    (h1 : ∀ b ∈ type_str, b ≠ 0) (h2 : ∀ b ∈ status_str, b ≠ 0) (h3 : ∀ b ∈ addr_str, b ≠ 0) :
    ∀ b ∈ conn_status_text C recvstatus type linkid type_str status_str addr_str port,
      b ≠ 0 := by
  unfold conn_status_text
  repeat' first
    | exact nz_nil
    | exact C.recv_text
    | exact C.success_text
    | exact prefix_cipevent_nonzero
    | exact itoa_text_nonzero _
    | exact h1
    | exact h2
    | exact h3
    | decide
    | apply nz_append
    | apply nz_ite
    | apply nz_cons

/-- Every return of `notify_cip_connect_status_events`: either 0 with exactly
one item queued, which carries the complete frame of the wire grammar and is
shorter than `cmd[80]`, or -1 with the queue as before. -/
theorem conn_status_frame (C : Consts) (e : notify_env) (w : World)
    (sockid status recvstatus : Int) (r : Int × World)
    (h : notify_cip_connect_status_events C e w sockid status recvstatus = .ok r) :
    conn_status_outcome C e w sockid status recvstatus r := by
  unfold conn_status_outcome
  have hfail : ∀ x : Except Fault (Int × World), x = .ok (-1, w) → x = .ok r →
      r.1 = -1 ∧ r.2.uart_send_queue = w.uart_send_queue := by
    intro x hx hr
    rw [hx] at hr
    cases hr
    exact ⟨rfl, rfl⟩
  unfold notify_cip_connect_status_events at h
  by_cases c0 : sockid < 0
  · rw [if_pos c0] at h
    exact Or.inr (hfail _ rfl h)
  rw [if_neg c0] at h
  cases hs : (if status = C.CIP_STATUS_CONNECTED then some (cstr "CONNECTED")
      else if status = C.CIP_STATUS_CLOSED then some (cstr "CLOSED") else none) with
  | none =>
    rw [hs] at h
    exact Or.inr (hfail _ rfl h)
  | some status_str =>
  rw [hs] at h
  dsimp only at h
  have hstatus : status_str = cstr "CONNECTED" ∨ status_str = cstr "CLOSED" := by
    split at hs
    · cases hs; exact Or.inl rfl
    · split at hs
      · cases hs; exact Or.inr rfl
      · cases hs
  have hsnz : ∀ b ∈ status_str, b ≠ 0 := by
    rcases hstatus with hh | hh
    · rw [hh]; exact cstr_nonzero_CONNECTED
    · rw [hh]; exact cstr_nonzero_CLOSED
  cases ht : conn_status_type_str (find_conntype_by_sockfd w.g_link sockid e.uninit_type) with
  | none =>
    rw [ht] at h
    exact Or.inr (hfail _ rfl h)
  | some type_str =>
  rw [ht] at h
  dsimp only at h
  by_cases c1 : find_conntype_by_sockfd w.g_link sockid e.uninit_type = TCP_SERVER
      ∧ e.peer.ret ≠ 0
  · rw [if_pos c1] at h
    exact Or.inr (hfail _ rfl h)
  rw [if_neg c1] at h
  cases ha : (if find_conntype_by_sockfd w.g_link sockid e.uninit_type = TCP_SERVER then
      peer_addr_str e.peer else .ok []) with
  | error f => rw [ha] at h; cases h
  | ok addr_str =>
  rw [ha] at h
  dsimp only at h
  have hanz : ∀ b ∈ addr_str, b ≠ 0 := by
    split at ha
    · unfold peer_addr_str at ha
      split at ha
      · cases ha; exact c_string_nonzero _
      · cases ha
    · cases ha; exact nz_nil
  by_cases c2 : find_linkid_by_sockfd w.g_link sockid < 0
  · rw [if_pos c2] at h
    exact Or.inr (hfail _ rfl h)
  rw [if_neg c2] at h
  cases hc : conn_status_cmd C recvstatus (find_conntype_by_sockfd w.g_link sockid e.uninit_type)
      (find_linkid_by_sockfd w.g_link sockid) type_str status_str addr_str
      ((e.peer.port % 2 ^ 16 : Nat) : Int) with
  | error f => rw [hc] at h; cases h
  | ok o =>
  rw [hc] at h
  cases o with
  | none =>
    dsimp only at h
    exact Or.inr (hfail _ rfl h)
  | some st =>
  dsimp only at h
  unfold conn_status_cmd at hc
  rw [encoder_start_eq] at hc
  obtain ⟨hst, hlen, hall⟩ := run_appends_spec MAX_ATCMD_CON_STATUS_LEN _ [] st (by decide)
    (conn_status_steps_need C _ _ _ _ _ _ _) hc
  rw [List.nil_append, conn_status_steps_text C _ _ _ _ _ _ _ hall] at hst hlen
  have hnz := conn_status_text_nonzero C recvstatus
    (find_conntype_by_sockfd w.g_link sockid e.uninit_type)
    (find_linkid_by_sockfd w.g_link sockid) type_str status_str addr_str
    ((e.peer.port % 2 ^ 16 : Nat) : Int) (conn_status_type_str_nonzero _ _ ht) hsnz hanz
  subst hst
  rcases insert_cases e.ins w MAX_ATCMD_CON_STATUS_LEN _ none 0 hnz hlen (by decide) with
    ⟨h1, item, _, _, hitem, hq⟩ | ⟨h1, hq⟩
  · rw [if_neg (by rw [h1]; decide)] at h
    cases h
    refine Or.inl ⟨rfl, type_str, status_str, addr_str, rfl, rfl, rfl, hlen, ?_⟩
    rw [hq, hitem rfl]
  · rw [if_pos (by rw [h1]; decide)] at h
    cases h
    exact Or.inr ⟨rfl, hq⟩

theorem data_recv_steps_text (type linkid datalen : Int) (type_str addr_str : List Nat)
    (port : Int)
    (hall : ∀ s ∈ data_recv_steps type linkid datalen type_str addr_str port, ∃ p, s = .ok p) :
    steps_text (data_recv_steps type linkid datalen type_str addr_str port)
      = data_recv_text type linkid datalen type_str addr_str port := by
  have hnum : ∀ n : Int, number_comma 10 n ∈
        data_recv_steps type linkid datalen type_str addr_str port →
      number_comma 10 n = .ok ((itoa_text n).length + 1, itoa_text n ++ [CH_COMMA]) := by
    intro n hn
    obtain ⟨p, hp⟩ := hall _ hn
    rw [hp, number_comma_ok 10 n p hp]
  have h1 := hnum linkid (by simp [data_recv_steps])
  have h2 := hnum datalen (by simp [data_recv_steps])
  by_cases ht : type = UDP_BROADCAST
  · have h3 := hnum port (by simp [data_recv_steps, ht])
    simp [data_recv_steps, data_recv_text, ht, steps_text, h1, h2, h3]
  · simp [data_recv_steps, data_recv_text, ht, steps_text, h1, h2]

theorem data_recv_steps_need (type linkid datalen : Int) (type_str addr_str : List Nat)
    (port : Int) :
    ∀ s ∈ data_recv_steps type linkid datalen type_str addr_str port,
      ∀ p, s = .ok p → p.2.length ≤ p.1 := by
  intro s hs p hp
  subst hp
  have hnum : ∀ n : Int, Except.ok p = number_comma 10 n → p.2.length ≤ p.1 := by
    intro n hn
    rw [number_comma_ok 10 n p hn.symm]
    simp
  simp only [data_recv_steps, List.mem_append, List.mem_cons, List.mem_singleton,
    List.not_mem_nil, or_false] at hs
  rcases hs with ((h | h) | h) | h
  · cases h; simp
  · cases h; simp
  · split at h
    · simp at h
      rcases h with h | h
      · cases h; simp
      · exact hnum _ h
    · simp at h
  · rcases h with h | h
    · exact hnum _ h
    · exact hnum _ h

theorem data_recv_text_nonzero (type linkid datalen : Int) (type_str addr_str : List Nat)
    (port : Int) (h1 : ∀ b ∈ type_str, b ≠ 0) (h3 : ∀ b ∈ addr_str, b ≠ 0) :
    ∀ b ∈ data_recv_text type linkid datalen type_str addr_str port, b ≠ 0 := by
  unfold data_recv_text
  repeat' first
    | exact nz_nil
    | exact prefix_cipevent_nonzero
    | exact itoa_text_nonzero _
    | exact h1
    | exact h3
    | decide
    | apply nz_append
    | apply nz_ite

/-- Every return of `notify_cip_data_recv_event`: either 0 with exactly one
item queued, whose header is the complete header of the wire grammar and is
shorter than `sendbuf[60]`, or -1 with the queue as before. -/
theorem data_recv_frame (e : notify_env) (w : World) (sockid : Int)
    (databuf : Option (List Nat)) (datalen : Int) (r : Int × World)
    (h : notify_cip_data_recv_event e w sockid databuf datalen = .ok r) :
    data_recv_outcome e w sockid datalen r := by
  unfold data_recv_outcome
  have hfail : ∀ x : Except Fault (Int × World), x = .ok (-1, w) → x = .ok r →
      r.1 = -1 ∧ r.2.uart_send_queue = w.uart_send_queue := by
    intro x hx hr
    rw [hx] at hr
    cases hr
    exact ⟨rfl, rfl⟩
  unfold notify_cip_data_recv_event at h
  by_cases c0 : sockid < 0
  · rw [if_pos c0] at h
    exact Or.inr (hfail _ rfl h)
  rw [if_neg c0] at h
  by_cases c1 : find_conntype_by_sockfd w.g_link sockid e.uninit_type = UDP_BROADCAST
      ∧ e.peer.ret ≠ 0
  · rw [if_pos c1] at h
    exact Or.inr (hfail _ rfl h)
  rw [if_neg c1] at h
  cases ha : (if find_conntype_by_sockfd w.g_link sockid e.uninit_type = UDP_BROADCAST then
      peer_addr_str e.peer else .ok []) with
  | error f => rw [ha] at h; cases h
  | ok addr_str =>
  rw [ha] at h
  dsimp only at h
  have hanz : ∀ b ∈ addr_str, b ≠ 0 := by
    split at ha
    · unfold peer_addr_str at ha
      split at ha
      · cases ha; exact c_string_nonzero _
      · cases ha
    · cases ha; exact nz_nil
  by_cases c2 : find_linkid_by_sockfd w.g_link sockid < 0
  · rw [if_pos c2] at h
    exact Or.inr (hfail _ rfl h)
  rw [if_neg c2] at h
  generalize hts : (if find_conntype_by_sockfd w.g_link sockid e.uninit_type = UDP_BROADCAST
      then cstr "UDP_BROADCAST" else cstr "SOCKET") = type_str at h
  have htype : type_str = cstr "UDP_BROADCAST" ∨ type_str = cstr "SOCKET" := by
    split at hts
    · exact Or.inl hts.symm
    · exact Or.inr hts.symm
  have htnz : ∀ b ∈ type_str, b ≠ 0 := by
    rcases htype with hh | hh
    · rw [hh]; exact cstr_nonzero_UDP_BROADCAST
    · rw [hh]; exact cstr_nonzero_SOCKET
  cases hc : data_recv_cmd (find_conntype_by_sockfd w.g_link sockid e.uninit_type)
      (find_linkid_by_sockfd w.g_link sockid) datalen type_str addr_str
      ((e.peer.port % 2 ^ 16 : Nat) : Int) with
  | error f => rw [hc] at h; cases h
  | ok o =>
  rw [hc] at h
  cases o with
  | none =>
    dsimp only at h
    exact Or.inr (hfail _ rfl h)
  | some st =>
  dsimp only at h
  unfold data_recv_cmd at hc
  rw [encoder_start_eq] at hc
  obtain ⟨hst, hlen, hall⟩ := run_appends_spec MAX_ATCMD_DATA_RECV_PREFIX_LEN _ [] st
    (by decide) (data_recv_steps_need _ _ _ _ _ _) hc
  rw [List.nil_append, data_recv_steps_text _ _ _ _ _ _ hall] at hst hlen
  have hnz := data_recv_text_nonzero (find_conntype_by_sockfd w.g_link sockid e.uninit_type)
    (find_linkid_by_sockfd w.g_link sockid) datalen type_str addr_str
    ((e.peer.port % 2 ^ 16 : Nat) : Int) htnz hanz
  subst hst
  rcases insert_cases e.ins w MAX_ATCMD_DATA_RECV_PREFIX_LEN _ databuf
      (datalen % 2 ^ 16).toNat hnz hlen (by decide) with
    ⟨h1, item, hi1, hi2, _, hq⟩ | ⟨h1, hq⟩
  · rw [if_neg (by rw [h1]; decide)] at h
    cases h
    subst hts
    refine Or.inl ⟨rfl, addr_str, item, rfl, hlen, hi1, hi2, ?_⟩
    rw [hq]
  · rw [if_pos (by rw [h1]; decide)] at h
    cases h
    refine Or.inr ⟨rfl, ?_⟩
    rw [hq]

theorem ap_sta_status_cmd_eq (type_str status_str : List Nat)
    (h1 : type_str = cstr "AP_" ∨ type_str = cstr "STATION_")
    (h2 : status_str = cstr "UP" ∨ status_str = cstr "DOWN") :
    ap_sta_status_cmd type_str status_str
        = some (enc_state MAX_ATCMD_AP_STA_STATUS_LEN (ap_sta_text type_str status_str))
      ∧ (ap_sta_text type_str status_str).length < MAX_ATCMD_AP_STA_STATUS_LEN
      ∧ ∀ b ∈ ap_sta_text type_str status_str, b ≠ 0 := by
  have hl1 : type_str.length ≤ 8 := by
    rcases h1 with h | h <;> rw [h] <;> decide
  have hl2 : status_str.length ≤ 4 := by
    rcases h2 with h | h <;> rw [h] <;> decide
  have hn1 : ∀ b ∈ type_str, b ≠ 0 := by
    rcases h1 with h | h <;> rw [h] <;> decide
  have hn2 : ∀ b ∈ status_str, b ≠ 0 := by
    rcases h2 with h | h <;> rw [h] <;> decide
  have hp : (cstr "\r\n" ++ prefix_wevent).length = 10 := by decide
  have hw : prefix_wevent.length = 8 := by decide
  have hc : (cstr "\r\n").length = 2 := by decide
  refine ⟨?_, ?_, ?_⟩
  · unfold ap_sta_status_cmd
    rw [encoder_start_eq, append_field_room MAX_ATCMD_AP_STA_STATUS_LEN [] _ _
      (by rw [hw]; decide) (by rw [hp]; decide)]
    dsimp only
    rw [append_field_room MAX_ATCMD_AP_STA_STATUS_LEN _ _ _
      (by simp only [List.nil_append, hp, MAX_ATCMD_AP_STA_STATUS_LEN]; omega)
      (by simp only [List.nil_append, hp, List.length_append, hc,
        MAX_ATCMD_AP_STA_STATUS_LEN]; omega)]
    simp [ap_sta_text, List.append_assoc]
  · simp only [ap_sta_text, List.length_append, hc, hw, MAX_ATCMD_AP_STA_STATUS_LEN]
    omega
  · unfold ap_sta_text
    repeat' first
      | exact hn1
      | exact hn2
      | decide
      | apply nz_append

/-- Every return of `notify_AP_STA_status_events`: either 0 with exactly one
item queued, which carries the complete Wi-Fi status frame and is shorter
than `cmd[30]`, or -1 with the queue as before. -/
theorem ap_sta_frame (C : Consts) (e : insert_env) (w : World) (type status : Int) :
    ap_sta_outcome C w type status (notify_AP_STA_status_events C e w type status) := by
  unfold ap_sta_outcome
  unfold notify_AP_STA_status_events
  cases ht : (if type = C.AP then some (cstr "AP_")
      else if type = C.STA then some (cstr "STATION_") else none) with
  | none => exact Or.inr ⟨rfl, rfl⟩
  | some type_str =>
  dsimp only
  have htype : type_str = cstr "AP_" ∨ type_str = cstr "STATION_" := by
    split at ht
    · cases ht; exact Or.inl rfl
    · split at ht
      · cases ht; exact Or.inr rfl
      · cases ht
  cases hs : (if status = C.WEVENT_STATUS_UP then some (cstr "UP")
      else if status = C.WEVENT_STATUS_DOWN then some (cstr "DOWN") else none) with
  | none => exact Or.inr ⟨rfl, rfl⟩
  | some status_str =>
  dsimp only
  have hstatus : status_str = cstr "UP" ∨ status_str = cstr "DOWN" := by
    split at hs
    · cases hs; exact Or.inl rfl
    · split at hs
      · cases hs; exact Or.inr rfl
      · cases hs
  obtain ⟨hcmd, hlen, hnz⟩ := ap_sta_status_cmd_eq type_str status_str htype hstatus
  rw [hcmd]
  dsimp only
  rcases insert_cases e w MAX_ATCMD_AP_STA_STATUS_LEN _ none 0 hnz hlen (by decide) with
    ⟨h1, item, _, _, hitem, hq⟩ | ⟨h1, hq⟩
  · rw [if_neg (by rw [h1]; decide)]
    refine Or.inl ⟨rfl, type_str, status_str, rfl, rfl, hlen, ?_⟩
    rw [hq, hitem rfl]
  · rw [if_pos (by rw [h1]; decide)]
    exact Or.inr ⟨rfl, hq⟩

/-- When one of the capacity tests of `notify_cip_connect_status_events`
fails, the function returns -1 and the state is the one it started from. -/
theorem conn_status_check_fails (C : Consts) (e : notify_env) (w : World)
    (sockid status recvstatus : Int) (type_str status_str addr_str : List Nat)
    (ht : conn_status_type_str (find_conntype_by_sockfd w.g_link sockid e.uninit_type)
      = some type_str)
    (hs : (if status = C.CIP_STATUS_CONNECTED then some (cstr "CONNECTED")
      else if status = C.CIP_STATUS_CLOSED then some (cstr "CLOSED") else none)
      = some status_str)
    (ha : (if find_conntype_by_sockfd w.g_link sockid e.uninit_type = TCP_SERVER then
      peer_addr_str e.peer else .ok []) = .ok addr_str)
    (hc : conn_status_cmd C recvstatus (find_conntype_by_sockfd w.g_link sockid e.uninit_type)
      (find_linkid_by_sockfd w.g_link sockid) type_str status_str addr_str
      ((e.peer.port % 2 ^ 16 : Nat) : Int) = .ok none) :
    notify_cip_connect_status_events C e w sockid status recvstatus = .ok (-1, w) := by
  unfold notify_cip_connect_status_events
  rw [hs, ht, ha]
  dsimp only
  rw [hc]
  dsimp only
  repeat' split
  all_goals rfl

/-- When one of the capacity tests of `notify_cip_data_recv_event` fails, the
function returns -1 and the state is the one it started from. -/
theorem data_recv_check_fails (e : notify_env) (w : World) (sockid : Int)
    (databuf : Option (List Nat)) (datalen : Int) (addr_str : List Nat)
    (ha : (if find_conntype_by_sockfd w.g_link sockid e.uninit_type = UDP_BROADCAST then
      peer_addr_str e.peer else .ok []) = .ok addr_str)
    (hc : data_recv_cmd (find_conntype_by_sockfd w.g_link sockid e.uninit_type)
      (find_linkid_by_sockfd w.g_link sockid) datalen
      (if find_conntype_by_sockfd w.g_link sockid e.uninit_type = UDP_BROADCAST then
        cstr "UDP_BROADCAST" else cstr "SOCKET")
      addr_str ((e.peer.port % 2 ^ 16 : Nat) : Int) = .ok none) :
    notify_cip_data_recv_event e w sockid databuf datalen = .ok (-1, w) := by
  unfold notify_cip_data_recv_event
  rw [ha]
  dsimp only
  rw [hc]
  dsimp only
  repeat' split
  all_goals rfl

/-- A number of at most `k + 1` digits fits an array of `k + 2` bytes or
more. -/
theorem itoa_decimal_small (cap k : Nat) (n : Int) (h0 : 0 ≤ n) (h1 : n < 10 ^ (k + 1))
    (hk : k + 2 ≤ cap) : itoa_decimal cap n = .ok (itoa_text n) := by
  have hlen : (itoa_text n).length ≤ k + 1 := by
    have hn : ¬ n < 0 := by omega
    simp only [itoa_text, hn, if_false, List.length_reverse]
    exact itoa_digits_length k 9 n h0 h1
  simp only [itoa_decimal]
  rw [if_pos (by omega)]

/-- A sequence of guarded appends whose texts can all be prepared comes to an
end: with the text in the array, or at `goto err`. -/
theorem run_appends_returns (cap : Nat) :
    ∀ (steps : List append_step) (st : Option (List Nat × Nat)),
      (∀ s ∈ steps, ∃ p, s = .ok p) → ∃ o, run_appends cap steps st = .ok o := by
  intro steps
  induction steps with
  | nil => intro st _; exact ⟨st, rfl⟩
  | cons s rest ih =>
    intro st h
    obtain ⟨p, hp⟩ := h s (List.mem_cons_self _ _)
    subst hp
    cases st with
    | none => exact ⟨none, run_appends_none cap _⟩
    | some st0 =>
      simp only [run_appends]
      exact ih _ (fun x hx => h x (List.mem_cons_of_mem _ hx))

theorem port_text_fits (cap : Nat) (port : Nat) (hcap : 6 ≤ cap) :
    itoa_decimal cap ((port % 2 ^ 16 : Nat) : Int)
      = .ok (itoa_text ((port % 2 ^ 16 : Nat) : Int)) := by
  have h : port % 2 ^ 16 < 2 ^ 16 := Nat.mod_lt _ (by decide)
  apply itoa_decimal_small cap 4 _ (by omega) _ (by omega)
  have : ((port % 2 ^ 16 : Nat) : Int) < 65536 := by
    have h2 : (2 : Nat) ^ 16 = 65536 := by decide
    omega
  have h3 : (10 : Int) ^ (4 + 1) = 100000 := by norm_num
  omega

/-- The connection-status encoder returns whenever the link id fits
`linkid_str[5]` and the peer address fits `addr_str[16]`. -/
theorem conn_status_returns (C : Consts) (e : notify_env) (w : World)
    (sockid status recvstatus : Int)
    (haddr : find_conntype_by_sockfd w.g_link sockid e.uninit_type = TCP_SERVER →
      (c_string e.peer.addr).length < 16)
    (hlink : find_conntype_by_sockfd w.g_link sockid e.uninit_type ≠ TCP_SERVER →
      find_linkid_by_sockfd w.g_link sockid < 10000) :
    ∃ r, notify_cip_connect_status_events C e w sockid status recvstatus = .ok r := by
  unfold notify_cip_connect_status_events
  by_cases c0 : sockid < 0
  · rw [if_pos c0]; exact ⟨_, rfl⟩
  rw [if_neg c0]
  cases hs : (if status = C.CIP_STATUS_CONNECTED then some (cstr "CONNECTED")
      else if status = C.CIP_STATUS_CLOSED then some (cstr "CLOSED") else none) with
  | none => exact ⟨_, rfl⟩
  | some status_str =>
  dsimp only
  cases ht : conn_status_type_str (find_conntype_by_sockfd w.g_link sockid e.uninit_type) with
  | none => exact ⟨_, rfl⟩
  | some type_str =>
  dsimp only
  by_cases c1 : find_conntype_by_sockfd w.g_link sockid e.uninit_type = TCP_SERVER
      ∧ e.peer.ret ≠ 0
  · rw [if_pos c1]; exact ⟨_, rfl⟩
  rw [if_neg c1]
  have ha : ∃ addr_str,
      (if find_conntype_by_sockfd w.g_link sockid e.uninit_type = TCP_SERVER then
        peer_addr_str e.peer else .ok []) = .ok addr_str := by
    by_cases c : find_conntype_by_sockfd w.g_link sockid e.uninit_type = TCP_SERVER
    · rw [if_pos c]
      unfold peer_addr_str
      rw [if_pos (haddr c)]
      exact ⟨_, rfl⟩
    · rw [if_neg c]
      exact ⟨_, rfl⟩
  obtain ⟨addr_str, ha⟩ := ha
  rw [ha]
  dsimp only
  by_cases c2 : find_linkid_by_sockfd w.g_link sockid < 0
  · rw [if_pos c2]; exact ⟨_, rfl⟩
  rw [if_neg c2]
  have hport : comma_port_cr ((e.peer.port % 2 ^ 16 : Nat) : Int)
      = .ok ((itoa_text ((e.peer.port % 2 ^ 16 : Nat) : Int)).length + 1 + 1,
          CH_COMMA :: itoa_text ((e.peer.port % 2 ^ 16 : Nat) : Int) ++ [CH_CR]) := by
    unfold comma_port_cr
    rw [port_text_fits 6 e.peer.port (le_refl _)]
  have hsteps : ∀ port : Int,
      comma_port_cr port
        = .ok ((itoa_text port).length + 1 + 1, CH_COMMA :: itoa_text port ++ [CH_CR]) →
      ∀ s ∈ conn_status_steps C recvstatus
        (find_conntype_by_sockfd w.g_link sockid e.uninit_type)
        (find_linkid_by_sockfd w.g_link sockid) type_str status_str addr_str port,
        ∃ p, s = .ok p := by
    intro port hport
    by_cases hT : find_conntype_by_sockfd w.g_link sockid e.uninit_type = TCP_SERVER
    · by_cases hr : recvstatus > 0 <;> simp [conn_status_steps, hT, hr, hport]
    · have hnum : number_comma 5 (find_linkid_by_sockfd w.g_link sockid)
          = .ok ((itoa_text (find_linkid_by_sockfd w.g_link sockid)).length + 1,
              itoa_text (find_linkid_by_sockfd w.g_link sockid) ++ [CH_COMMA]) := by
        unfold number_comma
        rw [itoa_decimal_linkid _ (by omega) (hlink hT)]
      by_cases hr : recvstatus > 0 <;> simp [conn_status_steps, hT, hr, hnum]
  obtain ⟨o, ho⟩ := run_appends_returns MAX_ATCMD_CON_STATUS_LEN _
    (some (encoder_start MAX_ATCMD_CON_STATUS_LEN)) (hsteps _ hport)
  unfold conn_status_cmd
  rw [ho]
  cases o with
  | none => exact ⟨_, rfl⟩
  | some st =>
    dsimp only
    split <;> exact ⟨_, rfl⟩

/-- The data-arrival encoder returns whenever the link id and the data length
fit their arrays of ten bytes and the peer address fits `addr_str[16]`. -/
theorem data_recv_returns (e : notify_env) (w : World) (sockid : Int)
    (databuf : Option (List Nat)) (datalen : Int)
    (haddr : find_conntype_by_sockfd w.g_link sockid e.uninit_type = UDP_BROADCAST →
      (c_string e.peer.addr).length < 16)
    (hlink : find_linkid_by_sockfd w.g_link sockid < 1000000000)
    (hlen0 : 0 ≤ datalen) (hlen1 : datalen < 1000000000) :
    ∃ r, notify_cip_data_recv_event e w sockid databuf datalen = .ok r := by
  have hten : (10 : Int) ^ (8 + 1) = 1000000000 := by norm_num
  unfold notify_cip_data_recv_event
  by_cases c0 : sockid < 0
  · rw [if_pos c0]; exact ⟨_, rfl⟩
  rw [if_neg c0]
  by_cases c1 : find_conntype_by_sockfd w.g_link sockid e.uninit_type = UDP_BROADCAST
      ∧ e.peer.ret ≠ 0
  · rw [if_pos c1]; exact ⟨_, rfl⟩
  rw [if_neg c1]
  have ha : ∃ addr_str,
      (if find_conntype_by_sockfd w.g_link sockid e.uninit_type = UDP_BROADCAST then
        peer_addr_str e.peer else .ok []) = .ok addr_str := by
    by_cases c : find_conntype_by_sockfd w.g_link sockid e.uninit_type = UDP_BROADCAST
    · rw [if_pos c]
      unfold peer_addr_str
      rw [if_pos (haddr c)]
      exact ⟨_, rfl⟩
    · rw [if_neg c]
      exact ⟨_, rfl⟩
  obtain ⟨addr_str, ha⟩ := ha
  rw [ha]
  dsimp only
  by_cases c2 : find_linkid_by_sockfd w.g_link sockid < 0
  · rw [if_pos c2]; exact ⟨_, rfl⟩
  rw [if_neg c2]
  have hport : number_comma 10 ((e.peer.port % 2 ^ 16 : Nat) : Int)
      = .ok ((itoa_text ((e.peer.port % 2 ^ 16 : Nat) : Int)).length + 1,
          itoa_text ((e.peer.port % 2 ^ 16 : Nat) : Int) ++ [CH_COMMA]) := by
    unfold number_comma
    rw [port_text_fits 10 e.peer.port (by decide)]
  have hnum : number_comma 10 (find_linkid_by_sockfd w.g_link sockid)
      = .ok ((itoa_text (find_linkid_by_sockfd w.g_link sockid)).length + 1,
          itoa_text (find_linkid_by_sockfd w.g_link sockid) ++ [CH_COMMA]) := by
    unfold number_comma
    rw [itoa_decimal_small 10 8 _ (by omega) (by rw [hten]; exact hlink) (by decide)]
  have hdat : number_comma 10 datalen
      = .ok ((itoa_text datalen).length + 1, itoa_text datalen ++ [CH_COMMA]) := by
    unfold number_comma
    rw [itoa_decimal_small 10 8 _ hlen0 (by rw [hten]; exact hlen1) (by decide)]
  have hsteps : ∀ port : Int,
      number_comma 10 port = .ok ((itoa_text port).length + 1, itoa_text port ++ [CH_COMMA]) →
      ∀ s ∈ data_recv_steps (find_conntype_by_sockfd w.g_link sockid e.uninit_type)
        (find_linkid_by_sockfd w.g_link sockid) datalen
        (if find_conntype_by_sockfd w.g_link sockid e.uninit_type = UDP_BROADCAST then
          cstr "UDP_BROADCAST" else cstr "SOCKET")
        addr_str port, ∃ p, s = .ok p := by
    intro port hport
    by_cases hT : find_conntype_by_sockfd w.g_link sockid e.uninit_type = UDP_BROADCAST
    · simp [data_recv_steps, hT, hport, hnum, hdat]
    · simp [data_recv_steps, hT, hnum, hdat]
  obtain ⟨o, ho⟩ := run_appends_returns MAX_ATCMD_DATA_RECV_PREFIX_LEN _
    (some (encoder_start MAX_ATCMD_DATA_RECV_PREFIX_LEN)) (hsteps _ hport)
  unfold data_recv_cmd
  rw [ho]
  cases o with
  | none => exact ⟨_, rfl⟩
  | some st =>
    dsimp only
    split <;> exact ⟨_, rfl⟩

/-- C10. Framing budget of the three event encoders (connection status into
`cmd[80]`, data-arrival header into `sendbuf[60]`, Wi-Fi status into
`cmd[30]`), for every input and every result of the system calls: whenever
an encoder returns, it has either returned 0 and queued exactly one item that
carries the complete, untruncated concatenation of its fields, strictly
shorter than its array, or returned -1 and queued nothing; whenever one of
its capacity tests fails it returns -1 with the state unchanged; and the
encoders do return: the Wi-Fi encoder always, the two others whenever the
numbers and the peer address fit the local arrays they are formatted into
(`linkid_str[5]`, `linkid_str[10]`, `datalen_str[10]`, `addr_str[16]`). -/
theorem C10_framing_budget :
    (∀ (C : Consts) (e : notify_env) (w : World) (sockid status recvstatus : Int)
        (r : Int × World),
        notify_cip_connect_status_events C e w sockid status recvstatus = .ok r →
        conn_status_outcome C e w sockid status recvstatus r)
    ∧ (∀ (e : notify_env) (w : World) (sockid : Int) (databuf : Option (List Nat))
        (datalen : Int) (r : Int × World),
        notify_cip_data_recv_event e w sockid databuf datalen = .ok r →
        data_recv_outcome e w sockid datalen r)
    ∧ (∀ (C : Consts) (e : insert_env) (w : World) (type status : Int),
        ap_sta_outcome C w type status (notify_AP_STA_status_events C e w type status))
    ∧ (∀ (C : Consts) (e : notify_env) (w : World) (sockid status recvstatus : Int)
        (type_str status_str addr_str : List Nat),
        conn_status_type_str (find_conntype_by_sockfd w.g_link sockid e.uninit_type)
          = some type_str →
        (if status = C.CIP_STATUS_CONNECTED then some (cstr "CONNECTED")
          else if status = C.CIP_STATUS_CLOSED then some (cstr "CLOSED") else none)
          = some status_str →
        (if find_conntype_by_sockfd w.g_link sockid e.uninit_type = TCP_SERVER then
          peer_addr_str e.peer else .ok []) = .ok addr_str →
        conn_status_cmd C recvstatus (find_conntype_by_sockfd w.g_link sockid e.uninit_type)
          (find_linkid_by_sockfd w.g_link sockid) type_str status_str addr_str
          ((e.peer.port % 2 ^ 16 : Nat) : Int) = .ok none →
        notify_cip_connect_status_events C e w sockid status recvstatus = .ok (-1, w))
    ∧ (∀ (e : notify_env) (w : World) (sockid : Int) (databuf : Option (List Nat))
        (datalen : Int) (addr_str : List Nat),
        (if find_conntype_by_sockfd w.g_link sockid e.uninit_type = UDP_BROADCAST then
          peer_addr_str e.peer else .ok []) = .ok addr_str →
        data_recv_cmd (find_conntype_by_sockfd w.g_link sockid e.uninit_type)
          (find_linkid_by_sockfd w.g_link sockid) datalen
          (if find_conntype_by_sockfd w.g_link sockid e.uninit_type = UDP_BROADCAST then
            cstr "UDP_BROADCAST" else cstr "SOCKET")
          addr_str ((e.peer.port % 2 ^ 16 : Nat) : Int) = .ok none →
        notify_cip_data_recv_event e w sockid databuf datalen = .ok (-1, w))
    ∧ (∀ (C : Consts) (e : notify_env) (w : World) (sockid status recvstatus : Int),
        (find_conntype_by_sockfd w.g_link sockid e.uninit_type = TCP_SERVER →
          (c_string e.peer.addr).length < 16) →
        (find_conntype_by_sockfd w.g_link sockid e.uninit_type ≠ TCP_SERVER →
          find_linkid_by_sockfd w.g_link sockid < 10000) →
        ∃ r, notify_cip_connect_status_events C e w sockid status recvstatus = .ok r)
    ∧ (∀ (e : notify_env) (w : World) (sockid : Int) (databuf : Option (List Nat))
        (datalen : Int),
        (find_conntype_by_sockfd w.g_link sockid e.uninit_type = UDP_BROADCAST →
          (c_string e.peer.addr).length < 16) →
        find_linkid_by_sockfd w.g_link sockid < 1000000000 →
        0 ≤ datalen → datalen < 1000000000 →
        ∃ r, notify_cip_data_recv_event e w sockid databuf datalen = .ok r) :=
  ⟨conn_status_frame, data_recv_frame, ap_sta_frame,
    conn_status_check_fails, data_recv_check_fails, conn_status_returns, data_recv_returns⟩

/-- Witness of C10: the CLOSED event of link 0 on descriptor 3 is queued as the
frame `+CIPEVENT:0,SERVER,CLOSED`; and a data-arrival header that needs 61
bytes (broadcast peer `255.255.255.255:65535`, link id 123456789, 1500 bytes)
fails a capacity test of `sendbuf[60]` and is dropped; both encoders return
for link 0 on descriptor 3. -/
theorem C10_framing_budget_witness :
    conn_status_outcome aos_consts (env_ok 3).notify one_link 3 1 0 one_link_closed_event
      ∧ one_link_closed_event.1 = 0
      ∧ one_link_closed_event.2.uart_send_queue.items
          = one_link.uart_send_queue.items ++ [text_item (cstr "+CIPEVENT:0,SERVER,CLOSED")]
      ∧ notify_cip_data_recv_event env_broadcast_peer broadcast_link 3 (some [1, 2, 3, 4]) 1500
          = .ok (-1, broadcast_link)
      ∧ (∃ r, notify_cip_connect_status_events aos_consts (env_ok 3).notify one_link 3 1 0
          = .ok r)
      ∧ (∃ r, notify_cip_data_recv_event (env_ok 3).notify one_link 3 (some [1, 2, 3, 4]) 4
          = .ok r) :=
  ⟨C10_framing_budget.1 aos_consts (env_ok 3).notify one_link 3 1 0 one_link_closed_event rfl,
    rfl, rfl,
    C10_framing_budget.2.2.2.2.1 env_broadcast_peer broadcast_link 3 (some [1, 2, 3, 4]) 1500
      (cstr "255.255.255.255") rfl rfl,
    C10_framing_budget.2.2.2.2.2.1 aos_consts (env_ok 3).notify one_link 3 1 0
      (by decide) (by decide),
    C10_framing_budget.2.2.2.2.2.2 (env_ok 3).notify one_link 3 (some [1, 2, 3, 4]) 4
      (by decide) (by decide) (by decide) (by decide)⟩

/-! ## `atcmd_cip_start` on a command line -/

theorem get_field_conntype (cap : Nat) (d rest : List Nat) (t : Nat) (hlen : d.length < cap)
    (hd : ∀ c ∈ d, socket_conntype_check c = 0) (ht : t = CH_COMMA ∨ t = CH_CR) :
    get_field cap (some socket_conntype_check) (d ++ t :: rest) =
      .ok (if t = CH_COMMA then 0 else 1, d, rest) := by
  apply get_field_ok cap _ d rest t hlen _ _ _ ht
  · intro c hc
    have := conntype_check_char c (hd c hc)
    simp only [plain, CH_COMMA, CH_CR]
    omega
  · intro c hc check hcheck
    cases hcheck
    exact hd c hc
  · intro c hc
    have := conntype_check_char c (hd c hc)
    omega

theorem terminator_ret (t : Nat) : ¬ ((if t = CH_COMMA then (0 : Int) else 1) < 0) := by
  split <;> decide

theorem get_conntype_loop_range (str : List Nat) :
    ∀ (names : List (List Nat)) (i : Nat),
      get_conntype_loop str i names = -1
        ∨ ((i : Int) ≤ get_conntype_loop str i names
          ∧ get_conntype_loop str i names < (i : Int) + names.length) := by
  intro names
  induction names with
  | nil => intro i; exact Or.inl rfl
  | cons n rest ih =>
    intro i
    simp only [get_conntype_loop]
    split
    · right
      simp only [List.length_cons]
      push_cast
      omega
    · rcases ih (i + 1) with h | h
      · exact Or.inl h
      · right
        simp only [List.length_cons]
        push_cast at h ⊢
        omega

/-- `get_conntype_index` returns -1 or one of the five enumerators. -/
theorem get_conntype_index_range (s : List Nat) (h : ¬ get_conntype_index (some s) < 0) :
    get_conntype_index (some s) = TCP_CLIENT ∨ get_conntype_index (some s) = SSL_CLIENT
      ∨ get_conntype_index (some s) = TCP_SERVER ∨ get_conntype_index (some s) = UDP_BROADCAST
      ∨ get_conntype_index (some s) = UDP_UNICAST := by
  simp only [get_conntype_index] at h ⊢
  have hl : conntype_str.length = 5 := by decide
  rcases get_conntype_loop_range s conntype_str 0 with h1 | ⟨h1, h2⟩
  · rw [h1] at h
    exact absurd (by decide) h
  · rw [hl] at h2
    simp only [TCP_CLIENT, SSL_CLIENT, TCP_SERVER, UDP_BROADCAST, UDP_UNICAST]
    push_cast at h1 h2
    omega

/-- First part of `atcmd_cip_start` on an initialised gateway when the serial
input starts with `'='`, a field of fewer than 16 digits and a terminator. -/
theorem cip_start_head (C : Consts) (e : handler_env) (w : World) (d rest : List Nat) (t : Nat)
    (hinit : w.inited = true) (hin : w.transport = CH_EQ :: (d ++ t :: rest))
    (hlen : d.length < 16) (hd : ∀ c ∈ d, socket_data_len_check c = 0)
    (ht : t = CH_COMMA ∨ t = CH_CR) :
    atcmd_cip_start C e w =
      if atoi d < 0 then .ok (cip_start_err C e { w with transport := rest } (-1))
      else if find_sockfd_by_linkid w.g_link (atoi d) ≥ 0 then
        .ok (cip_start_err C e { w with transport := rest } (-1))
      else cip_start_args C e { w with transport := rest } (atoi d) := by
  have h0 : at_parse1 w = .ok (CH_EQ, { w with transport := d ++ t :: rest }) := by
    simp only [at_parse1, hin]
  have h1 : get_field_w 16 (some socket_data_len_check) { w with transport := d ++ t :: rest }
      = .ok (if t = CH_COMMA then 0 else 1, d, { w with transport := rest }) :=
    get_field_w_eq 16 _ _ _ _ _ (get_field_digits 16 d rest t hlen hd ht)
  unfold atcmd_cip_start
  rw [if_neg (by rw [hinit]; decide), h0]
  dsimp only
  rw [if_neg (by decide), h1]
  dsimp only
  simp only [terminator_ret t, false_or]

/-- Middle part of `atcmd_cip_start` when the serial input holds the three
remaining fields, each shorter than 16 bytes and accepted by its validator. -/
theorem cip_start_args_line (C : Consts) (e : handler_env) (w : World) (linkid : Int)
    (ty ip port rest : List Nat) (t2 t3 t4 : Nat)
    (hin : w.transport = ty ++ t2 :: (ip ++ t3 :: (port ++ t4 :: rest)))
    (hty : ty.length < 16) (hty2 : ∀ c ∈ ty, socket_conntype_check c = 0)
    (hip : ip.length < 16) (hip2 : ∀ c ∈ ip, socket_ip_info_check c = 0)
    (hport : port.length < 16) (hport2 : ∀ c ∈ port, socket_data_len_check c = 0)
    (ht2 : t2 = CH_COMMA ∨ t2 = CH_CR) (ht3 : t3 = CH_COMMA ∨ t3 = CH_CR)
    (ht4 : t4 = CH_COMMA ∨ t4 = CH_CR) :
    cip_start_args C e w linkid =
      if get_conntype_index (some ty) < 0 then
        .ok (cip_start_err C e { w with transport := ip ++ t3 :: (port ++ t4 :: rest) } (-1))
      else if atoi port % 2 ^ 16 = 0 then
        .ok (cip_start_err C e { w with transport := rest } (-1))
      else if e.inet_addr = C.IPADDR_NONE then
        .ok (cip_start_err C e { w with transport := rest } (-1))
      else cip_start_open C e { w with transport := rest } linkid
        (get_conntype_index (some ty)) := by
  have h2 : get_field_w 16 (some socket_conntype_check) w
      = .ok (if t2 = CH_COMMA then 0 else 1, ty,
          { w with transport := ip ++ t3 :: (port ++ t4 :: rest) }) :=
    get_field_w_eq 16 _ _ _ _ _ (by rw [hin]; exact get_field_conntype 16 ty _ t2 hty hty2 ht2)
  have h3 : get_field_w 16 (some socket_ip_info_check)
      { w with transport := ip ++ t3 :: (port ++ t4 :: rest) }
      = .ok (if t3 = CH_COMMA then 0 else 1, ip, { w with transport := port ++ t4 :: rest }) :=
    get_field_w_eq 16 _ _ _ _ _ (get_field_ip 16 ip _ t3 hip hip2 ht3)
  have h4 : get_field_w 16 (some socket_data_len_check)
      { w with transport := port ++ t4 :: rest }
      = .ok (if t4 = CH_COMMA then 0 else 1, port, { w with transport := rest }) :=
    get_field_w_eq 16 _ _ _ _ _ (get_field_digits 16 port _ t4 hport hport2 ht4)
  unfold cip_start_args
  rw [h2]
  dsimp only
  simp only [terminator_ret t2, false_or]
  by_cases c1 : get_conntype_index (some ty) < 0
  · rw [if_pos c1, if_pos c1]
  rw [if_neg c1, if_neg c1, h3]
  dsimp only
  rw [if_neg (terminator_ret t3), h4]
  dsimp only
  rw [if_neg (terminator_ret t4)]
  by_cases c2 : atoi port % 2 ^ 16 = 0
  · rw [if_pos c2, if_pos c2]
  rw [if_neg c2, if_neg c2]
  by_cases c3 : e.inet_addr = C.IPADDR_NONE
  · rw [if_pos c3, if_pos c3]
  rw [if_neg c3, if_neg c3]
  rw [if_neg (not_not.mpr (get_conntype_index_range ty c1))]

/-- On a complete CIPSTART line a full registry makes the handler return. -/
theorem cip_start_full_returns (C : Consts) (e : handler_env) (w : World)
    (d ty ip port rest : List Nat) (t1 t2 t3 t4 : Nat)
    (hfull : registry_full w.g_link) (hinit : w.inited = true)
    (hin : w.transport = CH_EQ :: (d ++ t1 :: (ty ++ t2 :: (ip ++ t3 :: (port ++ t4 :: rest)))))
    (hd : d.length < 16) (hd2 : ∀ c ∈ d, socket_data_len_check c = 0)
    (hd3 : atoi d < 10)
    (hty : ty.length < 16) (hty2 : ∀ c ∈ ty, socket_conntype_check c = 0)
    (hip : ip.length < 16) (hip2 : ∀ c ∈ ip, socket_ip_info_check c = 0)
    (hport : port.length < 16) (hport2 : ∀ c ∈ port, socket_data_len_check c = 0)
    (ht1 : t1 = CH_COMMA ∨ t1 = CH_CR) (ht2 : t2 = CH_COMMA ∨ t2 = CH_CR)
    (ht3 : t3 = CH_COMMA ∨ t3 = CH_CR) (ht4 : t4 = CH_COMMA ∨ t4 = CH_CR) :
    ∃ r, atcmd_cip_start C e w = .ok r := by
  rw [cip_start_head C e w d _ t1 hinit hin hd hd2 ht1]
  by_cases c1 : atoi d < 0
  · rw [if_pos c1]
    exact ⟨_, rfl⟩
  rw [if_neg c1]
  have hd4 : 0 ≤ atoi d := by omega
  split
  · exact ⟨_, rfl⟩
  rw [cip_start_args_line C e _ _ ty ip port rest t2 t3 t4 rfl hty hty2 hip hip2 hport hport2
    ht2 ht3 ht4]
  split
  · exact ⟨_, rfl⟩
  split
  · exact ⟨_, rfl⟩
  split
  · exact ⟨_, rfl⟩
  obtain ⟨ts, hts⟩ := cip_start_task_small (get_conntype_index (some ty)) (atoi d) hd4 hd3
  exact cip_start_open_full_returns C e { w with transport := rest } (atoi d)
    (get_conntype_index (some ty)) hfull ts hts

theorem ack_fail_nonzero (C : Consts) : ∀ b ∈ ack_fail_frame C, b ≠ 0 :=
  nz_append C.recv_text C.fail_text

theorem ack_success_nonzero (C : Consts) : ∀ b ∈ ack_success_frame C, b ≠ 0 :=
  nz_append C.recv_text C.success_text

theorem atcmd_recv_status_cmd_fail (C : Consts)
    (hfit : (ack_fail_frame C).length < MAX_ATCMD_RESPONSE_LEN) :
    atcmd_recv_status_cmd C C.ATCMD_FAIL
      = some (enc_state MAX_ATCMD_RESPONSE_LEN (ack_fail_frame C)) := by
  simp only [ack_fail_frame, List.length_append] at hfit
  unfold atcmd_recv_status_cmd
  rw [encoder_start_eq, append_field_fits _ [] _ _ (by simp only [List.length_nil]; omega)
    (le_refl _)]
  dsimp only
  rw [if_pos rfl, append_field_fits _ _ _ _ (by simp only [List.nil_append]; omega) (le_refl _)]
  rfl

/-- The failure acknowledgement is queued when it fits `response[20]`, the
queue is valid and has room, and the allocation succeeds. -/
theorem notify_ack_fail (C : Consts) (e : insert_env) (w : World)
    (hfit : (ack_fail_frame C).length < MAX_ATCMD_RESPONSE_LEN) (hne : ack_fail_frame C ≠ [])
    (hvalid : w.uart_send_queue.valid = true)
    (hroom : w.uart_send_queue.items.length < DEFAULT_UART_SEND_BUF_SIZE)
    (hmalloc : e.malloc_cmd = true) :
    notify_atcmd_recv_status C e w C.ATCMD_FAIL = (0, push_frame w (ack_fail_frame C)) := by
  unfold notify_atcmd_recv_status
  rw [atcmd_recv_status_cmd_fail C hfit]
  dsimp only
  rw [insert_encoded e w MAX_ATCMD_RESPONSE_LEN _ (ack_fail_nonzero C) hne hfit (by decide)
    hvalid hroom hmalloc]
  rfl

/-- Counterexample to C6 as stated: link 0 is registered on descriptor 3 and
the serial queue already holds 50 items; `AT+CIPSTART=0,...` returns -1 and
leaves the registry alone, but no acknowledgement-failure frame is queued:
the queue holds the same 50 items afterwards. -/
theorem C6_no_ack_when_queue_full :
    find_sockfd_by_linkid one_link_queue_full.g_link 0 = 3
      ∧ atcmd_cip_start aos_consts (env_ok 4) one_link_queue_full
          = .ok duplicate_start_queue_full
      ∧ duplicate_start_queue_full.1 = -1
      ∧ duplicate_start_queue_full.2.g_link = one_link_queue_full.g_link
      ∧ duplicate_start_queue_full.2.uart_send_queue.items
          = one_link_queue_full.uart_send_queue.items
      ∧ ¬ (duplicate_start_queue_full.2.uart_send_queue.items
          = one_link_queue_full.uart_send_queue.items
              ++ [text_item (ack_fail_frame aos_consts)]) := by
  refine ⟨rfl, rfl, rfl, rfl, rfl, ?_⟩
  intro h
  have := congrArg List.length h
  revert this
  decide

/-! ## Registry lemmas -/

theorem find_linkid_loop_absent (fd : Int) (g : List link_t) (acc : Int)
    (h : ∀ l ∈ g, l.fd ≠ fd) : find_linkid_loop fd acc g = acc := by
  induction g generalizing acc with
  | nil => rfl
  | cons l g ih =>
    simp only [find_linkid_loop, h l (List.mem_cons_self _ _), if_false]
    exact ih acc (fun x hx => h x (List.mem_cons_of_mem _ hx))

theorem find_conntype_loop_absent (fd : Int) (g : List link_t) (acc : Int)
    (h : ∀ l ∈ g, l.fd ≠ fd) : find_conntype_loop fd acc g = acc := by
  induction g generalizing acc with
  | nil => rfl
  | cons l g ih =>
    simp only [find_conntype_loop, h l (List.mem_cons_self _ _), if_false]
    exact ih acc (fun x hx => h x (List.mem_cons_of_mem _ hx))

theorem find_sockfd_loop_range (linkid : Int) (g : List link_t) :
    find_sockfd_loop linkid g = -1 ∨ find_sockfd_loop linkid g ≥ 0 := by
  induction g with
  | nil => exact Or.inl rfl
  | cons l g ih =>
    simp only [find_sockfd_loop]
    split
    · rename_i h; exact Or.inr h.1
    · exact ih

/-- With a free slot and both semaphores created, the loop of `add_link_info`
succeeds. -/
theorem add_link_loop_ok (fd linkid type : Int) (e : add_link_env) (g : List link_t)
    (hfree : ∃ l ∈ g, l.fd < 0) (h1 : e.sem_start = 0) (h2 : e.sem_close = 0) :
    (add_link_loop fd linkid type e g).1 = 0 := by
  induction g with
  | nil => obtain ⟨l, hl, _⟩ := hfree; cases hl
  | cons l g ih =>
    simp only [add_link_loop]
    by_cases c : l.fd ≥ 0
    · rw [if_pos c]
      obtain ⟨x, hx, hx2⟩ := hfree
      rcases List.mem_cons.mp hx with hx | hx
      · subst hx; omega
      · exact ih ⟨x, hx, hx2⟩
    · rw [if_neg c, if_neg (by rw [h1]; decide), if_neg (by rw [h2]; decide)]

/-- After a successful insert the link id resolves to the new descriptor,
provided no occupied slot held the link id before. -/
theorem add_link_loop_find_sockfd (fd linkid type : Int) (e : add_link_env) (g : List link_t)
    (hfd : 0 ≤ fd) (hfree : ∃ l ∈ g, l.fd < 0) (h1 : e.sem_start = 0) (h2 : e.sem_close = 0)
    (hnew : ¬ find_sockfd_loop linkid g ≥ 0) :
    find_sockfd_loop linkid (add_link_loop fd linkid type e g).2 = fd := by
  induction g with
  | nil => obtain ⟨l, hl, _⟩ := hfree; cases hl
  | cons l g ih =>
    simp only [add_link_loop]
    by_cases c : l.fd ≥ 0
    · rw [if_pos c]
      simp only [find_sockfd_loop] at hnew ⊢
      by_cases c2 : l.fd ≥ 0 ∧ l.linkid = linkid
      · rw [if_pos c2] at hnew
        exact absurd c hnew
      · rw [if_neg c2] at hnew ⊢
        obtain ⟨x, hx, hx2⟩ := hfree
        rcases List.mem_cons.mp hx with hx | hx
        · subst hx; omega
        · exact ih ⟨x, hx, hx2⟩ hnew
    · rw [if_neg c, if_neg (by rw [h1]; decide), if_neg (by rw [h2]; decide)]
      simp only [find_sockfd_loop]
      rw [if_pos ⟨hfd, trivial⟩]

/-- After a successful insert of a descriptor that no slot held before, the
descriptor resolves to the new link id. -/
theorem add_link_loop_find_linkid (fd linkid type : Int) (e : add_link_env) (g : List link_t)
    (acc : Int) (hfree : ∃ l ∈ g, l.fd < 0) (h1 : e.sem_start = 0) (h2 : e.sem_close = 0)
    (hfresh : ∀ l ∈ g, l.fd ≠ fd) :
    find_linkid_loop fd acc (add_link_loop fd linkid type e g).2 = linkid := by
  induction g with
  | nil => obtain ⟨l, hl, _⟩ := hfree; cases hl
  | cons l g ih =>
    simp only [add_link_loop]
    by_cases c : l.fd ≥ 0
    · rw [if_pos c]
      simp only [find_linkid_loop, hfresh l (List.mem_cons_self _ _), if_false]
      obtain ⟨x, hx, hx2⟩ := hfree
      rcases List.mem_cons.mp hx with hx | hx
      · subst hx; omega
      · exact ih ⟨x, hx, hx2⟩ (fun y hy => hfresh y (List.mem_cons_of_mem _ hy))
    · rw [if_neg c, if_neg (by rw [h1]; decide), if_neg (by rw [h2]; decide)]
      simp only [find_linkid_loop, if_true]
      exact find_linkid_loop_absent fd g linkid
        (fun y hy => hfresh y (List.mem_cons_of_mem _ hy))

/-- After a successful insert of a descriptor that no slot held before, the
descriptor resolves to the new connection type. -/
theorem add_link_loop_find_conntype (fd linkid type : Int) (e : add_link_env)
    (g : List link_t) (acc : Int) (hfree : ∃ l ∈ g, l.fd < 0) (h1 : e.sem_start = 0)
    (h2 : e.sem_close = 0) (hfresh : ∀ l ∈ g, l.fd ≠ fd) :
    find_conntype_loop fd acc (add_link_loop fd linkid type e g).2 = type := by
  induction g with
  | nil => obtain ⟨l, hl, _⟩ := hfree; cases hl
  | cons l g ih =>
    simp only [add_link_loop]
    by_cases c : l.fd ≥ 0
    · rw [if_pos c]
      simp only [find_conntype_loop, hfresh l (List.mem_cons_self _ _), if_false]
      obtain ⟨x, hx, hx2⟩ := hfree
      rcases List.mem_cons.mp hx with hx | hx
      · subst hx; omega
      · exact ih ⟨x, hx, hx2⟩ (fun y hy => hfresh y (List.mem_cons_of_mem _ hy))
    · rw [if_neg c, if_neg (by rw [h1]; decide), if_neg (by rw [h2]; decide)]
      simp only [find_conntype_loop, if_true]
      exact find_conntype_loop_absent fd g type
        (fun y hy => hfresh y (List.mem_cons_of_mem _ hy))

/-! ## The connection-status event of a client or UDP link -/

/-- For a link that is no TCP server, with a link id below 10000 and a frame
that fits `cmd[80]`, the content of `cmd` is the frame. -/
theorem conn_status_cmd_client (C : Consts) (recvstatus type linkid : Int)
    (type_str status_str : List Nat) (port : Int)
    (htype : type ≠ TCP_SERVER) (h0 : 0 ≤ linkid) (h1 : linkid < 10000)
    (hfit : (conn_status_text C recvstatus type linkid type_str status_str [] port).length
      < MAX_ATCMD_CON_STATUS_LEN) :
    conn_status_cmd C recvstatus type linkid type_str status_str [] port
      = .ok (some (enc_state MAX_ATCMD_CON_STATUS_LEN
          (conn_status_text C recvstatus type linkid type_str status_str [] port))) := by
  have hnum : number_comma 5 linkid
      = .ok ((itoa_text linkid).length + 1, itoa_text linkid ++ [CH_COMMA]) := by
    simp only [number_comma, itoa_decimal_linkid linkid h0 h1]
  have hsteps : ∀ s ∈ conn_status_steps C recvstatus type linkid type_str status_str [] port,
      ∃ p, s = .ok p ∧ p.2.length = p.1 := by
    intro s hs
    simp only [conn_status_steps, htype, if_false, hnum, List.mem_append, List.mem_cons,
      List.mem_singleton, List.not_mem_nil, or_false] at hs
    rcases hs with (((h | h) | h) | h) | h
    · split at h
      · simp only [List.mem_singleton] at h
        exact ⟨_, h, rfl⟩
      · simp at h
    · exact ⟨_, h, rfl⟩
    · exact ⟨_, h, by simp⟩
    · rcases h with h | h
      · exact ⟨_, h, by simp⟩
      · exact ⟨_, h, rfl⟩
    · split at h
      · simp only [List.mem_singleton] at h
        exact ⟨_, h, rfl⟩
      · simp at h
  have htext := conn_status_steps_text C recvstatus type linkid type_str status_str [] port
    (fun s hs => (hsteps s hs).imp (fun p hp => hp.1))
  unfold conn_status_cmd
  rw [encoder_start_eq, run_appends_fits _ _ [] hsteps (by rw [List.nil_append, htext]; exact hfit)]
  rw [List.nil_append, htext]

/-- The connection-status notification of a registered link that is no TCP
server: with a link id below 10000, a frame that fits `cmd[80]`, a valid
queue with room and a successful allocation, the call returns 0 and queues
exactly the frame. -/
theorem notify_conn_status_client (C : Consts) (e : notify_env) (w : World)
    (sockid status recvstatus : Int) (type_str status_str : List Nat)
    (hsock : 0 ≤ sockid)
    (hstatus : (if status = C.CIP_STATUS_CONNECTED then some (cstr "CONNECTED")
      else if status = C.CIP_STATUS_CLOSED then some (cstr "CLOSED") else none)
      = some status_str)
    (htype : conn_status_type_str (find_conntype_by_sockfd w.g_link sockid e.uninit_type)
      = some type_str)
    (hns : find_conntype_by_sockfd w.g_link sockid e.uninit_type ≠ TCP_SERVER)
    (h0 : 0 ≤ find_linkid_by_sockfd w.g_link sockid)
    (h1 : find_linkid_by_sockfd w.g_link sockid < 10000)
    (hfit : (conn_status_text C recvstatus
      (find_conntype_by_sockfd w.g_link sockid e.uninit_type)
      (find_linkid_by_sockfd w.g_link sockid) type_str status_str []
      ((e.peer.port % 2 ^ 16 : Nat) : Int)).length < MAX_ATCMD_CON_STATUS_LEN)
    (hvalid : w.uart_send_queue.valid = true)
    (hroom : w.uart_send_queue.items.length < DEFAULT_UART_SEND_BUF_SIZE)
    (hmalloc : e.ins.malloc_cmd = true) :
    notify_cip_connect_status_events C e w sockid status recvstatus
      = .ok (0, push_frame w (conn_status_text C recvstatus
          (find_conntype_by_sockfd w.g_link sockid e.uninit_type)
          (find_linkid_by_sockfd w.g_link sockid) type_str status_str []
          ((e.peer.port % 2 ^ 16 : Nat) : Int))) := by
  have hsnz : ∀ b ∈ status_str, b ≠ 0 := by
    split at hstatus
    · cases hstatus; exact cstr_nonzero_CONNECTED
    · split at hstatus
      · cases hstatus; exact cstr_nonzero_CLOSED
      · cases hstatus
  have hnz := conn_status_text_nonzero C recvstatus
    (find_conntype_by_sockfd w.g_link sockid e.uninit_type)
    (find_linkid_by_sockfd w.g_link sockid) type_str status_str []
    ((e.peer.port % 2 ^ 16 : Nat) : Int) (conn_status_type_str_nonzero _ _ htype) hsnz nz_nil
  have hne : conn_status_text C recvstatus
      (find_conntype_by_sockfd w.g_link sockid e.uninit_type)
      (find_linkid_by_sockfd w.g_link sockid) type_str status_str []
      ((e.peer.port % 2 ^ 16 : Nat) : Int) ≠ [] := by
    intro hnil
    have hl := congrArg List.length hnil
    simp only [conn_status_text, List.length_append, List.length_nil] at hl
    have hp : prefix_cipevent.length = 10 := by decide
    omega
  unfold notify_cip_connect_status_events
  rw [if_neg (by omega), hstatus, htype]
  dsimp only
  rw [if_neg (fun h => hns h.1), if_neg hns]
  dsimp only
  rw [if_neg (by omega), conn_status_cmd_client C _ _ _ _ _ _ hns h0 h1 hfit]
  dsimp only
  rw [insert_encoded e.ins w MAX_ATCMD_CON_STATUS_LEN _ hnz hne hfit (by decide) hvalid hroom
    hmalloc]
  rfl

/-! ## A successful CIPSTART -/

theorem connected_frame_eq (C : Consts) (L : Int) (port : Int) (hs : C.ATCMD_SUCCESS > 0) :
    conn_status_text C C.ATCMD_SUCCESS TCP_CLIENT L (cstr "SERVER") (cstr "CONNECTED") [] port
      = connected_frame C L := by
  have h1 : ¬ TCP_CLIENT = TCP_SERVER := by decide
  have h2 : cstr ",SERVER,CONNECTED" = CH_COMMA :: (cstr "SERVER" ++ CH_COMMA :: cstr "CONNECTED") := by
    decide
  simp only [conn_status_text, connected_frame, hs, if_true, h1, if_false, h2,
    List.append_assoc, List.cons_append, List.nil_append, List.append_nil,
    List.singleton_append]

/-- Second half of `atcmd_cip_start` for a TCP client when every system call
succeeds, the registry has a free slot, holds neither the link id nor the new
descriptor, and the serial queue accepts the frame. -/
theorem cip_start_open_client (C : Consts) (e : handler_env) (w : World) (L fd : Int)
    (hsock : e.socket = fd) (hfd : 0 ≤ fd)
    (hL0 : 0 ≤ L) (hL1 : L < 10000)
    (hnew : find_sockfd_by_linkid w.g_link L < 0)
    (hfree : ∃ l ∈ w.g_link, l.fd < 0) (hfresh : ∀ l ∈ w.g_link, l.fd ≠ fd)
    (hconn : e.connect = 0) (htask : e.task_new = 0)
    (hlock : e.add.mutex_lock = 0) (hsem1 : e.add.sem_start = 0) (hsem2 : e.add.sem_close = 0)
    (hsucc : C.ATCMD_SUCCESS > 0)
    (hfit : (connected_frame C L).length < MAX_ATCMD_CON_STATUS_LEN)
    (hvalid : w.uart_send_queue.valid = true)
    (hroom : w.uart_send_queue.items.length < DEFAULT_UART_SEND_BUF_SIZE)
    (hmalloc : e.notify.ins.malloc_cmd = true) :
    ∃ w1, cip_start_open C e w L TCP_CLIENT = .ok (0, w1)
      ∧ find_sockfd_by_linkid w1.g_link L = fd
      ∧ w1.uart_send_queue.items
          = w.uart_send_queue.items ++ [text_item (connected_frame C L)]
      ∧ w1.transport = w.transport := by
  subst hsock
  have hLn : ¬ L < 0 := by omega
  have hfdn : ¬ e.socket < 0 := by omega
  have hadd : add_link_info e.add w.g_link e.socket L TCP_CLIENT
      = (0, (add_link_loop e.socket L TCP_CLIENT e.add w.g_link).2) := by
    simp only [add_link_info, hlock, ne_eq, not_true_eq_false, if_false]
    rw [← add_link_loop_ok e.socket L TCP_CLIENT e.add w.g_link hfree hsem1 hsem2]
  have hnew2 : ¬ find_sockfd_loop L w.g_link ≥ 0 := by
    simp only [find_sockfd_by_linkid, hLn, if_false] at hnew
    omega
  have hg1 : find_sockfd_by_linkid (add_link_loop e.socket L TCP_CLIENT e.add w.g_link).2 L
      = e.socket := by
    simp only [find_sockfd_by_linkid, hLn, if_false]
    exact add_link_loop_find_sockfd e.socket L TCP_CLIENT e.add w.g_link hfd hfree hsem1 hsem2
      hnew2
  have hg2 : ∀ u, find_conntype_by_sockfd
      (add_link_loop e.socket L TCP_CLIENT e.add w.g_link).2 e.socket u = TCP_CLIENT := by
    intro u
    simp only [find_conntype_by_sockfd, hfdn, if_false]
    exact add_link_loop_find_conntype e.socket L TCP_CLIENT e.add w.g_link u hfree hsem1 hsem2
      hfresh
  have hg3 : find_linkid_by_sockfd (add_link_loop e.socket L TCP_CLIENT e.add w.g_link).2
      e.socket = L := by
    simp only [find_linkid_by_sockfd, hfdn, if_false]
    exact add_link_loop_find_linkid e.socket L TCP_CLIENT e.add w.g_link (-1) hfree hsem1 hsem2
      hfresh
  have hne : ¬ TCP_CLIENT = TCP_SERVER := by decide
  have hc1 : ¬ (TCP_CLIENT = TCP_CLIENT ∧ e.connect ≠ 0) := by
    rw [hconn]; simp
  have hc2 : ¬ (TCP_CLIENT ≠ TCP_CLIENT ∧ TCP_CLIENT = UDP_UNICAST
      ∧ (e.bind ≠ 0 ∨ e.connect ≠ 0)) := by simp
  have hc3 : ¬ (TCP_CLIENT ≠ TCP_CLIENT ∧ TCP_CLIENT ≠ UDP_UNICAST ∧ TCP_CLIENT = UDP_BROADCAST
      ∧ (e.setsockopt ≠ 0 ∨ e.bind ≠ 0)) := by simp
  have hc4 : ¬ (TCP_CLIENT ≠ TCP_CLIENT ∧ TCP_CLIENT ≠ UDP_UNICAST
      ∧ TCP_CLIENT ≠ UDP_BROADCAST ∧ TCP_CLIENT = TCP_SERVER) := by simp
  have hc5 : ¬ ((0 : Int) ≠ 0) := by decide
  have hc6 : ¬ (e.task_new ≠ 0) := by rw [htask]; decide
  have hcu : ¬ ((some recv_task_t.tcp_udp_client_recv_task = none)
      ∨ ((some 2048 : Option Int) = none)) := by simp
  have hadd2 : add_link_info e.add (after_socket e w).g_link e.socket L TCP_CLIENT
      = (0, (add_link_loop e.socket L TCP_CLIENT e.add w.g_link).2) := hadd
  have hgl : (after_task e w L TCP_CLIENT).g_link
      = (add_link_loop e.socket L TCP_CLIENT e.add w.g_link).2 := by
    simp only [after_task, after_add, hadd2]
  have hq : (after_task e w L TCP_CLIENT).uart_send_queue = w.uart_send_queue := rfl
  have hnotify := notify_conn_status_client C e.notify (after_task e w L TCP_CLIENT) e.socket
    C.CIP_STATUS_CONNECTED C.ATCMD_SUCCESS (cstr "SERVER") (cstr "CONNECTED") hfd
    (by rw [if_pos rfl]) (by rw [hgl, hg2]; rfl) (by rw [hgl, hg2]; exact hne)
    (by rw [hgl, hg3]; exact hL0) (by rw [hgl, hg3]; exact hL1)
    (by rw [hgl, hg2, hg3, connected_frame_eq C L _ hsucc]; exact hfit)
    (by rw [hq]; exact hvalid) (by rw [hq]; exact hroom) hmalloc
  rw [hgl, hg2, hg3, connected_frame_eq C L _ hsucc] at hnotify
  unfold cip_start_open
  rw [if_neg hfdn, if_neg hc1, if_neg hc2, if_neg hc3, if_neg hc4,
    cip_start_task_client L hL0 hL1]
  dsimp only
  rw [hadd2]
  dsimp only
  rw [if_neg hc5, if_neg hcu, if_neg hc6, hnotify]
  dsimp only
  rw [if_neg hc5]
  refine ⟨_, rfl, ?_, rfl, rfl⟩
  show find_sockfd_by_linkid (after_task e w L TCP_CLIENT).g_link L = e.socket
  rw [hgl]
  exact hg1

/-- C7 (amended). CIPSTART success: for every link id `L` below 10000 that
is not registered, a registry with a free slot, and the command line
`=L,tcp_client,<ip>,<port>\r` with a valid address and a non-zero port, when
`socket` returns a descriptor `fd` that the registry does not hold, `connect`,
the registry insert and the task creation succeed, and the serial queue
accepts the item, `atcmd_cip_start` returns 0, `find_sockfd_by_linkid(L)`
returns `fd`, and the serial queue gains exactly one item: the receive
prefix, `+CIPEVENT:L,SERVER,CONNECTED` and the success postfix, in this
order. -/
theorem C7_cip_start_success (C : Consts) (e : handler_env) (w : World)
    (d ip port rest : List Nat) (L fd : Int)
    (hinit : w.inited = true)
    (hin : w.transport = CH_EQ :: (d ++ CH_COMMA :: (cstr "tcp_client" ++ CH_COMMA ::
      (ip ++ CH_COMMA :: (port ++ CH_CR :: rest)))))
    (hd : d.length < 16) (hd2 : ∀ c ∈ d, socket_data_len_check c = 0) (hL : atoi d = L)
    (hL0 : 0 ≤ L) (hL1 : L < 10000)
    (hnew : find_sockfd_by_linkid w.g_link L < 0)
    (hfree : ∃ l ∈ w.g_link, l.fd < 0)
    (hip : ip.length < 16) (hip2 : ∀ c ∈ ip, socket_ip_info_check c = 0)
    (haddr : e.inet_addr ≠ C.IPADDR_NONE)
    (hport : port.length < 16) (hport2 : ∀ c ∈ port, socket_data_len_check c = 0)
    (hport0 : atoi port % 2 ^ 16 ≠ 0)
    (hsock : e.socket = fd) (hfd : 0 ≤ fd) (hfresh : ∀ l ∈ w.g_link, l.fd ≠ fd)
    (hconn : e.connect = 0) (htask : e.task_new = 0)
    (hlock : e.add.mutex_lock = 0) (hsem1 : e.add.sem_start = 0) (hsem2 : e.add.sem_close = 0)
    (hsucc : C.ATCMD_SUCCESS > 0)
    (hfit : (connected_frame C L).length < MAX_ATCMD_CON_STATUS_LEN)
    (hvalid : w.uart_send_queue.valid = true)
    (hroom : w.uart_send_queue.items.length < DEFAULT_UART_SEND_BUF_SIZE)
    (hmalloc : e.notify.ins.malloc_cmd = true) :
    ∃ w1, atcmd_cip_start C e w = .ok (0, w1)
      ∧ find_sockfd_by_linkid w1.g_link L = fd
      ∧ w1.uart_send_queue.items
          = w.uart_send_queue.items ++ [text_item (connected_frame C L)] := by
  have hty : get_conntype_index (some (cstr "tcp_client")) = TCP_CLIENT := by decide
  rw [cip_start_head C e w d _ CH_COMMA hinit hin hd hd2 (Or.inl rfl), hL,
    if_neg (by omega), if_neg (by omega),
    cip_start_args_line C e _ L (cstr "tcp_client") ip port rest CH_COMMA CH_COMMA CH_CR rfl
      (by decide) (by decide) hip hip2 hport hport2 (Or.inl rfl) (Or.inl rfl) (Or.inr rfl),
    hty, if_neg (by decide), if_neg hport0, if_neg haddr]
  obtain ⟨w1, h1, h2, h3, _⟩ := cip_start_open_client C e { w with transport := rest } L fd
    hsock hfd hL0 hL1 hnew hfree hfresh hconn htask hlock hsem1 hsem2 hsucc hfit hvalid hroom
    hmalloc
  exact ⟨w1, h1, h2, h3⟩

/-- Witness of C7: `AT+CIPSTART=0,tcp_client,127.0.0.1,9000\r` on a freshly
started gateway with `socket()` returning 3. -/
theorem C7_cip_start_success_witness :
    ∃ w1, atcmd_cip_start aos_consts (env_ok 3) { started [] with transport := start_link0 }
          = .ok (0, w1)
      ∧ find_sockfd_by_linkid w1.g_link 0 = 3
      ∧ w1.uart_send_queue.items
          = (started []).uart_send_queue.items ++ [text_item (connected_frame aos_consts 0)] :=
  C7_cip_start_success aos_consts (env_ok 3) { started [] with transport := start_link0 }
    (cstr "0") (cstr "127.0.0.1") (cstr "9000") [] 0 3 rfl rfl (by decide) (by decide) rfl
    (by decide) (by decide) (by decide) (by decide) (by decide) (by decide) (by decide)
    (by decide) (by decide) (by decide) rfl (by decide) (by decide) rfl rfl rfl rfl rfl
    (by decide) (by decide) rfl (by decide) rfl

/-- Counterexample to C7 as stated: `AT+CIPSTART=0,tcp_client,127.0.0.1,9000\r`
on a freshly started gateway, every call succeeding, returns 0 and registers
link 0 on descriptor 3, but the serial queue gains the single item
`\r\n+CIPEVENT:0,SERVER,CONNECTEDOK\r\n`: the event comes first and the
success postfix last, so the added bytes are not an acknowledgement-success
frame followed by the event. -/
theorem C7_event_precedes_postfix :
    atcmd_cip_start aos_consts (env_ok 3) { started [] with transport := start_link0 }
        = .ok (0, one_link)
      ∧ find_sockfd_by_linkid one_link.g_link 0 = 3
      ∧ one_link.uart_send_queue.items
          = [text_item (cstr "\r\n+CIPEVENT:0,SERVER,CONNECTEDOK\r\n")]
      ∧ ¬ ack_then_connected aos_consts 0 (started []).uart_send_queue.items
          one_link.uart_send_queue.items := by
  refine ⟨rfl, rfl, rfl, ?_⟩
  rintro ⟨added, h1, h2⟩
  have h3 : added = [text_item (cstr "\r\n+CIPEVENT:0,SERVER,CONNECTEDOK\r\n")] := by
    have : one_link.uart_send_queue.items
        = [text_item (cstr "\r\n+CIPEVENT:0,SERVER,CONNECTEDOK\r\n")] := rfl
    rw [this] at h1
    have h0 : (started []).uart_send_queue.items = [] := rfl
    rw [h0, List.nil_append] at h1
    exact h1.symm
  rw [h3] at h2
  revert h2
  decide

/-! ## Socket sends and byte accounting -/

/-- C8 (the code departs from the claim). With link 0 open on descriptor 3,
`AT+CIPSEND=0,4\r` followed by the bytes `abcd` returns 0, queues the success
acknowledgement and queues one socket item with the payload `abcd`, but the
item carries socket handle 0, not 3: `insert_sock_send_msg` never stores its
`sockfd` argument in the item. -/
theorem C8_socket_item_carries_handle_zero :
    find_sockfd_by_linkid one_link.g_link 0 = 3
      ∧ at_cip_send aos_consts (env_ok 3) { one_link with transport := send_four_bytes }
          = .ok cip_send_four
      ∧ cip_send_four.1 = 0
      ∧ cip_send_four.2.uart_send_queue.items
          = one_link.uart_send_queue.items ++ [text_item (ack_success_frame aos_consts)]
      ∧ cip_send_four.2.sock_send_queue.items = [⟨0, some (cstr "abcd"), 4⟩]
      ∧ (insert_sock_send_msg true one_link 3 (some (cstr "abcd")) 4).2.sock_send_queue.items
          = [⟨0, some (cstr "abcd"), 4⟩] := by
  refine ⟨rfl, rfl, rfl, rfl, rfl, rfl⟩

/-- C9 (the code departs from the claim). `insert_uart_send_msg("A", NULL, 1,
5)` on a zeroed statistic returns 0 and queues an item of size 1 (command
length 1, no payload, `datalen` 0), yet adds `cmdlen + datalen = 6` to
`total_byte`; after the drain loop has sent the item the queue is empty and
`total_byte` is 5.  So `total_byte` is not the sum of the sizes of the queued
items minus the sum of the sizes of the drained ones. -/
theorem C9_total_byte_exceeds_queued_bytes :
    (started []).uart_send_statistic.total_byte = 0
      ∧ insert_without_data.1 = 0
      ∧ insert_without_data.2.uart_send_queue.items = [⟨some (cstr "A" ++ [0]), none, 1, 0⟩]
      ∧ uart_queued_bytes insert_without_data.2 = 1
      ∧ insert_without_data.2.uart_send_statistic.total_byte = 6
      ∧ uart_send_task ⟨0, 0, 0⟩ insert_without_data.2 = .ok (some insert_without_data_drained)
      ∧ insert_without_data_drained.uart_send_queue.items = []
      ∧ uart_queued_bytes insert_without_data_drained = 0
      ∧ insert_without_data_drained.uart_send_statistic.total_byte = 5 := by
  refine ⟨rfl, rfl, rfl, rfl, rfl, rfl, rfl, rfl, rfl⟩

/-! ## What the handlers do to the registry -/

theorem notify_conn_status_g_link (C : Consts) (e : notify_env) (w : World)
    (sockid status recvstatus : Int) (r : Int × World)
    (h : notify_cip_connect_status_events C e w sockid status recvstatus = .ok r) :
    r.2.g_link = w.g_link := by
  unfold notify_cip_connect_status_events at h
  repeat' split at h
  all_goals first
    | (cases h; rfl)
    | (cases h; exact insert_uart_send_msg_g_link _ _ _ _ _ _)
    | cases h

theorem handler_err_g_link (C : Consts) (e : handler_env) (w : World) :
    (handler_err C e w).2.g_link = w.g_link :=
  notify_atcmd_recv_status_g_link _ _ _ _

/-- The registry after the second half of `atcmd_cip_start`: unchanged, or
the result of `add_link_info` for the new descriptor, or that result with the
descriptor deleted again. -/
theorem cip_start_open_g_link (C : Consts) (e : handler_env) (w : World) (linkid type : Int)
    (r : Int × World) (h : cip_start_open C e w linkid type = .ok r) :
    r.2.g_link = w.g_link
      ∨ (0 ≤ e.socket
        ∧ (r.2.g_link = (add_link_info e.add w.g_link e.socket linkid type).2
          ∨ r.2.g_link = (delete_link_info_by_sockfd e.delete_lock
              (add_link_info e.add w.g_link e.socket linkid type).2 e.socket).2)) := by
  have hs : (after_socket e w).g_link = w.g_link := rfl
  have ha : (after_add e w linkid type).g_link
      = (add_link_info e.add w.g_link e.socket linkid type).2 := rfl
  have ht : (after_task e w linkid type).g_link
      = (add_link_info e.add w.g_link e.socket linkid type).2 := rfl
  have herr0 : ∀ x : Except Fault (Int × World),
      x = .ok (cip_start_err C e (after_socket e w) e.socket) → x = .ok r →
      r.2.g_link = w.g_link := by
    intro x hx hr
    rw [hx] at hr
    cases hr
    exact (cip_start_err_g_link _ _ _ _).trans hs
  unfold cip_start_open at h
  by_cases c0 : e.socket < 0
  · rw [if_pos c0] at h
    exact Or.inl (herr0 _ rfl h)
  rw [if_neg c0] at h
  have hfd : 0 ≤ e.socket := by omega
  by_cases c1 : type = TCP_CLIENT ∧ e.connect ≠ 0
  · rw [if_pos c1] at h
    exact Or.inl (herr0 _ rfl h)
  rw [if_neg c1] at h
  by_cases c2 : type ≠ TCP_CLIENT ∧ type = UDP_UNICAST ∧ (e.bind ≠ 0 ∨ e.connect ≠ 0)
  · rw [if_pos c2] at h
    exact Or.inl (herr0 _ rfl h)
  rw [if_neg c2] at h
  by_cases c3 : type ≠ TCP_CLIENT ∧ type ≠ UDP_UNICAST ∧ type = UDP_BROADCAST
      ∧ (e.setsockopt ≠ 0 ∨ e.bind ≠ 0)
  · rw [if_pos c3] at h
    exact Or.inl (herr0 _ rfl h)
  rw [if_neg c3] at h
  by_cases c4 : type ≠ TCP_CLIENT ∧ type ≠ UDP_UNICAST ∧ type ≠ UDP_BROADCAST ∧ type = TCP_SERVER
  · rw [if_pos c4] at h
    exact Or.inl (herr0 _ rfl h)
  rw [if_neg c4] at h
  cases hts : cip_start_task type linkid with
  | error f => rw [hts] at h; cases h
  | ok ts =>
  rw [hts] at h
  dsimp only at h
  by_cases c5 : (add_link_info e.add (after_socket e w).g_link e.socket linkid type).1 ≠ 0
  · rw [if_pos c5] at h
    cases h
    exact Or.inr ⟨hfd, Or.inl ((cip_start_err_g_link _ _ _ _).trans ha)⟩
  rw [if_neg c5] at h
  by_cases cu : ts.recvtsk = none ∨ ts.stacksize = none
  · rw [if_pos cu] at h
    cases h
  rw [if_neg cu] at h
  by_cases c6 : e.task_new ≠ 0
  · rw [if_pos c6] at h
    cases h
    refine Or.inr ⟨hfd, Or.inr ((cip_start_err_g_link _ _ _ _).trans ?_)⟩
    show (delete_link_info_by_sockfd e.delete_lock (after_task e w linkid type).g_link
      e.socket).2 = _
    rw [ht]
  rw [if_neg c6] at h
  cases hn : notify_cip_connect_status_events C e.notify (after_task e w linkid type) e.socket
      C.CIP_STATUS_CONNECTED C.ATCMD_SUCCESS with
  | error f => rw [hn] at h; cases h
  | ok r1 =>
  rw [hn] at h
  dsimp only at h
  have hg1 := (notify_conn_status_g_link _ _ _ _ _ _ _ hn).trans ht
  by_cases c7 : r1.1 ≠ 0
  · rw [if_pos c7] at h
    cases h
    refine Or.inr ⟨hfd, Or.inr ((cip_start_err_g_link _ _ _ _).trans ?_)⟩
    show (delete_link_info_by_sockfd e.delete_lock r1.2.g_link e.socket).2 = _
    rw [hg1]
  · rw [if_neg c7] at h
    cases h
    exact Or.inr ⟨hfd, Or.inl hg1⟩

/-- The registry after the middle part of `atcmd_cip_start`. -/
theorem cip_start_args_g_link (C : Consts) (e : handler_env) (w : World) (linkid : Int)
    (r : Int × World) (h : cip_start_args C e w linkid = .ok r) :
    r.2.g_link = w.g_link
      ∨ ∃ type, 0 ≤ e.socket
        ∧ (r.2.g_link = (add_link_info e.add w.g_link e.socket linkid type).2
          ∨ r.2.g_link = (delete_link_info_by_sockfd e.delete_lock
              (add_link_info e.add w.g_link e.socket linkid type).2 e.socket).2) := by
  have herr : ∀ (w1 : World) (fd : Int), w1.g_link = w.g_link →
      Except.ok (cip_start_err C e w1 fd) = Except.ok (ε := Fault) r →
      r.2.g_link = w.g_link := by
    intro w1 fd hg hr
    cases hr
    exact (cip_start_err_g_link _ _ _ _).trans hg
  unfold cip_start_args at h
  cases h2 : get_field_w 16 (some socket_conntype_check) w with
  | error f => rw [h2] at h; cases h
  | ok r2 =>
  rw [h2] at h
  dsimp only at h
  have g2 := get_field_w_g_link _ _ _ _ h2
  by_cases c4 : r2.1 < 0 ∨ get_conntype_index (some r2.2.1) < 0
  · rw [if_pos c4] at h
    exact Or.inl (herr _ _ g2 h)
  rw [if_neg c4] at h
  cases h3 : get_field_w 16 (some socket_ip_info_check) r2.2.2 with
  | error f => rw [h3] at h; cases h
  | ok r3 =>
  rw [h3] at h
  dsimp only at h
  have g3 := (get_field_w_g_link _ _ _ _ h3).trans g2
  by_cases c5 : r3.1 < 0
  · rw [if_pos c5] at h
    exact Or.inl (herr _ _ g3 h)
  rw [if_neg c5] at h
  cases h4 : get_field_w 16 (some socket_data_len_check) r3.2.2 with
  | error f => rw [h4] at h; cases h
  | ok r4 =>
  rw [h4] at h
  dsimp only at h
  have g4 := (get_field_w_g_link _ _ _ _ h4).trans g3
  by_cases c6 : r4.1 < 0
  · rw [if_pos c6] at h
    exact Or.inl (herr _ _ g4 h)
  rw [if_neg c6] at h
  by_cases c7 : atoi r4.2.1 % 2 ^ 16 = 0
  · rw [if_pos c7] at h
    exact Or.inl (herr _ _ g4 h)
  rw [if_neg c7] at h
  by_cases c8 : e.inet_addr = C.IPADDR_NONE
  · rw [if_pos c8] at h
    exact Or.inl (herr _ _ g4 h)
  rw [if_neg c8] at h
  split at h
  · exact Or.inl (herr _ _ g4 h)
  rcases cip_start_open_g_link C e r4.2.2 linkid _ r h with h5 | ⟨hfd, h5⟩
  · exact Or.inl (h5.trans g4)
  · rw [g4] at h5
    exact Or.inr ⟨_, hfd, h5⟩

/-- The registry after `atcmd_cip_start`: unchanged, or the result of
`add_link_info` for a non-negative link id that no occupied slot held and a
descriptor `socket` returned, possibly with that descriptor deleted again. -/
theorem cip_start_g_link (C : Consts) (e : handler_env) (w : World)
    (r : Int × World) (h : atcmd_cip_start C e w = .ok r) :
    r.2.g_link = w.g_link
      ∨ ∃ linkid type, 0 ≤ linkid ∧ find_sockfd_by_linkid w.g_link linkid < 0 ∧ 0 ≤ e.socket
        ∧ (r.2.g_link = (add_link_info e.add w.g_link e.socket linkid type).2
          ∨ r.2.g_link = (delete_link_info_by_sockfd e.delete_lock
              (add_link_info e.add w.g_link e.socket linkid type).2 e.socket).2) := by
  have herr : ∀ (w1 : World) (fd : Int), w1.g_link = w.g_link →
      Except.ok (cip_start_err C e w1 fd) = Except.ok (ε := Fault) r →
      r.2.g_link = w.g_link := by
    intro w1 fd hg hr
    cases hr
    exact (cip_start_err_g_link _ _ _ _).trans hg
  unfold atcmd_cip_start at h
  by_cases c0 : w.inited = false
  · rw [if_pos c0] at h
    exact Or.inl (herr _ _ rfl h)
  rw [if_neg c0] at h
  cases h0 : at_parse1 w with
  | error f => rw [h0] at h; cases h
  | ok r0 =>
  rw [h0] at h
  dsimp only at h
  have g0 := at_parse1_g_link _ _ h0
  by_cases c1 : r0.1 ≠ CH_EQ
  · rw [if_pos c1] at h
    exact Or.inl (herr _ _ g0 h)
  rw [if_neg c1] at h
  cases h1 : get_field_w 16 (some socket_data_len_check) r0.2 with
  | error f => rw [h1] at h; cases h
  | ok r1 =>
  rw [h1] at h
  dsimp only at h
  have g1 := (get_field_w_g_link _ _ _ _ h1).trans g0
  by_cases c2 : r1.1 < 0 ∨ atoi r1.2.1 < 0
  · rw [if_pos c2] at h
    exact Or.inl (herr _ _ g1 h)
  rw [if_neg c2] at h
  by_cases c3 : find_sockfd_by_linkid r1.2.2.g_link (atoi r1.2.1) ≥ 0
  · rw [if_pos c3] at h
    exact Or.inl (herr _ _ g1 h)
  rw [if_neg c3] at h
  rcases cip_start_args_g_link C e r1.2.2 (atoi r1.2.1) r h with h5 | ⟨type, hfd, h5⟩
  · exact Or.inl (h5.trans g1)
  · rw [g1] at h5 c3
    exact Or.inr ⟨atoi r1.2.1, type, by omega, by omega, hfd, h5⟩

theorem close_link_g_link (C : Consts) (e : handler_env) (w : World) (sockfd : Int)
    (w2 : World) (h : close_link C e w sockfd = .ok w2) :
    w2.g_link = (delete_link_info_by_sockfd e.delete_lock w.g_link sockfd).2 := by
  unfold close_link at h
  cases hn : notify_cip_connect_status_events C e.notify w sockfd C.CIP_STATUS_CLOSED
      C.ATCMD_SUCCESS with
  | error f => rw [hn] at h; cases h
  | ok r1 =>
  rw [hn] at h
  cases h
  show (delete_link_info_by_sockfd e.delete_lock r1.2.g_link sockfd).2 = _
  rw [notify_conn_status_g_link _ _ _ _ _ _ _ hn]

/-- The registry after `atcmd_cip_stop`: unchanged, or with one descriptor
deleted. -/
theorem cip_stop_g_link (C : Consts) (e : handler_env) (w : World)
    (r : Int × World) (h : atcmd_cip_stop C e w = .ok r) :
    r.2.g_link = w.g_link
      ∨ ∃ fd, r.2.g_link = (delete_link_info_by_sockfd e.delete_lock w.g_link fd).2 := by
  have herr : ∀ (w1 : World), w1.g_link = w.g_link →
      Except.ok (handler_err C e w1) = Except.ok (ε := Fault) r →
      r.2.g_link = w.g_link := by
    intro w1 hg hr
    cases hr
    exact (handler_err_g_link _ _ _).trans hg
  unfold atcmd_cip_stop at h
  by_cases c0 : w.inited = false
  · rw [if_pos c0] at h
    exact Or.inl (herr _ rfl h)
  rw [if_neg c0] at h
  cases h0 : at_parse1 w with
  | error f => rw [h0] at h; cases h
  | ok r0 =>
  rw [h0] at h
  dsimp only at h
  have g0 := at_parse1_g_link _ _ h0
  by_cases c1 : r0.1 ≠ CH_EQ
  · rw [if_pos c1] at h
    exact Or.inl (herr _ g0 h)
  rw [if_neg c1] at h
  cases h1 : get_field_w 5 (some socket_data_len_check) r0.2 with
  | error f => rw [h1] at h; cases h
  | ok r1 =>
  rw [h1] at h
  dsimp only at h
  have g1 := (get_field_w_g_link _ _ _ _ h1).trans g0
  by_cases c2 : r1.1 < 0 ∨ atoi r1.2.1 < 0
  · rw [if_pos c2] at h
    exact Or.inl (herr _ g1 h)
  rw [if_neg c2] at h
  by_cases c3 : find_sockfd_by_linkid r1.2.2.g_link (atoi r1.2.1) < 0
  · rw [if_pos c3] at h
    exact Or.inl (herr _ g1 h)
  rw [if_neg c3] at h
  cases hc : close_link C e r1.2.2 (find_sockfd_by_linkid r1.2.2.g_link (atoi r1.2.1)) with
  | error f => rw [hc] at h; cases h
  | ok w2 =>
  rw [hc] at h
  cases h
  refine Or.inr ⟨find_sockfd_by_linkid r1.2.2.g_link (atoi r1.2.1), ?_⟩
  rw [close_link_g_link _ _ _ _ _ hc, g1]

/-- The registry after `atcmd_cip_auto_connect`: unchanged, or with one
descriptor deleted. -/
theorem cip_auto_connect_g_link (C : Consts) (e : handler_env) (w : World)
    (r : Int × World) (h : atcmd_cip_auto_connect C e w = .ok r) :
    r.2.g_link = w.g_link
      ∨ ∃ fd, r.2.g_link = (delete_link_info_by_sockfd e.delete_lock w.g_link fd).2 := by
  have herr : ∀ (w1 : World), w1.g_link = w.g_link →
      Except.ok (handler_err C e w1) = Except.ok (ε := Fault) r →
      r.2.g_link = w.g_link := by
    intro w1 hg hr
    cases hr
    exact (handler_err_g_link _ _ _).trans hg
  unfold atcmd_cip_auto_connect at h
  by_cases c0 : w.inited = false
  · rw [if_pos c0] at h
    exact Or.inl (herr _ rfl h)
  rw [if_neg c0] at h
  cases h0 : at_parse1 w with
  | error f => rw [h0] at h; cases h
  | ok r0 =>
  rw [h0] at h
  dsimp only at h
  have g0 := at_parse1_g_link _ _ h0
  by_cases c1 : r0.1 ≠ CH_EQ
  · rw [if_pos c1] at h
    exact Or.inl (herr _ g0 h)
  rw [if_neg c1] at h
  cases h1 : get_field_w 5 (some socket_data_len_check) r0.2 with
  | error f => rw [h1] at h; cases h
  | ok r1 =>
  rw [h1] at h
  dsimp only at h
  have g1 := (get_field_w_g_link _ _ _ _ h1).trans g0
  by_cases c2 : r1.1 < 0 ∨ atoi r1.2.1 < 0
  · rw [if_pos c2] at h
    exact Or.inl (herr _ g1 h)
  rw [if_neg c2] at h
  cases h2 : at_parse1 r1.2.2 with
  | error f => rw [h2] at h; cases h
  | ok r2 =>
  rw [h2] at h
  dsimp only at h
  have g2 := (at_parse1_g_link _ _ h2).trans g1
  by_cases c3 : r2.1 ≠ 48 ∧ r2.1 ≠ 49
  · rw [if_pos c3] at h
    exact Or.inl (herr _ g2 h)
  rw [if_neg c3] at h
  by_cases c4 : find_sockfd_by_linkid r2.2.g_link (atoi r1.2.1) < 0
  · rw [if_pos c4] at h
    exact Or.inl (herr _ g2 h)
  rw [if_neg c4] at h
  by_cases c5 : r2.1 = 48
  · rw [if_pos c5] at h
    cases hc : close_link C e r2.2 (find_sockfd_by_linkid r2.2.g_link (atoi r1.2.1)) with
    | error f => rw [hc] at h; cases h
    | ok w2 =>
    rw [hc] at h
    cases h
    refine Or.inr ⟨find_sockfd_by_linkid r2.2.g_link (atoi r1.2.1), ?_⟩
    rw [close_link_g_link _ _ _ _ _ hc, g2]
  · rw [if_neg c5] at h
    cases h
    exact Or.inl g2

/-- A receive task that leaves its loop does not touch the registry. -/
theorem recv_task_exit_g_link (C : Consts) (e : notify_env) (w : World) (fd : Int)
    (w1 : World) (h : recv_task_exit C e w fd = .ok w1) : w1.g_link = w.g_link := by
  unfold recv_task_exit at h
  by_cases c : find_linkid_by_sockfd w.g_link fd ≥ 0
  · rw [if_pos c] at h
    cases hn : notify_cip_connect_status_events C e w fd C.CIP_STATUS_CLOSED 0 with
    | error f => rw [hn] at h; cases h
    | ok r1 =>
    rw [hn] at h
    cases h
    exact notify_conn_status_g_link _ _ _ _ _ _ _ hn
  · rw [if_neg c] at h
    cases h
    rfl

/-- A successful `athost_init` on the freshly booted program leaves every
slot of the registry empty. -/
theorem athost_init_g_link (e : init_env) (input : List Nat) (w : World)
    (h : athost_init e (boot input) = (0, w)) :
    w.g_link = List.replicate LINK_ID_MAX ⟨-1, -1, 0⟩ := by
  unfold athost_init at h
  have hb : ¬ (boot input).inited = true := by simp [boot]
  rw [if_neg hb] at h
  repeat' split at h
  all_goals first
    | (cases h; rfl)
    | (simp only [athost_init_err, Prod.mk.injEq] at h; exact absurd h.1 (by decide))

/-- Every property of the registry that holds for the empty registry and is
kept by `delete_link_info_by_sockfd` and by `add_link_info` of a descriptor
for a non-negative link id that no occupied slot holds, holds in every
reachable state. -/
theorem reachable_registry (C : Consts) (P : List link_t → Prop)
    (h0 : P (List.replicate LINK_ID_MAX ⟨-1, -1, 0⟩))
    (hdel : ∀ lock g fd, P g → P (delete_link_info_by_sockfd lock g fd).2)
    (hadd : ∀ env g fd linkid type, P g → 0 ≤ fd → 0 ≤ linkid →
      find_sockfd_by_linkid g linkid < 0 → P (add_link_info env g fd linkid type).2)
    (w : World) (hw : Reachable C w) : P w.g_link := by
  induction hw with
  | init e input w h => rw [athost_init_g_link e input w h]; exact h0
  | cip_start e input w r _ _ h ih =>
    rcases cip_start_g_link C e _ r h with hg | ⟨linkid, type, hl, hnew, hfd, hg | hg⟩
    · rw [hg]; exact ih
    · rw [hg]; exact hadd _ _ _ _ _ ih hfd hl hnew
    · rw [hg]; exact hdel _ _ _ (hadd _ _ _ _ _ ih hfd hl hnew)
  | cip_stop e input w r _ h ih =>
    rcases cip_stop_g_link C e _ r h with hg | ⟨fd, hg⟩
    · rw [hg]; exact ih
    · rw [hg]; exact hdel _ _ _ ih
  | cip_auto_connect e input w r _ h ih =>
    rcases cip_auto_connect_g_link C e _ r h with hg | ⟨fd, hg⟩
    · rw [hg]; exact ih
    · rw [hg]; exact hdel _ _ _ ih
  | recv_exit e fd w w1 _ _ h ih =>
    rw [recv_task_exit_g_link C e w fd w1 h]; exact ih

/-! ## Link ids stay unique -/

theorem delete_link_loop_mem (sockfd : Int) (g : List link_t) :
    ∀ x ∈ (delete_link_loop sockfd g).2, x ∈ g ∨ ¬ occupied x := by
  induction g with
  | nil => intro x hx; simp [delete_link_loop] at hx
  | cons l g ih =>
    intro x hx
    simp only [delete_link_loop] at hx
    split at hx
    · simp only [List.mem_cons] at hx
      rcases hx with hx | hx
      · right; subst hx; simp [occupied]
      · rcases ih x hx with h | h
        · exact Or.inl (List.mem_cons_of_mem _ h)
        · exact Or.inr h
    · simp only [List.mem_cons] at hx
      rcases hx with hx | hx
      · left; subst hx; exact List.mem_cons_self _ _
      · rcases ih x hx with h | h
        · exact Or.inl (List.mem_cons_of_mem _ h)
        · exact Or.inr h

theorem delete_link_loop_apart (sockfd : Int) (g : List link_t)
    (h : g.Pairwise linkid_apart) : (delete_link_loop sockfd g).2.Pairwise linkid_apart := by
  induction g with
  | nil => simp [delete_link_loop]
  | cons l g ih =>
    rw [List.pairwise_cons] at h
    simp only [delete_link_loop]
    split
    · rw [List.pairwise_cons]
      refine ⟨?_, ih h.2⟩
      intro x _ hocc
      exact absurd hocc (by simp [occupied])
    · rw [List.pairwise_cons]
      refine ⟨?_, ih h.2⟩
      intro x hx
      rcases delete_link_loop_mem sockfd g x hx with hm | hn
      · exact h.1 x hm
      · intro _ hox
        exact absurd hox hn

theorem delete_link_info_apart (lock : Int) (g : List link_t) (fd : Int)
    (h : g.Pairwise linkid_apart) :
    (delete_link_info_by_sockfd lock g fd).2.Pairwise linkid_apart := by
  unfold delete_link_info_by_sockfd
  split
  · exact h
  · split
    · exact h
    · exact delete_link_loop_apart fd g h

theorem add_link_loop_mem (fd linkid type : Int) (e : add_link_env) (g : List link_t) :
    ∀ x ∈ (add_link_loop fd linkid type e g).2, x ∈ g ∨ ¬ occupied x ∨ x.linkid = linkid := by
  induction g with
  | nil => intro x hx; simp [add_link_loop] at hx
  | cons l g ih =>
    intro x hx
    simp only [add_link_loop] at hx
    split at hx
    · simp only [List.mem_cons] at hx
      rcases hx with hx | hx
      · left; subst hx; exact List.mem_cons_self _ _
      · rcases ih x hx with h | h
        · exact Or.inl (List.mem_cons_of_mem _ h)
        · exact Or.inr h
    · split at hx
      · simp only [List.mem_cons] at hx
        rcases hx with hx | hx
        · right; left; subst hx; simp [occupied]
        · exact Or.inl (List.mem_cons_of_mem _ hx)
      · split at hx
        · simp only [List.mem_cons] at hx
          rcases hx with hx | hx
          · right; left; subst hx; simp [occupied]
          · exact Or.inl (List.mem_cons_of_mem _ hx)
        · simp only [List.mem_cons] at hx
          rcases hx with hx | hx
          · right; right; subst hx; rfl
          · exact Or.inl (List.mem_cons_of_mem _ hx)

theorem add_link_loop_apart (fd linkid type : Int) (e : add_link_env) (g : List link_t)
    (h : g.Pairwise linkid_apart) (hnew : ∀ l ∈ g, occupied l → l.linkid ≠ linkid) :
    (add_link_loop fd linkid type e g).2.Pairwise linkid_apart := by
  induction g with
  | nil => simp [add_link_loop]
  | cons l g ih =>
    rw [List.pairwise_cons] at h
    have hnew2 : ∀ x ∈ g, occupied x → x.linkid ≠ linkid :=
      fun x hx => hnew x (List.mem_cons_of_mem _ hx)
    simp only [add_link_loop]
    split
    · rw [List.pairwise_cons]
      refine ⟨?_, ih h.2 hnew2⟩
      intro x hx hol hox
      rcases add_link_loop_mem fd linkid type e g x hx with hm | hn | hid
      · exact h.1 x hm hol hox
      · exact absurd hox hn
      · rw [hid]
        exact hnew l (List.mem_cons_self _ _) hol
    · split
      · rw [List.pairwise_cons]
        refine ⟨?_, h.2⟩
        intro x _ hocc
        exact absurd hocc (by simp [occupied])
      · split
        · rw [List.pairwise_cons]
          refine ⟨?_, h.2⟩
          intro x _ hocc
          exact absurd hocc (by simp [occupied])
        · rw [List.pairwise_cons]
          refine ⟨?_, h.2⟩
          intro x hx _ hox
          exact fun heq => hnew2 x hx hox heq.symm

theorem find_sockfd_loop_neg (linkid : Int) (g : List link_t)
    (h : find_sockfd_loop linkid g < 0) : ∀ l ∈ g, occupied l → l.linkid ≠ linkid := by
  induction g with
  | nil => intro l hl; simp at hl
  | cons a g ih =>
    simp only [find_sockfd_loop] at h
    by_cases c : a.fd ≥ 0 ∧ a.linkid = linkid
    · rw [if_pos c] at h
      omega
    · rw [if_neg c] at h
      intro l hl hocc
      simp only [List.mem_cons] at hl
      rcases hl with hl | hl
      · subst hl
        intro heq
        exact c ⟨hocc, heq⟩
      · exact ih h l hl hocc

theorem add_link_info_apart (e : add_link_env) (g : List link_t) (fd linkid type : Int)
    (h : g.Pairwise linkid_apart) (hl : 0 ≤ linkid)
    (hnew : find_sockfd_by_linkid g linkid < 0) :
    (add_link_info e g fd linkid type).2.Pairwise linkid_apart := by
  unfold add_link_info
  split
  · exact h
  · apply add_link_loop_apart fd linkid type e g h
    apply find_sockfd_loop_neg
    unfold find_sockfd_by_linkid at hnew
    rw [if_neg (by omega)] at hnew
    exact hnew

theorem linkid_unique_of_apart (g : List link_t) (h : g.Pairwise linkid_apart) :
    linkid_unique g := by
  rw [List.pairwise_iff_get] at h
  intro i j hij hi hj
  rcases lt_or_gt_of_ne hij with hlt | hgt
  · exact h i j hlt hi hj
  · exact fun heq => h j i hgt hj hi heq.symm

/-- The link-id half of link uniqueness is an invariant: in every state
reachable from `athost_init` by CIPSTART, CIPSTOP and CIPAUTOCONN commands and
receive-task terminations, no two occupied slots hold the same link id. -/
theorem reachable_linkid_unique (C : Consts) (w : World) (hw : Reachable C w) :
    linkid_unique w.g_link := by
  apply linkid_unique_of_apart
  apply reachable_registry C (fun g => g.Pairwise linkid_apart) _ _ _ w hw
  · simp only [LINK_ID_MAX, List.replicate, List.pairwise_cons, List.Pairwise.nil, and_true]
    refine ⟨?_, ?_, ?_, ?_, ?_⟩ <;> intro x _ hocc <;> exact absurd hocc (by simp [occupied])
  · intro lock g fd hP
    exact delete_link_info_apart lock g fd hP
  · intro env g fd linkid type hP _ hl hnew
    exact add_link_info_apart env g fd linkid type hP hl hnew

/-! ## Registry operations -/

theorem link_unique_iff_pairwise (g : List link_t) :
    link_unique g ↔ g.Pairwise link_apart := by
  rw [List.pairwise_iff_get]
  constructor
  · intro h i j hij
    exact h i j (ne_of_lt hij)
  · intro h i j hij hi hj
    rcases lt_or_gt_of_ne hij with hlt | hgt
    · exact h i j hlt hi hj
    · have := h j i hgt hj hi
      exact ⟨fun heq => this.1 heq.symm, fun heq => this.2 heq.symm⟩

/-- In a registry with link uniqueness an occupied slot splits the registry
into the slots before and after it, none of which is an occupied slot with
the same handle or the same link id. -/
theorem link_unique_split (g : List link_t) (hu : link_unique g) (l : link_t) (hl : l ∈ g)
    (hocc : occupied l) :
    ∃ pre post, g = pre ++ l :: post
      ∧ (∀ x ∈ pre, occupied x → x.fd ≠ l.fd ∧ x.linkid ≠ l.linkid)
      ∧ (∀ x ∈ post, occupied x → x.fd ≠ l.fd ∧ x.linkid ≠ l.linkid) := by
  obtain ⟨pre, post, hg⟩ := List.append_of_mem hl
  rw [link_unique_iff_pairwise, hg, List.pairwise_append, List.pairwise_cons] at hu
  refine ⟨pre, post, hg, ?_, ?_⟩
  · intro x hx hox
    exact hu.2.2 x hx l (List.mem_cons_self _ _) hox hocc
  · intro x hx hox
    have := hu.2.1.1 x hx hocc hox
    exact ⟨fun h => this.1 h.symm, fun h => this.2 h.symm⟩

theorem find_linkid_loop_append (fd : Int) (a b : List link_t) (acc : Int) :
    find_linkid_loop fd acc (a ++ b) = find_linkid_loop fd (find_linkid_loop fd acc a) b := by
  induction a generalizing acc with
  | nil => rfl
  | cons x a ih =>
    simp only [List.cons_append, find_linkid_loop]
    exact ih _

theorem find_conntype_loop_append (fd : Int) (a b : List link_t) (acc : Int) :
    find_conntype_loop fd acc (a ++ b)
      = find_conntype_loop fd (find_conntype_loop fd acc a) b := by
  induction a generalizing acc with
  | nil => rfl
  | cons x a ih =>
    simp only [List.cons_append, find_conntype_loop]
    exact ih _

theorem find_sockfd_loop_skip (linkid : Int) (a b : List link_t)
    (h : ∀ x ∈ a, occupied x → x.linkid ≠ linkid) :
    find_sockfd_loop linkid (a ++ b) = find_sockfd_loop linkid b := by
  induction a with
  | nil => rfl
  | cons x a ih =>
    have hx : ¬ (x.fd ≥ 0 ∧ x.linkid = linkid) :=
      fun c => h x (List.mem_cons_self _ _) c.1 c.2
    simp only [List.cons_append, find_sockfd_loop, if_neg hx]
    exact ih (fun y hy => h y (List.mem_cons_of_mem _ hy))

theorem find_sockfd_loop_absent (linkid : Int) (g : List link_t)
    (h : ∀ x ∈ g, occupied x → x.linkid ≠ linkid) : find_sockfd_loop linkid g = -1 := by
  have := find_sockfd_loop_skip linkid g [] h
  rw [List.append_nil] at this
  rw [this]
  rfl

/-- The three lookups on an occupied slot of a registry with link uniqueness,
and the two lookups of a value that no occupied slot holds. -/
theorem lookup_round_trip (g : List link_t) (hu : link_unique g) :
    (∀ l ∈ g, occupied l →
        find_linkid_by_sockfd g l.fd = l.linkid
        ∧ (0 ≤ l.linkid → find_sockfd_by_linkid g l.linkid = l.fd)
        ∧ ∀ uninit, find_conntype_by_sockfd g l.fd uninit = l.type)
    ∧ (∀ linkid, (∀ l ∈ g, occupied l → l.linkid ≠ linkid) →
        find_sockfd_by_linkid g linkid = -1)
    ∧ (∀ fd, (∀ l ∈ g, occupied l → l.fd ≠ fd) → find_linkid_by_sockfd g fd = -1) := by
  refine ⟨?_, ?_, ?_⟩
  · intro l hl hocc
    obtain ⟨pre, post, hg, hpre, hpost⟩ := link_unique_split g hu l hl hocc
    have hfd : ¬ l.fd < 0 := by
      have : l.fd ≥ 0 := hocc
      omega
    have hpre_fd : ∀ x ∈ pre, x.fd ≠ l.fd := by
      intro x hx heq
      have hox : occupied x := by
        have : l.fd ≥ 0 := hocc
        show x.fd ≥ 0
        omega
      exact (hpre x hx hox).1 heq
    have hpost_fd : ∀ x ∈ post, x.fd ≠ l.fd := by
      intro x hx heq
      have hox : occupied x := by
        have : l.fd ≥ 0 := hocc
        show x.fd ≥ 0
        omega
      exact (hpost x hx hox).1 heq
    refine ⟨?_, ?_, ?_⟩
    · rw [hg]
      simp only [find_linkid_by_sockfd, if_neg hfd]
      rw [find_linkid_loop_append, find_linkid_loop_absent _ pre _ hpre_fd]
      simp only [find_linkid_loop, if_true]
      exact find_linkid_loop_absent _ post _ hpost_fd
    · intro h0
      rw [hg]
      have hneg : ¬ l.linkid < 0 := by omega
      simp only [find_sockfd_by_linkid, if_neg hneg]
      rw [find_sockfd_loop_skip _ pre _ (fun x hx hox => (hpre x hx hox).2)]
      have hc : l.fd ≥ 0 ∧ l.linkid = l.linkid := ⟨hocc, rfl⟩
      show (if l.fd ≥ 0 ∧ l.linkid = l.linkid then l.fd else find_sockfd_loop l.linkid post)
        = l.fd
      rw [if_pos hc]
    · intro uninit
      rw [hg]
      simp only [find_conntype_by_sockfd, if_neg hfd]
      rw [find_conntype_loop_append, find_conntype_loop_absent _ pre _ hpre_fd]
      simp only [find_conntype_loop, if_true]
      exact find_conntype_loop_absent _ post _ hpost_fd
  · intro linkid h
    unfold find_sockfd_by_linkid
    split
    · rfl
    · exact find_sockfd_loop_absent linkid g h
  · intro fd h
    unfold find_linkid_by_sockfd
    split
    · rfl
    · rename_i hfd
      apply find_linkid_loop_absent
      intro x hx heq
      have hox : occupied x := by
        show x.fd ≥ 0
        omega
      exact h x hx hox heq

theorem two_link_registry_unique : link_unique two_link_registry := by
  unfold link_unique
  decide


/-! ## Insert and remove -/

/-- The loop of `add_link_info` writes the first slot that is not occupied. -/
theorem add_link_loop_first_fit (fd linkid type : Int) (e : add_link_env)
    (pre post : List link_t) (l : link_t) (h1 : e.sem_start = 0) (h2 : e.sem_close = 0)
    (hpre : ∀ x ∈ pre, occupied x) (hl : ¬ occupied l) :
    add_link_loop fd linkid type e (pre ++ l :: post)
      = (0, pre ++ ⟨fd, linkid, type⟩ :: post) := by
  induction pre with
  | nil =>
    have hl2 : ¬ l.fd ≥ 0 := hl
    simp only [List.nil_append, add_link_loop]
    rw [if_neg hl2, if_neg (by rw [h1]; decide), if_neg (by rw [h2]; decide)]
  | cons x pre ih =>
    have hx : x.fd ≥ 0 := hpre x (List.mem_cons_self _ _)
    have ih2 := ih (fun y hy => hpre y (List.mem_cons_of_mem _ hy))
    simp only [List.cons_append, add_link_loop]
    rw [if_pos hx]
    show ((add_link_loop fd linkid type e (pre ++ l :: post)).1,
      x :: (add_link_loop fd linkid type e (pre ++ l :: post)).2) = _
    rw [ih2]

/-- A registry with a slot that is not occupied splits at its first such
slot. -/
theorem first_free_slot (g : List link_t) (h : ∃ l ∈ g, ¬ occupied l) :
    ∃ pre l post, g = pre ++ l :: post ∧ (∀ x ∈ pre, occupied x) ∧ ¬ occupied l := by
  induction g with
  | nil => obtain ⟨l, hl, _⟩ := h; cases hl
  | cons a g ih =>
    by_cases ha : occupied a
    · obtain ⟨l, hl, hl2⟩ := h
      have hg : ∃ l ∈ g, ¬ occupied l := by
        rcases List.mem_cons.mp hl with hl | hl
        · subst hl; exact absurd ha hl2
        · exact ⟨l, hl, hl2⟩
      obtain ⟨pre, x, post, hg2, hpre, hx⟩ := ih hg
      refine ⟨a :: pre, x, post, by rw [hg2]; rfl, ?_, hx⟩
      intro y hy
      rcases List.mem_cons.mp hy with hy | hy
      · subst hy; exact ha
      · exact hpre y hy
    · refine ⟨[], a, g, rfl, ?_, ha⟩
      intro y hy
      simp at hy

/-- C18 (amended). Registry insert is first-fit: for every registry with at
least one slot that is not occupied, when the registry lock is taken and
both semaphores are created, `add_link_info(fd, linkid, type)` returns 0,
writes `(fd, linkid, type)` into the lowest-index slot that is not occupied,
and leaves every other slot as it is. -/
theorem C18_insert_first_fit (e : add_link_env) (g : List link_t) (fd linkid type : Int)
    (hlock : e.mutex_lock = 0) (h1 : e.sem_start = 0) (h2 : e.sem_close = 0)
    (hfree : ∃ l ∈ g, ¬ occupied l) :
    ∃ pre l post, g = pre ++ l :: post ∧ (∀ x ∈ pre, occupied x) ∧ ¬ occupied l
      ∧ add_link_info e g fd linkid type = (0, pre ++ ⟨fd, linkid, type⟩ :: post) := by
  obtain ⟨pre, l, post, hg, hpre, hl⟩ := first_free_slot g hfree
  refine ⟨pre, l, post, hg, hpre, hl, ?_⟩
  unfold add_link_info
  rw [if_neg (by rw [hlock]; decide), hg]
  exact add_link_loop_first_fit fd linkid type e pre post l h1 h2 hpre hl

/-- Witness of C18: with link 0 on descriptor 3 and link 1 on descriptor 4,
`add_link_info(5, 2, tcp_client)` fills the third slot. -/
theorem C18_insert_first_fit_witness :
    ∃ pre l post, two_link_registry = pre ++ l :: post ∧ (∀ x ∈ pre, occupied x)
      ∧ ¬ occupied l
      ∧ add_link_info ⟨0, 0, 0⟩ two_link_registry 5 2 1
          = (0, pre ++ ⟨5, 2, 1⟩ :: post) :=
  C18_insert_first_fit ⟨0, 0, 0⟩ two_link_registry 5 2 1 rfl rfl rfl
    ⟨⟨-1, -1, 0⟩, by decide, by decide⟩

/-- Counterexample to C18 as stated: on the empty registry, with both
semaphores available, `add_link_info(3, 0, tcp_client)` returns -1 and writes
nothing when `aos_mutex_lock` fails. -/
theorem C18_insert_fails_without_lock :
    (∃ l ∈ empty_registry, ¬ occupied l)
      ∧ env_lock_fails.sem_start = 0 ∧ env_lock_fails.sem_close = 0
      ∧ add_link_info env_lock_fails empty_registry 3 0 1 = (-1, empty_registry)
      ∧ ¬ ((add_link_info env_lock_fails empty_registry 3 0 1).1 = 0) := by
  refine ⟨⟨⟨-1, -1, 0⟩, by decide, by decide⟩, rfl, rfl, rfl, by decide⟩

theorem delete_link_loop_length (sockfd : Int) (g : List link_t) :
    (delete_link_loop sockfd g).2.length = g.length := by
  induction g with
  | nil => rfl
  | cons l g ih =>
    simp only [delete_link_loop]
    split <;> simp [ih]

theorem delete_link_loop_ret (sockfd : Int) (g : List link_t) :
    ((delete_link_loop sockfd g).1 = 0 ↔ ∃ l ∈ g, l.fd = sockfd)
      ∧ ((delete_link_loop sockfd g).1 = 0 ∨ (delete_link_loop sockfd g).1 = -1) := by
  induction g with
  | nil => simp [delete_link_loop]
  | cons l g ih =>
    simp only [delete_link_loop]
    by_cases c : l.fd = sockfd
    · rw [if_pos c]
      exact ⟨⟨fun _ => ⟨l, List.mem_cons_self _ _, c⟩, fun _ => rfl⟩, Or.inl rfl⟩
    · rw [if_neg c]
      refine ⟨?_, ih.2⟩
      show (delete_link_loop sockfd g).1 = 0 ↔ _
      rw [ih.1]
      constructor
      · rintro ⟨x, hx, hx2⟩
        exact ⟨x, List.mem_cons_of_mem _ hx, hx2⟩
      · rintro ⟨x, hx, hx2⟩
        rcases List.mem_cons.mp hx with hx | hx
        · subst hx; exact absurd hx2 c
        · exact ⟨x, hx, hx2⟩

theorem delete_link_loop_none (sockfd : Int) (g : List link_t) (h : ∀ l ∈ g, l.fd ≠ sockfd) :
    (delete_link_loop sockfd g).2 = g := by
  induction g with
  | nil => rfl
  | cons l g ih =>
    simp only [delete_link_loop]
    rw [if_neg (h l (List.mem_cons_self _ _))]
    show l :: (delete_link_loop sockfd g).2 = _
    rw [ih (fun x hx => h x (List.mem_cons_of_mem _ hx))]

theorem delete_link_loop_slot (sockfd : Int) (g : List link_t) :
    ∀ (i : Nat) (l : link_t), g[i]? = some l →
      (delete_link_loop sockfd g).2[i]?
        = some (if l.fd = sockfd then ⟨-1, -1, l.type⟩ else l) := by
  induction g with
  | nil => intro i l h; simp at h
  | cons a g ih =>
    intro i l h
    cases i with
    | zero =>
      simp only [List.getElem?_cons_zero, Option.some.injEq] at h
      subst h
      simp only [delete_link_loop]
      split <;> simp
    | succ i =>
      simp only [List.getElem?_cons_succ] at h
      have := ih i l h
      simp only [delete_link_loop]
      split <;> simpa using this

theorem delete_link_loop_gone (sockfd : Int) (g : List link_t) (h : 0 ≤ sockfd) :
    ∀ l ∈ (delete_link_loop sockfd g).2, l.fd ≠ sockfd := by
  induction g with
  | nil => intro l hl; simp [delete_link_loop] at hl
  | cons a g ih =>
    intro l hl
    simp only [delete_link_loop] at hl
    split at hl
    · rcases List.mem_cons.mp hl with hl | hl
      · subst hl
        show (-1 : Int) ≠ sockfd
        omega
      · exact ih l hl
    · rename_i c
      rcases List.mem_cons.mp hl with hl | hl
      · subst hl; exact c
      · exact ih l hl

/-- C20 (amended). Registry remove: `delete_link_info_by_sockfd(fd)` returns 0
or -1, and 0 exactly when `fd` is not negative, the registry lock is taken
and some occupied slot holds `fd`.  After a return of 0
`find_linkid_by_sockfd(fd)` returns -1, the slots that held `fd` are empty
(handle and link id -1) and every other slot is as before.  After a return
of -1 the whole registry is as before. -/
theorem C20_remove_by_socket (lock : Int) (g : List link_t) (fd : Int) :
    ((delete_link_info_by_sockfd lock g fd).1 = 0
        ∨ (delete_link_info_by_sockfd lock g fd).1 = -1)
    ∧ ((delete_link_info_by_sockfd lock g fd).1 = 0
        ↔ 0 ≤ fd ∧ lock = 0 ∧ ∃ l ∈ g, occupied l ∧ l.fd = fd)
    ∧ ((delete_link_info_by_sockfd lock g fd).1 = 0 →
        find_linkid_by_sockfd (delete_link_info_by_sockfd lock g fd).2 fd = -1
        ∧ ∀ (i : Nat) (l : link_t), g[i]? = some l →
            (delete_link_info_by_sockfd lock g fd).2[i]?
              = some (if l.fd = fd then ⟨-1, -1, l.type⟩ else l))
    ∧ ((delete_link_info_by_sockfd lock g fd).1 = -1 →
        (delete_link_info_by_sockfd lock g fd).2 = g) := by
  have hneg : ¬ ((-1 : Int) = 0) := by decide
  unfold delete_link_info_by_sockfd
  by_cases c0 : fd < 0
  · rw [if_pos c0]
    refine ⟨Or.inr rfl, ?_, ?_, fun _ => rfl⟩
    · constructor
      · intro h; exact absurd h hneg
      · rintro ⟨h, _⟩; omega
    · intro h; exact absurd h hneg
  rw [if_neg c0]
  by_cases c1 : lock ≠ 0
  · rw [if_pos c1]
    refine ⟨Or.inr rfl, ?_, ?_, fun _ => rfl⟩
    · constructor
      · intro h; exact absurd h hneg
      · rintro ⟨_, h, _⟩; exact absurd h c1
    · intro h; exact absurd h hneg
  rw [if_neg c1]
  have hlock : lock = 0 := by
    by_contra h
    exact c1 h
  have hfd : 0 ≤ fd := by omega
  obtain ⟨hret, hrange⟩ := delete_link_loop_ret fd g
  refine ⟨hrange, ?_, ?_, ?_⟩
  · rw [hret]
    constructor
    · rintro ⟨l, hl, hl2⟩
      refine ⟨hfd, hlock, l, hl, ?_, hl2⟩
      show l.fd ≥ 0
      omega
    · rintro ⟨_, _, l, hl, _, hl2⟩
      exact ⟨l, hl, hl2⟩
  · intro _
    refine ⟨?_, delete_link_loop_slot fd g⟩
    unfold find_linkid_by_sockfd
    rw [if_neg c0]
    exact find_linkid_loop_absent fd _ _ (delete_link_loop_gone fd g hfd)
  · intro h
    apply delete_link_loop_none
    intro l hl heq
    have h0 : (delete_link_loop fd g).1 = 0 := hret.mpr ⟨l, hl, heq⟩
    rw [h0] at h
    exact absurd h (by decide)

/-- Counterexample to C20 as stated: descriptor 3 is held by an occupied
slot, yet `delete_link_info_by_sockfd(3)` returns -1 (and leaves the registry
alone) when `aos_mutex_lock` fails. -/
theorem C20_remove_fails_without_lock :
    (∃ l ∈ two_link_registry, occupied l ∧ l.fd = 3)
      ∧ delete_link_info_by_sockfd (-1) two_link_registry 3 = (-1, two_link_registry)
      ∧ ¬ ((delete_link_info_by_sockfd (-1) two_link_registry 3).1 = 0)
      ∧ delete_link_info_by_sockfd 0 two_link_registry 3
          = (0, [⟨-1, -1, 1⟩, ⟨4, 1, 4⟩, ⟨-1, -1, 0⟩, ⟨-1, -1, 0⟩, ⟨-1, -1, 0⟩]) := by
  refine ⟨⟨⟨3, 0, 1⟩, by decide, by decide, rfl⟩, rfl, by decide, rfl⟩

/-! ## `itoa_decimal` writes the decimal text -/

theorem digitChar_toNat (k : Nat) (h : k < 10) : (Nat.digitChar k).toNat = k + 48 := by
  interval_cases k <;> rfl

theorem itoa_digits_cast (fuel : Nat) (n : Nat) :
    itoa_digits (fuel + 1) (n : Int)
      = if n / 10 > 0 then (n % 10 + 48) :: itoa_digits fuel ((n / 10 : Nat) : Int)
        else [n % 10 + 48] := by
  have h0 : (0 : Int) ≤ (n : Int) := Int.ofNat_nonneg n
  have hm : Int.tmod (n : Int) 10 = ((n % 10 : Nat) : Int) := by
    rw [Int.tmod_eq_emod h0 (by decide)]
    norm_cast
  have hd : Int.tdiv (n : Int) 10 = ((n / 10 : Nat) : Int) := by
    rw [Int.tdiv_eq_ediv h0 (by decide)]
    norm_cast
  have hlt : n % 10 < 10 := Nat.mod_lt _ (by decide)
  have hdigit : ((((n % 10 : Nat) : Int) + 48) % 256).toNat = n % 10 + 48 := by
    omega
  simp only [itoa_digits, hm, hd, hdigit]
  by_cases c : n / 10 > 0
  · have c2 : ((n / 10 : Nat) : Int) > 0 := by omega
    rw [if_pos c, if_pos c2]
  · have c2 : ¬ ((n / 10 : Nat) : Int) > 0 := by omega
    rw [if_neg c, if_neg c2]

theorem toDigitsCore_itoa (fuel : Nat) : ∀ (n : Nat) (ds : List Char),
    (Nat.toDigitsCore 10 fuel n ds).map Char.toNat
      = (itoa_digits fuel (n : Int)).reverse ++ ds.map Char.toNat := by
  induction fuel with
  | zero => intro n ds; simp [Nat.toDigitsCore, itoa_digits]
  | succ fuel ih =>
    intro n ds
    have hlt : n % 10 < 10 := Nat.mod_lt _ (by decide)
    rw [itoa_digits_cast]
    simp only [Nat.toDigitsCore]
    by_cases c : n / 10 = 0
    · have c2 : ¬ n / 10 > 0 := by omega
      rw [if_pos c, if_neg c2]
      simp [digitChar_toNat _ hlt]
    · have c2 : n / 10 > 0 := by omega
      rw [if_neg c, if_pos c2, ih]
      simp [digitChar_toNat _ hlt]

theorem itoa_digits_fuel (f : Nat) : ∀ (g n : Nat), n < 10 ^ (f + 1) → n < 10 ^ (g + 1) →
    itoa_digits (f + 1) (n : Int) = itoa_digits (g + 1) (n : Int) := by
  induction f with
  | zero =>
    intro g n hf _
    have c : ¬ n / 10 > 0 := by
      simp only [zero_add, pow_one] at hf
      omega
    rw [itoa_digits_cast 0 n, itoa_digits_cast g n, if_neg c, if_neg c]
  | succ f ih =>
    intro g n hf hg
    rw [itoa_digits_cast (f + 1) n, itoa_digits_cast g n]
    by_cases c : n / 10 > 0
    · rw [if_pos c, if_pos c]
      cases g with
      | zero =>
        simp only [zero_add, pow_one] at hg
        omega
      | succ g =>
        have h1 : n / 10 < 10 ^ (f + 1) := by
          have : 10 ^ (f + 1 + 1) = 10 * 10 ^ (f + 1) := by ring
          omega
        have h2 : n / 10 < 10 ^ (g + 1) := by
          have : 10 ^ (g + 1 + 1) = 10 * 10 ^ (g + 1) := by ring
          omega
        rw [ih g (n / 10) h1 h2]
    · rw [if_neg c, if_neg c]

/-- For a number that is not negative `itoa_decimal` writes the decimal
text. -/
theorem itoa_text_eq_decimal (n : Nat) (h : n < 10 ^ 10) : itoa_text (n : Int) = decimal n := by
  have hn : ¬ ((n : Int) < 0) := by omega
  have h1 : n < 10 ^ (n + 1) := by
    have : n < 10 ^ n := Nat.lt_pow_self (by decide) n
    have h2 : 10 ^ (n + 1) = 10 * 10 ^ n := by ring
    omega
  have h3 := toDigitsCore_itoa (n + 1) n []
  simp only [List.map_nil, List.append_nil] at h3
  simp only [itoa_text, hn, if_false, decimal, Nat.toDigits]
  rw [h3, itoa_digits_fuel n 9 n h1 (by simpa using h)]

/-! ## Wi-Fi status frames -/

theorem wevent_frame_eq (kind status : List Nat) :
    wevent_frame kind status = ap_sta_text kind status := by
  have h : cstr "\r\n+WEVENT:" = cstr "\r\n" ++ prefix_wevent := by decide
  simp only [wevent_frame, ap_sta_text, h]

/-- The text `notify_cip_connect_status_events` builds without an
acknowledgement for a link that is no TCP server is the frame of the wire
grammar. -/
theorem conn_status_text_eq_frame (C : Consts) (type : Int) (L : Nat) (kind status port_str : List Nat)
    (port : Int) (hL : L < 10 ^ 10) (htype : type ≠ TCP_SERVER) :
    conn_status_text C 0 type (L : Int) kind status port_str port
      = cipevent_status_frame L kind status := by
  have h0 : ¬ ((0 : Int) > 0) := by decide
  have hp : prefix_cipevent = cstr "+CIPEVENT:" := rfl
  have hc : cstr "," = [CH_COMMA] := by decide
  simp only [conn_status_text, cipevent_status_frame, if_neg h0, if_neg htype, hp, hc,
    itoa_text_eq_decimal L hL, List.nil_append, List.append_nil, List.append_assoc]

/-- For a descriptor that is not registered `notify_cip_connect_status_events`
returns -1 and leaves the state as it is. -/
theorem conn_status_unregistered (C : Consts) (e : notify_env) (w : World)
    (sockid status recvstatus : Int)
    (haddr : (c_string e.peer.addr).length < 16)
    (hreg : find_linkid_by_sockfd w.g_link sockid < 0) :
    notify_cip_connect_status_events C e w sockid status recvstatus = .ok (-1, w) := by
  unfold notify_cip_connect_status_events
  by_cases c0 : sockid < 0
  · rw [if_pos c0]
  rw [if_neg c0]
  cases hs : (if status = C.CIP_STATUS_CONNECTED then some (cstr "CONNECTED")
      else if status = C.CIP_STATUS_CLOSED then some (cstr "CLOSED") else none) with
  | none => rfl
  | some status_str =>
  dsimp only
  cases ht : conn_status_type_str (find_conntype_by_sockfd w.g_link sockid e.uninit_type) with
  | none => rfl
  | some type_str =>
  dsimp only
  by_cases c1 : find_conntype_by_sockfd w.g_link sockid e.uninit_type = TCP_SERVER
      ∧ e.peer.ret ≠ 0
  · rw [if_pos c1]
  rw [if_neg c1]
  have ha : ∃ addr_str,
      (if find_conntype_by_sockfd w.g_link sockid e.uninit_type = TCP_SERVER then
        peer_addr_str e.peer else .ok []) = .ok addr_str := by
    by_cases c : find_conntype_by_sockfd w.g_link sockid e.uninit_type = TCP_SERVER
    · rw [if_pos c]
      unfold peer_addr_str
      rw [if_pos haddr]
      exact ⟨_, rfl⟩
    · rw [if_neg c]
      exact ⟨_, rfl⟩
  obtain ⟨addr_str, ha⟩ := ha
  rw [ha]
  dsimp only
  rw [if_pos hreg]

/-- For a status value that is neither CONNECTED nor CLOSED
`notify_cip_connect_status_events` returns -1 and leaves the state as it
is. -/
theorem conn_status_bad_status (C : Consts) (e : notify_env) (w : World)
    (sockid status recvstatus : Int)
    (h1 : status ≠ C.CIP_STATUS_CONNECTED) (h2 : status ≠ C.CIP_STATUS_CLOSED) :
    notify_cip_connect_status_events C e w sockid status recvstatus = .ok (-1, w) := by
  unfold notify_cip_connect_status_events
  by_cases c0 : sockid < 0
  · rw [if_pos c0]
  · rw [if_neg c0, if_neg h1, if_neg h2]

/-- Queueing an encoded header with a payload: with a non-empty NUL-free
header shorter than the array, a non-empty payload, a valid queue with room
and both allocations successful, `insert_uart_send_msg` appends exactly the
item that carries the header and the payload. -/
theorem insert_payload (e : insert_env) (w : World) (cap : Nat) (text p : List Nat)
    (h0 : ∀ b ∈ text, b ≠ 0) (hne : text ≠ []) (hlen : text.length < cap)
    (hcap : cap ≤ 2 ^ 16) (hp : p ≠ []) (hvalid : w.uart_send_queue.valid = true)
    (hroom : w.uart_send_queue.items.length < DEFAULT_UART_SEND_BUF_SIZE)
    (hmc : e.malloc_cmd = true) (hmd : e.malloc_data = true) :
    insert_uart_send_msg e w (some (enc_state cap text).1) (some p)
        (c_strlen (enc_state cap text).1 % 2 ^ 16) p.length =
      (0, { w with
            uart_send_queue :=
              { w.uart_send_queue with
                items := w.uart_send_queue.items ++ [data_item text p] }
            uart_send_statistic :=
              { w.uart_send_statistic with
                total_byte :=
                  (w.uart_send_statistic.total_byte + (text.length + p.length)) % 2 ^ 32 } }) := by
  have hl : text.length ≠ 0 := by
    intro hz
    exact hne (List.length_eq_zero.mp hz)
  have hpl : p.length ≠ 0 := by
    intro hz
    exact hp (List.length_eq_zero.mp hz)
  have hmod : text.length % 2 ^ 16 = text.length := Nat.mod_eq_of_lt (by omega)
  rw [c_strlen_enc_state cap text h0 hlen, hmod]
  simp only [insert_uart_send_msg, hl, if_false, c_strlen_enc_state cap text h0 hlen,
    ne_eq, not_true_eq_false, hpl, and_false, hvalid,
    uart_send_buf, hmc, hmd, take_enc_state, aos_queue_send, hroom, if_true, data_item,
    List.take_length]
  simp

/-- The header `notify_cip_data_recv_event` builds for a socket that is no
broadcast socket is the header of the wire grammar. -/
theorem data_recv_text_eq_header (type : Int) (L n : Nat) (addr_str : List Nat) (port : Int)
    (hL : L < 10 ^ 10) (hn : n < 10 ^ 10) (htype : type ≠ UDP_BROADCAST) :
    data_recv_text type (L : Int) (n : Int) (cstr "SOCKET") addr_str port
      = cipevent_data_header L n := by
  have hp : prefix_cipevent ++ cstr "SOCKET" ++ [CH_COMMA] = cstr "+CIPEVENT:SOCKET," := by
    decide
  have hc : cstr "," = [CH_COMMA] := by decide
  simp only [data_recv_text, cipevent_data_header, if_neg htype, ← hp, hc,
    itoa_text_eq_decimal L hL, itoa_text_eq_decimal n hn, List.append_nil, List.append_assoc]

/-- For a socket that is no broadcast socket, with a link id and a length of
at most nine digits, the content of `sendbuf` is the header. -/
theorem data_recv_cmd_socket (type : Int) (L n : Nat) (port : Int)
    (htype : type ≠ UDP_BROADCAST) (hL : L < 1000000000) (hn : n < 1000000000) :
    data_recv_cmd type (L : Int) (n : Int) (cstr "SOCKET") [] port
        = .ok (some (enc_state MAX_ATCMD_DATA_RECV_PREFIX_LEN (cipevent_data_header L n)))
      ∧ (cipevent_data_header L n).length < MAX_ATCMD_DATA_RECV_PREFIX_LEN := by
  have hten : (10 : Int) ^ (8 + 1) = 1000000000 := by norm_num
  have h10 : (10 : Nat) ^ 10 = 10000000000 := by norm_num
  have hnumL : number_comma 10 (L : Int)
      = .ok ((itoa_text (L : Int)).length + 1, itoa_text (L : Int) ++ [CH_COMMA]) := by
    unfold number_comma
    rw [itoa_decimal_small 10 8 _ (by omega) (by rw [hten]; omega) (by decide)]
  have hnumN : number_comma 10 (n : Int)
      = .ok ((itoa_text (n : Int)).length + 1, itoa_text (n : Int) ++ [CH_COMMA]) := by
    unfold number_comma
    rw [itoa_decimal_small 10 8 _ (by omega) (by rw [hten]; omega) (by decide)]
  have hlenL : (itoa_text (L : Int)).length < 10 :=
    (itoa_decimal_ok 10 _ _
      (itoa_decimal_small 10 8 _ (by omega) (by rw [hten]; omega) (by decide))).2
  have hlenN : (itoa_text (n : Int)).length < 10 :=
    (itoa_decimal_ok 10 _ _
      (itoa_decimal_small 10 8 _ (by omega) (by rw [hten]; omega) (by decide))).2
  have hsteps : ∀ s ∈ data_recv_steps type (L : Int) (n : Int) (cstr "SOCKET") [] port,
      ∃ p, s = .ok p ∧ p.2.length = p.1 := by
    intro s hs
    simp only [data_recv_steps, if_neg htype, hnumL, hnumN, List.append_nil, List.mem_append,
      List.mem_cons, List.mem_singleton, List.not_mem_nil, or_false] at hs
    rcases hs with (h | h) | (h | h)
    · exact ⟨_, h, rfl⟩
    · exact ⟨_, h, by simp⟩
    · exact ⟨_, h, by simp⟩
    · exact ⟨_, h, by simp⟩
  have htext := data_recv_steps_text type (L : Int) (n : Int) (cstr "SOCKET") [] port
    (fun s hs => (hsteps s hs).imp (fun p hp => hp.1))
  have hhead := data_recv_text_eq_header type L n [] port (by omega) (by omega) htype
  have hfit : (cipevent_data_header L n).length < MAX_ATCMD_DATA_RECV_PREFIX_LEN := by
    rw [← hhead]
    have hp : prefix_cipevent.length = 10 := by decide
    have hs : (cstr "SOCKET").length = 6 := by decide
    simp only [data_recv_text, if_neg htype, List.length_append, hp, hs, List.length_nil,
      List.length_singleton, MAX_ATCMD_DATA_RECV_PREFIX_LEN]
    omega
  refine ⟨?_, hfit⟩
  unfold data_recv_cmd
  rw [encoder_start_eq, run_appends_fits _ _ [] hsteps
    (by rw [List.nil_append, htext, hhead]; exact hfit)]
  rw [List.nil_append, htext, hhead]

theorem decimal_nonzero (n : Nat) (h : n < 10 ^ 10) : ∀ b ∈ decimal n, b ≠ 0 := by
  rw [← itoa_text_eq_decimal n h]
  exact itoa_text_nonzero _

/-- C16 (amended). Data-arrival encoding: for every registered socket that is
no broadcast socket, with a link id `L` below 1000000000, and every payload
`p` of 1 to 1500 bytes, `notify_cip_data_recv_event`, when the serial queue
accepts the item (valid queue with fewer than 50 items, both allocations
successful), returns 0 and queues exactly one item: its header is
`+CIPEVENT:SOCKET,` followed by the decimal text of `L`, a comma, the decimal
text of the number of payload bytes and a comma, and its payload is `p`,
byte for byte. -/
theorem C16_data_arrival_encoding (e : notify_env) (w : World) (sockid : Int) (L : Nat)
    (p : List Nat)
    (hreg : find_linkid_by_sockfd w.g_link sockid = (L : Int)) (hL : L < 1000000000)
    (htype : find_conntype_by_sockfd w.g_link sockid e.uninit_type ≠ UDP_BROADCAST)
    (hn1 : 1 ≤ p.length) (hn2 : p.length ≤ 1500)
    (hvalid : w.uart_send_queue.valid = true)
    (hroom : w.uart_send_queue.items.length < DEFAULT_UART_SEND_BUF_SIZE)
    (hmc : e.ins.malloc_cmd = true) (hmd : e.ins.malloc_data = true) :
    ∃ w1, notify_cip_data_recv_event e w sockid (some p) (p.length : Int) = .ok (0, w1)
      ∧ w1.uart_send_queue.items
          = w.uart_send_queue.items ++ [data_item (cipevent_data_header L p.length) p]
      ∧ w1.g_link = w.g_link := by
  have hsock : ¬ sockid < 0 := by
    intro hneg
    have : find_linkid_by_sockfd w.g_link sockid = -1 := by
      unfold find_linkid_by_sockfd
      rw [if_pos hneg]
    omega
  have h10 : (10 : Nat) ^ 10 = 10000000000 := by norm_num
  obtain ⟨hcmd, hfit⟩ := data_recv_cmd_socket
    (find_conntype_by_sockfd w.g_link sockid e.uninit_type) L p.length
    ((e.peer.port % 2 ^ 16 : Nat) : Int) htype hL (by omega)
  have hnz : ∀ b ∈ cipevent_data_header L p.length, b ≠ 0 := by
    unfold cipevent_data_header
    repeat' first
      | exact decimal_nonzero _ (by omega)
      | decide
      | apply nz_append
  have hne : cipevent_data_header L p.length ≠ [] := by
    intro hnil
    have hl := congrArg List.length hnil
    have h1 : (cstr "+CIPEVENT:SOCKET,").length = 17 := by decide
    simp only [cipevent_data_header, List.length_append, List.length_nil, h1] at hl
    omega
  have hp : p ≠ [] := by
    intro hnil
    rw [hnil] at hn1
    simp at hn1
  have hmod : (((p.length : Nat) : Int) % 2 ^ 16).toNat = p.length := by
    omega
  have hins := insert_payload e.ins w MAX_ATCMD_DATA_RECV_PREFIX_LEN _ p hnz hne hfit
    (by decide) hp hvalid hroom hmc hmd
  unfold notify_cip_data_recv_event
  rw [if_neg hsock, if_neg (fun h => htype h.1), if_neg htype]
  dsimp only
  rw [if_neg (by rw [hreg]; omega), hreg]
  simp only [if_neg htype]
  rw [hcmd]
  dsimp only
  rw [hmod, hins]
  dsimp only
  have hz : ¬ ((0 : Int) ≠ 0) := by decide
  rw [if_neg hz]
  exact ⟨_, rfl, rfl, rfl⟩

/-- Witness of C16: the four bytes `a`, `,`, `\r`, `d` arriving on link 0
(descriptor 3) are queued behind the header `+CIPEVENT:SOCKET,0,4,`. -/
theorem C16_data_arrival_encoding_witness :
    ∃ w1, notify_cip_data_recv_event (env_ok 3).notify one_link 3 (some [97, 44, 13, 100]) 4
          = .ok (0, w1)
      ∧ w1.uart_send_queue.items
          = one_link.uart_send_queue.items
            ++ [data_item (cstr "+CIPEVENT:SOCKET,0,4,") [97, 44, 13, 100]]
      ∧ w1.g_link = one_link.g_link :=
  C16_data_arrival_encoding (env_ok 3).notify one_link 3 0 [97, 44, 13, 100] rfl (by decide)
    (by decide) (by decide) (by decide) rfl (by decide) rfl rfl

/-- Counterexample to C16 as stated: link 0 is registered on descriptor 3 as a
tcp client, but with 50 items in the serial queue the arrival of the four
bytes `abcd` returns -1 and queues nothing.  And with the link id 1000000000
registered on descriptor 3 the notification does not return a value: the ten
digits and the NUL do not fit `linkid_str[10]`. -/
theorem C16_no_item_when_queue_full :
    find_linkid_by_sockfd one_link_queue_full.g_link 3 = 0
      ∧ find_conntype_by_sockfd one_link_queue_full.g_link 3 0 = TCP_CLIENT
      ∧ notify_cip_data_recv_event (env_ok 3).notify one_link_queue_full 3
          (some (cstr "abcd")) 4 = .ok data_event_queue_full
      ∧ data_event_queue_full.1 = -1
      ∧ data_event_queue_full.2.uart_send_queue = one_link_queue_full.uart_send_queue
      ∧ ¬ (data_event_queue_full.2.uart_send_queue.items
          = one_link_queue_full.uart_send_queue.items
            ++ [data_item (cstr "+CIPEVENT:SOCKET,0,4,") (cstr "abcd")])
      ∧ find_linkid_by_sockfd link_id_1000000000.g_link 3 = 1000000000
      ∧ notify_cip_data_recv_event (env_ok 3).notify link_id_1000000000 3
          (some (cstr "abcd")) 4 = .error .undefined := by
  refine ⟨rfl, rfl, rfl, rfl, rfl, ?_, rfl, rfl⟩
  intro h
  have h1 := congrArg List.length h
  revert h1
  decide

/-! ## Command dispatch -/

theorem at_parse1_cons (w : World) (c : Nat) (t : List Nat) :
    at_parse1 { w with transport := c :: t } = .ok (c, { w with transport := t }) := rfl

theorem at_parse_append (w : World) (p t : List Nat) :
    at_parse p.length { w with transport := p ++ t }
      = .ok (p.length, p, { w with transport := t }) := by
  simp [at_parse]

/-- With echo off `uart_echo` returns 0 and does nothing. -/
theorem uart_echo_off (C : Consts) (e : insert_env) (w : World) (h : w.uart_echo_on = false) :
    uart_echo C e w = .ok (0, none, w) := by
  unfold uart_echo
  rw [if_pos h]

/-- With echo off `atcmd_handler` reads one byte and switches on it. -/
theorem atcmd_handler_cons (C : Consts) (e : insert_env) (delim : List Nat) (w : World)
    (c : Nat) (t : List Nat) (h : w.uart_echo_on = false) :
    atcmd_handler C e delim { w with transport := c :: t }
      = if c = 67 then call_handler (get_atcmd_cip_handler { w with transport := t })
        else if c = 85 then call_handler (get_atcmd_uart_handler { w with transport := t })
        else if c = 87 then call_handler (get_atcmd_wifi_handler { w with transport := t })
        else if c = 89 then call_handler (get_atcmd_ywss_handler delim { w with transport := t })
        else .ok ⟨none, none, { w with transport := t }⟩ := by
  unfold atcmd_handler
  rw [uart_echo_off C e { w with transport := c :: t } h]
  rfl

/-- Dispatch of `CIPSTART`: `C`, `IP`, `S`, `TAR` and one more byte are read. -/
theorem dispatch_cipstart (C : Consts) (e : insert_env) (delim : List Nat) (w : World)
    (rest : List Nat) (h : w.uart_echo_on = false) :
    atcmd_handler C e delim { w with transport := cstr "CIPSTART" ++ rest }
      = .ok ⟨some ⟨cstr "AT+CIPSTART", .atcmd_cip_start⟩, none, { w with transport := rest }⟩ := by
  have hn : cstr "CIPSTART" = [67, 73, 80, 83, 84, 65, 82, 84] := by decide
  have h1 : cstr "IP" = [73, 80] := by decide
  have h2 : cstr "TAR" = [84, 65, 82] := by decide
  rw [hn]
  simp only [List.cons_append, List.nil_append]
  rw [atcmd_handler_cons C e delim w _ _ h]
  simp [get_atcmd_cip_handler, at_parse, at_parse1, call_handler, table_entry, at_cmds_table,
    ATCMD_CIP_START, CH_EQ, h1, h2]

/-- Dispatch of `CIPSTOP`: `C`, `IP`, `S` and `TOP` are read. -/
theorem dispatch_cipstop (C : Consts) (e : insert_env) (delim : List Nat) (w : World)
    (rest : List Nat) (h : w.uart_echo_on = false) :
    atcmd_handler C e delim { w with transport := cstr "CIPSTOP" ++ rest }
      = .ok ⟨some ⟨cstr "AT+CIPSTOP", .atcmd_cip_stop⟩, none, { w with transport := rest }⟩ := by
  have hn : cstr "CIPSTOP" = [67, 73, 80, 83, 84, 79, 80] := by decide
  have h1 : cstr "IP" = [73, 80] := by decide
  have h2 : cstr "TAR" = [84, 65, 82] := by decide
  have h3 : cstr "TOP" = [84, 79, 80] := by decide
  rw [hn]
  simp only [List.cons_append, List.nil_append]
  rw [atcmd_handler_cons C e delim w _ _ h]
  simp [get_atcmd_cip_handler, at_parse, at_parse1, call_handler, table_entry, at_cmds_table,
    ATCMD_CIP_STOP, CH_EQ, h1, h2, h3]

/-- Dispatch of `CIPSEND`: `C`, `IP`, `S` and `END` are read. -/
theorem dispatch_cipsend (C : Consts) (e : insert_env) (delim : List Nat) (w : World)
    (rest : List Nat) (h : w.uart_echo_on = false) :
    atcmd_handler C e delim { w with transport := cstr "CIPSEND" ++ rest }
      = .ok ⟨some ⟨cstr "AT+CIPSEND", .at_cip_send⟩, none, { w with transport := rest }⟩ := by
  have hn : cstr "CIPSEND" = [67, 73, 80, 83, 69, 78, 68] := by decide
  have h1 : cstr "IP" = [73, 80] := by decide
  have h2 : cstr "TAR" = [84, 65, 82] := by decide
  have h3 : cstr "TOP" = [84, 79, 80] := by decide
  have h4 : cstr "END" = [69, 78, 68] := by decide
  rw [hn]
  simp only [List.cons_append, List.nil_append]
  rw [atcmd_handler_cons C e delim w _ _ h]
  simp [get_atcmd_cip_handler, at_parse, at_parse1, call_handler, table_entry, at_cmds_table,
    ATCMD_CIP_SEND, CH_EQ, h1, h2, h3, h4]

/-- Dispatch of `CIPDOMAIN`: `C`, `IP`, `D` and five more bytes are read. -/
theorem dispatch_cipdomain (C : Consts) (e : insert_env) (delim : List Nat) (w : World)
    (rest : List Nat) (h : w.uart_echo_on = false) :
    atcmd_handler C e delim { w with transport := cstr "CIPDOMAIN" ++ rest }
      = .ok ⟨some ⟨cstr "AT+CIPDOMAIN", .atcmd_cip_domain_dns⟩, none, { w with transport := rest }⟩ := by
  have hn : cstr "CIPDOMAIN" = [67, 73, 80, 68, 79, 77, 65, 73, 78] := by decide
  have h1 : cstr "IP" = [73, 80] := by decide
  rw [hn]
  simp only [List.cons_append, List.nil_append]
  rw [atcmd_handler_cons C e delim w _ _ h]
  simp [get_atcmd_cip_handler, at_parse, at_parse1, call_handler, table_entry, at_cmds_table,
    ATCMD_CIP_DOMAIN, CH_EQ, h1]

/-- Dispatch of `CIPAUTOCONN`: `C`, `IP`, `A` and seven more bytes are read. -/
theorem dispatch_cipautoconn (C : Consts) (e : insert_env) (delim : List Nat) (w : World)
    (rest : List Nat) (h : w.uart_echo_on = false) :
    atcmd_handler C e delim { w with transport := cstr "CIPAUTOCONN" ++ rest }
      = .ok ⟨some ⟨cstr "AT+CIPAUTOCONN", .atcmd_cip_auto_connect⟩, none, { w with transport := rest }⟩ := by
  have hn : cstr "CIPAUTOCONN" = [67, 73, 80, 65, 85, 84, 79, 67, 79, 78, 78] := by decide
  have h1 : cstr "IP" = [73, 80] := by decide
  rw [hn]
  simp only [List.cons_append, List.nil_append]
  rw [atcmd_handler_cons C e delim w _ _ h]
  simp [get_atcmd_cip_handler, at_parse, at_parse1, call_handler, table_entry, at_cmds_table,
    ATCMD_CIP_AUTOCONN, CH_EQ, h1]

/-- Dispatch of `UARTE`: `U`, `ART` and `E` are read. -/
theorem dispatch_uarte (C : Consts) (e : insert_env) (delim : List Nat) (w : World)
    (rest : List Nat) (h : w.uart_echo_on = false) :
    atcmd_handler C e delim { w with transport := cstr "UARTE" ++ rest }
      = .ok ⟨some ⟨cstr "AT+UARTE", .atcmd_uart_echo⟩, none, { w with transport := rest }⟩ := by
  have hn : cstr "UARTE" = [85, 65, 82, 84, 69] := by decide
  have h1 : cstr "ART" = [65, 82, 84] := by decide
  rw [hn]
  simp only [List.cons_append, List.nil_append]
  rw [atcmd_handler_cons C e delim w _ _ h]
  simp [get_atcmd_uart_handler, at_parse, at_parse1, call_handler, table_entry, at_cmds_table,
    ATCMD_UART_ECHO, CH_EQ, h1]

/-- Dispatch of `WJAP=`: `W`, `J`, `AP` and `=` are read. -/
theorem dispatch_wjap (C : Consts) (e : insert_env) (delim : List Nat) (w : World)
    (rest : List Nat) (h : w.uart_echo_on = false) :
    atcmd_handler C e delim { w with transport := cstr "WJAP=" ++ rest }
      = .ok ⟨some ⟨cstr "AT+WJAP=", .atcmd_ap_connect⟩, none, { w with transport := rest }⟩ := by
  have hn : cstr "WJAP=" = [87, 74, 65, 80, 61] := by decide
  have h1 : cstr "AP" = [65, 80] := by decide
  rw [hn]
  simp only [List.cons_append, List.nil_append]
  rw [atcmd_handler_cons C e delim w _ _ h]
  simp [get_atcmd_wifi_handler, at_parse, at_parse1, call_handler, table_entry, at_cmds_table,
    ATCMD_WJAP_CONN, CH_EQ, h1]

/-- Dispatch of `WJAPIP?`: `W`, `J`, `AP`, `I` and `P?` are read. -/
theorem dispatch_wjapip (C : Consts) (e : insert_env) (delim : List Nat) (w : World)
    (rest : List Nat) (h : w.uart_echo_on = false) :
    atcmd_handler C e delim { w with transport := cstr "WJAPIP?" ++ rest }
      = .ok ⟨some ⟨cstr "AT+WJAPIP?", .atcmd_get_ip⟩, none, { w with transport := rest }⟩ := by
  have hn : cstr "WJAPIP?" = [87, 74, 65, 80, 73, 80, 63] := by decide
  have h1 : cstr "AP" = [65, 80] := by decide
  have h2 : cstr "P?" = [80, 63] := by decide
  rw [hn]
  simp only [List.cons_append, List.nil_append]
  rw [atcmd_handler_cons C e delim w _ _ h]
  simp [get_atcmd_wifi_handler, at_parse, at_parse1, call_handler, table_entry, at_cmds_table,
    ATCMD_WJAP_IP, CH_EQ, h1, h2]

/-- Dispatch of `WMAC?`: `W`, `M` and `AC?` are read. -/
theorem dispatch_wmac (C : Consts) (e : insert_env) (delim : List Nat) (w : World)
    (rest : List Nat) (h : w.uart_echo_on = false) :
    atcmd_handler C e delim { w with transport := cstr "WMAC?" ++ rest }
      = .ok ⟨some ⟨cstr "AT+WMAC?", .atcmd_get_mac⟩, none, { w with transport := rest }⟩ := by
  have hn : cstr "WMAC?" = [87, 77, 65, 67, 63] := by decide
  have h1 : cstr "AC?" = [65, 67, 63] := by decide
  rw [hn]
  simp only [List.cons_append, List.nil_append]
  rw [atcmd_handler_cons C e delim w _ _ h]
  simp [get_atcmd_wifi_handler, at_parse, at_parse1, call_handler, table_entry, at_cmds_table,
    ATCMD_WJAP_MAC, CH_EQ, h1]

theorem reads_input_refl (w : World) : reads_input w w := ⟨rfl, [], rfl⟩

theorem reads_input_trans (w w1 w2 : World) (h1 : reads_input w w1) (h2 : reads_input w1 w2) :
    reads_input w w2 := by
  obtain ⟨e1, c1, t1⟩ := h1
  obtain ⟨e2, c2, t2⟩ := h2
  refine ⟨?_, c1 ++ c2, ?_⟩
  · rw [e2, e1]
  · rw [t1, t2, List.append_assoc]

theorem at_parse1_reads (w : World) (r : Nat × World) (h : at_parse1 w = .ok r) :
    reads_input w r.2 := by
  unfold at_parse1 at h
  split at h
  · cases h
  · rename_i c t ht
    cases h
    exact ⟨rfl, [c], ht⟩

theorem at_parse_reads (n : Nat) (w : World) (r : Nat × List Nat × World)
    (h : at_parse n w = .ok r) : reads_input w r.2.2 := by
  unfold at_parse at h
  split at h
  · cases h
    exact ⟨rfl, w.transport.take n, (List.take_append_drop n w.transport).symm⟩
  · cases h

/-- The cip sub-dispatcher only reads serial input. -/
theorem cip_handler_reads (w : World) (r : Option at_cli_command × World)
    (h : get_atcmd_cip_handler w = .ok r) : reads_input w r.2 := by
  unfold get_atcmd_cip_handler at h
  cases h0 : at_parse 2 w with
  | error f => rw [h0] at h; cases h
  | ok r0 =>
  rw [h0] at h
  dsimp only at h
  have g0 := at_parse_reads _ _ _ h0
  by_cases c0 : r0.2.1 ≠ cstr "IP"
  · rw [if_pos c0] at h
    cases h
    exact g0
  rw [if_neg c0] at h
  cases h1 : at_parse1 r0.2.2 with
  | error f => rw [h1] at h; cases h
  | ok r1 =>
  rw [h1] at h
  dsimp only at h
  have g1 := reads_input_trans _ _ _ g0 (at_parse1_reads _ _ h1)
  by_cases c1 : r1.1 = 83
  · rw [if_pos c1] at h
    cases h2 : at_parse 3 r1.2 with
    | error f => rw [h2] at h; cases h
    | ok r2 =>
    rw [h2] at h
    dsimp only at h
    have g2 := reads_input_trans _ _ _ g1 (at_parse_reads _ _ _ h2)
    by_cases c2 : r2.2.1 = cstr "TAR"
    · rw [if_pos c2] at h
      cases h3 : at_parse1 r2.2.2 with
      | error f => rw [h3] at h; cases h
      | ok r3 =>
      rw [h3] at h
      cases h
      exact reads_input_trans _ _ _ g2 (at_parse1_reads _ _ h3)
    rw [if_neg c2] at h
    by_cases c3 : r2.2.1 = cstr "TOP"
    · rw [if_pos c3] at h
      cases h
      exact g2
    rw [if_neg c3] at h
    by_cases c4 : r2.2.1 = cstr "END"
    · rw [if_pos c4] at h
      cases h
      exact g2
    rw [if_neg c4] at h
    cases h
    exact g2
  rw [if_neg c1] at h
  by_cases c5 : r1.1 = 68
  · rw [if_pos c5] at h
    cases h2 : at_parse 5 r1.2 with
    | error f => rw [h2] at h; cases h
    | ok r2 =>
    rw [h2] at h
    cases h
    exact reads_input_trans _ _ _ g1 (at_parse_reads _ _ _ h2)
  rw [if_neg c5] at h
  by_cases c6 : r1.1 = 65
  · rw [if_pos c6] at h
    cases h2 : at_parse 7 r1.2 with
    | error f => rw [h2] at h; cases h
    | ok r2 =>
    rw [h2] at h
    cases h
    exact reads_input_trans _ _ _ g1 (at_parse_reads _ _ _ h2)
  rw [if_neg c6] at h
  cases h
  exact g1

/-- The uart sub-dispatcher only reads serial input. -/
theorem uart_handler_reads (w : World) (r : Option at_cli_command × World)
    (h : get_atcmd_uart_handler w = .ok r) : reads_input w r.2 := by
  unfold get_atcmd_uart_handler at h
  cases h0 : at_parse 3 w with
  | error f => rw [h0] at h; cases h
  | ok r0 =>
  rw [h0] at h
  dsimp only at h
  have g0 := at_parse_reads _ _ _ h0
  by_cases c0 : r0.2.1 ≠ cstr "ART"
  · rw [if_pos c0] at h
    cases h
  rw [if_neg c0] at h
  cases h1 : at_parse1 r0.2.2 with
  | error f => rw [h1] at h; cases h
  | ok r1 =>
  rw [h1] at h
  dsimp only at h
  have g1 := reads_input_trans _ _ _ g0 (at_parse1_reads _ _ h1)
  by_cases c1 : r1.1 = 69
  · rw [if_pos c1] at h
    cases h
    exact g1
  rw [if_neg c1] at h
  cases h
  exact g1

/-- The wifi sub-dispatcher only reads serial input. -/
theorem wifi_handler_reads (w : World) (r : Option at_cli_command × World)
    (h : get_atcmd_wifi_handler w = .ok r) : reads_input w r.2 := by
  unfold get_atcmd_wifi_handler at h
  cases h0 : at_parse1 w with
  | error f => rw [h0] at h; cases h
  | ok r0 =>
  rw [h0] at h
  dsimp only at h
  have g0 := at_parse1_reads _ _ h0
  by_cases c0 : r0.1 = 74
  · rw [if_pos c0] at h
    cases h1 : at_parse 2 r0.2 with
    | error f => rw [h1] at h; cases h
    | ok r1 =>
    rw [h1] at h
    dsimp only at h
    have g1 := reads_input_trans _ _ _ g0 (at_parse_reads _ _ _ h1)
    by_cases c1 : r1.2.1 ≠ cstr "AP"
    · rw [if_pos c1] at h
      cases h
      exact g1
    rw [if_neg c1] at h
    cases h2 : at_parse1 r1.2.2 with
    | error f => rw [h2] at h; cases h
    | ok r2 =>
    rw [h2] at h
    dsimp only at h
    have g2 := reads_input_trans _ _ _ g1 (at_parse1_reads _ _ h2)
    by_cases c2 : r2.1 = CH_EQ
    · rw [if_pos c2] at h
      cases h
      exact g2
    rw [if_neg c2] at h
    by_cases c3 : r2.1 = 73
    · rw [if_pos c3] at h
      cases h3 : at_parse 2 r2.2 with
      | error f => rw [h3] at h; cases h
      | ok r3 =>
      rw [h3] at h
      dsimp only at h
      have g3 := reads_input_trans _ _ _ g2 (at_parse_reads _ _ _ h3)
      by_cases c4 : r3.2.1 = cstr "P?"
      · rw [if_pos c4] at h
        cases h
        exact g3
      rw [if_neg c4] at h
      cases h
      exact g3
    rw [if_neg c3] at h
    cases h
    exact g2
  rw [if_neg c0] at h
  by_cases c5 : r0.1 = 77
  · rw [if_pos c5] at h
    cases h1 : at_parse 3 r0.2 with
    | error f => rw [h1] at h; cases h
    | ok r1 =>
    rw [h1] at h
    dsimp only at h
    have g1 := reads_input_trans _ _ _ g0 (at_parse_reads _ _ _ h1)
    by_cases c1 : r1.2.1 = cstr "AC?"
    · rw [if_pos c1] at h
      cases h
      exact g1
    rw [if_neg c1] at h
    cases h
    exact g1
  rw [if_neg c5] at h
  cases h
  exact g0

theorem ywss_tail_reads (lit : List Nat) (cmdidx : Int) (w : World)
    (r : Option at_cli_command × World) (h : ywss_tail lit cmdidx w = .ok r) :
    reads_input w r.2 := by
  unfold ywss_tail at h
  by_cases c0 : MAX_ATCMD_PREFIX < 8 + c_strlen lit
  · rw [if_pos c0] at h
    cases h
  rw [if_neg c0] at h
  cases h0 : at_parse (c_strlen lit) w with
  | error f => rw [h0] at h; cases h
  | ok r0 =>
  rw [h0] at h
  dsimp only at h
  have g0 := at_parse_reads _ _ _ h0
  by_cases c1 : r0.2.1 ≠ c_string lit
  · rw [if_pos c1] at h
    cases h
    exact g0
  rw [if_neg c1] at h
  by_cases c2 : 8 + c_strlen lit = MAX_ATCMD_PREFIX
  · rw [if_pos c2] at h
    cases h
  rw [if_neg c2] at h
  cases h
  exact g0

/-- The ywss sub-dispatcher only reads serial input. -/
theorem ywss_handler_reads (delim : List Nat) (w : World) (r : Option at_cli_command × World)
    (h : get_atcmd_ywss_handler delim w = .ok r) : reads_input w r.2 := by
  unfold get_atcmd_ywss_handler at h
  cases h0 : at_parse 3 w with
  | error f => rw [h0] at h; cases h
  | ok r0 =>
  rw [h0] at h
  dsimp only at h
  have g0 := at_parse_reads _ _ _ h0
  by_cases c0 : r0.2.1 ≠ cstr "WSS"
  · rw [if_pos c0] at h
    cases h
    exact g0
  rw [if_neg c0] at h
  cases h1 : at_parse1 r0.2.2 with
  | error f => rw [h1] at h; cases h
  | ok r1 =>
  rw [h1] at h
  dsimp only at h
  have g1 := reads_input_trans _ _ _ g0 (at_parse1_reads _ _ h1)
  by_cases c1 : r1.1 = 83
  · rw [if_pos c1] at h
    cases h2 : at_parse 3 r1.2 with
    | error f => rw [h2] at h; cases h
    | ok r2 =>
    rw [h2] at h
    dsimp only at h
    have g2 := reads_input_trans _ _ _ g1 (at_parse_reads _ _ _ h2)
    by_cases c2 : r2.2.1 = cstr "TOP"
    · rw [if_pos c2] at h
      exact reads_input_trans _ _ _ g2 (ywss_tail_reads _ _ _ _ h)
    rw [if_neg c2] at h
    by_cases c3 : r2.2.1 = cstr "TAR"
    · rw [if_pos c3] at h
      exact reads_input_trans _ _ _ g2 (ywss_tail_reads _ _ _ _ h)
    rw [if_neg c3] at h
    by_cases c4 : r2.2.1 = cstr "ETC"
    · rw [if_pos c4] at h
      exact reads_input_trans _ _ _ g2 (ywss_tail_reads _ _ _ _ h)
    rw [if_neg c4] at h
    by_cases c5 : r2.2.1 = cstr "USP"
    · rw [if_pos c5] at h
      exact reads_input_trans _ _ _ g2 (ywss_tail_reads _ _ _ _ h)
    rw [if_neg c5] at h
    cases h
    exact g2
  rw [if_neg c1] at h
  cases h
  exact g1

theorem call_handler_reads (w : World) (x : Except Fault (Option at_cli_command × World))
    (d : dispatch_t) (hx : ∀ r, x = .ok r → reads_input w r.2) (h : call_handler x = .ok d) :
    d.echoed = none ∧ reads_input w d.world := by
  unfold call_handler at h
  cases x with
  | error f => cases h
  | ok p =>
    cases h
    exact ⟨rfl, hx p rfl⟩

/-- With echo off a run of `atcmd_handler` up to the call of the selected
function sends nothing and changes nothing but the position in the serial
input. -/
theorem atcmd_handler_reads (C : Consts) (e : insert_env) (delim : List Nat) (w : World)
    (d : dispatch_t) (hecho : w.uart_echo_on = false)
    (h : atcmd_handler C e delim w = .ok d) : d.echoed = none ∧ reads_input w d.world := by
  unfold atcmd_handler at h
  rw [uart_echo_off C e w hecho] at h
  dsimp only at h
  have hz : ¬ ((0 : Int) ≠ 0) := by decide
  rw [if_neg hz] at h
  cases h1 : at_parse1 w with
  | error f => rw [h1] at h; cases h
  | ok r1 =>
  rw [h1] at h
  dsimp only at h
  have g1 := at_parse1_reads _ _ h1
  have step : ∀ x : Except Fault (Option at_cli_command × World),
      (∀ r, x = .ok r → reads_input r1.2 r.2) → call_handler x = .ok d →
      d.echoed = none ∧ reads_input w d.world := by
    intro x hx hd
    obtain ⟨he, hr⟩ := call_handler_reads r1.2 x d hx hd
    exact ⟨he, reads_input_trans _ _ _ g1 hr⟩
  by_cases c1 : r1.1 = 67
  · rw [if_pos c1] at h
    exact step _ (cip_handler_reads _) h
  rw [if_neg c1] at h
  by_cases c2 : r1.1 = 85
  · rw [if_pos c2] at h
    exact step _ (uart_handler_reads _) h
  rw [if_neg c2] at h
  by_cases c3 : r1.1 = 87
  · rw [if_pos c3] at h
    exact step _ (wifi_handler_reads _) h
  rw [if_neg c3] at h
  by_cases c4 : r1.1 = 89
  · rw [if_pos c4] at h
    exact step _ (ywss_handler_reads delim _) h
  rw [if_neg c4] at h
  cases h
  exact ⟨rfl, g1⟩

theorem reads_input_queue (w w1 : World) (h : reads_input w w1) :
    w1.uart_send_queue = w.uart_send_queue ∧ w1.sock_send_queue = w.sock_send_queue
      ∧ w1.g_link = w.g_link := by
  obtain ⟨e1, _⟩ := h
  rw [e1]
  exact ⟨rfl, rfl, rfl⟩

/-- C13. Dispatch resolves every command of the grammar: with echo off, for
each name `N` among CIPSTART, CIPSTOP, CIPSEND, CIPDOMAIN, CIPAUTOCONN, UARTE,
WJAP=, WJAPIP? and WMAC?, and every serial input that starts with `N`,
`atcmd_handler` calls the function of the entry of `at_cmds_table` whose name
is `AT+` followed by `N`, and at that call exactly the bytes of `N` have been
read: the input behind `N` is unread and nothing else of the state has
changed. -/
theorem C13_dispatch_resolves_grammar (C : Consts) (e : insert_env) (delim : List Nat)
    (w : World) (hecho : w.uart_echo_on = false) :
    ∀ N ∈ grammar_names, ∀ rest : List Nat,
      ∃ entry ∈ at_cmds_table, entry.name = prefix_athost ++ N
        ∧ atcmd_handler C e delim { w with transport := N ++ rest }
            = .ok ⟨some entry, none, { w with transport := rest }⟩ := by
  intro N hN rest
  simp only [grammar_names, List.mem_cons, List.mem_singleton, List.not_mem_nil, or_false] at hN
  rcases hN with h | h | h | h | h | h | h | h | h
  · exact ⟨⟨cstr "AT+CIPSTART", .atcmd_cip_start⟩, by decide, by rw [h]; decide,
      by rw [h]; exact dispatch_cipstart C e delim w rest hecho⟩
  · exact ⟨⟨cstr "AT+CIPSTOP", .atcmd_cip_stop⟩, by decide, by rw [h]; decide,
      by rw [h]; exact dispatch_cipstop C e delim w rest hecho⟩
  · exact ⟨⟨cstr "AT+CIPSEND", .at_cip_send⟩, by decide, by rw [h]; decide,
      by rw [h]; exact dispatch_cipsend C e delim w rest hecho⟩
  · exact ⟨⟨cstr "AT+CIPDOMAIN", .atcmd_cip_domain_dns⟩, by decide, by rw [h]; decide,
      by rw [h]; exact dispatch_cipdomain C e delim w rest hecho⟩
  · exact ⟨⟨cstr "AT+CIPAUTOCONN", .atcmd_cip_auto_connect⟩, by decide, by rw [h]; decide,
      by rw [h]; exact dispatch_cipautoconn C e delim w rest hecho⟩
  · exact ⟨⟨cstr "AT+UARTE", .atcmd_uart_echo⟩, by decide, by rw [h]; decide,
      by rw [h]; exact dispatch_uarte C e delim w rest hecho⟩
  · exact ⟨⟨cstr "AT+WJAP=", .atcmd_ap_connect⟩, by decide, by rw [h]; decide,
      by rw [h]; exact dispatch_wjap C e delim w rest hecho⟩
  · exact ⟨⟨cstr "AT+WJAPIP?", .atcmd_get_ip⟩, by decide, by rw [h]; decide,
      by rw [h]; exact dispatch_wjapip C e delim w rest hecho⟩
  · exact ⟨⟨cstr "AT+WMAC?", .atcmd_get_mac⟩, by decide, by rw [h]; decide,
      by rw [h]; exact dispatch_wmac C e delim w rest hecho⟩

/-- Witness of C13: on a freshly started gateway the input
`CIPSTOP=0\r` selects the entry `AT+CIPSTOP` and leaves `=0\r` unread. -/
theorem C13_dispatch_resolves_grammar_witness :
    (started []).uart_echo_on = false
      ∧ ∃ entry ∈ at_cmds_table, entry.name = prefix_athost ++ cstr "CIPSTOP"
        ∧ atcmd_handler aos_consts (env_ok 3).ack (cstr "\r")
              { started [] with transport := cstr "CIPSTOP" ++ cstr "=0\r" }
            = .ok ⟨some entry, none, { started [] with transport := cstr "=0\r" }⟩ :=
  ⟨rfl, C13_dispatch_resolves_grammar aos_consts (env_ok 3).ack (cstr "\r") (started []) rfl
    (cstr "CIPSTOP") (by decide) (cstr "=0\r")⟩

/-- C12 (amended). Unknown command: with echo off, for every serial input whose
command suffix does not resolve to a handler (the first byte behind the
command prefix is none of `C`, `U`, `W`, `Y`, or a sub-dispatcher returns no
handler), `atcmd_handler` calls no handler and answers nothing: no frame is
queued and nothing is sent, the state is as before except that the bytes read
are gone from the serial input. -/
theorem C12_unknown_command_unanswered (C : Consts) (e : insert_env) (delim : List Nat)
    (w : World) (hecho : w.uart_echo_on = false) :
    (∀ c rest, w.transport = c :: rest → c ≠ 67 → c ≠ 85 → c ≠ 87 → c ≠ 89 →
        atcmd_handler C e delim w = .ok ⟨none, none, { w with transport := rest }⟩)
      ∧ (∀ c rest w1, w.transport = c :: rest →
          (c = 67 ∧ get_atcmd_cip_handler { w with transport := rest } = .ok (none, w1))
            ∨ (c = 85 ∧ get_atcmd_uart_handler { w with transport := rest } = .ok (none, w1))
            ∨ (c = 87 ∧ get_atcmd_wifi_handler { w with transport := rest } = .ok (none, w1))
            ∨ (c = 89 ∧ get_atcmd_ywss_handler delim { w with transport := rest }
                  = .ok (none, w1)) →
          atcmd_handler C e delim w = .ok ⟨none, none, w1⟩)
      ∧ (∀ d, atcmd_handler C e delim w = .ok d → d.handler = none →
          d.echoed = none ∧ d.world.uart_send_queue = w.uart_send_queue
            ∧ d.world.sock_send_queue = w.sock_send_queue ∧ reads_input w d.world) := by
  have hw : ∀ c rest, w.transport = c :: rest → w = { w with transport := c :: rest } := by
    intro c rest ht
    rw [← ht]
  refine ⟨?_, ?_, ?_⟩
  · intro c rest ht h1 h2 h3 h4
    rw [hw c rest ht, atcmd_handler_cons C e delim w c rest hecho, if_neg h1, if_neg h2,
      if_neg h3, if_neg h4]
  · intro c rest w1 ht hsub
    rw [hw c rest ht, atcmd_handler_cons C e delim w c rest hecho]
    rcases hsub with ⟨hc, hs⟩ | ⟨hc, hs⟩ | ⟨hc, hs⟩ | ⟨hc, hs⟩
    · rw [hc, hs]
      rfl
    · rw [hc, hs]
      rfl
    · rw [hc, hs]
      rfl
    · rw [hc, hs]
      rfl
  · intro d hd _
    obtain ⟨he, hr⟩ := atcmd_handler_reads C e delim w d hecho hd
    exact ⟨he, (reads_input_queue w d.world hr).1, (reads_input_queue w d.world hr).2.1, hr⟩

/-- Witness of C12 (amended): on a freshly started gateway the input `X\r`
behind `AT+` selects no handler; `\r` stays unread and nothing is queued. -/
theorem C12_unknown_command_unanswered_witness :
    (started unknown_line).uart_echo_on = false
      ∧ atcmd_handler aos_consts (env_ok 3).ack (cstr "\r") (started unknown_line)
          = .ok ⟨none, none, { started unknown_line with transport := cstr "\r" }⟩ :=
  ⟨rfl, (C12_unknown_command_unanswered aos_consts (env_ok 3).ack (cstr "\r")
    (started unknown_line) rfl).1 88 (cstr "\r") rfl (by decide) (by decide) (by decide)
    (by decide)⟩

/-- Counterexample to C12 as stated: with echo off and an empty serial queue
that accepts items, the input `X\r` behind `AT+` resolves to no handler, and
`atcmd_handler` returns with the serial queue still empty and nothing sent: no
acknowledgement-failure frame answers the command.  The same holds for
`WX\r`, where the Wi-Fi sub-dispatcher returns no handler. -/
theorem C12_unknown_command_not_answered :
    (started unknown_line).uart_echo_on = false
      ∧ (started unknown_line).uart_send_queue = ⟨true, []⟩
      ∧ atcmd_handler aos_consts (env_ok 3).ack (cstr "\r") (started unknown_line)
          = .ok ⟨none, none, started (cstr "\r")⟩
      ∧ get_atcmd_wifi_handler (started (cstr "X\r")) = .ok (none, started (cstr "\r"))
      ∧ atcmd_handler aos_consts (env_ok 3).ack (cstr "\r") (started (cstr "WX\r"))
          = .ok ⟨none, none, started (cstr "\r")⟩
      ∧ (started (cstr "\r")).uart_send_queue.items = []
      ∧ (notify_atcmd_recv_status aos_consts (env_ok 3).ack (started (cstr "\r"))
          aos_consts.ATCMD_FAIL).2.uart_send_queue.items = [text_item (cstr "\r\nERROR\r\n")] := by
  exact ⟨rfl, rfl, rfl, rfl, rfl, rfl, rfl⟩

/-- The bytes behind `CIPSTAR`, `CIPD` and `CIPA` are read and not compared:
with echo off, every input `CIPSTAR` followed by any byte selects
`AT+CIPSTART`, every input `CIPD` followed by any five bytes selects
`AT+CIPDOMAIN`, and every input `CIPA` followed by any seven bytes selects
`AT+CIPAUTOCONN`. -/
theorem dispatch_unchecked_bytes (C : Consts) (e : insert_env) (delim : List Nat) (w : World)
    (rest : List Nat) (h : w.uart_echo_on = false) :
    (∀ x : Nat, atcmd_handler C e delim { w with transport := cstr "CIPSTAR" ++ x :: rest }
        = .ok ⟨some ⟨cstr "AT+CIPSTART", .atcmd_cip_start⟩, none, { w with transport := rest }⟩)
      ∧ (∀ x1 x2 x3 x4 x5 : Nat,
          atcmd_handler C e delim
              { w with transport := cstr "CIPD" ++ x1 :: x2 :: x3 :: x4 :: x5 :: rest }
            = .ok ⟨some ⟨cstr "AT+CIPDOMAIN", .atcmd_cip_domain_dns⟩, none,
                { w with transport := rest }⟩)
      ∧ (∀ x1 x2 x3 x4 x5 x6 x7 : Nat,
          atcmd_handler C e delim
              { w with transport := cstr "CIPA" ++ x1 :: x2 :: x3 :: x4 :: x5 :: x6 :: x7 :: rest }
            = .ok ⟨some ⟨cstr "AT+CIPAUTOCONN", .atcmd_cip_auto_connect⟩, none,
                { w with transport := rest }⟩) := by
  have h1 : cstr "IP" = [73, 80] := by decide
  have h2 : cstr "TAR" = [84, 65, 82] := by decide
  have hs : cstr "CIPSTAR" = [67, 73, 80, 83, 84, 65, 82] := by decide
  have hd : cstr "CIPD" = [67, 73, 80, 68] := by decide
  have ha : cstr "CIPA" = [67, 73, 80, 65] := by decide
  refine ⟨?_, ?_, ?_⟩
  · intro x
    rw [hs]
    simp only [List.cons_append, List.nil_append]
    rw [atcmd_handler_cons C e delim w _ _ h]
    simp [get_atcmd_cip_handler, at_parse, at_parse1, call_handler, table_entry, at_cmds_table,
      ATCMD_CIP_START, h1, h2]
  · intro x1 x2 x3 x4 x5
    rw [hd]
    simp only [List.cons_append, List.nil_append]
    rw [atcmd_handler_cons C e delim w _ _ h]
    simp [get_atcmd_cip_handler, at_parse, at_parse1, call_handler, table_entry, at_cmds_table,
      ATCMD_CIP_DOMAIN, h1]
  · intro x1 x2 x3 x4 x5 x6 x7
    rw [ha]
    simp only [List.cons_append, List.nil_append]
    rw [atcmd_handler_cons C e delim w _ _ h]
    simp [get_atcmd_cip_handler, at_parse, at_parse1, call_handler, table_entry, at_cmds_table,
      ATCMD_CIP_AUTOCONN, h1]

/-- With echo off, an input `U` followed by three bytes that are not `ART`
makes `get_atcmd_uart_handler` leave through `return;` without a value. -/
theorem dispatch_uart_mismatch (C : Consts) (e : insert_env) (delim : List Nat) (w : World)
    (x1 x2 x3 : Nat) (rest : List Nat) (h : w.uart_echo_on = false)
    (hx : [x1, x2, x3] ≠ cstr "ART") :
    atcmd_handler C e delim { w with transport := 85 :: x1 :: x2 :: x3 :: rest }
      = .error .undefined := by
  rw [atcmd_handler_cons C e delim w _ _ h]
  simp [get_atcmd_uart_handler, at_parse, call_handler, hx]

/-- C14 (failing input). On a freshly started gateway with echo off the
input `AT+CIPSTARx=0,tcp_client,127.0.0.1,9000\r`, which starts with no name
of `at_cmds_table`, makes `atcmd_handler` call the function of the entry
`AT+CIPSTART` with `=0,tcp_client,127.0.0.1,9000\r` unread, and
`atcmd_cip_start` then opens link 0 on descriptor 3.  In the same way
`CIPDxxxxx` selects `AT+CIPDOMAIN` and `CIPAxxxxxxx` selects
`AT+CIPAUTOCONN`. -/
theorem C14_unchecked_bytes_select_handler :
    (started cipstarx_line).uart_echo_on = false
      ∧ (∀ entry ∈ at_cmds_table,
          entry.name.isPrefixOf (prefix_athost ++ cipstarx_line) = false
            ∧ entry.name.isPrefixOf (prefix_athost ++ cipdx_line) = false
            ∧ entry.name.isPrefixOf (prefix_athost ++ cipax_line) = false)
      ∧ atcmd_handler aos_consts (env_ok 3).ack (cstr "\r") (started cipstarx_line)
          = .ok ⟨some ⟨cstr "AT+CIPSTART", .atcmd_cip_start⟩, none, started start_link0⟩
      ∧ cipstarx_call = started start_link0
      ∧ atcmd_cip_start aos_consts (env_ok 3) cipstarx_call
          = .ok (0, { one_link with transport := [] })
      ∧ find_sockfd_by_linkid one_link.g_link 0 = 3
      ∧ atcmd_handler aos_consts (env_ok 3).ack (cstr "\r") (started cipdx_line)
          = .ok ⟨some ⟨cstr "AT+CIPDOMAIN", .atcmd_cip_domain_dns⟩, none,
              started (cstr "=a.b\r")⟩
      ∧ atcmd_handler aos_consts (env_ok 3).ack (cstr "\r") (started cipax_line)
          = .ok ⟨some ⟨cstr "AT+CIPAUTOCONN", .atcmd_cip_auto_connect⟩, none,
              started (cstr "=0,0\r")⟩ := by
  refine ⟨rfl, by decide, rfl, rfl, rfl, rfl, rfl, rfl⟩

/-- C11 (failing input). In a state in which link 0 is open on descriptor 3
and the serial queue (valid, one item, allocations succeeding) accepts items,
`AT+CIPAUTOCONN=0,1`  makes `atcmd_cip_auto_connect` return 0 with nothing but
the serial input changed: no frame has been queued.  With `=0,0` the same
handler does queue a frame that ends in the success postfix. -/
theorem C11_auto_connect_on_returns_without_ack :
    find_sockfd_by_linkid one_link_autoconn_on.g_link 0 = 3
      ∧ one_link_autoconn_on.uart_send_queue.valid = true
      ∧ one_link_autoconn_on.uart_send_queue.items.length = 1
      ∧ (env_ok 3).ack = ⟨true, true⟩ ∧ (env_ok 3).notify.ins = ⟨true, true⟩
      ∧ atcmd_cip_auto_connect aos_consts (env_ok 3) one_link_autoconn_on
          = .ok (0, { one_link_autoconn_on with transport := cstr "\r" })
      ∧ (∃ w1, atcmd_cip_auto_connect aos_consts (env_ok 3)
              { one_link with transport := cstr "=0,0\r" } = .ok (0, w1)
          ∧ w1.uart_send_queue.items
              = one_link.uart_send_queue.items
                ++ [text_item (cstr "\r\n+CIPEVENT:0,SERVER,CLOSEDOK\r\n")]) := by
  refine ⟨rfl, rfl, rfl, rfl, rfl, rfl, ⟨_, rfl, rfl⟩⟩

/-! ## Slots of reachable registries -/

/-- Every slot of the result of the loop of `add_link_info` is a slot of the
registry before, the new entry, or an emptied slot. -/
theorem add_link_loop_slots (fd linkid type : Int) (e : add_link_env) (g : List link_t) :
    ∀ x ∈ (add_link_loop fd linkid type e g).2,
      x ∈ g ∨ x = ⟨fd, linkid, type⟩ ∨ x = ⟨-1, -1, type⟩ := by
  induction g with
  | nil => intro x hx; simp [add_link_loop] at hx
  | cons l g ih =>
    intro x hx
    simp only [add_link_loop] at hx
    split at hx
    · rcases List.mem_cons.mp hx with h | h
      · exact Or.inl (h ▸ List.mem_cons_self _ _)
      · rcases ih x h with h1 | h1
        · exact Or.inl (List.mem_cons_of_mem _ h1)
        · exact Or.inr h1
    · split at hx
      · rcases List.mem_cons.mp hx with h | h
        · exact Or.inr (Or.inr h)
        · exact Or.inl (List.mem_cons_of_mem _ h)
      · split at hx
        · rcases List.mem_cons.mp hx with h | h
          · exact Or.inr (Or.inr h)
          · exact Or.inl (List.mem_cons_of_mem _ h)
        · rcases List.mem_cons.mp hx with h | h
          · exact Or.inr (Or.inl h)
          · exact Or.inl (List.mem_cons_of_mem _ h)

/-- Every slot of the result of the loop of `delete_link_info_by_sockfd` is a
slot of the registry before or an emptied slot. -/
theorem delete_link_loop_slots (sockfd : Int) (g : List link_t) :
    ∀ x ∈ (delete_link_loop sockfd g).2, x ∈ g ∨ (x.fd = -1 ∧ x.linkid = -1) := by
  induction g with
  | nil => intro x hx; simp [delete_link_loop] at hx
  | cons l g ih =>
    intro x hx
    simp only [delete_link_loop] at hx
    split at hx
    · rcases List.mem_cons.mp hx with h | h
      · exact Or.inr (by rw [h]; exact ⟨rfl, rfl⟩)
      · rcases ih x h with h1 | h1
        · exact Or.inl (List.mem_cons_of_mem _ h1)
        · exact Or.inr h1
    · rcases List.mem_cons.mp hx with h | h
      · exact Or.inl (h ▸ List.mem_cons_self _ _)
      · rcases ih x h with h1 | h1
        · exact Or.inl (List.mem_cons_of_mem _ h1)
        · exact Or.inr h1

theorem add_link_loop_length (fd linkid type : Int) (e : add_link_env) (g : List link_t) :
    (add_link_loop fd linkid type e g).2.length = g.length := by
  induction g with
  | nil => rfl
  | cons l g ih =>
    simp only [add_link_loop]
    repeat' split
    all_goals simp [ih]

/-- C22 (failing input). On the registry with link 0 on descriptor 3 and link
1 on descriptor 4, no slot holds descriptor 9, and `find_conntype_by_sockfd(9)`
returns whatever its local `type` held when the loop started: TCP_CLIENT when
that was TCP_CLIENT, and never -1 unless that was -1.  The two other lookups
return -1 for what is not stored. -/
theorem C22_not_found_returns_uninitialised :
    (∀ l ∈ two_link_registry, l.fd ≠ 9)
      ∧ find_conntype_by_sockfd two_link_registry 9 TCP_CLIENT = TCP_CLIENT
      ∧ (∀ uninit, find_conntype_by_sockfd two_link_registry 9 uninit = uninit)
      ∧ find_linkid_by_sockfd two_link_registry 9 = -1
      ∧ find_sockfd_by_linkid two_link_registry 9 = -1 := by
  refine ⟨by decide, rfl, ?_, rfl, rfl⟩
  intro uninit
  rfl

/-- C29 (failing input). `get_conntype_index` compares only `strlen(str)`
bytes: the empty string and `tcp` give the index of `tcp_server`, `tcp_c`
the index of `tcp_client`, `s` the index of `ssl_client` and `udp` the index
of `udp_broadcast`; and `AT+CIPSTART=0,tcp_c,127.0.0.1,9000\r` opens link 0
as a TCP client. -/
theorem C29_prefix_of_a_name_is_accepted :
    get_conntype_index (some []) = TCP_SERVER
      ∧ get_conntype_index (some (cstr "tcp")) = TCP_SERVER
      ∧ get_conntype_index (some (cstr "tcp_c")) = TCP_CLIENT
      ∧ get_conntype_index (some (cstr "s")) = SSL_CLIENT
      ∧ get_conntype_index (some (cstr "udp")) = UDP_BROADCAST
      ∧ cstr "tcp_c" ∉ conntype_str
      ∧ atcmd_cip_start aos_consts (env_ok 3) (started start_link0_tcp_c)
          = .ok (0, { one_link with transport := [] })
      ∧ find_sockfd_by_linkid one_link.g_link 0 = 3
      ∧ find_conntype_by_sockfd one_link.g_link 3 0 = TCP_CLIENT := by
  refine ⟨by decide, by decide, by decide, by decide, by decide, by decide, rfl, rfl, rfl⟩

/-- C30 (failing input). On a started gateway with echo off, `AT+UARTE=\r`
(empty field) and `AT+UARTE=O\r` make `atcmd_uart_echo` return 0 with
`uart_echo_on` set, and the success acknowledgement queued; with echo on,
`AT+UARTE=OF\r` makes it return 0 with `uart_echo_on` cleared. -/
theorem C30_initial_part_is_accepted :
    (started (cstr "=\r")).uart_echo_on = false
      ∧ (uart_echo_run (cstr "=\r")).1 = 0
      ∧ (uart_echo_run (cstr "=\r")).2.uart_echo_on = true
      ∧ (uart_echo_run (cstr "=O\r")).1 = 0
      ∧ (uart_echo_run (cstr "=O\r")).2.uart_echo_on = true
      ∧ (uart_echo_run (cstr "=O\r")).2.uart_send_queue.items
          = [text_item (cstr "\r\nOK\r\n")]
      ∧ (uart_echo_run_on (cstr "=OF\r")).1 = 0
      ∧ (uart_echo_run_on (cstr "=OF\r")).2.uart_echo_on = false
      ∧ atcmd_uart_echo aos_consts (env_ok 3) (started (cstr "=O\r"))
          = .ok (uart_echo_run (cstr "=O\r"))
      ∧ (uart_echo_run (cstr "=ON\r")).2.uart_echo_on = true
      ∧ (uart_echo_run_on (cstr "=OFF\r")).2.uart_echo_on = false
      ∧ (uart_echo_run_on (cstr "=X\r")).1 = -1
      ∧ (uart_echo_run_on (cstr "=X\r")).2.uart_echo_on = true := by
  refine ⟨rfl, rfl, rfl, rfl, rfl, rfl, rfl, rfl, rfl, rfl, rfl, rfl, rfl⟩

/-! ## What a handler run leaves alone -/

theorem input_only_refl (w : World) : input_only w w := rfl

theorem input_only_trans (w w1 w2 : World) (h1 : input_only w w1) (h2 : input_only w1 w2) :
    input_only w w2 := by
  unfold input_only at *
  rw [h2, h1]

theorem input_only_set (w : World) (t : List Nat) : input_only w { w with transport := t } :=
  rfl

theorem at_parse1_input_only (w : World) (r : Nat × World) (h : at_parse1 w = .ok r) :
    input_only w r.2 := by
  unfold at_parse1 at h
  split at h
  · cases h
  · cases h; rfl

theorem at_parse_input_only (n : Nat) (w : World) (r : Nat × List Nat × World)
    (h : at_parse n w = .ok r) : input_only w r.2.2 := by
  unfold at_parse at h
  split at h
  · cases h; rfl
  · cases h

theorem get_field_w_input_only (cap : Nat) (check : Option (Nat → Int)) (w : World)
    (r : Int × List Nat × World) (h : get_field_w cap check w = .ok r) :
    input_only w r.2.2 := by
  unfold get_field_w at h
  split at h
  · cases h
  · cases h; rfl

theorem input_only_fields (w w1 : World) (h : input_only w w1) :
    w1.g_link = w.g_link ∧ w1.trace = w.trace ∧ w1.open_fds = w.open_fds
      ∧ w1.uart_send_queue = w.uart_send_queue ∧ w1.sock_send_queue = w.sock_send_queue
      ∧ w1.inited = w.inited ∧ w1.uart_echo_on = w.uart_echo_on
      ∧ w1.recv_tasks = w.recv_tasks := by
  unfold input_only at h
  rw [h]
  exact ⟨rfl, rfl, rfl, rfl, rfl, rfl, rfl, rfl⟩

theorem queue_only_refl (w : World) : queue_only w w := ⟨_, _, rfl⟩

theorem queue_only_trans (w w1 w2 : World) (h1 : queue_only w w1) (h2 : queue_only w1 w2) :
    queue_only w w2 := by
  obtain ⟨q1, s1, e1⟩ := h1
  obtain ⟨q2, s2, e2⟩ := h2
  exact ⟨q2, s2, by rw [e2, e1]⟩

theorem queue_only_fields (w w1 : World) (h : queue_only w w1) :
    w1.g_link = w.g_link ∧ w1.trace = w.trace ∧ w1.open_fds = w.open_fds
      ∧ w1.transport = w.transport ∧ w1.sock_send_queue = w.sock_send_queue
      ∧ w1.inited = w.inited ∧ w1.uart_echo_on = w.uart_echo_on
      ∧ w1.recv_tasks = w.recv_tasks := by
  obtain ⟨q, s, e⟩ := h
  rw [e]
  exact ⟨rfl, rfl, rfl, rfl, rfl, rfl, rfl, rfl⟩

theorem insert_uart_send_msg_queue_only (e : insert_env) (w : World)
    (cmdptr dataptr : Option (List Nat)) (cmdlen datalen : Nat) :
    queue_only w (insert_uart_send_msg e w cmdptr dataptr cmdlen datalen).2 := by
  unfold insert_uart_send_msg
  repeat' split
  all_goals exact ⟨_, _, rfl⟩

theorem notify_atcmd_recv_status_queue_only (C : Consts) (e : insert_env) (w : World)
    (status : Int) : queue_only w (notify_atcmd_recv_status C e w status).2 := by
  unfold notify_atcmd_recv_status
  repeat' split
  all_goals first
    | exact queue_only_refl _
    | exact insert_uart_send_msg_queue_only _ _ _ _ _ _

theorem notify_conn_status_queue_only (C : Consts) (e : notify_env) (w : World)
    (sockid status recvstatus : Int) (r : Int × World)
    (h : notify_cip_connect_status_events C e w sockid status recvstatus = .ok r) :
    queue_only w r.2 := by
  unfold notify_cip_connect_status_events at h
  repeat' split at h
  all_goals first
    | (cases h; exact queue_only_refl _)
    | (cases h; exact insert_uart_send_msg_queue_only _ _ _ _ _ _)
    | cases h

theorem handler_err_queue_only (C : Consts) (e : handler_env) (w : World) :
    queue_only w (handler_err C e w).2 :=
  notify_atcmd_recv_status_queue_only _ _ _ _

theorem handler_err_ret (C : Consts) (e : handler_env) (w : World) :
    (handler_err C e w).1 = -1 := rfl

/-- Every run of `atcmd_cip_start` that returns either fails before the call
of `socket`, or is a run of the second half of the handler from a state that
differs from the first in the serial input only, for a link id that is not
negative and not registered. -/
theorem cip_start_factor (C : Consts) (e : handler_env) (w : World) (r : Int × World)
    (h : atcmd_cip_start C e w = .ok r) :
    (∃ w1, input_only w w1 ∧ r = cip_start_err C e w1 (-1))
      ∨ (∃ w1 linkid type, input_only w w1 ∧ 0 ≤ linkid
          ∧ find_sockfd_by_linkid w.g_link linkid < 0
          ∧ cip_start_open C e w1 linkid type = .ok r) := by
  have herr : ∀ (w1 : World), input_only w w1 →
      Except.ok (cip_start_err C e w1 (-1)) = Except.ok (ε := Fault) r →
      (∃ w1, input_only w w1 ∧ r = cip_start_err C e w1 (-1))
        ∨ (∃ w1 linkid type, input_only w w1 ∧ 0 ≤ linkid
            ∧ find_sockfd_by_linkid w.g_link linkid < 0
            ∧ cip_start_open C e w1 linkid type = .ok r) := by
    intro w1 hw hr
    cases hr
    exact Or.inl ⟨w1, hw, rfl⟩
  unfold atcmd_cip_start at h
  by_cases c0 : w.inited = false
  · rw [if_pos c0] at h
    exact herr _ (input_only_refl w) h
  rw [if_neg c0] at h
  cases h0 : at_parse1 w with
  | error f => rw [h0] at h; cases h
  | ok r0 =>
  rw [h0] at h
  dsimp only at h
  have g0 := at_parse1_input_only _ _ h0
  by_cases c1 : r0.1 ≠ CH_EQ
  · rw [if_pos c1] at h
    exact herr _ g0 h
  rw [if_neg c1] at h
  cases h1 : get_field_w 16 (some socket_data_len_check) r0.2 with
  | error f => rw [h1] at h; cases h
  | ok r1 =>
  rw [h1] at h
  dsimp only at h
  have g1 := input_only_trans _ _ _ g0 (get_field_w_input_only _ _ _ _ h1)
  by_cases c2 : r1.1 < 0 ∨ atoi r1.2.1 < 0
  · rw [if_pos c2] at h
    exact herr _ g1 h
  rw [if_neg c2] at h
  by_cases c3 : find_sockfd_by_linkid r1.2.2.g_link (atoi r1.2.1) ≥ 0
  · rw [if_pos c3] at h
    exact herr _ g1 h
  rw [if_neg c3] at h
  have hreg : find_sockfd_by_linkid w.g_link (atoi r1.2.1) < 0 := by
    rw [← (input_only_fields _ _ g1).1]
    omega
  have hlink : 0 ≤ atoi r1.2.1 := by omega
  unfold cip_start_args at h
  cases h2 : get_field_w 16 (some socket_conntype_check) r1.2.2 with
  | error f => rw [h2] at h; cases h
  | ok r2 =>
  rw [h2] at h
  dsimp only at h
  have g2 := input_only_trans _ _ _ g1 (get_field_w_input_only _ _ _ _ h2)
  by_cases c4 : r2.1 < 0 ∨ get_conntype_index (some r2.2.1) < 0
  · rw [if_pos c4] at h
    exact herr _ g2 h
  rw [if_neg c4] at h
  cases h3 : get_field_w 16 (some socket_ip_info_check) r2.2.2 with
  | error f => rw [h3] at h; cases h
  | ok r3 =>
  rw [h3] at h
  dsimp only at h
  have g3 := input_only_trans _ _ _ g2 (get_field_w_input_only _ _ _ _ h3)
  by_cases c5 : r3.1 < 0
  · rw [if_pos c5] at h
    exact herr _ g3 h
  rw [if_neg c5] at h
  cases h4 : get_field_w 16 (some socket_data_len_check) r3.2.2 with
  | error f => rw [h4] at h; cases h
  | ok r4 =>
  rw [h4] at h
  dsimp only at h
  have g4 := input_only_trans _ _ _ g3 (get_field_w_input_only _ _ _ _ h4)
  by_cases c6 : r4.1 < 0
  · rw [if_pos c6] at h
    exact herr _ g4 h
  rw [if_neg c6] at h
  by_cases c7 : atoi r4.2.1 % 2 ^ 16 = 0
  · rw [if_pos c7] at h
    exact herr _ g4 h
  rw [if_neg c7] at h
  by_cases c8 : e.inet_addr = C.IPADDR_NONE
  · rw [if_pos c8] at h
    exact herr _ g4 h
  rw [if_neg c8] at h
  split at h
  · exact herr _ g4 h
  · exact Or.inr ⟨r4.2.2, atoi r1.2.1, _, g4, hlink, hreg, h⟩

/-! ## CIPSTART: what is stored, and the cleanup after a failure -/

/-- When the loop of `add_link_info` fails, every slot of its result is a
slot of the registry before or an emptied slot. -/
theorem add_link_loop_fail_slots (fd linkid type : Int) (e : add_link_env) (g : List link_t)
    (h : (add_link_loop fd linkid type e g).1 ≠ 0) :
    ∀ x ∈ (add_link_loop fd linkid type e g).2, x ∈ g ∨ x = ⟨-1, -1, type⟩ := by
  induction g with
  | nil => intro x hx; simp [add_link_loop] at hx
  | cons l g ih =>
    intro x hx
    simp only [add_link_loop] at hx h
    by_cases c0 : l.fd ≥ 0
    · rw [if_pos c0] at hx h
      rcases List.mem_cons.mp hx with h1 | h1
      · exact Or.inl (h1 ▸ List.mem_cons_self _ _)
      · rcases ih h x h1 with h2 | h2
        · exact Or.inl (List.mem_cons_of_mem _ h2)
        · exact Or.inr h2
    rw [if_neg c0] at hx h
    by_cases c1 : e.sem_start ≠ 0
    · rw [if_pos c1] at hx
      rcases List.mem_cons.mp hx with h1 | h1
      · exact Or.inr h1
      · exact Or.inl (List.mem_cons_of_mem _ h1)
    rw [if_neg c1] at hx h
    by_cases c2 : e.sem_close ≠ 0
    · rw [if_pos c2] at hx
      rcases List.mem_cons.mp hx with h1 | h1
      · exact Or.inr h1
      · exact Or.inl (List.mem_cons_of_mem _ h1)
    rw [if_neg c2] at h
    exact absurd rfl h

/-- The loop of `add_link_info` leaves every occupied slot where it is. -/
theorem add_link_loop_keeps (fd linkid type : Int) (e : add_link_env) (g : List link_t) :
    ∀ (i : Nat) (l : link_t), g[i]? = some l → occupied l →
      (add_link_loop fd linkid type e g).2[i]? = some l := by
  induction g with
  | nil => intro i l h; simp at h
  | cons a g ih =>
    intro i l h hocc
    simp only [add_link_loop]
    by_cases c0 : a.fd ≥ 0
    · rw [if_pos c0]
      cases i with
      | zero =>
        simp only [List.getElem?_cons_zero] at h ⊢
        exact h
      | succ j =>
        simp only [List.getElem?_cons_succ] at h ⊢
        exact ih j l h hocc
    rw [if_neg c0]
    cases i with
    | zero =>
      simp only [List.getElem?_cons_zero, Option.some.injEq] at h
      rw [← h] at hocc
      exact absurd hocc c0
    | succ j =>
      simp only [List.getElem?_cons_succ] at h
      repeat' split
      all_goals simp only [List.getElem?_cons_succ]; exact h

theorem add_link_info_keeps (e : add_link_env) (g : List link_t) (fd linkid type : Int) :
    ∀ (i : Nat) (l : link_t), g[i]? = some l → occupied l →
      (add_link_info e g fd linkid type).2[i]? = some l := by
  intro i l h hocc
  unfold add_link_info
  split
  · exact h
  · exact add_link_loop_keeps fd linkid type e g i l h hocc

theorem add_link_info_fail_slots (e : add_link_env) (g : List link_t) (fd linkid type : Int)
    (h : (add_link_info e g fd linkid type).1 ≠ 0) :
    ∀ x ∈ (add_link_info e g fd linkid type).2, x ∈ g ∨ x = ⟨-1, -1, type⟩ := by
  unfold add_link_info at h ⊢
  split
  · intro x hx; exact Or.inl hx
  · rename_i c
    rw [if_neg c] at h
    exact add_link_loop_fail_slots fd linkid type e g h

theorem add_link_info_slots (e : add_link_env) (g : List link_t) (fd linkid type : Int) :
    ∀ x ∈ (add_link_info e g fd linkid type).2,
      x ∈ g ∨ x = ⟨fd, linkid, type⟩ ∨ x = ⟨-1, -1, type⟩ := by
  unfold add_link_info
  split
  · intro x hx; exact Or.inl hx
  · exact add_link_loop_slots fd linkid type e g

theorem delete_link_info_slots (lock : Int) (g : List link_t) (fd : Int) :
    ∀ x ∈ (delete_link_info_by_sockfd lock g fd).2, x ∈ g ∨ (x.fd = -1 ∧ x.linkid = -1) := by
  unfold delete_link_info_by_sockfd
  split
  · intro x hx; exact Or.inl hx
  · split
    · intro x hx; exact Or.inl hx
    · exact delete_link_loop_slots fd g

/-- A removal leaves every slot that does not hold the descriptor where it
is. -/
theorem delete_link_info_keeps (lock : Int) (g : List link_t) (fd : Int) :
    ∀ (i : Nat) (l : link_t), g[i]? = some l → l.fd ≠ fd →
      (delete_link_info_by_sockfd lock g fd).2[i]? = some l := by
  intro i l h hne
  unfold delete_link_info_by_sockfd
  split
  · exact h
  · split
    · exact h
    · rw [delete_link_loop_slot fd g i l h, if_neg hne]

/-- After a removal that took the lock no slot holds the descriptor. -/
theorem delete_link_info_gone (g : List link_t) (fd : Int) (hfd : 0 ≤ fd) :
    ∀ l ∈ (delete_link_info_by_sockfd 0 g fd).2, l.fd ≠ fd := by
  unfold delete_link_info_by_sockfd
  rw [if_neg (by omega), if_neg (by decide)]
  exact delete_link_loop_gone fd g hfd

/-- The label `err` of `atcmd_cip_start` with a descriptor: the registry is
left alone, `close(fd)` is the one call recorded, and the descriptor is
closed. -/
theorem cip_start_err_close (C : Consts) (e : handler_env) (w : World) (fd : Int)
    (hfd : 0 ≤ fd) :
    (cip_start_err C e w fd).1 = -1
      ∧ (cip_start_err C e w fd).2.g_link = w.g_link
      ∧ (cip_start_err C e w fd).2.trace = w.trace ++ [Ev.close fd]
      ∧ fd ∉ (cip_start_err C e w fd).2.open_fds := by
  have hq := queue_only_fields _ _ (notify_atcmd_recv_status_queue_only C e.ack w C.ATCMD_FAIL)
  unfold cip_start_err
  rw [if_pos hfd]
  refine ⟨rfl, ?_, ?_, ?_⟩
  · show (notify_atcmd_recv_status C e.ack w C.ATCMD_FAIL).2.g_link = _
    exact hq.1
  · show (notify_atcmd_recv_status C e.ack w C.ATCMD_FAIL).2.trace ++ _ = _
    rw [hq.2.1]
  · show fd ∉ List.filter _ _
    simp

/-- The label `err` of `atcmd_cip_start` without a descriptor records no
call. -/
theorem cip_start_err_none (C : Consts) (e : handler_env) (w : World) :
    (cip_start_err C e w (-1)).2.trace = w.trace := by
  have hq := queue_only_fields _ _ (notify_atcmd_recv_status_queue_only C e.ack w C.ATCMD_FAIL)
  unfold cip_start_err
  rw [if_neg (by decide)]
  exact hq.2.1

/-- Cleanup of the second half of `atcmd_cip_start`: when `socket` returned a
descriptor that no slot held and the run returns failure, the calls recorded
are `socket`, possibly `add_link_info`, `aos_task_new` and
`delete_link_info_by_sockfd`, and one `close(fd)` at the end; every occupied
slot is where it was; and, when the removal could take the lock, no slot
holds the descriptor. -/
theorem cip_start_open_cleanup (C : Consts) (e : handler_env) (w : World) (linkid type : Int)
    (r : Int × World) (hfd : 0 ≤ e.socket)
    (hrun : cip_start_open C e w linkid type = .ok r) (hfail : r.1 ≠ 0)
    (hfresh : ∀ l ∈ w.g_link, l.fd ≠ e.socket) :
    (∃ evs, r.2.trace = w.trace ++ (Ev.socket e.socket :: evs ++ [Ev.close e.socket])
        ∧ Ev.close e.socket ∉ evs)
      ∧ e.socket ∉ r.2.open_fds
      ∧ (∀ (i : Nat) (l : link_t), w.g_link[i]? = some l → occupied l →
          r.2.g_link[i]? = some l)
      ∧ (e.delete_lock = 0 → ∀ l ∈ r.2.g_link, l.fd ≠ e.socket) := by
  have hs : (after_socket e w).g_link = w.g_link := rfl
  have hst : (after_socket e w).trace = w.trace ++ [Ev.socket e.socket] := rfl
  have hat : (after_add e w linkid type).trace
      = w.trace ++ [Ev.socket e.socket, Ev.add_link_info e.socket linkid type] := by
    show (w.trace ++ [Ev.socket e.socket]) ++ [Ev.add_link_info e.socket linkid type] = _
    simp
  have htt : (after_task e w linkid type).trace
      = w.trace ++ [Ev.socket e.socket, Ev.add_link_info e.socket linkid type, Ev.task_new] := by
    show (after_add e w linkid type).trace ++ [Ev.task_new] = _
    rw [hat]
    simp
  have hag : (after_add e w linkid type).g_link
      = (add_link_info e.add w.g_link e.socket linkid type).2 := rfl
  have htg : (after_task e w linkid type).g_link
      = (add_link_info e.add w.g_link e.socket linkid type).2 := rfl
  have hfd0 : ¬ e.socket < 0 := by omega
  -- failure right after `socket`
  have herr0 : r = cip_start_err C e (after_socket e w) e.socket →
      (∃ evs, r.2.trace = w.trace ++ (Ev.socket e.socket :: evs ++ [Ev.close e.socket])
          ∧ Ev.close e.socket ∉ evs)
        ∧ e.socket ∉ r.2.open_fds
        ∧ (∀ (i : Nat) (l : link_t), w.g_link[i]? = some l → occupied l →
            r.2.g_link[i]? = some l)
        ∧ (e.delete_lock = 0 → ∀ l ∈ r.2.g_link, l.fd ≠ e.socket) := by
    intro hr
    obtain ⟨_, hg, ht, ho⟩ := cip_start_err_close C e (after_socket e w) e.socket hfd
    rw [hr]
    refine ⟨⟨[], ?_, by simp⟩, ho, ?_, ?_⟩
    · rw [ht, hst]; simp
    · intro i l hl _
      rw [hg, hs]; exact hl
    · intro _ l hl
      rw [hg, hs] at hl
      exact hfresh l hl
  -- failure after a registry that `delete_link_info_by_sockfd` has worked on
  have herr2 : ∀ w0 : World,
      w0.trace = w.trace ++ [Ev.socket e.socket, Ev.add_link_info e.socket linkid type,
        Ev.task_new] →
      w0.g_link = (add_link_info e.add w.g_link e.socket linkid type).2 →
      r = cip_start_err C e (delete_link_w e.delete_lock w0 e.socket) e.socket →
      (∃ evs, r.2.trace = w.trace ++ (Ev.socket e.socket :: evs ++ [Ev.close e.socket])
          ∧ Ev.close e.socket ∉ evs)
        ∧ e.socket ∉ r.2.open_fds
        ∧ (∀ (i : Nat) (l : link_t), w.g_link[i]? = some l → occupied l →
            r.2.g_link[i]? = some l)
        ∧ (e.delete_lock = 0 → ∀ l ∈ r.2.g_link, l.fd ≠ e.socket) := by
    intro w0 ht0 hg0 hr
    obtain ⟨_, hg, ht, ho⟩ := cip_start_err_close C e (delete_link_w e.delete_lock w0 e.socket)
      e.socket hfd
    have hdg : (delete_link_w e.delete_lock w0 e.socket).g_link
        = (delete_link_info_by_sockfd e.delete_lock
            (add_link_info e.add w.g_link e.socket linkid type).2 e.socket).2 := by
      show (delete_link_info_by_sockfd e.delete_lock w0.g_link e.socket).2 = _
      rw [hg0]
    have hdt : (delete_link_w e.delete_lock w0 e.socket).trace
        = w0.trace ++ [Ev.delete_link_info e.socket] := rfl
    rw [hr]
    refine ⟨⟨[Ev.add_link_info e.socket linkid type, Ev.task_new,
        Ev.delete_link_info e.socket], ?_, by simp⟩, ho, ?_, ?_⟩
    · rw [ht, hdt, ht0]; simp
    · intro i l hl hocc
      rw [hg, hdg]
      apply delete_link_info_keeps
      · exact add_link_info_keeps e.add w.g_link e.socket linkid type i l hl hocc
      · exact hfresh l (List.getElem?_mem hl)
    · intro hlock l hl
      rw [hg, hdg, hlock] at hl
      exact delete_link_info_gone _ _ hfd l hl
  unfold cip_start_open at hrun
  rw [if_neg hfd0] at hrun
  by_cases c1 : type = TCP_CLIENT ∧ e.connect ≠ 0
  · rw [if_pos c1] at hrun
    cases hrun
    exact herr0 rfl
  rw [if_neg c1] at hrun
  by_cases c2 : type ≠ TCP_CLIENT ∧ type = UDP_UNICAST ∧ (e.bind ≠ 0 ∨ e.connect ≠ 0)
  · rw [if_pos c2] at hrun
    cases hrun
    exact herr0 rfl
  rw [if_neg c2] at hrun
  by_cases c3 : type ≠ TCP_CLIENT ∧ type ≠ UDP_UNICAST ∧ type = UDP_BROADCAST
      ∧ (e.setsockopt ≠ 0 ∨ e.bind ≠ 0)
  · rw [if_pos c3] at hrun
    cases hrun
    exact herr0 rfl
  rw [if_neg c3] at hrun
  by_cases c4 : type ≠ TCP_CLIENT ∧ type ≠ UDP_UNICAST ∧ type ≠ UDP_BROADCAST
      ∧ type = TCP_SERVER
  · rw [if_pos c4] at hrun
    cases hrun
    exact herr0 rfl
  rw [if_neg c4] at hrun
  cases hts : cip_start_task type linkid with
  | error f => rw [hts] at hrun; cases hrun
  | ok ts =>
  rw [hts] at hrun
  dsimp only at hrun
  by_cases c5 : (add_link_info e.add (after_socket e w).g_link e.socket linkid type).1 ≠ 0
  · rw [if_pos c5] at hrun
    cases hrun
    obtain ⟨_, hg, ht, ho⟩ := cip_start_err_close C e (after_add e w linkid type) e.socket hfd
    refine ⟨⟨[Ev.add_link_info e.socket linkid type], ?_, by simp⟩, ho, ?_, ?_⟩
    · rw [ht, hat]; simp
    · intro i l hl hocc
      rw [hg, hag]
      exact add_link_info_keeps e.add w.g_link e.socket linkid type i l hl hocc
    · intro _ l hl
      rw [hg, hag] at hl
      rcases add_link_info_fail_slots e.add w.g_link e.socket linkid type c5 l hl with h1 | h1
      · exact hfresh l h1
      · rw [h1]
        show (-1 : Int) ≠ e.socket
        omega
  rw [if_neg c5] at hrun
  by_cases cu : ts.recvtsk = none ∨ ts.stacksize = none
  · rw [if_pos cu] at hrun
    cases hrun
  rw [if_neg cu] at hrun
  by_cases c6 : e.task_new ≠ 0
  · rw [if_pos c6] at hrun
    cases hrun
    exact herr2 _ htt htg rfl
  rw [if_neg c6] at hrun
  cases hn : notify_cip_connect_status_events C e.notify (after_task e w linkid type) e.socket
      C.CIP_STATUS_CONNECTED C.ATCMD_SUCCESS with
  | error f => rw [hn] at hrun; cases hrun
  | ok r0 =>
  rw [hn] at hrun
  dsimp only at hrun
  have hq := queue_only_fields _ _ (notify_conn_status_queue_only _ _ _ _ _ _ _ hn)
  by_cases c7 : r0.1 ≠ 0
  · rw [if_pos c7] at hrun
    cases hrun
    exact herr2 r0.2 (by rw [hq.2.1, htt]) (by rw [hq.1, htg]) rfl
  rw [if_neg c7] at hrun
  cases hrun
  exact absurd rfl hfail

/-- C24 (amended). CIPSTART failure cleanup: for every run of
`atcmd_cip_start` that returns failure after `socket()` handed back a
descriptor `fd >= 0` that no registry slot held, the handler calls `close(fd)`
exactly once, as its last call before it returns, `fd` is closed on return,
and every previously registered link is where it was; and when
`delete_link_info_by_sockfd` can take the registry lock, the registry holds no
entry for `fd` on return. -/
theorem C24_cip_start_failure_cleanup (C : Consts) (e : handler_env) (w : World)
    (r : Int × World) (hrun : atcmd_cip_start C e w = .ok r) (hfail : r.1 ≠ 0)
    (hfd : 0 ≤ e.socket)
    (hcalled : Ev.socket e.socket ∈ r.2.trace.drop w.trace.length)
    (hfresh : ∀ l ∈ w.g_link, l.fd ≠ e.socket) :
    (∃ evs, r.2.trace = w.trace ++ (evs ++ [Ev.close e.socket])
        ∧ (evs ++ [Ev.close e.socket]).count (Ev.close e.socket) = 1)
      ∧ e.socket ∉ r.2.open_fds
      ∧ (∀ (i : Nat) (l : link_t), w.g_link[i]? = some l → occupied l →
          r.2.g_link[i]? = some l)
      ∧ (e.delete_lock = 0 → ∀ l ∈ r.2.g_link, l.fd ≠ e.socket) := by
  rcases cip_start_factor C e w r hrun with ⟨w1, hw1, hr⟩ | ⟨w1, linkid, type, hw1, _, _, hopen⟩
  · exfalso
    have ht : r.2.trace = w.trace := by
      rw [hr, cip_start_err_none, (input_only_fields _ _ hw1).2.1]
    rw [ht] at hcalled
    simp at hcalled
  · have hf := input_only_fields _ _ hw1
    obtain ⟨⟨evs, ht, hnc⟩, ho, hkeep, hgone⟩ := cip_start_open_cleanup C e w1 linkid type r hfd
      hopen hfail (by rw [hf.1]; exact hfresh)
    refine ⟨⟨Ev.socket e.socket :: evs, ?_, ?_⟩, ho, ?_, hgone⟩
    · rw [ht, hf.2.1]
    · rw [List.count_append, List.count_cons, List.count_eq_zero_of_not_mem hnc]
      simp
    · intro i l hl hocc
      exact hkeep i l (by rw [hf.1]; exact hl) hocc

/-- Witness of C24 (amended): `AT+CIPSTART=0,tcp_client,127.0.0.1,9000\r` on a
freshly started gateway, `socket()` returning 3 and `connect` failing. -/
theorem C24_cip_start_failure_cleanup_witness :
    atcmd_cip_start aos_consts env_connect_fails (started start_link0)
        = .ok connect_failed_run
      ∧ connect_failed_run.1 = -1
      ∧ (∃ evs, connect_failed_run.2.trace
            = (started start_link0).trace ++ (evs ++ [Ev.close 3])
          ∧ (evs ++ [Ev.close 3]).count (Ev.close 3) = 1)
      ∧ (3 : Int) ∉ connect_failed_run.2.open_fds
      ∧ (∀ l ∈ connect_failed_run.2.g_link, l.fd ≠ 3) :=
  have h := C24_cip_start_failure_cleanup aos_consts env_connect_fails (started start_link0)
    connect_failed_run rfl (by decide) (by decide) (by decide) (by decide)
  ⟨rfl, rfl, h.1, h.2.1, h.2.2.2 rfl⟩

/-- Counterexample to C24 as stated.  First run: `AT+CIPSTART=0,...` on a
freshly started gateway with `socket()` returning 3, `aos_task_new` failing
and `aos_mutex_lock` failing inside `delete_link_info_by_sockfd`: the handler
returns -1 and has closed descriptor 3, but slot `(3, 0, tcp_client)` is
still in the registry.  Second run: in a state whose registry still holds
descriptor 3 from a link whose receive task has closed it,
`AT+CIPSTART=1,...` with `socket()` returning 3 and `connect` failing returns
-1, and the registry holds an entry for descriptor 3 on return. -/
theorem C24_entry_left_after_failure :
    atcmd_cip_start aos_consts env_task_and_lock_fail
        { started [] with transport := start_link0 } = .ok (-1, failed_start)
      ∧ failed_start.trace
          = [Ev.socket 3, Ev.add_link_info 3 0 1, Ev.task_new, Ev.delete_link_info 3,
              Ev.close 3]
      ∧ (⟨3, 0, 1⟩ : link_t) ∈ failed_start.g_link
      ∧ find_linkid_by_sockfd failed_start.g_link 3 = 0
      ∧ (3 : Int) ∉ one_link_peer_closed.open_fds
      ∧ (⟨3, 0, 1⟩ : link_t) ∈ one_link_peer_closed.g_link
      ∧ atcmd_cip_start aos_consts env_connect_fails
          { one_link_peer_closed with transport := start_link1 }
          = .ok stale_connect_failed_run
      ∧ stale_connect_failed_run.1 = -1
      ∧ find_linkid_by_sockfd stale_connect_failed_run.2.g_link 3 = 0 := by
  refine ⟨rfl, rfl, by decide, rfl, by decide, by decide, rfl, rfl, rfl⟩

/-- Every occupied slot in the registry after a run of `atcmd_cip_start` was
in the registry before, or holds the descriptor `socket` returned with a
link id that is not negative. -/
theorem cip_start_stored (C : Consts) (e : handler_env) (w : World) (r : Int × World)
    (h : atcmd_cip_start C e w = .ok r) :
    ∀ l ∈ r.2.g_link, occupied l → l ∈ w.g_link ∨ (l.fd = e.socket ∧ 0 ≤ l.linkid) := by
  intro l hl hocc
  have hadd : ∀ linkid type, 0 ≤ linkid →
      ∀ x ∈ (add_link_info e.add w.g_link e.socket linkid type).2, occupied x →
        x ∈ w.g_link ∨ (x.fd = e.socket ∧ 0 ≤ x.linkid) := by
    intro linkid type hlink x hx hox
    rcases add_link_info_slots e.add w.g_link e.socket linkid type x hx with h1 | h1 | h1
    · exact Or.inl h1
    · rw [h1]; exact Or.inr ⟨rfl, hlink⟩
    · rw [h1] at hox
      exact absurd hox (by simp [occupied])
  rcases cip_start_g_link C e w r h with hg | ⟨linkid, type, hlink, _, _, hg | hg⟩
  · rw [hg] at hl; exact Or.inl hl
  · rw [hg] at hl
    exact hadd linkid type hlink l hl hocc
  · rw [hg] at hl
    rcases delete_link_info_slots _ _ _ l hl with h1 | h1
    · exact hadd linkid type hlink l h1 hocc
    · have : l.fd ≥ 0 := hocc
      omega

theorem find_sockfd_loop_found (linkid : Int) (g : List link_t)
    (h : find_sockfd_loop linkid g ≥ 0) :
    ∃ l ∈ g, occupied l ∧ l.linkid = linkid ∧ l.fd = find_sockfd_loop linkid g := by
  induction g with
  | nil =>
    simp only [find_sockfd_loop] at h
    omega
  | cons a g ih =>
    simp only [find_sockfd_loop] at h ⊢
    by_cases c : a.fd ≥ 0 ∧ a.linkid = linkid
    · rw [if_pos c]
      exact ⟨a, List.mem_cons_self _ _, c.1, c.2, rfl⟩
    · rw [if_neg c] at h ⊢
      obtain ⟨l, hl, h1, h2, h3⟩ := ih h
      exact ⟨l, List.mem_cons_of_mem _ hl, h1, h2, h3⟩

theorem delete_link_loop_append (sockfd : Int) (a b : List link_t)
    (h : ∀ x ∈ a, x.fd ≠ sockfd) :
    (delete_link_loop sockfd (a ++ b)).2 = a ++ (delete_link_loop sockfd b).2 := by
  induction a with
  | nil => rfl
  | cons x a ih =>
    simp only [List.cons_append, delete_link_loop]
    rw [if_neg (h x (List.mem_cons_self _ _))]
    show x :: (delete_link_loop sockfd (a ++ b)).2 = _
    rw [ih (fun y hy => h y (List.mem_cons_of_mem _ hy))]

/-- In a registry with link uniqueness, the removal of the descriptor `s`
that link id `L` is bound to leaves `L` and `s` unregistered and every other
occupied slot as it was and resolving as before. -/
theorem registry_after_close (g : List link_t) (L s : Int) (hu : link_unique g)
    (hb : find_sockfd_by_linkid g L = s) (hs : 0 ≤ s) :
    find_sockfd_by_linkid (delete_link_info_by_sockfd 0 g s).2 L = -1
      ∧ find_linkid_by_sockfd (delete_link_info_by_sockfd 0 g s).2 s = -1
      ∧ find_linkid_by_sockfd g s = L
      ∧ ∀ l ∈ g, occupied l → l.linkid ≠ L →
          l ∈ (delete_link_info_by_sockfd 0 g s).2
            ∧ find_linkid_by_sockfd (delete_link_info_by_sockfd 0 g s).2 l.fd = l.linkid
            ∧ (0 ≤ l.linkid →
                find_sockfd_by_linkid (delete_link_info_by_sockfd 0 g s).2 l.linkid = l.fd)
            ∧ ∀ u, find_conntype_by_sockfd (delete_link_info_by_sockfd 0 g s).2 l.fd u
                = l.type := by
  have hL : ¬ L < 0 := by
    intro hneg
    simp only [find_sockfd_by_linkid, hneg, if_true] at hb
    omega
  have hloop : find_sockfd_loop L g = s := by
    simpa only [find_sockfd_by_linkid, hL, if_false] using hb
  obtain ⟨l0, hl0, hocc0, hlink0, hfd0⟩ := find_sockfd_loop_found L g (by rw [hloop]; exact hs)
  rw [hloop] at hfd0
  obtain ⟨pre, post, hg, hpre, hpost⟩ := link_unique_split g hu l0 hl0 hocc0
  have hpre_fd : ∀ x ∈ pre, x.fd ≠ s := by
    intro x hx heq
    have hox : occupied x := by
      show x.fd ≥ 0
      omega
    exact (hpre x hx hox).1 (heq.trans hfd0.symm)
  have hpost_fd : ∀ x ∈ post, x.fd ≠ s := by
    intro x hx heq
    have hox : occupied x := by
      show x.fd ≥ 0
      omega
    exact (hpost x hx hox).1 (heq.trans hfd0.symm)
  have hdel : (delete_link_info_by_sockfd 0 g s).2 = pre ++ ⟨-1, -1, l0.type⟩ :: post := by
    unfold delete_link_info_by_sockfd
    rw [if_neg (by omega), if_neg (by decide), hg, delete_link_loop_append s pre _ hpre_fd]
    simp only [delete_link_loop]
    rw [if_pos hfd0]
    show pre ++ ⟨-1, -1, l0.type⟩ :: (delete_link_loop s post).2 = _
    rw [delete_link_loop_none s post hpost_fd]
  have hnocc : ¬ occupied (⟨-1, -1, l0.type⟩ : link_t) := by simp [occupied]
  have hu1 : link_unique (pre ++ ⟨-1, -1, l0.type⟩ :: post) := by
    have hp := (link_unique_iff_pairwise g).mp hu
    rw [hg, List.pairwise_append, List.pairwise_cons] at hp
    rw [link_unique_iff_pairwise, List.pairwise_append, List.pairwise_cons]
    refine ⟨hp.1, ⟨?_, hp.2.1.2⟩, ?_⟩
    · intro x _ hoe _
      exact absurd hoe hnocc
    · intro x hx y hy
      rcases List.mem_cons.mp hy with h1 | h1
      · rw [h1]
        intro _ hoy
        exact absurd hoy hnocc
      · exact hp.2.2 x hx y (List.mem_cons_of_mem _ h1)
  have hrt := lookup_round_trip _ hu1
  have hrt0 := lookup_round_trip g hu
  have hmem : ∀ l ∈ pre ++ ⟨-1, -1, l0.type⟩ :: post, occupied l → l ∈ pre ∨ l ∈ post := by
    intro l hl hocc
    rcases List.mem_append.mp hl with h1 | h1
    · exact Or.inl h1
    · rcases List.mem_cons.mp h1 with h2 | h2
      · rw [h2] at hocc
        exact absurd hocc hnocc
      · exact Or.inr h2
  rw [hdel]
  refine ⟨?_, ?_, ?_, ?_⟩
  · apply hrt.2.1
    intro l hl hocc
    rcases hmem l hl hocc with h1 | h1
    · rw [← hlink0]; exact (hpre l h1 hocc).2
    · rw [← hlink0]; exact (hpost l h1 hocc).2
  · apply hrt.2.2
    intro l hl hocc
    rcases hmem l hl hocc with h1 | h1
    · exact hpre_fd l h1
    · exact hpost_fd l h1
  · have := (hrt0.1 l0 hl0 hocc0).1
    rw [hfd0, hlink0] at this
    exact this
  · intro l hl hocc hne
    have hl1 : l ∈ pre ++ ⟨-1, -1, l0.type⟩ :: post := by
      rw [hg] at hl
      rcases List.mem_append.mp hl with h1 | h1
      · exact List.mem_append_left _ h1
      · rcases List.mem_cons.mp h1 with h2 | h2
        · rw [h2, hlink0] at hne
          exact absurd rfl hne
        · exact List.mem_append_right _ (List.mem_cons_of_mem _ h2)
    exact ⟨hl1, hrt.1 l hl1 hocc⟩

/-- The close of a registered link returns when the link id fits
`linkid_str[5]` and the peer address fits `addr_str[16]`; the registry
afterwards is the result of the removal, and nothing but the registry, the
record of calls and the serial queue has changed. -/
theorem close_link_returns (C : Consts) (e : handler_env) (w : World) (s : Int)
    (hlink : find_linkid_by_sockfd w.g_link s < 10000)
    (haddr : (c_string e.notify.peer.addr).length < 16) :
    ∃ w1, close_link C e w s = .ok w1
      ∧ w1.g_link = (delete_link_info_by_sockfd e.delete_lock w.g_link s).2
      ∧ w1.transport = w.transport ∧ w1.sock_send_queue = w.sock_send_queue
      ∧ w1.uart_echo_on = w.uart_echo_on := by
  obtain ⟨r, hr⟩ := conn_status_returns C e.notify w s C.CIP_STATUS_CLOSED C.ATCMD_SUCCESS
    (fun _ => haddr) (fun _ => hlink)
  have hq := queue_only_fields _ _ (notify_conn_status_queue_only _ _ _ _ _ _ _ hr)
  refine ⟨delete_link_w e.delete_lock r.2 s, ?_, ?_, ?_, ?_, ?_⟩
  · unfold close_link
    rw [hr]
  · show (delete_link_info_by_sockfd e.delete_lock r.2.g_link s).2 = _
    rw [hq.1]
  · exact hq.2.2.2.1
  · exact hq.2.2.2.2.1
  · exact hq.2.2.2.2.2.2.1

/-- `atcmd_cip_stop` and `atcmd_cip_auto_connect` on an initialised gateway
when the serial input starts with `'='`, a field of fewer than 5 digits and a
terminator: what is left after the link id has been read. -/
theorem cip_stop_head (C : Consts) (e : handler_env) (w : World) (d rest : List Nat) (t : Nat)
    (hinit : w.inited = true) (hin : w.transport = CH_EQ :: (d ++ t :: rest))
    (hlen : d.length < 5) (hd : ∀ c ∈ d, socket_data_len_check c = 0)
    (ht : t = CH_COMMA ∨ t = CH_CR) :
    atcmd_cip_stop C e w =
      if atoi d < 0 then .ok (handler_err C e { w with transport := rest })
      else if find_sockfd_by_linkid w.g_link (atoi d) < 0 then
        .ok (handler_err C e { w with transport := rest })
      else
        match close_link C e { w with transport := rest }
            (find_sockfd_by_linkid w.g_link (atoi d)) with
        | .error f => .error f
        | .ok w2 => .ok (0, w2) := by
  have h0 : at_parse1 w = .ok (CH_EQ, { w with transport := d ++ t :: rest }) := by
    simp only [at_parse1, hin]
  have h1 : get_field_w 5 (some socket_data_len_check) { w with transport := d ++ t :: rest }
      = .ok (if t = CH_COMMA then 0 else 1, d, { w with transport := rest }) :=
    get_field_w_eq 5 _ _ _ _ _ (get_field_digits 5 d rest t hlen hd ht)
  unfold atcmd_cip_stop
  rw [if_neg (by rw [hinit]; decide), h0]
  dsimp only
  rw [if_neg (by decide), h1]
  dsimp only
  simp only [terminator_ret t, false_or]
  all_goals rfl

theorem cip_auto_connect_head (C : Consts) (e : handler_env) (w : World) (d rest : List Nat)
    (t c : Nat) (hinit : w.inited = true) (hin : w.transport = CH_EQ :: (d ++ t :: c :: rest))
    (hlen : d.length < 5) (hd : ∀ c ∈ d, socket_data_len_check c = 0)
    (ht : t = CH_COMMA ∨ t = CH_CR) :
    atcmd_cip_auto_connect C e w =
      if atoi d < 0 then .ok (handler_err C e { w with transport := c :: rest })
      else if c ≠ 48 ∧ c ≠ 49 then .ok (handler_err C e { w with transport := rest })
      else if find_sockfd_by_linkid w.g_link (atoi d) < 0 then
        .ok (handler_err C e { w with transport := rest })
      else if c = 48 then
        match close_link C e { w with transport := rest }
            (find_sockfd_by_linkid w.g_link (atoi d)) with
        | .error f => .error f
        | .ok w2 => .ok (0, w2)
      else .ok (0, { w with transport := rest }) := by
  have h0 : at_parse1 w = .ok (CH_EQ, { w with transport := d ++ t :: c :: rest }) := by
    simp only [at_parse1, hin]
  have h1 : get_field_w 5 (some socket_data_len_check)
      { w with transport := d ++ t :: c :: rest }
      = .ok (if t = CH_COMMA then 0 else 1, d, { w with transport := c :: rest }) :=
    get_field_w_eq 5 _ _ _ _ _ (get_field_digits 5 d (c :: rest) t hlen hd ht)
  have h2 : at_parse1 { w with transport := c :: rest }
      = .ok (c, { w with transport := rest }) := rfl
  unfold atcmd_cip_auto_connect
  rw [if_neg (by rw [hinit]; decide), h0]
  dsimp only
  rw [if_neg (by decide), h1]
  dsimp only
  simp only [terminator_ret t, false_or]
  by_cases c1 : atoi d < 0
  · rw [if_pos c1, if_pos c1]
  rw [if_neg c1, if_neg c1, h2]
  all_goals rfl

theorem one_link_registry :
    one_link.g_link = [⟨3, 0, 1⟩, ⟨-1, -1, 0⟩, ⟨-1, -1, 0⟩, ⟨-1, -1, 0⟩, ⟨-1, -1, 0⟩] := rfl

theorem one_link_unique : link_unique one_link.g_link := by
  rw [one_link_registry]
  unfold link_unique
  decide

/-- C25 (amended). CIPSTOP deregisters: for every registry state with link
uniqueness in which a link id `L` below 10000 is bound to socket `s`,
`AT+CIPSTOP=L\r` returns success; and when `delete_link_info_by_sockfd` can
take the registry lock, `find_sockfd_by_linkid(L)` and
`find_linkid_by_sockfd(s)` afterwards both return -1 and every other
registered link still resolves to the same socket, link id and type. -/
theorem C25_cip_stop_deregisters (C : Consts) (e : handler_env) (w : World)
    (d rest : List Nat) (L s : Int)
    (hinit : w.inited = true) (hin : w.transport = CH_EQ :: (d ++ CH_CR :: rest))
    (hd : d.length < 5) (hd2 : ∀ c ∈ d, socket_data_len_check c = 0) (hL : atoi d = L)
    (hL1 : L < 10000)
    (hbound : find_sockfd_by_linkid w.g_link L = s) (hs : 0 ≤ s)
    (hu : link_unique w.g_link)
    (haddr : (c_string e.notify.peer.addr).length < 16) :
    ∃ w1, atcmd_cip_stop C e w = .ok (0, w1)
      ∧ (e.delete_lock = 0 →
          find_sockfd_by_linkid w1.g_link L = -1 ∧ find_linkid_by_sockfd w1.g_link s = -1
          ∧ ∀ l ∈ w.g_link, occupied l → l.linkid ≠ L →
              find_linkid_by_sockfd w1.g_link l.fd = l.linkid
              ∧ (0 ≤ l.linkid → find_sockfd_by_linkid w1.g_link l.linkid = l.fd)
              ∧ ∀ u, find_conntype_by_sockfd w1.g_link l.fd u = l.type) := by
  have hL0 : ¬ L < 0 := by
    intro hneg
    simp only [find_sockfd_by_linkid, hneg, if_true] at hbound
    omega
  obtain ⟨h1, h2, h3, h4⟩ := registry_after_close w.g_link L s hu hbound hs
  obtain ⟨w1, hc, hg, _⟩ := close_link_returns C e { w with transport := rest } s
    (by show find_linkid_by_sockfd w.g_link s < 10000; rw [h3]; exact hL1) haddr
  rw [cip_stop_head C e w d rest CH_CR hinit hin hd hd2 (Or.inr rfl), hL, if_neg hL0, hbound,
    if_neg (by omega), hc]
  refine ⟨w1, rfl, ?_⟩
  intro hlock
  have hg1 : w1.g_link = (delete_link_info_by_sockfd 0 w.g_link s).2 := by
    rw [hg, hlock]
  rw [hg1]
  exact ⟨h1, h2, fun l hl hocc hne => (h4 l hl hocc hne).2⟩

/-- Witness of C25 (amended): `AT+CIPSTOP=0\r` in the state `one_link`. -/
theorem C25_cip_stop_deregisters_witness :
    ∃ w1, atcmd_cip_stop aos_consts (env_ok 3) { one_link with transport := cstr "=0\r" }
          = .ok (0, w1)
      ∧ find_sockfd_by_linkid w1.g_link 0 = -1 ∧ find_linkid_by_sockfd w1.g_link 3 = -1 := by
  obtain ⟨w1, h1, h2⟩ := C25_cip_stop_deregisters aos_consts (env_ok 3)
    { one_link with transport := cstr "=0\r" } (cstr "0") [] 0 3 rfl rfl (by decide) (by decide)
    rfl (by decide) rfl (by decide) one_link_unique (by decide)
  exact ⟨w1, h1, (h2 rfl).1, (h2 rfl).2.1⟩

/-- Counterexample to C25 as stated.  With link 0 on descriptor 3 and
`aos_mutex_lock` failing inside `delete_link_info_by_sockfd`, `AT+CIPSTOP=0\r`
returns 0 and link 0 still resolves to descriptor 3.  In a registry whose
slots for link 0 and link 1 both hold descriptor 3, `AT+CIPSTOP=0\r` empties
both slots, and link 1 resolves no more.  With link id 10000 registered,
`AT+CIPSTOP=10000\r` does not return a value: the five digits and the NUL do
not fit `body[5]`. -/
theorem C25_link_left_after_stop :
    find_sockfd_by_linkid one_link.g_link 0 = 3
      ∧ (run_of (atcmd_cip_stop aos_consts env_delete_lock_fails) one_link (cstr "=0\r")).1 = 0
      ∧ find_sockfd_by_linkid
          (run_of (atcmd_cip_stop aos_consts env_delete_lock_fails) one_link
            (cstr "=0\r")).2.g_link 0 = 3
      ∧ stale_and_new_link.g_link
          = [⟨3, 0, 1⟩, ⟨3, 1, 1⟩, ⟨-1, -1, 0⟩, ⟨-1, -1, 0⟩, ⟨-1, -1, 0⟩]
      ∧ find_sockfd_by_linkid stale_and_new_link.g_link 1 = 3
      ∧ (run_of (atcmd_cip_stop aos_consts (env_ok 3)) stale_and_new_link (cstr "=0\r")).1 = 0
      ∧ find_sockfd_by_linkid
          (run_of (atcmd_cip_stop aos_consts (env_ok 3)) stale_and_new_link
            (cstr "=0\r")).2.g_link 1 = -1
      ∧ find_sockfd_by_linkid link_id_10000.g_link 10000 = 3
      ∧ atcmd_cip_stop aos_consts (env_ok 3) { link_id_10000 with transport := cstr "=10000\r" }
          = .error .undefined := by
  refine ⟨rfl, rfl, rfl, rfl, rfl, rfl, rfl, rfl, rfl⟩

/-- C27 (amended). CIPAUTOCONN: for every registry state with link uniqueness
in which a link id `L` below 10000 is registered, `AT+CIPAUTOCONN=L,0`
returns 0 and, when `delete_link_info_by_sockfd` can take the registry lock,
removes the entry of `L` (`find_sockfd_by_linkid(L)` returns -1, the other
links resolve as before); `AT+CIPAUTOCONN=L,1` returns 0 and leaves the whole
state but the serial input unchanged; every other option byte makes the
handler return -1 with the registry unchanged. -/
theorem C27_auto_connect (C : Consts) (e : handler_env) (w : World)
    (d rest : List Nat) (c : Nat) (L s : Int)
    (hinit : w.inited = true) (hin : w.transport = CH_EQ :: (d ++ CH_COMMA :: c :: rest))
    (hd : d.length < 5) (hd2 : ∀ c ∈ d, socket_data_len_check c = 0) (hL : atoi d = L)
    (hL1 : L < 10000)
    (hbound : find_sockfd_by_linkid w.g_link L = s) (hs : 0 ≤ s)
    (hu : link_unique w.g_link)
    (haddr : (c_string e.notify.peer.addr).length < 16) :
    (c = 48 → ∃ w1, atcmd_cip_auto_connect C e w = .ok (0, w1)
        ∧ (e.delete_lock = 0 →
            find_sockfd_by_linkid w1.g_link L = -1
            ∧ ∀ l ∈ w.g_link, occupied l → l.linkid ≠ L →
                find_linkid_by_sockfd w1.g_link l.fd = l.linkid
                ∧ (0 ≤ l.linkid → find_sockfd_by_linkid w1.g_link l.linkid = l.fd)
                ∧ ∀ u, find_conntype_by_sockfd w1.g_link l.fd u = l.type))
      ∧ (c = 49 → atcmd_cip_auto_connect C e w = .ok (0, { w with transport := rest }))
      ∧ (c ≠ 48 → c ≠ 49 →
          ∃ w1, atcmd_cip_auto_connect C e w = .ok (-1, w1) ∧ w1.g_link = w.g_link) := by
  have hL0 : ¬ L < 0 := by
    intro hneg
    simp only [find_sockfd_by_linkid, hneg, if_true] at hbound
    omega
  have hhead := cip_auto_connect_head C e w d rest CH_COMMA c hinit hin hd hd2 (Or.inl rfl)
  rw [hL, if_neg hL0, hbound] at hhead
  refine ⟨?_, ?_, ?_⟩
  · intro hc
    obtain ⟨h1, h2, h3, h4⟩ := registry_after_close w.g_link L s hu hbound hs
    obtain ⟨w1, hcl, hg, _⟩ := close_link_returns C e { w with transport := rest } s
      (by show find_linkid_by_sockfd w.g_link s < 10000; rw [h3]; exact hL1) haddr
    rw [hhead, if_neg (by rw [hc]; decide), if_neg (by omega), if_pos hc, hcl]
    refine ⟨w1, rfl, ?_⟩
    intro hlock
    have hg1 : w1.g_link = (delete_link_info_by_sockfd 0 w.g_link s).2 := by
      rw [hg, hlock]
    rw [hg1]
    exact ⟨h1, fun l hl hocc hne => (h4 l hl hocc hne).2⟩
  · intro hc
    rw [hhead, if_neg (by rw [hc]; decide), if_neg (by omega), if_neg (by rw [hc]; decide)]
  · intro h48 h49
    rw [hhead, if_pos ⟨h48, h49⟩]
    exact ⟨_, rfl, handler_err_g_link C e _⟩

/-- Witness of C27 (amended): `AT+CIPAUTOCONN=0,1` in the state `one_link`
leaves everything but the serial input as it is. -/
theorem C27_auto_connect_witness :
    atcmd_cip_auto_connect aos_consts (env_ok 3) { one_link with transport := cstr "=0,1\r" }
      = .ok (0, { one_link with transport := cstr "\r" }) :=
  (C27_auto_connect aos_consts (env_ok 3) { one_link with transport := cstr "=0,1\r" }
    (cstr "0") (cstr "\r") 49 0 3 rfl rfl (by decide) (by decide) rfl (by decide) rfl
    (by decide) one_link_unique (by decide)).2.1 rfl

/-- Counterexample to C27 as stated.  With link 0 on descriptor 3 and
`aos_mutex_lock` failing inside `delete_link_info_by_sockfd`,
`AT+CIPAUTOCONN=0,0` returns 0 and link 0 still resolves to descriptor 3.  In
a registry whose slots for link 0 and link 1 both hold descriptor 3,
`AT+CIPAUTOCONN=0,0` empties both slots, and link 1 resolves no more.  With
link id 10000 registered, `AT+CIPAUTOCONN=10000,0` does not return a value:
the five digits and the NUL do not fit `body[5]`. -/
theorem C27_entry_left_after_auto_connect :
    find_sockfd_by_linkid one_link.g_link 0 = 3
      ∧ (run_of (atcmd_cip_auto_connect aos_consts env_delete_lock_fails) one_link
          (cstr "=0,0\r")).1 = 0
      ∧ find_sockfd_by_linkid
          (run_of (atcmd_cip_auto_connect aos_consts env_delete_lock_fails) one_link
            (cstr "=0,0\r")).2.g_link 0 = 3
      ∧ find_sockfd_by_linkid stale_and_new_link.g_link 1 = 3
      ∧ (run_of (atcmd_cip_auto_connect aos_consts (env_ok 3)) stale_and_new_link
          (cstr "=0,0\r")).1 = 0
      ∧ find_sockfd_by_linkid
          (run_of (atcmd_cip_auto_connect aos_consts (env_ok 3)) stale_and_new_link
            (cstr "=0,0\r")).2.g_link 1 = -1
      ∧ find_sockfd_by_linkid link_id_10000.g_link 10000 = 3
      ∧ atcmd_cip_auto_connect aos_consts (env_ok 3)
          { link_id_10000 with transport := cstr "=10000,0\r" } = .error .undefined := by
  refine ⟨rfl, rfl, rfl, rfl, rfl, rfl, rfl, rfl⟩

/-! ## CIPSEND: the argument grammar, and commands on a link that does not exist -/

theorem insert_sock_send_msg_transport (m : Bool) (w : World) (s : Int)
    (d : Option (List Nat)) (n : Nat) :
    (insert_sock_send_msg m w s d n).2.transport = w.transport := by
  unfold insert_sock_send_msg
  repeat' split
  all_goals rfl

/-- `at_cip_send` on an initialised gateway when the serial input starts with
`'='`, a field of fewer than 16 digits and a terminator, for a link id that
is not registered. -/
theorem cip_send_unknown (C : Consts) (e : handler_env) (w : World) (d rest : List Nat) (t : Nat)
    (hinit : w.inited = true) (hin : w.transport = CH_EQ :: (d ++ t :: rest))
    (hlen : d.length < 16) (hd : ∀ c ∈ d, socket_data_len_check c = 0)
    (ht : t = CH_COMMA ∨ t = CH_CR)
    (hnone : find_sockfd_by_linkid w.g_link (atoi d) < 0) :
    at_cip_send C e w = .ok (handler_err C e { w with transport := rest }) := by
  have h0 : at_parse1 w = .ok (CH_EQ, { w with transport := d ++ t :: rest }) := by
    simp only [at_parse1, hin]
  have h1 : get_field_w 16 (some socket_data_len_check) { w with transport := d ++ t :: rest }
      = .ok (if t = CH_COMMA then 0 else 1, d, { w with transport := rest }) :=
    get_field_w_eq 16 _ _ _ _ _ (get_field_digits 16 d rest t hlen hd ht)
  unfold at_cip_send
  rw [if_neg (by rw [hinit]; decide), h0]
  dsimp only
  rw [if_neg (by decide), h1]
  dsimp only
  by_cases c : (if t = CH_COMMA then (0 : Int) else 1) < 0 ∨ atoi d < 0
  · rw [if_pos c]
  · rw [if_neg c, if_pos hnone]

/-- `at_cip_send` on an initialised gateway for a registered link, when the
serial input holds `=d,n\r` (form without port) or `=d,p,n\r` (form with
port): both come to the last part of the handler with the same socket and
the same data length, the payload being the next unread bytes. -/
theorem cip_send_forms (C : Consts) (e : handler_env) (w : World) (d p n tail : List Nat)
    (hinit : w.inited = true)
    (hd : d.length < 16) (hd2 : ∀ c ∈ d, socket_data_len_check c = 0)
    (hp : p.length < 16) (hp2 : ∀ c ∈ p, socket_data_len_check c = 0)
    (hn : n.length < 16) (hn2 : ∀ c ∈ n, socket_data_len_check c = 0)
    (hopen : 0 ≤ find_sockfd_by_linkid w.g_link (atoi d))
    (hport : 0 ≤ atoi p) (hlen : 0 ≤ atoi n) :
    at_cip_send C e { w with transport :=
        CH_EQ :: (d ++ CH_COMMA :: (p ++ CH_COMMA :: (n ++ CH_CR :: tail))) }
        = cip_send_data C e { w with transport := tail }
            (find_sockfd_by_linkid w.g_link (atoi d)) (atoi n)
      ∧ at_cip_send C e { w with transport := CH_EQ :: (d ++ CH_COMMA :: (n ++ CH_CR :: tail)) }
        = cip_send_data C e { w with transport := tail }
            (find_sockfd_by_linkid w.g_link (atoi d)) (atoi n) := by
  have hd0 : ¬ atoi d < 0 := by
    intro hneg
    simp only [find_sockfd_by_linkid, hneg, if_true] at hopen
    omega
  have hf : ∀ (x rest : List Nat) (t : Nat), x.length < 16 →
      (∀ c ∈ x, socket_data_len_check c = 0) → (t = CH_COMMA ∨ t = CH_CR) →
      get_field_w 16 (some socket_data_len_check) { w with transport := x ++ t :: rest }
        = .ok (if t = CH_COMMA then 0 else 1, x, { w with transport := rest }) := by
    intro x rest t hx hx2 ht
    exact get_field_w_eq 16 _ _ _ _ _ (get_field_digits 16 x rest t hx hx2 ht)
  have hi : ∀ t : List Nat, ¬ (({ w with transport := t } : World).inited = false) := by
    intro t
    show ¬ (w.inited = false)
    rw [hinit]
    decide
  have hcomma : (if CH_COMMA = CH_COMMA then (0 : Int) else 1) = 0 := by decide
  have hcr : (if CH_CR = CH_COMMA then (0 : Int) else 1) = 1 := by decide
  constructor
  · unfold at_cip_send
    rw [if_neg (hi _), at_parse1_cons w CH_EQ _]
    dsimp only
    rw [if_neg (by decide), hf d _ CH_COMMA hd hd2 (Or.inl rfl)]
    dsimp only
    rw [hcomma, if_neg (by omega), if_neg (by omega), hf p _ CH_COMMA hp hp2 (Or.inl rfl)]
    dsimp only
    rw [hcomma, if_neg (by omega), if_pos rfl, hf n _ CH_CR hn hn2 (Or.inr rfl)]
    dsimp only
    rw [hcr, if_neg (by omega)]
  · unfold at_cip_send
    rw [if_neg (hi _), at_parse1_cons w CH_EQ _]
    dsimp only
    rw [if_neg (by decide), hf d _ CH_COMMA hd hd2 (Or.inl rfl)]
    dsimp only
    rw [hcomma, if_neg (by omega), if_neg (by omega), hf n _ CH_CR hn hn2 (Or.inr rfl)]
    dsimp only
    rw [hcr, if_neg (by omega), if_neg (by decide), if_pos rfl]

/-- The last part of `at_cip_send` when the payload buffer is allocated: the
`datalen` bytes that come next on the serial line are read and handed to
`insert_sock_send_msg` with the socket. -/
theorem cip_send_data_reads (C : Consts) (e : handler_env) (w : World) (s len : Int)
    (payload rest : List Nat) (hmalloc : e.malloc_recvdata = true)
    (hpay : (payload.length : Int) = len) :
    cip_send_data C e { w with transport := payload ++ rest } s len
      = if len ≤ 0 then .ok (handler_err C e { w with transport := rest })
        else if (insert_sock_send_msg e.malloc_sock { w with transport := rest } s
            (some payload) (len % 2 ^ 16).toNat).1 ≠ 0 then
          .ok (handler_err C e (insert_sock_send_msg e.malloc_sock { w with transport := rest } s
            (some payload) (len % 2 ^ 16).toNat).2)
        else
          .ok (0, (notify_atcmd_recv_status C e.ack
            (insert_sock_send_msg e.malloc_sock { w with transport := rest } s (some payload)
              (len % 2 ^ 16).toNat).2 C.ATCMD_SUCCESS).2) := by
  have hn : len.toNat = payload.length := by omega
  unfold cip_send_data
  rw [if_neg (by rw [hmalloc]; decide), hn, at_parse_append w payload rest]
  dsimp only
  rw [hpay]

/-- C28 (amended). CIPSEND argument grammar: for every open link `L`, the data
length used by `at_cip_send` is the third field when the second field is
followed by `','` and the second field when that field is followed by
`'\r'`; in both cases, when the payload buffer is allocated, exactly that
number of raw bytes is then read from the serial line as the payload, and
both forms return the same value in the same state: the port does not change
which socket or bytes are handed to `insert_sock_send_msg`. -/
theorem C28_cip_send_grammar (C : Consts) (e : handler_env) (w : World)
    (d p n payload rest : List Nat) (L s len : Int)
    (hinit : w.inited = true)
    (hd : d.length < 16) (hd2 : ∀ c ∈ d, socket_data_len_check c = 0) (hL : atoi d = L)
    (hp : p.length < 16) (hp2 : ∀ c ∈ p, socket_data_len_check c = 0) (hport : 0 ≤ atoi p)
    (hn : n.length < 16) (hn2 : ∀ c ∈ n, socket_data_len_check c = 0) (hlen : atoi n = len)
    (hopen : find_sockfd_by_linkid w.g_link L = s) (hs : 0 ≤ s)
    (hpay : (payload.length : Int) = len)
    (hmalloc : e.malloc_recvdata = true) :
    ∃ r, at_cip_send C e { w with transport :=
            CH_EQ :: (d ++ CH_COMMA :: (p ++ CH_COMMA :: (n ++ CH_CR :: (payload ++ rest)))) }
          = .ok r
      ∧ at_cip_send C e { w with transport :=
            CH_EQ :: (d ++ CH_COMMA :: (n ++ CH_CR :: (payload ++ rest))) } = .ok r
      ∧ r.2.transport = rest
      ∧ (len = 0 → r = handler_err C e { w with transport := rest })
      ∧ (0 < len →
          r = if (insert_sock_send_msg e.malloc_sock { w with transport := rest } s
                (some payload) (len % 2 ^ 16).toNat).1 ≠ 0 then
              handler_err C e (insert_sock_send_msg e.malloc_sock { w with transport := rest } s
                (some payload) (len % 2 ^ 16).toNat).2
            else
              (0, (notify_atcmd_recv_status C e.ack
                (insert_sock_send_msg e.malloc_sock { w with transport := rest } s
                  (some payload) (len % 2 ^ 16).toNat).2 C.ATCMD_SUCCESS).2)) := by
  have hlen0 : 0 ≤ len := by omega
  obtain ⟨h1, h2⟩ := cip_send_forms C e w d p n (payload ++ rest) hinit hd hd2 hp hp2 hn hn2
    (by rw [hL, hopen]; exact hs) hport (by rw [hlen]; exact hlen0)
  rw [hL, hopen, hlen, cip_send_data_reads C e w s len payload rest hmalloc hpay] at h1 h2
  have htr1 : ∀ w0 : World, (handler_err C e w0).2.transport = w0.transport := fun w0 =>
    (queue_only_fields _ _ (handler_err_queue_only C e w0)).2.2.2.1
  have htr2 : ∀ w0 : World,
      (notify_atcmd_recv_status C e.ack w0 C.ATCMD_SUCCESS).2.transport = w0.transport :=
    fun w0 => (queue_only_fields _ _
      (notify_atcmd_recv_status_queue_only C e.ack w0 C.ATCMD_SUCCESS)).2.2.2.1
  by_cases c0 : len ≤ 0
  · rw [if_pos c0] at h1 h2
    refine ⟨_, h1, h2, htr1 _, fun _ => rfl, fun hpos => absurd hpos (by omega)⟩
  rw [if_neg c0] at h1 h2
  by_cases c1 : (insert_sock_send_msg e.malloc_sock { w with transport := rest } s
      (some payload) (len % 2 ^ 16).toNat).1 ≠ 0
  · rw [if_pos c1] at h1 h2
    refine ⟨_, h1, h2, ?_, fun h0 => absurd h0 (by omega), fun _ => by rw [if_pos c1]⟩
    rw [htr1, insert_sock_send_msg_transport]
  · rw [if_neg c1] at h1 h2
    refine ⟨_, h1, h2, ?_, fun h0 => absurd h0 (by omega), fun _ => by rw [if_neg c1]⟩
    show (notify_atcmd_recv_status C e.ack _ C.ATCMD_SUCCESS).2.transport = rest
    rw [htr2, insert_sock_send_msg_transport]

/-- Witness of C28 (amended): `AT+CIPSEND=0,80,4\r` and `AT+CIPSEND=0,4\r`,
each followed by `abcd` and `AT`, in the state `one_link`: both return the
same value with `AT` unread. -/
theorem C28_cip_send_grammar_witness :
    ∃ r, at_cip_send aos_consts (env_ok 3) { one_link with transport := cstr "=0,80,4\rabcdAT" }
          = .ok r
      ∧ at_cip_send aos_consts (env_ok 3) { one_link with transport := cstr "=0,4\rabcdAT" }
          = .ok r
      ∧ r.2.transport = cstr "AT" := by
  obtain ⟨r, h1, h2, h3, _⟩ := C28_cip_send_grammar aos_consts (env_ok 3) one_link (cstr "0")
    (cstr "80") (cstr "4") (cstr "abcd") (cstr "AT") 0 3 4 rfl (by decide) (by decide) rfl
    (by decide) (by decide) (by decide) (by decide) (by decide) rfl rfl (by decide) rfl rfl
  exact ⟨r, h1, h2, h3⟩

/-- Counterexample to C28 as stated: with link 0 open on descriptor 3,
`AT+CIPSEND=0,4\r` followed by `abcd`, when `aos_malloc(datalen + 1)` fails,
returns -1 with none of the four payload bytes read: `abcd` stays on the
serial line, and no socket item is queued. -/
theorem C28_payload_unread_without_buffer :
    find_sockfd_by_linkid one_link.g_link 0 = 3
      ∧ (run_of (at_cip_send aos_consts env_no_payload_buffer) one_link send_four_bytes).1 = -1
      ∧ (run_of (at_cip_send aos_consts env_no_payload_buffer) one_link
          send_four_bytes).2.transport = cstr "abcd"
      ∧ (run_of (at_cip_send aos_consts env_no_payload_buffer) one_link
          send_four_bytes).2.sock_send_queue = one_link.sock_send_queue
      ∧ (run_of (at_cip_send aos_consts (env_ok 3)) one_link send_four_bytes).1 = 0
      ∧ (run_of (at_cip_send aos_consts (env_ok 3)) one_link send_four_bytes).2.transport
          = [] := by
  refine ⟨rfl, rfl, rfl, rfl, rfl, rfl⟩

/-- Counterexample to C26 as stated: link 1 is not registered, but with 50
items in the serial queue `AT+CIPSTOP=1\r` and `AT+CIPSEND=1\r` return -1
without queueing an acknowledgement: the queue holds the same 50 items.  And
for link id 12345, which is not registered either, `AT+CIPSTOP=12345\r` does
not return a value: the five digits and the NUL do not fit `body[5]`. -/
theorem C26_no_ack_when_queue_full :
    find_sockfd_by_linkid one_link_queue_full.g_link 1 = -1
      ∧ one_link_queue_full.uart_send_queue.items.length = 50
      ∧ (run_of (atcmd_cip_stop aos_consts (env_ok 3)) one_link_queue_full (cstr "=1\r")).1 = -1
      ∧ (run_of (atcmd_cip_stop aos_consts (env_ok 3)) one_link_queue_full
          (cstr "=1\r")).2.uart_send_queue = one_link_queue_full.uart_send_queue
      ∧ (run_of (at_cip_send aos_consts (env_ok 3)) one_link_queue_full (cstr "=1\r")).1 = -1
      ∧ (run_of (at_cip_send aos_consts (env_ok 3)) one_link_queue_full
          (cstr "=1\r")).2.uart_send_queue = one_link_queue_full.uart_send_queue
      ∧ find_sockfd_by_linkid one_link.g_link 12345 = -1
      ∧ atcmd_cip_stop aos_consts (env_ok 3) { one_link with transport := cstr "=12345\r" }
          = .error .undefined := by
  refine ⟨rfl, rfl, rfl, rfl, rfl, rfl, rfl, rfl⟩

/-! ## Drain loops: failed transmissions, the serial item, byte accounting -/

/-- `send_over_sock` returns -1 or the non-zero `datalen`, never 0. -/
theorem send_over_sock_ne_zero (e : drain_env) (msg : sock_send_info_t) :
    send_over_sock e msg ≠ 0 := by
  unfold send_over_sock
  by_cases c1 : msg.sockfd < 0 ∨ msg.dataptr.isNone ∨ msg.datalen = 0
  · rw [if_pos c1]
    decide
  rw [if_neg c1]
  by_cases c2 : e.send_ret ≤ 0
  · rw [if_pos c2]
    decide
  rw [if_neg c2]
  by_cases c3 : e.send_again_ret ≤ 0
  · rw [if_pos c3]
    decide
  rw [if_neg c3]
  have h : msg.datalen ≠ 0 := fun h0 => c1 (Or.inr (Or.inr h0))
  exact_mod_cast h

/-- One iteration of `uart_send_task` leaves `send_error` as it is, whatever
`send_over_uart` returns. -/
theorem uart_send_task_send_error (e : drain_env) (w w1 : World)
    (h : uart_send_task e w = .ok (some w1)) :
    w1.uart_send_statistic.send_error = w.uart_send_statistic.send_error := by
  unfold uart_send_task at h
  by_cases c1 : w.inited = false
  · rw [if_pos c1] at h
    cases h
  rw [if_neg c1] at h
  by_cases c2 : w.uart_send_queue.valid = false
  · rw [if_pos c2] at h
    cases h
  rw [if_neg c2] at h
  by_cases c3 : e.recv_ret ≠ 0
  · rw [if_pos c3] at h
    cases h
    rfl
  rw [if_neg c3] at h
  cases hq : w.uart_send_queue.items with
  | nil => rw [hq] at h; cases h
  | cons msg rest =>
    rw [hq] at h
    dsimp only at h
    cases hs : send_over_uart e msg with
    | error f => rw [hs] at h; cases h
    | ok v =>
      rw [hs] at h
      cases h
      rfl

/-- One iteration of `socket_send_task` leaves `send_error` as it is. -/
theorem socket_send_task_send_error (e : drain_env) (w w1 : World)
    (h : socket_send_task e w = .ok (some w1)) :
    w1.sock_send_statistic.send_error = w.sock_send_statistic.send_error := by
  unfold socket_send_task at h
  by_cases c1 : w.inited = false
  · rw [if_pos c1] at h
    cases h
  rw [if_neg c1] at h
  by_cases c2 : w.sock_send_queue.valid = false
  · rw [if_pos c2] at h
    cases h
  rw [if_neg c2] at h
  by_cases c3 : e.recv_ret ≠ 0
  · rw [if_pos c3] at h
    cases h
    rfl
  rw [if_neg c3] at h
  cases hq : w.sock_send_queue.items with
  | nil => rw [hq] at h; cases h
  | cons msg rest =>
    rw [hq] at h
    dsimp only at h
    rw [if_neg (send_over_sock_ne_zero e msg)] at h
    cases h
    rfl

/-- C31 (the code departs from the claim). A failed transmission is not
counted.  With the failure acknowledgement queued and the transmit call
reporting a failure, `send_over_uart` returns -1 and one iteration of
`uart_send_task` takes the item from the queue (no retry) and leaves
`send_error` at 0.  With the socket item of `AT+CIPSEND=0,4\r` + `abcd`
queued and `send` failing, `send_over_sock` returns -1 and one iteration of
`socket_send_task` takes the item from the queue and leaves `send_error` at
0. -/
theorem C31_failed_transmission_not_counted :
    serial_item_pending.uart_send_queue.items = [text_item (ack_fail_frame aos_consts)]
      ∧ send_over_uart env_send_fails (text_item (ack_fail_frame aos_consts)) = .ok (-1)
      ∧ uart_send_task env_send_fails serial_item_pending = .ok (some serial_item_failed)
      ∧ serial_item_failed.uart_send_queue.items = []
      ∧ serial_item_pending.uart_send_statistic.send_error = 0
      ∧ serial_item_failed.uart_send_statistic.send_error = 0
      ∧ cip_send_four.2.sock_send_queue.items = [⟨0, some (cstr "abcd"), 4⟩]
      ∧ send_over_sock env_send_fails ⟨0, some (cstr "abcd"), 4⟩ = -1
      ∧ socket_send_task env_send_fails cip_send_four.2 = .ok (some socket_item_failed)
      ∧ socket_item_failed.sock_send_queue.items = []
      ∧ cip_send_four.2.sock_send_statistic.send_error = 0
      ∧ socket_item_failed.sock_send_statistic.send_error = 0 := by
  refine ⟨rfl, rfl, rfl, rfl, rfl, rfl, rfl, rfl, rfl, rfl, rfl, rfl⟩

/-- The first `c_strlen` bytes of a block are its C string. -/
theorem take_c_strlen (m : List Nat) : m.take (c_strlen m) = c_string m := by
  unfold c_strlen c_string
  induction m with
  | nil => rfl
  | cons b m ih =>
    by_cases hb : b = 0
    · subst hb
      simp
    · simpa [List.takeWhile_cons, hb] using ih

/-- The guards of `insert_uart_send_msg` on its arguments. -/
theorem insert_uart_send_msg_rejects (e : insert_env) (w : World) (cmd : List Nat)
    (data : Option (List Nat)) (cmdlen datalen : Nat)
    (h : cmdlen = 0 ∨ cmdlen ≠ c_strlen cmd ∨ (data.isSome = true ∧ datalen = 0)) :
    insert_uart_send_msg e w (some cmd) data cmdlen datalen = (-1, w) := by
  unfold insert_uart_send_msg
  dsimp only
  by_cases c1 : cmdlen = 0
  · rw [if_pos c1]
  rw [if_neg c1]
  by_cases c2 : c_strlen cmd ≠ cmdlen
  · rw [if_pos c2]
  rw [if_neg c2]
  have c3 : data.isSome = true ∧ datalen = 0 := by
    rcases h with h | h | h
    · exact absurd h c1
    · exact absurd (not_not.mp c2).symm h
    · exact h
  rw [if_pos c3]

/-- What `insert_uart_send_msg` has queued when it returns 0. -/
theorem insert_uart_send_msg_item (e : insert_env) (w : World) (cmd : List Nat)
    (data : Option (List Nat)) (cmdlen datalen : Nat)
    (h : (insert_uart_send_msg e w (some cmd) data cmdlen datalen).1 = 0) :
    ∃ item, (insert_uart_send_msg e w (some cmd) data cmdlen datalen).2.uart_send_queue.items
          = w.uart_send_queue.items ++ [item]
      ∧ item.cmdptr = some (c_string cmd ++ [0])
      ∧ item.cmdlen = cmdlen
      ∧ (c_string cmd).length = cmdlen := by
  have hneg : ¬ ((-1 : Int) = 0) := by decide
  unfold insert_uart_send_msg at h ⊢
  dsimp only at h ⊢
  by_cases c1 : cmdlen = 0
  · rw [if_pos c1] at h
    exact absurd h hneg
  rw [if_neg c1] at h ⊢
  by_cases c2 : c_strlen cmd ≠ cmdlen
  · rw [if_pos c2] at h
    exact absurd h hneg
  rw [if_neg c2] at h ⊢
  have hlen : c_strlen cmd = cmdlen := not_not.mp c2
  by_cases c3 : data.isSome = true ∧ datalen = 0
  · rw [if_pos c3] at h
    exact absurd h hneg
  rw [if_neg c3] at h ⊢
  by_cases c4 : w.uart_send_queue.valid = false
  · rw [if_pos c4] at h
    exact absurd h hneg
  rw [if_neg c4] at h ⊢
  have htake : cmd.take cmdlen = c_string cmd := by
    rw [← hlen]
    exact take_c_strlen cmd
  have hstr : (c_string cmd).length = cmdlen := hlen
  cases hb : uart_send_buf e cmd data cmdlen datalen with
  | none =>
    rw [hb] at h
    exact absurd h hneg
  | some item =>
    rw [hb] at h
    dsimp only at h ⊢
    have hitem : item.cmdptr = some (c_string cmd ++ [0]) ∧ item.cmdlen = cmdlen := by
      unfold uart_send_buf at hb
      rw [htake] at hb
      repeat' split at hb
      all_goals first
        | (cases hb; exact ⟨rfl, rfl⟩)
        | cases hb
    cases hq : aos_queue_send DEFAULT_UART_SEND_BUF_SIZE w.uart_send_queue item with
    | none =>
      rw [hq] at h
      exact absurd h hneg
    | some q =>
      dsimp only
      unfold aos_queue_send at hq
      split at hq
      · cases hq
        exact ⟨item, rfl, hitem.1, hitem.2, hstr⟩
      · cases hq

/-- The recheck of `send_over_uart`: an item whose command bytes have another
length than `cmdlen` is refused before any transmit call. -/
theorem send_over_uart_recheck (e : drain_env) (msg : uart_send_info_t) (cmd : List Nat)
    (hcmd : msg.cmdptr = some cmd) (hlen : msg.cmdlen ≠ c_strlen cmd) :
    send_over_uart e msg = .ok (-1) ∧ send_over_uart_calls msg = .ok [] := by
  have hne : c_strlen cmd ≠ msg.cmdlen := fun h => hlen h.symm
  unfold send_over_uart send_over_uart_calls
  rw [hcmd]
  cases msg.dataptr with
  | none =>
    dsimp only
    rw [if_pos hne, if_pos hne]
    exact ⟨rfl, rfl⟩
  | some d =>
    dsimp only
    rw [if_pos hne, if_pos hne]
    exact ⟨rfl, rfl⟩

/-- C32. Serial item invariant: `insert_uart_send_msg(cmd, data, cmdlen,
datalen)` returns -1 and leaves the whole state (queue and `total_byte`
included) as it is whenever `cmdlen` is 0, `cmdlen` differs from the
NUL-terminated length of `cmd`, or `data` is present with `datalen = 0`; every
item it enqueues (return value 0) is appended to the queue, holds a NUL
terminated copy of the string `cmd`, and has `cmdlen` equal to the length of
that string; and `send_over_uart` returns -1 without any transmit call for an
item whose `cmdlen` differs from the length of its command bytes. -/
theorem C32_serial_item_invariant :
    (∀ (e : insert_env) (w : World) (cmd : List Nat) (data : Option (List Nat))
        (cmdlen datalen : Nat),
        (cmdlen = 0 ∨ cmdlen ≠ c_strlen cmd ∨ (data.isSome = true ∧ datalen = 0)) →
        insert_uart_send_msg e w (some cmd) data cmdlen datalen = (-1, w))
    ∧ (∀ (e : insert_env) (w : World) (cmd : List Nat) (data : Option (List Nat))
        (cmdlen datalen : Nat),
        (insert_uart_send_msg e w (some cmd) data cmdlen datalen).1 = 0 →
        ∃ item,
          (insert_uart_send_msg e w (some cmd) data cmdlen datalen).2.uart_send_queue.items
              = w.uart_send_queue.items ++ [item]
            ∧ item.cmdptr = some (c_string cmd ++ [0])
            ∧ item.cmdlen = cmdlen
            ∧ (c_string cmd).length = cmdlen)
    ∧ (∀ (e : drain_env) (msg : uart_send_info_t) (cmd : List Nat),
        msg.cmdptr = some cmd → msg.cmdlen ≠ c_strlen cmd →
        send_over_uart e msg = .ok (-1) ∧ send_over_uart_calls msg = .ok []) :=
  ⟨insert_uart_send_msg_rejects, insert_uart_send_msg_item, send_over_uart_recheck⟩

/-- Witness of C32: `insert_uart_send_msg("OK\r\n", NULL, 3, 0)` (wrong
length) and `insert_uart_send_msg("OK\r\n", "abcd", 4, 0)` (payload of length
0) are refused on a started gateway; `insert_uart_send_msg("OK\r\n", NULL, 4,
0)` queues an item with the command `OK\r\n` and `cmdlen` 4; and
`send_over_uart` refuses the item `("OK\r\n", NULL, cmdlen 3)` without a
transmit call. -/
theorem C32_serial_item_invariant_witness :
    insert_uart_send_msg ⟨true, true⟩ (started []) (some (cstr "OK\r\n" ++ [0])) none 3 0
        = (-1, started [])
      ∧ insert_uart_send_msg ⟨true, true⟩ (started []) (some (cstr "OK\r\n" ++ [0]))
          (some (cstr "abcd")) 4 0 = (-1, started [])
      ∧ (∃ item,
          (insert_uart_send_msg ⟨true, true⟩ (started []) (some (cstr "OK\r\n" ++ [0])) none 4
              0).2.uart_send_queue.items = (started []).uart_send_queue.items ++ [item]
            ∧ item.cmdptr = some (c_string (cstr "OK\r\n" ++ [0]) ++ [0])
            ∧ item.cmdlen = 4
            ∧ (c_string (cstr "OK\r\n" ++ [0])).length = 4)
      ∧ send_over_uart ⟨0, 0, 0⟩ ⟨some (cstr "OK\r\n" ++ [0]), none, 3, 0⟩ = .ok (-1)
      ∧ send_over_uart_calls ⟨some (cstr "OK\r\n" ++ [0]), none, 3, 0⟩ = .ok [] :=
  ⟨C32_serial_item_invariant.1 ⟨true, true⟩ (started []) (cstr "OK\r\n" ++ [0]) none 3 0
      (Or.inr (Or.inl (by decide))),
    C32_serial_item_invariant.1 ⟨true, true⟩ (started []) (cstr "OK\r\n" ++ [0])
      (some (cstr "abcd")) 4 0 (Or.inr (Or.inr ⟨rfl, rfl⟩)),
    C32_serial_item_invariant.2.1 ⟨true, true⟩ (started []) (cstr "OK\r\n" ++ [0]) none 4 0 rfl,
    (C32_serial_item_invariant.2.2 ⟨0, 0, 0⟩ ⟨some (cstr "OK\r\n" ++ [0]), none, 3, 0⟩
      (cstr "OK\r\n" ++ [0]) rfl (by decide)).1,
    (C32_serial_item_invariant.2.2 ⟨0, 0, 0⟩ ⟨some (cstr "OK\r\n" ++ [0]), none, 3, 0⟩
      (cstr "OK\r\n" ++ [0]) rfl (by decide)).2⟩

/-- The byte counter after an accepted `insert_uart_send_msg` and the `done`
code of `uart_send_task` for the queued item: back at `c` when the payload is
present or `datalen` is 0, at `c + datalen` when the payload is NULL. -/
theorem insert_then_done (e : insert_env) (w : World) (cmd : List Nat)
    (data : Option (List Nat)) (cmdlen datalen : Nat)
    (h : (insert_uart_send_msg e w (some cmd) data cmdlen datalen).1 = 0)
    (hsum : w.uart_send_statistic.total_byte + cmdlen + datalen < 2 ^ 32) :
    ∃ item, (insert_uart_send_msg e w (some cmd) data cmdlen datalen).2.uart_send_queue.items
          = w.uart_send_queue.items ++ [item]
      ∧ (uart_send_done (insert_uart_send_msg e w (some cmd) data cmdlen datalen).2
            item).uart_send_statistic.total_byte
          = if data.isSome = true then w.uart_send_statistic.total_byte
            else w.uart_send_statistic.total_byte + datalen := by
  have hneg : ¬ ((-1 : Int) = 0) := by decide
  unfold insert_uart_send_msg at h ⊢
  dsimp only at h ⊢
  by_cases c1 : cmdlen = 0
  · rw [if_pos c1] at h
    exact absurd h hneg
  rw [if_neg c1] at h ⊢
  by_cases c2 : c_strlen cmd ≠ cmdlen
  · rw [if_pos c2] at h
    exact absurd h hneg
  rw [if_neg c2] at h ⊢
  by_cases c3 : data.isSome = true ∧ datalen = 0
  · rw [if_pos c3] at h
    exact absurd h hneg
  rw [if_neg c3] at h ⊢
  by_cases c4 : w.uart_send_queue.valid = false
  · rw [if_pos c4] at h
    exact absurd h hneg
  rw [if_neg c4] at h ⊢
  cases hb : uart_send_buf e cmd data cmdlen datalen with
  | none =>
    rw [hb] at h
    exact absurd h hneg
  | some item =>
    rw [hb] at h
    dsimp only at h ⊢
    have hitem : item.cmdlen = cmdlen
        ∧ item.datalen = if data.isSome = true then datalen else 0 := by
      unfold uart_send_buf at hb
      cases data with
      | none =>
        dsimp only at hb
        split at hb
        · cases hb
        · cases hb
          exact ⟨rfl, rfl⟩
      | some d =>
        dsimp only at hb
        have hd : datalen ≠ 0 := fun h0 => c3 ⟨rfl, h0⟩
        rw [if_pos hd] at hb
        split at hb
        · cases hb
        split at hb
        · cases hb
        · cases hb
          exact ⟨rfl, rfl⟩
    cases hq : aos_queue_send DEFAULT_UART_SEND_BUF_SIZE w.uart_send_queue item with
    | none =>
      rw [hq] at h
      exact absurd h hneg
    | some q =>
      dsimp only
      unfold aos_queue_send at hq
      split at hq
      · cases hq
        refine ⟨item, rfl, ?_⟩
        have hmod : (w.uart_send_statistic.total_byte + (cmdlen + datalen)) % 2 ^ 32
            = w.uart_send_statistic.total_byte + (cmdlen + datalen) :=
          Nat.mod_eq_of_lt (by omega)
        simp only [uart_send_done, hmod, hitem.1, hitem.2]
        cases data with
        | none =>
          simp only [Option.isSome_none, Bool.false_eq_true, if_false]
          rw [if_pos (by omega)]
          omega
        | some d =>
          simp only [Option.isSome_some, if_true]
          rw [if_pos (by omega)]
          omega
      · cases hq

/-- C38 (the code departs from the claim). Enqueue and drain do not cancel
out for `data = NULL` with `datalen > 0`: with `total_byte` at 10,
`insert_uart_send_msg("OK\r\n", NULL, 4, 7)` returns 0, queues an item with
`cmdlen` 4 and `datalen` 0 and sets `total_byte` to 21; draining the item
subtracts 4 and leaves 17, not 10.  With the payload present the same call
comes back to 10. -/
theorem C38_null_data_length_stays_counted :
    counted_ten.uart_send_statistic.total_byte = 10
      ∧ insert_null_data.1 = 0
      ∧ insert_null_data.2.uart_send_queue.items = [⟨some (cstr "OK\r\n" ++ [0]), none, 4, 0⟩]
      ∧ insert_null_data.2.uart_send_statistic.total_byte = 21
      ∧ uart_send_task ⟨0, 0, 0⟩ insert_null_data.2 = .ok (some insert_null_data_drained)
      ∧ insert_null_data_drained.uart_send_queue.items = []
      ∧ insert_null_data_drained.uart_send_statistic.total_byte = 17
      ∧ insert_with_data.1 = 0
      ∧ insert_with_data.2.uart_send_statistic.total_byte = 21
      ∧ uart_send_task ⟨0, 0, 0⟩ insert_with_data.2 = .ok (some insert_with_data_drained)
      ∧ insert_with_data_drained.uart_send_statistic.total_byte = 10 := by
  refine ⟨rfl, rfl, rfl, rfl, rfl, rfl, rfl, rfl, rfl, rfl, rfl⟩

/-! ## The registry: exit of a receive task, locking -/

/-- C33 (the code departs from the claim). The receive task does not release
its link.  With link 0 open on descriptor 3, the exit code of the receive task
queues the CLOSED event and calls `close(3)`, and that is all: no call of
`delete_link_info_by_sockfd` is recorded and the registry is the one from
before, so `find_linkid_by_sockfd(3)` still returns 0 and
`find_sockfd_by_linkid(0)` still returns the closed descriptor.  A following
`AT+CIPSTART=0,...` is refused (-1) because link id 0 is held to exist. -/
theorem C33_receive_task_keeps_slot :
    find_linkid_by_sockfd one_link.g_link 3 = 0
      ∧ recv_task_exit aos_consts (env_ok 3).notify one_link 3 = .ok one_link_peer_closed
      ∧ one_link_peer_closed.uart_send_queue.items
          = one_link.uart_send_queue.items ++ [text_item (cstr "+CIPEVENT:0,SERVER,CLOSED")]
      ∧ one_link_peer_closed.trace = one_link.trace ++ [Ev.close 3]
      ∧ one_link_peer_closed.open_fds = []
      ∧ one_link_peer_closed.g_link = one_link.g_link
      ∧ find_linkid_by_sockfd one_link_peer_closed.g_link 3 = 0
      ∧ find_sockfd_by_linkid one_link_peer_closed.g_link 0 = 3
      ∧ atcmd_cip_start aos_consts (env_ok 4)
          { one_link_peer_closed with transport := start_link0 } = .ok reuse_after_peer_closed
      ∧ reuse_after_peer_closed.1 = -1
      ∧ reuse_after_peer_closed.2.g_link = one_link.g_link := by
  refine ⟨rfl, rfl, rfl, rfl, rfl, rfl, rfl, rfl, rfl, rfl, rfl⟩

/-- The slot accesses of `add_link_info` followed by the unlock, made while
the mutex is held. -/
theorem add_link_accesses_under_lock (e : add_link_env) : ∀ (g : List link_t) (i : Nat),
    under_lock true (add_link_accesses e i g ++ [Access.unlock]) = true := by
  intro g
  induction g with
  | nil => intro i; rfl
  | cons l g ih =>
    intro i
    unfold add_link_accesses
    by_cases c1 : l.fd ≥ 0
    · rw [if_pos c1]
      simp only [List.cons_append, under_lock, Bool.true_and]
      exact ih (i + 1)
    rw [if_neg c1]
    by_cases c2 : e.sem_start ≠ 0
    · rw [if_pos c2]
      rfl
    rw [if_neg c2]
    by_cases c3 : e.sem_close ≠ 0
    · rw [if_pos c3]
      rfl
    rw [if_neg c3]
    rfl

/-- Every slot access of `add_link_info` happens under the lock, for every
outcome of `aos_mutex_lock` and of the semaphore calls. -/
theorem add_link_info_under_lock (e : add_link_env) (g : List link_t) :
    under_lock false (add_link_info_steps e g) = true := by
  unfold add_link_info_steps
  by_cases c : e.mutex_lock ≠ 0
  · rw [if_pos c]
    rfl
  rw [if_neg c]
  have h0 : e.mutex_lock = 0 := not_not.mp c
  simp only [under_lock, h0, decide_True]
  exact add_link_accesses_under_lock e g 0

/-- The slot accesses of `delete_link_info_by_sockfd` followed by the unlock,
made while the mutex is held. -/
theorem delete_link_accesses_under_lock (sockfd : Int) : ∀ (g : List link_t) (i : Nat),
    under_lock true (delete_link_accesses sockfd i g ++ [Access.unlock]) = true := by
  intro g
  induction g with
  | nil => intro i; rfl
  | cons l g ih =>
    intro i
    unfold delete_link_accesses
    by_cases c1 : l.fd = sockfd
    · rw [if_pos c1]
      simp only [List.cons_append, List.nil_append, List.append_assoc, under_lock, Bool.true_and]
      exact ih (i + 1)
    · rw [if_neg c1]
      simp only [List.cons_append, List.nil_append, List.append_assoc, under_lock, Bool.true_and]
      exact ih (i + 1)

/-- Every slot access of `delete_link_info_by_sockfd` happens under the lock,
for every outcome of `aos_mutex_lock`. -/
theorem delete_link_info_under_lock (mutex_lock : Int) (g : List link_t) (sockfd : Int) :
    under_lock false (delete_link_info_by_sockfd_steps mutex_lock g sockfd) = true := by
  unfold delete_link_info_by_sockfd_steps
  by_cases c0 : sockfd < 0
  · rw [if_pos c0]
    rfl
  rw [if_neg c0]
  by_cases c : mutex_lock ≠ 0
  · rw [if_pos c]
    rfl
  rw [if_neg c]
  have h0 : mutex_lock = 0 := not_not.mp c
  simp only [under_lock, h0, decide_True]
  exact delete_link_accesses_under_lock sockfd g 0

/-- The reads of `find_linkid_by_sockfd` followed by the unlock, made while
the mutex is held. -/
theorem find_linkid_reads_under_lock (fd : Int) : ∀ (g : List link_t) (i : Nat),
    under_lock true (find_linkid_reads fd i g ++ [Access.unlock]) = true := by
  intro g
  induction g with
  | nil => intro i; rfl
  | cons l g ih =>
    intro i
    unfold find_linkid_reads
    by_cases c1 : l.fd = fd
    · rw [if_pos c1]
      simp only [List.cons_append, List.nil_append, List.append_assoc, under_lock, Bool.true_and]
      exact ih (i + 1)
    · rw [if_neg c1]
      simp only [List.cons_append, List.nil_append, List.append_assoc, under_lock, Bool.true_and]
      exact ih (i + 1)

/-- The reads of `find_conntype_by_sockfd` followed by the unlock, made while
the mutex is held. -/
theorem find_conntype_reads_under_lock (fd : Int) : ∀ (g : List link_t) (i : Nat),
    under_lock true (find_conntype_reads fd i g ++ [Access.unlock]) = true := by
  intro g
  induction g with
  | nil => intro i; rfl
  | cons l g ih =>
    intro i
    unfold find_conntype_reads
    by_cases c1 : l.fd = fd
    · rw [if_pos c1]
      simp only [List.cons_append, List.nil_append, List.append_assoc, under_lock, Bool.true_and]
      exact ih (i + 1)
    · rw [if_neg c1]
      simp only [List.cons_append, List.nil_append, List.append_assoc, under_lock, Bool.true_and]
      exact ih (i + 1)

/-- The reads of `find_sockfd_by_linkid` followed by the unlock, made while
the mutex is held. -/
theorem find_sockfd_reads_under_lock (linkid : Int) : ∀ (g : List link_t) (i : Nat),
    under_lock true (find_sockfd_reads linkid i g ++ [Access.unlock]) = true := by
  intro g
  induction g with
  | nil => intro i; rfl
  | cons l g ih =>
    intro i
    unfold find_sockfd_reads
    by_cases c1 : l.fd ≥ 0
    · rw [if_pos c1]
      by_cases c2 : l.linkid = linkid
      · rw [if_pos c2]
        rfl
      · rw [if_neg c2]
        simp only [List.cons_append, under_lock, Bool.true_and]
        exact ih (i + 1)
    · rw [if_neg c1]
      simp only [List.cons_append, under_lock, Bool.true_and]
      exact ih (i + 1)

/-- When `aos_mutex_lock` returns 0, every read of the three lookups happens
under the lock. -/
theorem lookups_under_lock (g : List link_t) (x : Int) :
    under_lock false (find_linkid_by_sockfd_steps 0 g x) = true
      ∧ under_lock false (find_conntype_by_sockfd_steps 0 g x) = true
      ∧ under_lock false (find_sockfd_by_linkid_steps 0 g x) = true := by
  refine ⟨?_, ?_, ?_⟩
  · unfold find_linkid_by_sockfd_steps
    split
    · rfl
    · simp only [under_lock, decide_True]
      exact find_linkid_reads_under_lock x g 0
  · unfold find_conntype_by_sockfd_steps
    split
    · rfl
    · simp only [under_lock, decide_True]
      exact find_conntype_reads_under_lock x g 0
  · unfold find_sockfd_by_linkid_steps
    split
    · rfl
    · simp only [under_lock, decide_True]
      exact find_sockfd_reads_under_lock x g 0

/-- When `aos_mutex_lock` fails, the three lookups read the first slot of the
registry without holding the mutex. -/
theorem lookups_without_lock (lock : Int) (l : link_t) (g : List link_t) (x : Int)
    (hlock : lock ≠ 0) (hx : 0 ≤ x) :
    under_lock false (find_linkid_by_sockfd_steps lock (l :: g) x) = false
      ∧ under_lock false (find_conntype_by_sockfd_steps lock (l :: g) x) = false
      ∧ under_lock false (find_sockfd_by_linkid_steps lock (l :: g) x) = false := by
  have hx0 : ¬ x < 0 := by omega
  have hd : decide (lock = 0) = false := by simp [hlock]
  refine ⟨?_, ?_, ?_⟩
  · unfold find_linkid_by_sockfd_steps
    rw [if_neg hx0]
    unfold find_linkid_reads
    split <;> simp [under_lock, hd]
  · unfold find_conntype_by_sockfd_steps
    rw [if_neg hx0]
    unfold find_conntype_reads
    split <;> simp [under_lock, hd]
  · unfold find_sockfd_by_linkid_steps
    rw [if_neg hx0]
    unfold find_sockfd_reads
    split
    · split <;> simp [under_lock, hd]
    · simp [under_lock, hd]

/-- C34 (the code departs from the claim). The three lookups read the
registry without the mutex when `aos_mutex_lock` fails: they do not look at
its return value, while `add_link_info` and `delete_link_info_by_sockfd`
return at once in that case.  With link 0 open on descriptor 3 and the lock
failing, `find_linkid_by_sockfd(3)` reads all five slots between the failed
lock and the unlock, and so do `find_conntype_by_sockfd(3)` and
`find_sockfd_by_linkid(0)` on the slots they visit; the insert and the remove
touch no slot.  A lookup that runs without the mutex can meet the registry
between two stores of an insert: after `g_link[0].fd = 3` alone, descriptor 3
is found with link id -1 and with the connection type of the slot's previous
content, where the finished insert gives link id 0 and `tcp_client`. -/
theorem C34_lookup_reads_without_mutex :
    find_linkid_by_sockfd_steps (-1) one_link.g_link 3
        = [Access.lock (-1), Access.read 0, Access.read 0, Access.read 1, Access.read 2,
            Access.read 3, Access.read 4, Access.unlock]
      ∧ under_lock false (find_linkid_by_sockfd_steps (-1) one_link.g_link 3) = false
      ∧ under_lock false (find_conntype_by_sockfd_steps (-1) one_link.g_link 3) = false
      ∧ under_lock false (find_sockfd_by_linkid_steps (-1) one_link.g_link 0) = false
      ∧ add_link_info_steps ⟨-1, 0, 0⟩ one_link.g_link = [Access.lock (-1)]
      ∧ delete_link_info_by_sockfd_steps (-1) one_link.g_link 3 = [Access.lock (-1)]
      ∧ add_link_half_written 3 (started []).g_link
          = [⟨3, -1, 0⟩, ⟨-1, -1, 0⟩, ⟨-1, -1, 0⟩, ⟨-1, -1, 0⟩, ⟨-1, -1, 0⟩]
      ∧ find_linkid_by_sockfd (add_link_half_written 3 (started []).g_link) 3 = -1
      ∧ find_conntype_by_sockfd (add_link_half_written 3 (started []).g_link) 3 (-1)
          = TCP_SERVER
      ∧ (add_link_info ⟨0, 0, 0⟩ (started []).g_link 3 0 TCP_CLIENT).2 = one_link.g_link
      ∧ find_linkid_by_sockfd one_link.g_link 3 = 0
      ∧ find_conntype_by_sockfd one_link.g_link 3 (-1) = TCP_CLIENT := by
  refine ⟨rfl, rfl, rfl, rfl, rfl, rfl, rfl, rfl, rfl, rfl, rfl, rfl⟩

/-! ## Numbers: `itoa_decimal` on negative values, the tokenizer at capacity, the CIPSEND length -/

/-- For a negative number above `INT_MIN`, `itoa_decimal` writes `'-'` and
the decimal text of the absolute value. -/
theorem itoa_text_negative (n : Nat) (h0 : 0 < n) (h1 : n < 2 ^ 31) :
    itoa_text (-(n : Int)) = 45 :: decimal n := by
  have hneg : (-(n : Int)) < 0 := by omega
  have hnn : ¬ ((n : Int) < 0) := by omega
  have hmod : n % 2 ^ 32 = n := Nat.mod_eq_of_lt (by omega)
  have hm : to_int32 ((-(-(n : Int))).toNat) = (n : Int) := by
    simp only [neg_neg, Int.toNat_ofNat, to_int32, hmod]
    rw [if_pos h1]
  have h2 := itoa_text_eq_decimal n (by omega)
  simp only [itoa_text, hnn, if_false] at h2
  simp only [itoa_text, hneg, if_true, hm, List.reverse_append, List.reverse_cons,
    List.reverse_nil, List.nil_append, List.singleton_append, h2]

/-- C35 (the code departs from the claim). `itoa_decimal` does not convert
`INT_MIN`: for -2147483648 the negation `n = -n` overflows and leaves `n`
negative, the digit loop stores `n % 10 + '0'` = -8 + 48 = `'('` once and
stops because `n / 10` is not positive, and the text is `-(` where the
decimal text is `-2147483648`.  The neighbours -2147483647, 0 and 2147483647
are converted. -/
theorem C35_int_min_not_converted :
    itoa_text (-2147483648) = cstr "-("
      ∧ 45 :: decimal 2147483648 = cstr "-2147483648"
      ∧ itoa_text (-2147483648) ≠ cstr "-2147483648"
      ∧ itoa_text (-2147483647) = cstr "-2147483647"
      ∧ itoa_text 0 = cstr "0"
      ∧ itoa_text 2147483647 = cstr "2147483647" := by
  refine ⟨by decide, by decide, by decide, by decide, by decide, by decide⟩

/-- The loop of the tokenizer on an array of exactly `buflen` bytes: when
`buflen` plain bytes that the validator accepts have filled the array, the
byte after them is stored behind the array, also when it is a terminator. -/
theorem tokenizer_loop_overrun (v : Option (Nat → Int)) (c t : Nat) (rest : List Nat)
    (hc : plain c) (hv : passes v c) :
    ∀ (k i : Nat) (buf : List Nat), buf.length = i + k →
      socket_data_info_get_loop (i + k) v i buf (List.replicate k c ++ t :: rest)
        = .error .undefined := by
  intro k
  induction k with
  | zero =>
    intro i buf hlen
    have h : buf.length ≤ i := by omega
    simp only [List.replicate_zero, List.nil_append, socket_data_info_get_loop, h, if_true]
  | succ k ih =>
    intro i buf hlen
    have h1 : ¬ buf.length ≤ i := by omega
    have h2 : ¬ i ≥ i + (k + 1) := by omega
    have h3 : (buf.set i c).length = (i + 1) + k := by
      rw [List.length_set]
      omega
    have h4 := ih (i + 1) (buf.set i c) h3
    have h5 : i + 1 + k = i + (k + 1) := by omega
    rw [h5] at h4
    simp only [List.replicate_succ, List.cons_append, socket_data_info_get_loop, h1, if_false,
      hc.1, hc.2, h2]
    cases v with
    | none => exact h4
    | some check =>
      have h6 : ¬ check c ≠ 0 := by
        rw [hv check rfl]
        decide
      simp only [h6, if_false]
      exact h4

/-- The tokenizer called on an array of exactly `n + 1` bytes with capacity
`n + 1`: a field of `n + 1` bytes makes it store the byte that follows the
field at index `n + 1`. -/
theorem tokenizer_overrun (v : Option (Nat → Int)) (c t : Nat) (rest : List Nat)
    (hc : plain c) (hv : passes v c) (n : Nat) :
    socket_data_info_get (some (List.replicate (n + 1) 0)) (n + 1) v
      (List.replicate (n + 1) c ++ t :: rest) = .error .undefined := by
  have h := tokenizer_loop_overrun v c t rest hc hv (n + 1) 0 (List.replicate (n + 1) 0)
    (by simp)
  simp only [Nat.zero_add] at h
  simp only [socket_data_info_get, Nat.succ_ne_zero, if_false]
  exact h

/-- C36 (the code departs from the claim). The tokenizer stores at the index
that equals the capacity: for every capacity `n + 1`, a field of `n + 1`
digits followed by `'\r'` (validator `socket_data_len_check`), or of `n + 1`
letters followed by `','` (no validator), makes `socket_data_info_get` store
behind an array of `n + 1` bytes.  With one more byte behind an array of five
the input `12345\r` returns 1 and the NUL is at index 5; on `body[5]` itself
the store is outside the array, so `AT+CIPSTOP=12345\r` has no defined
outcome, while `1234\r` is read as the field `1234`. -/
theorem C36_terminator_stored_behind_array :
    (∀ n : Nat, socket_data_info_get (some (List.replicate (n + 1) 0)) (n + 1)
        (some socket_data_len_check) (List.replicate (n + 1) 53 ++ [CH_CR])
          = .error .undefined)
      ∧ (∀ n : Nat, socket_data_info_get (some (List.replicate (n + 1) 0)) (n + 1) none
          (List.replicate (n + 1) 120 ++ [CH_COMMA]) = .error .undefined)
      ∧ socket_data_info_get (some (List.replicate 6 0)) 5 (some socket_data_len_check)
          (cstr "12345\r") = .ok ⟨1, some [49, 50, 51, 52, 53, 0], []⟩
      ∧ get_field 5 (some socket_data_len_check) (cstr "12345\r") = .error .undefined
      ∧ get_field 5 (some socket_data_len_check) (cstr "1234\r") = .ok (1, cstr "1234", [])
      ∧ atcmd_cip_stop aos_consts (env_ok 3) { one_link with transport := stop_link12345 }
          = .error .undefined := by
  refine ⟨?_, ?_, rfl, rfl, rfl, rfl⟩
  · intro n
    exact tokenizer_overrun (some socket_data_len_check) 53 CH_CR [] ⟨by decide, by decide⟩
      (by intro check h; cases h; decide) n
  · intro n
    exact tokenizer_overrun none 120 CH_COMMA [] ⟨by decide, by decide⟩
      (by intro check h; cases h) n

/-- `AT+CIPSEND=0,<n>\r` on the state `one_link`, followed by a payload of the
announced length: the handler reads the whole payload and hands it to
`insert_sock_send_msg` with the length reduced modulo 2^16. -/
theorem cip_send_link0 (n payload rest : List Nat) (len : Int)
    (hn : n.length < 16) (hn2 : ∀ c ∈ n, socket_data_len_check c = 0) (hlen : atoi n = len)
    (hpos : 0 < len) (hpay : (payload.length : Int) = len) :
    at_cip_send aos_consts (env_ok 3)
        { one_link with transport :=
            CH_EQ :: (cstr "0" ++ CH_COMMA :: (n ++ CH_CR :: (payload ++ rest))) }
      = if (insert_sock_send_msg true { one_link with transport := rest } 3 (some payload)
            (len % 2 ^ 16).toNat).1 ≠ 0 then
          .ok (handler_err aos_consts (env_ok 3)
            (insert_sock_send_msg true { one_link with transport := rest } 3 (some payload)
              (len % 2 ^ 16).toNat).2)
        else
          .ok (0, (notify_atcmd_recv_status aos_consts (env_ok 3).ack
            (insert_sock_send_msg true { one_link with transport := rest } 3 (some payload)
              (len % 2 ^ 16).toNat).2 aos_consts.ATCMD_SUCCESS).2) := by
  have h0 : atoi (cstr "0") = 0 := by decide
  have hopen : find_sockfd_by_linkid one_link.g_link 0 = 3 := rfl
  have h1 := (cip_send_forms aos_consts (env_ok 3) one_link (cstr "0") (cstr "0") n
    (payload ++ rest) rfl (by decide) (by decide) (by decide) (by decide) hn hn2
    (by rw [h0, hopen]; decide) (by rw [h0]) (by omega)).2
  rw [h1, h0, hopen, hlen,
    cip_send_data_reads aos_consts (env_ok 3) one_link 3 len payload rest rfl hpay,
    if_neg (by omega)]
  rfl

/-- C37 (the code departs from the claim). The CIPSEND length is cut to 16
bits on its way into the socket item.  `AT+CIPSEND=0,65537\r` with link 0
open, followed by 65537 bytes `a` and further input `AT`, returns 0 after
reading all 65537 payload bytes (the further input is what is left), but the
socket item it enqueues holds one byte and `datalen` 1.  For the length 65536
the handler reads 65536 bytes, the enqueue is refused (length 0) and the
handler returns -1 with no item queued. -/
theorem C37_length_cut_to_16_bits :
    (List.replicate 65537 97).length = 65537
      ∧ (∃ r, at_cip_send aos_consts (env_ok 3)
            { one_link with transport :=
                CH_EQ :: (cstr "0" ++ CH_COMMA :: (cstr "65537" ++ CH_CR ::
                  (List.replicate 65537 97 ++ cstr "AT"))) } = .ok r
          ∧ r.1 = 0
          ∧ r.2.transport = cstr "AT"
          ∧ r.2.sock_send_queue.items = [⟨0, some [97], 1⟩]
          ∧ r.2.sock_send_statistic.total_byte = 1)
      ∧ (∃ r, at_cip_send aos_consts (env_ok 3)
            { one_link with transport :=
                CH_EQ :: (cstr "0" ++ CH_COMMA :: (cstr "65536" ++ CH_CR ::
                  (List.replicate 65536 97 ++ cstr "AT"))) } = .ok r
          ∧ r.1 = -1
          ∧ r.2.transport = cstr "AT"
          ∧ r.2.sock_send_queue.items = []) := by
  have ha : atoi (cstr "65537") = 65537 := by decide
  have hb : atoi (cstr "65536") = 65536 := by decide
  have hla : ((List.replicate 65537 97).length : Int) = 65537 := by
    rw [List.length_replicate]
    rfl
  have hlb : ((List.replicate 65536 97).length : Int) = 65536 := by
    rw [List.length_replicate]
    rfl
  have hma : ((65537 : Int) % 2 ^ 16).toNat = 1 := by decide
  have hmb : ((65536 : Int) % 2 ^ 16).toNat = 0 := by decide
  have hta : (List.replicate 65537 97).take 1 = [97] := by
    rw [show (65537 : Nat) = 65536 + 1 from rfl, List.replicate_succ]
    rfl
  refine ⟨List.length_replicate _ _, ?_, ?_⟩
  · rw [cip_send_link0 (cstr "65537") (List.replicate 65537 97) (cstr "AT") 65537 (by decide)
      (by decide) ha (by decide) hla, hma]
    have hi : insert_sock_send_msg true { one_link with transport := cstr "AT" } 3
        (some (List.replicate 65537 97)) 1
        = (0, { one_link with
                transport := cstr "AT"
                sock_send_queue := ⟨true, [⟨0, some [97], 1⟩]⟩
                sock_send_statistic := ⟨1, 0, 0, 0⟩ }) := by
      simp only [insert_sock_send_msg, hta]
      rfl
    rw [hi]
    exact ⟨_, rfl, rfl, rfl, rfl, rfl⟩
  · rw [cip_send_link0 (cstr "65536") (List.replicate 65536 97) (cstr "AT") 65536 (by decide)
      (by decide) hb (by decide) hlb, hmb]
    have hi : insert_sock_send_msg true { one_link with transport := cstr "AT" } 3
        (some (List.replicate 65536 97)) 0
        = (-1, { one_link with transport := cstr "AT" }) := by
      simp only [insert_sock_send_msg]
      rfl
    rw [hi]
    exact ⟨_, rfl, rfl, rfl, rfl⟩

/-! ## CIPSTART: the receive task of the branch, the text of the link id -/

/-- For a type without a branch of its own (`ssl_client` among them) no
statement of `atcmd_cip_start` assigns `recvtsk`, `tskname` or `stacksize`. -/
theorem cip_start_task_unassigned (type linkid : Int) (h1 : type ≠ TCP_CLIENT)
    (h2 : type ≠ UDP_UNICAST) (h3 : type ≠ UDP_BROADCAST) :
    cip_start_task type linkid = .ok ⟨none, [], none⟩ := by
  unfold cip_start_task
  rw [if_neg h1, if_neg h2, if_neg h3]

/-- The three branches that end in assignments assign all three locals. -/
theorem cip_start_task_assigned (type linkid : Int) (ts : task_setup)
    (h : type = TCP_CLIENT ∨ type = UDP_UNICAST ∨ type = UDP_BROADCAST)
    (hts : cip_start_task type linkid = .ok ts) :
    ts.recvtsk ≠ none ∧ ts.stacksize ≠ none := by
  unfold cip_start_task at hts
  by_cases c1 : type = TCP_CLIENT
  · rw [if_pos c1] at hts
    cases hn : sprintf_tskname (cstr "tcp_client") linkid with
    | error f => rw [hn] at hts; cases hts
    | ok name =>
      rw [hn] at hts
      cases hts
      exact ⟨by simp, by simp⟩
  rw [if_neg c1] at hts
  by_cases c2 : type = UDP_UNICAST
  · rw [if_pos c2] at hts
    cases hn : sprintf_tskname (cstr "udp_unicast") linkid with
    | error f => rw [hn] at hts; cases hts
    | ok name =>
      rw [hn] at hts
      cases hts
      exact ⟨by simp, by simp⟩
  rw [if_neg c2] at hts
  by_cases c3 : type = UDP_BROADCAST
  · rw [if_pos c3] at hts
    cases hn : sprintf_tskname (cstr "udp_broadcast") linkid with
    | error f => rw [hn] at hts; cases hts
    | ok name =>
      rw [hn] at hts
      cases hts
      exact ⟨by simp, by simp⟩
  rcases h with h | h | h
  · exact absurd h c1
  · exact absurd h c2
  · exact absurd h c3

/-- The second half of `atcmd_cip_start` for `ssl_client`: whenever `socket`
returns a descriptor and `add_link_info` succeeds, the handler comes to
`aos_task_new` with `recvtsk` and `stacksize` unassigned. -/
theorem cip_start_open_ssl (C : Consts) (e : handler_env) (w : World) (linkid : Int)
    (hfd : 0 ≤ e.socket)
    (hadd : (add_link_info e.add (after_socket e w).g_link e.socket linkid SSL_CLIENT).1 = 0) :
    cip_start_open C e w linkid SSL_CLIENT = .error .undefined := by
  have h0 : ¬ e.socket < 0 := by omega
  have h1 : ¬ (SSL_CLIENT = TCP_CLIENT ∧ e.connect ≠ 0) := by
    intro h
    exact absurd h.1 (by decide)
  have h2 : ¬ (SSL_CLIENT ≠ TCP_CLIENT ∧ SSL_CLIENT = UDP_UNICAST
      ∧ (e.bind ≠ 0 ∨ e.connect ≠ 0)) := by
    intro h
    exact absurd h.2.1 (by decide)
  have h3 : ¬ (SSL_CLIENT ≠ TCP_CLIENT ∧ SSL_CLIENT ≠ UDP_UNICAST ∧ SSL_CLIENT = UDP_BROADCAST
      ∧ (e.setsockopt ≠ 0 ∨ e.bind ≠ 0)) := by
    intro h
    exact absurd h.2.2.1 (by decide)
  have h4 : ¬ (SSL_CLIENT ≠ TCP_CLIENT ∧ SSL_CLIENT ≠ UDP_UNICAST
      ∧ SSL_CLIENT ≠ UDP_BROADCAST ∧ SSL_CLIENT = TCP_SERVER) := by
    intro h
    exact absurd h.2.2.2 (by decide)
  have h5 : ¬ ((add_link_info e.add (after_socket e w).g_link e.socket linkid SSL_CLIENT).1
      ≠ 0) := by
    rw [hadd]
    decide
  unfold cip_start_open
  rw [if_neg h0, if_neg h1, if_neg h2, if_neg h3, if_neg h4,
    cip_start_task_unassigned SSL_CLIENT linkid (by decide) (by decide) (by decide)]
  dsimp only
  rw [if_neg h5, if_pos (Or.inl rfl)]

/-- C39 (the code departs from the claim). `ssl_client` reaches the task
creation with nothing assigned.  The name `ssl_client` is accepted as
connection type 2, for which no branch assigns `recvtsk`, `tskname` or
`stacksize` (the branches of `tcp_client`, `udp_unicast` and `udp_broadcast`
assign all three).  `AT+CIPSTART=0,ssl_client,127.0.0.1,9000\r` on a started
gateway comes to `add_link_info(3, 0, 2)`: when that call fails the handler
returns -1 after it, and when it succeeds (the link is registered) the handler
calls `aos_task_new` with the unassigned `recvtsk` and `stacksize`, a call
without defined meaning. -/
theorem C39_ssl_client_task_unassigned :
    get_conntype_index (some (cstr "ssl_client")) = SSL_CLIENT
      ∧ cip_start_task SSL_CLIENT 0 = .ok ⟨none, [], none⟩
      ∧ cip_start_task TCP_CLIENT 0
          = .ok ⟨some .tcp_udp_client_recv_task, cstr "tcp_client_0", some 2048⟩
      ∧ cip_start_task UDP_UNICAST 0
          = .ok ⟨some .tcp_udp_client_recv_task, cstr "udp_unicast_0", some 1024⟩
      ∧ cip_start_task UDP_BROADCAST 0
          = .ok ⟨some .tcp_client_recv_task, cstr "udp_broadcast_0", some 2048⟩
      ∧ atcmd_cip_start aos_consts env_add_lock_fails (started start_link0_ssl)
          = .ok ssl_start_lock_fails
      ∧ ssl_start_lock_fails.1 = -1
      ∧ ssl_start_lock_fails.2.trace = [Ev.socket 3, Ev.add_link_info 3 0 2, Ev.close 3]
      ∧ add_link_info (env_ok 3).add (started []).g_link 3 0 SSL_CLIENT
          = (0, [⟨3, 0, 2⟩, ⟨-1, -1, 0⟩, ⟨-1, -1, 0⟩, ⟨-1, -1, 0⟩, ⟨-1, -1, 0⟩])
      ∧ atcmd_cip_start aos_consts (env_ok 3) (started start_link0_ssl)
          = .error .undefined := by
  refine ⟨by decide, rfl, rfl, rfl, rfl, rfl, rfl, rfl, rfl, rfl⟩

/-- C40 (the code departs from the claim). The text of an accepted link id
can need more than the 5 bytes of `linkid_str`.  `atcmd_cip_start` has no
upper bound for the link id: `AT+CIPSTART=10000,tcp_client,...` passes the
checks on the id and calls `socket` (shown by the run in which `connect`
fails), `AT+CIPSTART=10000,ssl_client,...` calls `add_link_info(3, 10000,
2)`, and `add_link_info` registers the id.  For a registered link id 10000
the notification stores the five digits of `10000` and the NUL, six bytes,
into `linkid_str[5]`: the conversion, and with it the CONNECTED notification
of `atcmd_cip_start`, is outside the defined behaviour; 9999 is the largest id
that fits.  On the way to its notification the `tcp_client` branch has by then
stored 17 bytes into `tskname[16]` for the same id. -/
theorem C40_link_id_text_exceeds_linkid_str :
    atcmd_cip_start aos_consts env_connect_fails (started start_link10000)
        = .ok connect_failed_10000
      ∧ connect_failed_10000.1 = -1
      ∧ connect_failed_10000.2.trace = [Ev.socket 3, Ev.close 3]
      ∧ atcmd_cip_start aos_consts env_add_lock_fails (started start_link10000_ssl)
          = .ok ssl_10000_lock_fails
      ∧ ssl_10000_lock_fails.2.trace = [Ev.socket 3, Ev.add_link_info 3 10000 2, Ev.close 3]
      ∧ add_link_info (env_ok 3).add (started []).g_link 3 10000 TCP_CLIENT
          = (0, link_id_10000.g_link)
      ∧ find_linkid_by_sockfd link_id_10000.g_link 3 = 10000
      ∧ itoa_text 10000 = cstr "10000"
      ∧ itoa_decimal 5 10000 = .error .undefined
      ∧ itoa_decimal 5 9999 = .ok (cstr "9999")
      ∧ notify_cip_connect_status_events aos_consts (env_ok 3).notify link_id_10000 3
          aos_consts.CIP_STATUS_CONNECTED aos_consts.ATCMD_SUCCESS = .error .undefined
      ∧ sprintf_tskname (cstr "tcp_client") 10000 = .error .undefined
      ∧ atcmd_cip_start aos_consts (env_ok 3) (started start_link10000) = .error .undefined := by
  refine ⟨rfl, rfl, rfl, rfl, rfl, rfl, rfl, by decide, rfl, rfl, rfl, rfl, rfl⟩

/-! ## Failure paths for every state of the serial queue; lookups on registry states -/

/-- When the failure acknowledgement does not fit `response[20]`, one of the
two guarded appends of `notify_atcmd_recv_status` is `goto err`. -/
theorem atcmd_recv_status_cmd_fail_none (C : Consts)
    (h : ¬ (ack_fail_frame C).length < MAX_ATCMD_RESPONSE_LEN) :
    atcmd_recv_status_cmd C C.ATCMD_FAIL = none := by
  simp only [ack_fail_frame, List.length_append] at h
  unfold atcmd_recv_status_cmd
  rw [encoder_start_eq]
  by_cases c : C.AT_RECV_PREFIX.length < MAX_ATCMD_RESPONSE_LEN
  · rw [append_field_fits _ [] _ _ (by simp only [List.length_nil]; omega) (le_refl _)]
    dsimp only
    rw [if_pos rfl, append_field_none _ _ _ _
      (by simp only [List.nil_append, enc_state]; omega)]
  · rw [append_field_none _ _ _ _ (by simp only [enc_state, List.length_nil]; omega)]

/-- Queueing the text an encoder has built leaves the queue as it is when the
text is empty, the queue is not valid or is full, or the allocation fails. -/
theorem insert_encoded_refused (e : insert_env) (w : World) (cap : Nat) (text : List Nat)
    (h0 : ∀ b ∈ text, b ≠ 0) (hlen : text.length < cap) (hcap : cap ≤ 2 ^ 16)
    (h : ¬ (text ≠ [] ∧ w.uart_send_queue.valid = true
      ∧ w.uart_send_queue.items.length < DEFAULT_UART_SEND_BUF_SIZE ∧ e.malloc_cmd = true)) :
    (insert_uart_send_msg e w (some (enc_state cap text).1) none
        (c_strlen (enc_state cap text).1 % 2 ^ 16) 0).2.uart_send_queue
      = w.uart_send_queue := by
  have hmod : text.length % 2 ^ 16 = text.length := Nat.mod_eq_of_lt (by omega)
  rw [c_strlen_enc_state cap text h0 hlen, hmod]
  unfold insert_uart_send_msg
  simp only [c_strlen_enc_state cap text h0 hlen, ne_eq, not_true_eq_false, if_false,
    Option.isSome_none, Bool.false_eq_true, false_and, uart_send_buf, take_enc_state,
    aos_queue_send, text_item]
  by_cases c1 : text.length = 0
  · simp [c1]
  by_cases c2 : w.uart_send_queue.valid = false
  · simp [c1, c2]
  by_cases c3 : e.malloc_cmd = false
  · simp [c1, c2, c3]
  by_cases c4 : w.uart_send_queue.items.length < DEFAULT_UART_SEND_BUF_SIZE
  · exfalso
    apply h
    refine ⟨?_, ?_, c4, ?_⟩
    · intro hnil
      rw [hnil] at c1
      exact c1 rfl
    · simpa using c2
    · simpa using c3
  · simp [c1, c2, c3, c4]

/-- The failure acknowledgement on a state `w0` that has the serial queue of
`w`: the frame is appended when the queue accepts it, and the items of the
queue are as before when it does not. -/
theorem notify_ack_fail_items (C : Consts) (e : insert_env) (w w0 : World)
    (hq : w0.uart_send_queue = w.uart_send_queue) :
    (ack_fail_accepted C e w →
        (notify_atcmd_recv_status C e w0 C.ATCMD_FAIL).2.uart_send_queue.items
          = w.uart_send_queue.items ++ [text_item (ack_fail_frame C)])
      ∧ (¬ ack_fail_accepted C e w →
        (notify_atcmd_recv_status C e w0 C.ATCMD_FAIL).2.uart_send_queue.items
          = w.uart_send_queue.items) := by
  constructor
  · intro h
    obtain ⟨hfit, hne, hvalid, hroom, hmalloc⟩ := h
    rw [notify_ack_fail C e w0 hfit hne (by rw [hq]; exact hvalid) (by rw [hq]; exact hroom)
      hmalloc]
    show w0.uart_send_queue.items ++ _ = _
    rw [hq]
  · intro h
    by_cases hfit : (ack_fail_frame C).length < MAX_ATCMD_RESPONSE_LEN
    · have hr := insert_encoded_refused e w0 MAX_ATCMD_RESPONSE_LEN (ack_fail_frame C)
        (ack_fail_nonzero C) hfit (by decide) (by
          intro hacc
          apply h
          rw [hq] at hacc
          exact ⟨hfit, hacc.1, hacc.2.1, hacc.2.2.1, hacc.2.2.2⟩)
      unfold notify_atcmd_recv_status
      rw [atcmd_recv_status_cmd_fail C hfit]
      dsimp only
      split
      · show (insert_uart_send_msg e w0 _ none _ 0).2.uart_send_queue.items = _
        rw [hr, hq]
      · show (insert_uart_send_msg e w0 _ none _ 0).2.uart_send_queue.items = _
        rw [hr, hq]
    · unfold notify_atcmd_recv_status
      rw [atcmd_recv_status_cmd_fail_none C hfit]
      show w0.uart_send_queue.items = _
      rw [hq]

/-- In every registry state the link id of an occupied slot is not negative:
`add_link_info` is called for link ids that are not negative only. -/
theorem registry_linkid_nonneg (g : List link_t) (h : RegistryReachable g) :
    ∀ l ∈ g, occupied l → 0 ≤ l.linkid := by
  induction h with
  | init =>
    intro l hl hocc
    rw [List.eq_of_mem_replicate hl] at hocc
    exact absurd hocc (by decide)
  | add e g fd linkid type _ _ hlink ih =>
    intro l hl hocc
    rcases add_link_info_slots e g fd linkid type l hl with h1 | h1 | h1
    · exact ih l h1 hocc
    · rw [h1]; exact hlink
    · rw [h1] at hocc
      exact absurd hocc (by simp [occupied])
  | delete lock g fd _ ih =>
    intro l hl hocc
    rcases delete_link_info_slots lock g fd l hl with h1 | h1
    · exact ih l h1 hocc
    · have hfd : l.fd ≥ 0 := hocc
      omega

/-- The registry of every state of the program that can be reached is a
registry state: `atcmd_cip_start` calls `add_link_info` with the descriptor
`socket` returned and a link id it has checked not to be negative. -/
theorem reachable_registry_state (C : Consts) (w : World) (hw : Reachable C w) :
    RegistryReachable w.g_link :=
  reachable_registry C RegistryReachable RegistryReachable.init
    (fun lock g fd hg => RegistryReachable.delete lock g fd hg)
    (fun env g fd linkid type hg hfd hlink _ => RegistryReachable.add env g fd linkid type hg
      hfd hlink)
    w hw

/-- C6 (amended). Duplicate link id: for every state in which link id `L` is
registered, `AT+CIPSTART=L` followed by `,` or `\r` (`L` a numeral of fewer
than 16 digits) returns -1, calls neither `socket` nor `add_link_info` (the
trace of calls is as before) and leaves the registry unchanged, so the
entries for `L` are as before.  When the serial queue accepts the frame (the
frame fits `response[20]` and is not empty, the queue is valid and holds
fewer than 50 items, the allocation succeeds) exactly the
acknowledgement-failure frame is appended to the queue; otherwise the items
of the queue are as before. -/
theorem C6_duplicate_link_id (C : Consts) (e : handler_env) (w : World) (d rest : List Nat)
    (t : Nat) (L : Int)
    (hin : w.transport = CH_EQ :: (d ++ t :: rest))
    (hlen : d.length < 16) (hd : ∀ c ∈ d, socket_data_len_check c = 0)
    (ht : t = CH_COMMA ∨ t = CH_CR) (hL : atoi d = L)
    (hreg : find_sockfd_by_linkid w.g_link L ≥ 0) :
    ∃ w1, atcmd_cip_start C e w = .ok (-1, w1)
      ∧ w1.g_link = w.g_link
      ∧ (w1.g_link.filter (fun l => decide (occupied l ∧ l.linkid = L))).length
          = (w.g_link.filter (fun l => decide (occupied l ∧ l.linkid = L))).length
      ∧ w1.trace = w.trace
      ∧ (ack_fail_accepted C e.ack w →
          w1.uart_send_queue.items
            = w.uart_send_queue.items ++ [text_item (ack_fail_frame C)])
      ∧ (¬ ack_fail_accepted C e.ack w →
          w1.uart_send_queue.items = w.uart_send_queue.items) := by
  have herr : ∀ w0 : World, w0.g_link = w.g_link → w0.trace = w.trace →
      w0.uart_send_queue = w.uart_send_queue →
      ∃ w1, Except.ok (ε := Fault) (cip_start_err C e w0 (-1)) = .ok (-1, w1)
        ∧ w1.g_link = w.g_link
        ∧ (w1.g_link.filter (fun l => decide (occupied l ∧ l.linkid = L))).length
            = (w.g_link.filter (fun l => decide (occupied l ∧ l.linkid = L))).length
        ∧ w1.trace = w.trace
        ∧ (ack_fail_accepted C e.ack w →
            w1.uart_send_queue.items
              = w.uart_send_queue.items ++ [text_item (ack_fail_frame C)])
        ∧ (¬ ack_fail_accepted C e.ack w →
            w1.uart_send_queue.items = w.uart_send_queue.items) := by
    intro w0 hg htr hq
    have hf := queue_only_fields _ _
      (notify_atcmd_recv_status_queue_only C e.ack w0 C.ATCMD_FAIL)
    have hi := notify_ack_fail_items C e.ack w w0 hq
    refine ⟨(notify_atcmd_recv_status C e.ack w0 C.ATCMD_FAIL).2, ?_, ?_, ?_, ?_, hi.1, hi.2⟩
    · simp only [cip_start_err]
      rw [if_neg (by decide)]
    · rw [hf.1, hg]
    · rw [hf.1, hg]
    · rw [hf.2.1, htr]
  by_cases hinit : w.inited = true
  · rw [cip_start_head C e w d rest t hinit hin hlen hd ht, hL]
    have hL0 : ¬ L < 0 := by
      intro hneg
      simp only [find_sockfd_by_linkid, hneg, if_true] at hreg
      exact absurd hreg (by decide)
    rw [if_neg hL0, if_pos hreg]
    exact herr _ rfl rfl rfl
  · unfold atcmd_cip_start
    rw [if_pos (by simpa using hinit)]
    exact herr _ rfl rfl rfl

/-- Witness of C6: a second `AT+CIPSTART=0,...` while link 0 is open on
descriptor 3 and the serial queue is empty returns -1, keeps the registry and
the trace and queues `\r\nERROR\r\n`. -/
theorem C6_duplicate_link_id_witness :
    find_sockfd_by_linkid one_link.g_link 0 = 3
      ∧ ∃ w1, atcmd_cip_start aos_consts (env_ok 4) { one_link with transport := start_link0 }
            = .ok (-1, w1)
        ∧ w1.g_link = one_link.g_link
        ∧ (w1.g_link.filter (fun l => decide (occupied l ∧ l.linkid = 0))).length
            = (one_link.g_link.filter (fun l => decide (occupied l ∧ l.linkid = 0))).length
        ∧ w1.trace = one_link.trace
        ∧ w1.uart_send_queue.items
            = one_link.uart_send_queue.items ++ [text_item (cstr "\r\nERROR\r\n")] :=
  match C6_duplicate_link_id aos_consts (env_ok 4) { one_link with transport := start_link0 }
    (cstr "0") (cstr "tcp_client,127.0.0.1,9000\r") CH_COMMA 0 rfl (by decide) (by decide)
    (Or.inl rfl) rfl (by decide) with
  | ⟨w1, h1, h2, h3, h4, h5, _⟩ => ⟨rfl, w1, h1, h2, h3, h4, h5 (by decide)⟩

/-- C26 (amended). Commands on a link that does not exist: for every state
and every link id `L` with no registered entry, `AT+CIPSEND=L` and
`AT+CIPSTOP=L`, each followed by `,` or `\r` (`L` a numeral of fewer than 16
digits for CIPSEND, of fewer than 5 digits for CIPSTOP), return -1 and leave
the registry, the socket queue and the trace of calls unchanged.  When the
serial queue accepts the frame (the frame fits `response[20]` and is not
empty, the queue is valid and holds fewer than 50 items, the allocation
succeeds) exactly the acknowledgement-failure frame is appended to the queue;
otherwise the items of the queue are as before. -/
theorem C26_unknown_link_rejected (C : Consts) (e : handler_env) (w : World)
    (d rest : List Nat) (t : Nat) (L : Int)
    (hin : w.transport = CH_EQ :: (d ++ t :: rest))
    (ht : t = CH_COMMA ∨ t = CH_CR)
    (hd : d.length < 16) (hd2 : ∀ c ∈ d, socket_data_len_check c = 0) (hL : atoi d = L)
    (hnone : find_sockfd_by_linkid w.g_link L < 0) :
    (∃ w1, at_cip_send C e w = .ok (-1, w1)
        ∧ w1.g_link = w.g_link ∧ w1.sock_send_queue = w.sock_send_queue
        ∧ w1.trace = w.trace
        ∧ (ack_fail_accepted C e.ack w →
            w1.uart_send_queue.items
              = w.uart_send_queue.items ++ [text_item (ack_fail_frame C)])
        ∧ (¬ ack_fail_accepted C e.ack w →
            w1.uart_send_queue.items = w.uart_send_queue.items))
      ∧ (d.length < 5 →
          ∃ w1, atcmd_cip_stop C e w = .ok (-1, w1)
            ∧ w1.g_link = w.g_link ∧ w1.sock_send_queue = w.sock_send_queue
            ∧ w1.trace = w.trace
            ∧ (ack_fail_accepted C e.ack w →
                w1.uart_send_queue.items
                  = w.uart_send_queue.items ++ [text_item (ack_fail_frame C)])
            ∧ (¬ ack_fail_accepted C e.ack w →
                w1.uart_send_queue.items = w.uart_send_queue.items)) := by
  have herr : ∀ w0 : World, w0.g_link = w.g_link → w0.sock_send_queue = w.sock_send_queue →
      w0.trace = w.trace → w0.uart_send_queue = w.uart_send_queue →
      ∃ w1, Except.ok (ε := Fault) (handler_err C e w0) = .ok (-1, w1)
        ∧ w1.g_link = w.g_link ∧ w1.sock_send_queue = w.sock_send_queue
        ∧ w1.trace = w.trace
        ∧ (ack_fail_accepted C e.ack w →
            w1.uart_send_queue.items
              = w.uart_send_queue.items ++ [text_item (ack_fail_frame C)])
        ∧ (¬ ack_fail_accepted C e.ack w →
            w1.uart_send_queue.items = w.uart_send_queue.items) := by
    intro w0 hg hs htr hq
    have hf := queue_only_fields _ _
      (notify_atcmd_recv_status_queue_only C e.ack w0 C.ATCMD_FAIL)
    have hi := notify_ack_fail_items C e.ack w w0 hq
    refine ⟨(notify_atcmd_recv_status C e.ack w0 C.ATCMD_FAIL).2, rfl, ?_, ?_, ?_, hi.1, hi.2⟩
    · rw [hf.1, hg]
    · rw [hf.2.2.2.2.1, hs]
    · rw [hf.2.1, htr]
  constructor
  · by_cases hinit : w.inited = true
    · rw [cip_send_unknown C e w d rest t hinit hin hd hd2 ht (by rw [hL]; exact hnone)]
      exact herr _ rfl rfl rfl rfl
    · unfold at_cip_send
      rw [if_pos (by simpa using hinit)]
      exact herr _ rfl rfl rfl rfl
  · intro hd5
    by_cases hinit : w.inited = true
    · rw [cip_stop_head C e w d rest t hinit hin hd5 hd2 ht, hL]
      by_cases c : L < 0
      · rw [if_pos c]
        exact herr _ rfl rfl rfl rfl
      · rw [if_neg c, if_pos hnone]
        exact herr _ rfl rfl rfl rfl
    · unfold atcmd_cip_stop
      rw [if_pos (by simpa using hinit)]
      exact herr _ rfl rfl rfl rfl

/-- Witness of C26 (amended): `AT+CIPSEND=1\r` and `AT+CIPSTOP=1\r` in the
state `one_link`, where link 1 is not registered and the serial queue is
empty: both return -1 and queue `\r\nERROR\r\n`. -/
theorem C26_unknown_link_rejected_witness :
    find_sockfd_by_linkid one_link.g_link 1 = -1
      ∧ (∃ w1, at_cip_send aos_consts (env_ok 3) { one_link with transport := cstr "=1\r" }
            = .ok (-1, w1)
          ∧ w1.g_link = one_link.g_link ∧ w1.sock_send_queue = one_link.sock_send_queue
          ∧ w1.uart_send_queue.items
              = one_link.uart_send_queue.items ++ [text_item (cstr "\r\nERROR\r\n")])
      ∧ (∃ w1, atcmd_cip_stop aos_consts (env_ok 3) { one_link with transport := cstr "=1\r" }
            = .ok (-1, w1)
          ∧ w1.g_link = one_link.g_link ∧ w1.sock_send_queue = one_link.sock_send_queue
          ∧ w1.uart_send_queue.items
              = one_link.uart_send_queue.items ++ [text_item (cstr "\r\nERROR\r\n")]) :=
  match C26_unknown_link_rejected aos_consts (env_ok 3)
    { one_link with transport := cstr "=1\r" } (cstr "1") [] CH_CR 1 rfl (Or.inr rfl)
    (by decide) (by decide) rfl (by decide) with
  | ⟨⟨w1, h1, h2, h3, _, h5, _⟩, hstop⟩ =>
    match hstop (by decide) with
    | ⟨w2, k1, k2, k3, _, k5, _⟩ =>
      ⟨rfl, ⟨w1, h1, h2, h3, h5 (by decide)⟩, ⟨w2, k1, k2, k3, k5 (by decide)⟩⟩

/-- C19. Registry lookup round trip: for every registry state (every registry
that calls of `add_link_info` with a descriptor and a link id that are not
negative, the arguments of its one call in `atcmd_cip_start`, and calls of
`delete_link_info_by_sockfd` make of the registry `athost_init` leaves) with
link uniqueness, and every occupied slot `(fd, linkid, type)`,
`find_linkid_by_sockfd(fd) = linkid`, `find_sockfd_by_linkid(linkid) = fd`
and `find_conntype_by_sockfd(fd) = type`; `find_sockfd_by_linkid` returns -1
for every link id that no occupied slot holds, and `find_linkid_by_sockfd`
returns -1 for every handle that no occupied slot holds. -/
theorem C19_lookup_round_trip (g : List link_t) (hg : RegistryReachable g)
    (hu : link_unique g) :
    (∀ l ∈ g, occupied l →
        find_linkid_by_sockfd g l.fd = l.linkid
        ∧ find_sockfd_by_linkid g l.linkid = l.fd
        ∧ ∀ uninit, find_conntype_by_sockfd g l.fd uninit = l.type)
    ∧ (∀ linkid, (∀ l ∈ g, occupied l → l.linkid ≠ linkid) →
        find_sockfd_by_linkid g linkid = -1)
    ∧ (∀ fd, (∀ l ∈ g, occupied l → l.fd ≠ fd) → find_linkid_by_sockfd g fd = -1) := by
  have h := lookup_round_trip g hu
  refine ⟨?_, h.2.1, h.2.2⟩
  intro l hl hocc
  have h1 := h.1 l hl hocc
  exact ⟨h1.1, h1.2.1 (registry_linkid_nonneg g hg l hl hocc), h1.2.2⟩

/-- Witness of C19 on the registry after `add_link_info(3, 0, tcp_client)` and
`add_link_info(4, 1, udp_unicast)`: link 0 on descriptor 3 and link 1 on
descriptor 4. -/
theorem C19_lookup_round_trip_witness :
    RegistryReachable two_link_registry ∧ link_unique two_link_registry
      ∧ find_linkid_by_sockfd two_link_registry 4 = 1
      ∧ find_sockfd_by_linkid two_link_registry 1 = 4
      ∧ find_conntype_by_sockfd two_link_registry 4 (-1) = UDP_UNICAST
      ∧ find_sockfd_by_linkid two_link_registry 2 = -1
      ∧ find_linkid_by_sockfd two_link_registry 5 = -1 :=
  have hg : RegistryReachable two_link_registry :=
    RegistryReachable.add ⟨0, 0, 0⟩ _ 4 1 UDP_UNICAST
      (RegistryReachable.add ⟨0, 0, 0⟩ _ 3 0 TCP_CLIENT RegistryReachable.init (by decide)
        (by decide)) (by decide) (by decide)
  have h := C19_lookup_round_trip two_link_registry hg two_link_registry_unique
  have h4 := h.1 ⟨4, 1, 4⟩ (by decide) (by decide)
  ⟨hg, two_link_registry_unique, h4.1, h4.2.1, h4.2.2 (-1), h.2.1 2 (by decide),
    h.2.2 5 (by decide)⟩

end Athost
